import Mathlib

/-!
# Ivshmem4j native core: shallow embedding and checked properties

The C sources under `src/main/native` are embedded as pure Lean functions.

* C integers are `Nat` (unsigned bit patterns) or `Int` (signed values); every
  conversion between integer types is an explicit `toUnsigned` / `toSigned`.
* The host byte order is a parameter `be` (`true` on a big-endian host) of
  every definition whose result depends on the object representation (the
  union in `response.c`, the packet union, `htonl`, scalar loads and stores).
* Memory is a function from byte offsets to byte values.
-/

namespace Ivshmem

/-! ## Machine integers -/

/-- Conversion of a C integer value to the unsigned type of `w` bits. -/
def toUnsigned (w : Nat) (x : Int) : Nat := (x % (2 : Int) ^ w).toNat

/-- Value of a `w`-bit pattern read as a two's complement signed integer. -/
def toSigned (w : Nat) (n : Nat) : Int :=
  if n % 2 ^ w < 2 ^ (w - 1) then ((n % 2 ^ w : Nat) : Int)
  else ((n % 2 ^ w : Nat) : Int) - (2 : Int) ^ w

/-! ## response.h -/

def RES_OK : Int := 0
def RES_FD : Int := 1
def RES_OUT_OF_MEMORY : Int := 999
def RES_ERROR : Int := 998
def RES_INVALID_DEVICE_PATH : Int := 9
def RES_ERROR_CONNECTING_UNIX_SOCKET : Int := 10
def RES_MUTEX_INIT_ERROR : Int := 11
def RES_INTERRUPT_CANT_SELF_INTERRUPT : Int := 17
def RES_INTERRUPT_VECTOR_TOO_BIG : Int := 19
def RES_INTERRUPT_SEND_ERROR : Int := 21
def RES_INTERRUPT_RECEIVE_ERROR : Int := 22
def RES_INTERRUPT_RECEIVE_NO_VECTORS : Int := 23
def RES_INTERRUPT_TIMEOUT : Int := 25
def RES_INVALID_ARGUMENTS : Int := 28
def RES_INVALID_CONNECTION_POINTER : Int := 29
def RES_BUFFER_OUT_OF_BOUNDS : Int := 31
def RES_MEMORY_OUT_OF_BOUNDS : Int := 32
def RES_CMPXCHG_FAILED : Int := 34
def RES_OPEN_FAILURE : Int := 35
def RES_ERROR_SHMEM_FSTAT : Int := 24
def RES_ERROR_SHMEM_MMAP : Int := 26
def RES_ERROR_SHMEM_FILE_SET_SIZE : Int := 33
def RES_PACKET_TOO_SHORT : Int := 2
def RES_READ_ERROR : Int := 3
def RES_UNKNOWN_IVSHMEM_PROTOCOLL_VERSION : Int := 4
def RES_FD_MISSING : Int := 5
def RES_UNEXPECTED_PACKET : Int := 6
def RES_PEER_INVALID : Int := 7
def RES_ERROR_CREATING_UNIX_SOCKET : Int := 8
def RES_ERROR_SETTING_TIMEOUT_ON_UNIX_SOCKET : Int := 12
def RES_PACKET_TIMEOUT : Int := 13
def RES_CLOSED_UNKNOWN_PEER : Int := 14
def RES_OWN_PEER_CLOSED : Int := 15
def RES_DUPLICATE_PEER : Int := 16
def RES_PEER_DOESNT_EXIST : Int := 18
def RES_INTERRUPT_VECTOR_CLOSED : Int := 20
def RES_PEER_NOT_FOUND : Int := 30
def RES_POLL_SERVER_TIMEOUT : Int := 27
def RES_ERROR_MMAP_SIZE_CHANGED : Int := 36
def RES_INTERRUPT_CREATE_EVENT_FAILURE : Int := 37
def RES_INTERRUPT_EVENT_REGISTER_FAILURE : Int := 38
def RES_ENUMERATE_PCI_DEVICE_ERROR : Int := 39
def RES_OPEN_PCI_DEVICE_HANDLE_ERROR : Int := 40
def RES_TOO_MANY_PCI_DEVICES : Int := 41

/-! ## response.c

`union { struct { int first; int second; } split; uint64_t merged; }`:
`first` occupies bytes 0..3 and `second` bytes 4..7 of `merged`. On a
little-endian host `second` is the high half of `merged`, on a big-endian host
the low half. -/

/-- The member `split.second` of the union holding `merged`. -/
def splitSecond (be : Bool) (merged : Nat) : Int :=
  if be then toSigned 32 (merged % 2 ^ 32) else toSigned 32 (merged / 2 ^ 32 % 2 ^ 32)

/-- The member `merged` of the union after `split.first` and `split.second` were stored. -/
def mergedOf (be : Bool) (first second : Int) : Nat :=
  if be then toUnsigned 32 first * 2 ^ 32 + toUnsigned 32 second
  else toUnsigned 32 second * 2 ^ 32 + toUnsigned 32 first

def combineErrorCode (be : Bool) (aMyCode aDetail : Int) : Nat :=
  mergedOf be aDetail aMyCode

def checkErrorCode (be : Bool) (aCombined : Nat) (aMyCode : Int) : Bool :=
  splitSecond be (aCombined % 2 ^ 64) == aMyCode

def getErrorCode (be : Bool) (aCombined : Nat) : Int :=
  splitSecond be (aCombined % 2 ^ 64)

/-! ## Memory

Byte-addressed memory is a function from offsets to byte values; a load takes
the value modulo 256, so every cell holds a byte whatever the function returns. -/

/-- Unsigned value of the `n` bytes at `a`, least significant byte first. -/
def loadLE : Nat → (Nat → Nat) → Nat → Nat
  | 0, _, _ => 0
  | n + 1, mem, a => mem a % 256 + 256 * loadLE n mem (a + 1)

/-- Unsigned value of the `n` bytes at `a`, most significant byte first. -/
def loadBE : Nat → (Nat → Nat) → Nat → Nat
  | 0, _, _ => 0
  | n + 1, mem, a => mem a % 256 * 256 ^ n + loadBE n mem (a + 1)

/-- Load of an `n`-byte unsigned scalar in host byte order (`*(uintN_t*)(mem + a)`). -/
def loadNative (be : Bool) (n : Nat) (mem : Nat → Nat) (a : Nat) : Nat :=
  if be then loadBE n mem a else loadLE n mem a

/-- Store of the low `n` bytes of `v` at `a` in host byte order (`*(uintN_t*)(mem + a) = v`).
The store reaches the addresses `a, ..., a + n - 1`. Pointer arithmetic wraps at `2^64`: an
address `i + 2^64` is the address `i`, so the byte at `i` is stored as well when `i + 2^64`
is among the addresses reached. -/
def storeNative (be : Bool) (n : Nat) (mem : Nat → Nat) (a : Nat) (v : Nat) : Nat → Nat :=
  fun i =>
    if a ≤ i ∧ i < a + n then
      (if be then v / 256 ^ (n - 1 - (i - a)) % 256 else v / 256 ^ (i - a) % 256)
    else if a ≤ i + 2 ^ 64 ∧ i + 2 ^ 64 < a + n then
      (if be then v / 256 ^ (n - 1 - (i + 2 ^ 64 - a)) % 256
        else v / 256 ^ (i + 2 ^ 64 - a) % 256)
    else mem i

/-- The effect of `memcpy(dst + d, src + s, len)` on the destination memory. The copy reaches
the destination addresses `d, ..., d + len - 1`; as in `storeNative`, the byte at `i` is
stored as well when `i + 2^64` is among them. -/
def wrap_memcpy (dst : Nat → Nat) (d : Nat) (src : Nat → Nat) (s : Nat) (len : Nat) : Nat → Nat :=
  fun i =>
    if d ≤ i ∧ i < d + len then src (s + (i - d)) % 256
    else if d ≤ i + 2 ^ 64 ∧ i + 2 ^ 64 < d + len then src (s + (i + 2 ^ 64 - d)) % 256
    else dst i

/-- The effect of libc `memset(dst + d, c, len)` on the destination memory. Its one caller
rejects a sum `d + len` that wraps, so the addresses reached stay below `2^64`. -/
def memset (dst : Nat → Nat) (d : Nat) (c : Nat) (len : Nat) : Nat → Nat :=
  fun i => if d ≤ i ∧ i < d + len then c % 256 else dst i

/-! ## util/atomics.c

Each function takes the memory and the pointer (an offset into it) and returns
the C return value with the memory after the locked instruction. -/

def xadd1b (be : Bool) (mem : Nat → Nat) (ptr : Nat) (value : Nat) : Nat × (Nat → Nat) :=
  (loadNative be 1 mem ptr, storeNative be 1 mem ptr ((loadNative be 1 mem ptr + value) % 2 ^ 8))

def xadd2b (be : Bool) (mem : Nat → Nat) (ptr : Nat) (value : Nat) : Nat × (Nat → Nat) :=
  (loadNative be 2 mem ptr, storeNative be 2 mem ptr ((loadNative be 2 mem ptr + value) % 2 ^ 16))

def xadd4b (be : Bool) (mem : Nat → Nat) (ptr : Nat) (value : Nat) : Nat × (Nat → Nat) :=
  (loadNative be 4 mem ptr, storeNative be 4 mem ptr ((loadNative be 4 mem ptr + value) % 2 ^ 32))

def xadd8b (be : Bool) (mem : Nat → Nat) (ptr : Nat) (value : Nat) : Nat × (Nat → Nat) :=
  (loadNative be 8 mem ptr, storeNative be 8 mem ptr ((loadNative be 8 mem ptr + value) % 2 ^ 64))

def cmpxchg8b (be : Bool) (mem : Nat → Nat) (ptr : Nat) (expect update : Nat) :
    Bool × (Nat → Nat) :=
  if loadNative be 8 mem ptr = expect % 2 ^ 64 then (true, storeNative be 8 mem ptr update)
  else (false, mem)

def cmpxchg4b (be : Bool) (mem : Nat → Nat) (ptr : Nat) (expect update : Nat) :
    Bool × (Nat → Nat) :=
  if loadNative be 4 mem ptr = expect % 2 ^ 32 then (true, storeNative be 4 mem ptr update)
  else (false, mem)

def cmpxchg2b (be : Bool) (mem : Nat → Nat) (ptr : Nat) (expect update : Nat) :
    Bool × (Nat → Nat) :=
  if loadNative be 2 mem ptr = expect % 2 ^ 16 then (true, storeNative be 2 mem ptr update)
  else (false, mem)

def cmpxchg1b (be : Bool) (mem : Nat → Nat) (ptr : Nat) (expect update : Nat) :
    Bool × (Nat → Nat) :=
  if loadNative be 1 mem ptr = expect % 2 ^ 8 then (true, storeNative be 1 mem ptr update)
  else (false, mem)

/-- CMPXCHG16B: `value` is the memory holding the four quadwords `value[0..3]`.
RDX:RAX (`value[1]`, `value[0]`) is compared with the 16 bytes at `ptr`, whose low
quadword is at `ptr` and high quadword at `ptr + 8`; on equality RCX:RBX
(`value[3]`, `value[2]`) is stored. The instruction raises a general-protection fault
when its memory operand is not aligned on a 16-byte boundary: the result is then `none`,
the function does not return. `ptr` is an offset from a page-aligned base. -/
def cmpxchg16b (be : Bool) (mem : Nat → Nat) (ptr : Nat) (value : Nat → Nat) :
    Option (Bool × (Nat → Nat)) :=
  if ptr % 16 ≠ 0 then none
  else if loadNative be 8 mem ptr = loadNative be 8 value 0
      ∧ loadNative be 8 mem (ptr + 8) = loadNative be 8 value 8 then
    some (true, storeNative be 8 (storeNative be 8 mem ptr (loadNative be 8 value 16)) (ptr + 8)
      (loadNative be 8 value 24))
  else some (false, mem)

def xchg1b (be : Bool) (mem : Nat → Nat) (ptr : Nat) (value : Nat) : Nat × (Nat → Nat) :=
  (loadNative be 1 mem ptr, storeNative be 1 mem ptr value)

def xchg2b (be : Bool) (mem : Nat → Nat) (ptr : Nat) (value : Nat) : Nat × (Nat → Nat) :=
  (loadNative be 2 mem ptr, storeNative be 2 mem ptr value)

def xchg4b (be : Bool) (mem : Nat → Nat) (ptr : Nat) (value : Nat) : Nat × (Nat → Nat) :=
  (loadNative be 4 mem ptr, storeNative be 4 mem ptr value)

def xchg8b (be : Bool) (mem : Nat → Nat) (ptr : Nat) (value : Nat) : Nat × (Nat → Nat) :=
  (loadNative be 8 mem ptr, storeNative be 8 mem ptr value)

/-! ## shmem_common.h and the JNI view of Java arrays -/

/-- Modelled from the spec: `struct mapped_shared_memory` is declared in `shmem_common.h`,
which is not among the sources. The fields are the three the code uses (`memory`, `size`,
`closed`), the spec's "base address, byte length, closed flag". `memory i` is the byte at
address `memory + i`, the base `memory` being page-aligned (spec, data model); `size` is
read as an unsigned 64-bit number. -/
structure mapped_shared_memory where
  memory : Nat → Nat
  size : Nat
  closed : Bool

/-- A Java primitive array as native code sees it: `GetArrayLength` is `length`, and
`elems i` is the object representation of element `i` in the storage handed out by
`GetPrimitiveArrayCritical`. Indices from `length` on stand for whatever lies behind the
array, which native code reaches when it indexes past the end. -/
structure jarray where
  length : Nat
  elems : Nat → Nat

/-- The part of `JNIEnv` that the arguments do not determine: whether
`GetPrimitiveArrayCritical` hands out a pointer (`true`) or returns NULL. The pointer
addresses the array storage itself, so `ReleasePrimitiveArrayCritical` moves no data. -/
structure JNIEnv where
  critical : Bool

/-- The array after `*(T*)tempResolvedBuffer = v`. -/
def jarray.setFirst (a : jarray) (v : Nat) : jarray :=
  { a with elems := fun i => if i = 0 then v else a.elems i }

/-! ## shmem_common.c

`JNIEnv *env` is the `JNIEnv` above, `jclass aClazz` is unused and left out,
`jlong aConnectionPtr` is the pointer it is cast to (`none` for NULL) and an array
argument is `none` for a NULL reference. The `jlong` result is given as the 64-bit
pattern returned by `combineErrorCode`; with it come the mapping and, where the
function takes one, the Java array after the call. A `jfloat` or `jdouble` argument is
its 32- or 64-bit object representation. -/

def Java_de_aschuetz_ivshmem4j_common_CommonSharedMemory_write__JJ_3BII (be : Bool) (env : JNIEnv)
    (aConnectionPtr : Option mapped_shared_memory) (aOffset : Int)
    (aBuffer : Option jarray) (aBufferOffset aLen : Int) :
    Nat × Option mapped_shared_memory :=
  match aConnectionPtr with
  | none => (combineErrorCode be RES_INVALID_CONNECTION_POINTER 0, none)
  | some tempConnection =>
    let tempBufferOffset := toUnsigned 32 aBufferOffset
    let tempOffset := toUnsigned 64 aOffset
    let tempToCopy := toUnsigned 64 aLen
    match aBuffer with
    | none => (combineErrorCode be RES_BUFFER_OUT_OF_BOUNDS 0, some tempConnection)
    | some buffer =>
      if toUnsigned 32 ((buffer.length : Int) - (tempBufferOffset : Int)) < tempToCopy then
        (combineErrorCode be RES_BUFFER_OUT_OF_BOUNDS 0, some tempConnection)
      else if tempConnection.size ≤ tempOffset
          ∨ tempConnection.size < (tempOffset + tempToCopy) % 2 ^ 64 then
        (combineErrorCode be RES_MEMORY_OUT_OF_BOUNDS 0, some tempConnection)
      else if env.critical = false then
        (combineErrorCode be RES_OUT_OF_MEMORY 0, some tempConnection)
      else
        (combineErrorCode be RES_OK 0,
          some { tempConnection with
            memory := wrap_memcpy tempConnection.memory tempOffset buffer.elems
              tempBufferOffset tempToCopy })

def Java_de_aschuetz_ivshmem4j_common_CommonSharedMemory_write__JJB (be : Bool)
    (aConnectionPtr : Option mapped_shared_memory) (aOffset : Int) (aByte : Int) :
    Nat × Option mapped_shared_memory :=
  match aConnectionPtr with
  | none => (combineErrorCode be RES_INVALID_CONNECTION_POINTER 0, none)
  | some tempConnection =>
    let tempOffset := toUnsigned 64 aOffset
    if tempConnection.size ≤ tempOffset ∨ tempConnection.size ≤ tempOffset then
      (combineErrorCode be RES_MEMORY_OUT_OF_BOUNDS 0, some tempConnection)
    else
      (combineErrorCode be RES_OK 0,
        some { tempConnection with
          memory := storeNative be 1 tempConnection.memory tempOffset (toUnsigned 8 aByte) })

def Java_de_aschuetz_ivshmem4j_common_CommonSharedMemory_write__JJI (be : Bool)
    (aConnectionPtr : Option mapped_shared_memory) (aOffset : Int) (aInt : Int) :
    Nat × Option mapped_shared_memory :=
  match aConnectionPtr with
  | none => (combineErrorCode be RES_INVALID_CONNECTION_POINTER 0, none)
  | some tempConnection =>
    let tempOffset := toUnsigned 64 aOffset
    if tempConnection.size ≤ tempOffset ∨ tempConnection.size < (tempOffset + 4) % 2 ^ 64 then
      (combineErrorCode be RES_MEMORY_OUT_OF_BOUNDS 0, some tempConnection)
    else
      (combineErrorCode be RES_OK 0,
        some { tempConnection with
          memory := storeNative be 4 tempConnection.memory tempOffset (toUnsigned 32 aInt) })

def Java_de_aschuetz_ivshmem4j_common_CommonSharedMemory_write__JJJ (be : Bool)
    (aConnectionPtr : Option mapped_shared_memory) (aOffset : Int) (aLong : Int) :
    Nat × Option mapped_shared_memory :=
  match aConnectionPtr with
  | none => (combineErrorCode be RES_INVALID_CONNECTION_POINTER 0, none)
  | some tempConnection =>
    let tempOffset := toUnsigned 64 aOffset
    if tempConnection.size ≤ tempOffset ∨ tempConnection.size < (tempOffset + 8) % 2 ^ 64 then
      (combineErrorCode be RES_MEMORY_OUT_OF_BOUNDS 0, some tempConnection)
    else
      (combineErrorCode be RES_OK 0,
        some { tempConnection with
          memory := storeNative be 8 tempConnection.memory tempOffset (toUnsigned 64 aLong) })

def Java_de_aschuetz_ivshmem4j_common_CommonSharedMemory_write__JJF (be : Bool)
    (aConnectionPtr : Option mapped_shared_memory) (aOffset : Int) (aFloat : Nat) :
    Nat × Option mapped_shared_memory :=
  match aConnectionPtr with
  | none => (combineErrorCode be RES_INVALID_CONNECTION_POINTER 0, none)
  | some tempConnection =>
    let tempOffset := toUnsigned 64 aOffset
    if tempConnection.size ≤ tempOffset ∨ tempConnection.size < (tempOffset + 4) % 2 ^ 64 then
      (combineErrorCode be RES_MEMORY_OUT_OF_BOUNDS 0, some tempConnection)
    else
      (combineErrorCode be RES_OK 0,
        some { tempConnection with
          memory := storeNative be 4 tempConnection.memory tempOffset aFloat })

def Java_de_aschuetz_ivshmem4j_common_CommonSharedMemory_write__JJD (be : Bool)
    (aConnectionPtr : Option mapped_shared_memory) (aOffset : Int) (aDouble : Nat) :
    Nat × Option mapped_shared_memory :=
  match aConnectionPtr with
  | none => (combineErrorCode be RES_INVALID_CONNECTION_POINTER 0, none)
  | some tempConnection =>
    let tempOffset := toUnsigned 64 aOffset
    if tempConnection.size ≤ tempOffset ∨ tempConnection.size < (tempOffset + 8) % 2 ^ 64 then
      (combineErrorCode be RES_MEMORY_OUT_OF_BOUNDS 0, some tempConnection)
    else
      (combineErrorCode be RES_OK 0,
        some { tempConnection with
          memory := storeNative be 8 tempConnection.memory tempOffset aDouble })

def Java_de_aschuetz_ivshmem4j_common_CommonSharedMemory_write__JJS (be : Bool)
    (aConnectionPtr : Option mapped_shared_memory) (aOffset : Int) (aShort : Int) :
    Nat × Option mapped_shared_memory :=
  match aConnectionPtr with
  | none => (combineErrorCode be RES_INVALID_CONNECTION_POINTER 0, none)
  | some tempConnection =>
    let tempOffset := toUnsigned 64 aOffset
    if tempConnection.size ≤ tempOffset ∨ tempConnection.size < (tempOffset + 2) % 2 ^ 64 then
      (combineErrorCode be RES_MEMORY_OUT_OF_BOUNDS 0, some tempConnection)
    else
      (combineErrorCode be RES_OK 0,
        some { tempConnection with
          memory := storeNative be 2 tempConnection.memory tempOffset (toUnsigned 16 aShort) })

def Java_de_aschuetz_ivshmem4j_common_CommonSharedMemory_read__JJ_3BII (be : Bool) (env : JNIEnv)
    (aConnectionPtr : Option mapped_shared_memory) (aOffset : Int)
    (aBuffer : Option jarray) (aBufferOffset aLen : Int) :
    Nat × Option jarray :=
  match aConnectionPtr with
  | none => (combineErrorCode be RES_INVALID_CONNECTION_POINTER 0, aBuffer)
  | some tempConnection =>
    let tempBufferOffset := toUnsigned 32 aBufferOffset
    let tempOffset := toUnsigned 64 aOffset
    let tempToCopy := toUnsigned 64 aLen
    match aBuffer with
    | none => (combineErrorCode be RES_BUFFER_OUT_OF_BOUNDS 0, none)
    | some buffer =>
      if toUnsigned 32 ((buffer.length : Int) - (tempBufferOffset : Int)) < tempToCopy then
        (combineErrorCode be RES_BUFFER_OUT_OF_BOUNDS 0, some buffer)
      else if tempConnection.size ≤ tempOffset
          ∨ tempConnection.size < (tempOffset + tempToCopy) % 2 ^ 64 then
        (combineErrorCode be RES_MEMORY_OUT_OF_BOUNDS 0, some buffer)
      else if env.critical = false then
        (combineErrorCode be RES_OUT_OF_MEMORY 0, some buffer)
      else
        (combineErrorCode be RES_OK 0,
          some { buffer with
            elems := wrap_memcpy buffer.elems tempBufferOffset tempConnection.memory
              tempOffset tempToCopy })

def Java_de_aschuetz_ivshmem4j_common_CommonSharedMemory_read__JJ_3I (be : Bool) (env : JNIEnv)
    (aConnectionPtr : Option mapped_shared_memory) (aOffset : Int) (aInt : Option jarray) :
    Nat × Option jarray :=
  match aInt with
  | none => (combineErrorCode be RES_INVALID_ARGUMENTS 0, none)
  | some array =>
    if array.length ≠ 1 then (combineErrorCode be RES_INVALID_ARGUMENTS 0, some array)
    else
      match aConnectionPtr with
      | none => (combineErrorCode be RES_INVALID_CONNECTION_POINTER 0, some array)
      | some tempConnection =>
        let tempOffset := toUnsigned 64 aOffset
        if tempConnection.size ≤ tempOffset
            ∨ tempConnection.size < (tempOffset + 4) % 2 ^ 64 then
          (combineErrorCode be RES_MEMORY_OUT_OF_BOUNDS 0, some array)
        else if env.critical = false then
          (combineErrorCode be RES_OUT_OF_MEMORY 0, some array)
        else
          (combineErrorCode be RES_OK 0,
            some (array.setFirst (loadNative be 4 tempConnection.memory tempOffset)))

def Java_de_aschuetz_ivshmem4j_common_CommonSharedMemory_read__JJ_3J (be : Bool) (env : JNIEnv)
    (aConnectionPtr : Option mapped_shared_memory) (aOffset : Int) (aLong : Option jarray) :
    Nat × Option jarray :=
  match aLong with
  | none => (combineErrorCode be RES_INVALID_ARGUMENTS 0, none)
  | some array =>
    if array.length ≠ 1 then (combineErrorCode be RES_INVALID_ARGUMENTS 0, some array)
    else
      match aConnectionPtr with
      | none => (combineErrorCode be RES_INVALID_CONNECTION_POINTER 0, some array)
      | some tempConnection =>
        let tempOffset := toUnsigned 64 aOffset
        if tempConnection.size ≤ tempOffset
            ∨ tempConnection.size < (tempOffset + 8) % 2 ^ 64 then
          (combineErrorCode be RES_MEMORY_OUT_OF_BOUNDS 0, some array)
        else if env.critical = false then
          (combineErrorCode be RES_OUT_OF_MEMORY 0, some array)
        else
          (combineErrorCode be RES_OK 0,
            some (array.setFirst (loadNative be 8 tempConnection.memory tempOffset)))

def Java_de_aschuetz_ivshmem4j_common_CommonSharedMemory_read__JJ_3F (be : Bool) (env : JNIEnv)
    (aConnectionPtr : Option mapped_shared_memory) (aOffset : Int) (aFloat : Option jarray) :
    Nat × Option jarray :=
  match aFloat with
  | none => (combineErrorCode be RES_INVALID_ARGUMENTS 0, none)
  | some array =>
    if array.length ≠ 1 then (combineErrorCode be RES_INVALID_ARGUMENTS 0, some array)
    else
      match aConnectionPtr with
      | none => (combineErrorCode be RES_INVALID_CONNECTION_POINTER 0, some array)
      | some tempConnection =>
        let tempOffset := toUnsigned 64 aOffset
        if tempConnection.size ≤ tempOffset
            ∨ tempConnection.size < (tempOffset + 4) % 2 ^ 64 then
          (combineErrorCode be RES_MEMORY_OUT_OF_BOUNDS 0, some array)
        else if env.critical = false then
          (combineErrorCode be RES_OUT_OF_MEMORY 0, some array)
        else
          (combineErrorCode be RES_OK 0,
            some (array.setFirst (loadNative be 4 tempConnection.memory tempOffset)))

def Java_de_aschuetz_ivshmem4j_common_CommonSharedMemory_read__JJ_3D (be : Bool) (env : JNIEnv)
    (aConnectionPtr : Option mapped_shared_memory) (aOffset : Int) (aDouble : Option jarray) :
    Nat × Option jarray :=
  match aDouble with
  | none => (combineErrorCode be RES_INVALID_ARGUMENTS 0, none)
  | some array =>
    if array.length ≠ 1 then (combineErrorCode be RES_INVALID_ARGUMENTS 0, some array)
    else
      match aConnectionPtr with
      | none => (combineErrorCode be RES_INVALID_CONNECTION_POINTER 0, some array)
      | some tempConnection =>
        let tempOffset := toUnsigned 64 aOffset
        if tempConnection.size ≤ tempOffset
            ∨ tempConnection.size < (tempOffset + 8) % 2 ^ 64 then
          (combineErrorCode be RES_MEMORY_OUT_OF_BOUNDS 0, some array)
        else if env.critical = false then
          (combineErrorCode be RES_OUT_OF_MEMORY 0, some array)
        else
          (combineErrorCode be RES_OK 0,
            some (array.setFirst (loadNative be 8 tempConnection.memory tempOffset)))

def Java_de_aschuetz_ivshmem4j_common_CommonSharedMemory_read__JJ_3S (be : Bool) (env : JNIEnv)
    (aConnectionPtr : Option mapped_shared_memory) (aOffset : Int) (aShort : Option jarray) :
    Nat × Option jarray :=
  match aShort with
  | none => (combineErrorCode be RES_INVALID_ARGUMENTS 0, none)
  | some array =>
    if array.length ≠ 1 then (combineErrorCode be RES_INVALID_ARGUMENTS 0, some array)
    else
      match aConnectionPtr with
      | none => (combineErrorCode be RES_INVALID_CONNECTION_POINTER 0, some array)
      | some tempConnection =>
        let tempOffset := toUnsigned 64 aOffset
        if tempConnection.size ≤ tempOffset
            ∨ tempConnection.size < (tempOffset + 2) % 2 ^ 64 then
          (combineErrorCode be RES_MEMORY_OUT_OF_BOUNDS 0, some array)
        else if env.critical = false then
          (combineErrorCode be RES_OUT_OF_MEMORY 0, some array)
        else
          (combineErrorCode be RES_OK 0,
            some (array.setFirst (loadNative be 2 tempConnection.memory tempOffset)))

def Java_de_aschuetz_ivshmem4j_common_CommonSharedMemory_read__JJ_3B (be : Bool) (env : JNIEnv)
    (aConnectionPtr : Option mapped_shared_memory) (aOffset : Int) (aByte : Option jarray) :
    Nat × Option jarray :=
  match aByte with
  | none => (combineErrorCode be RES_INVALID_ARGUMENTS 0, none)
  | some array =>
    if array.length ≠ 1 then (combineErrorCode be RES_INVALID_ARGUMENTS 0, some array)
    else
      match aConnectionPtr with
      | none => (combineErrorCode be RES_INVALID_CONNECTION_POINTER 0, some array)
      | some tempConnection =>
        let tempOffset := toUnsigned 64 aOffset
        if tempConnection.size ≤ tempOffset
            ∨ tempConnection.size < (tempOffset + 1) % 2 ^ 64 then
          (combineErrorCode be RES_MEMORY_OUT_OF_BOUNDS 0, some array)
        else if env.critical = false then
          (combineErrorCode be RES_OUT_OF_MEMORY 0, some array)
        else
          (combineErrorCode be RES_OK 0,
            some (array.setFirst (loadNative be 1 tempConnection.memory tempOffset)))

def Java_de_aschuetz_ivshmem4j_common_CommonSharedMemory_getAndSet__JJ_3J (be : Bool) (env : JNIEnv)
    (aConnectionPtr : Option mapped_shared_memory) (aOffset : Int) (aLong : Option jarray) :
    Nat × Option mapped_shared_memory × Option jarray :=
  match aLong with
  | none => (combineErrorCode be RES_INVALID_ARGUMENTS 0, aConnectionPtr, none)
  | some array =>
    if array.length ≠ 1 then
      (combineErrorCode be RES_INVALID_ARGUMENTS 0, aConnectionPtr, some array)
    else
      match aConnectionPtr with
      | none => (combineErrorCode be RES_INVALID_CONNECTION_POINTER 0, none, some array)
      | some tempConnection =>
        let tempOffset := toUnsigned 64 aOffset
        if tempConnection.size ≤ tempOffset
            ∨ tempConnection.size < (tempOffset + 8) % 2 ^ 64 then
          (combineErrorCode be RES_MEMORY_OUT_OF_BOUNDS 0, some tempConnection, some array)
        else if env.critical = false then
          (combineErrorCode be RES_OUT_OF_MEMORY 0, some tempConnection, some array)
        else
          let r := xchg8b be tempConnection.memory tempOffset (array.elems 0 % 2 ^ 64)
          (combineErrorCode be RES_OK 0,
            some { tempConnection with memory := r.2 }, some (array.setFirst r.1))

def Java_de_aschuetz_ivshmem4j_common_CommonSharedMemory_getAndSet__JJ_3I (be : Bool) (env : JNIEnv)
    (aConnectionPtr : Option mapped_shared_memory) (aOffset : Int) (aInt : Option jarray) :
    Nat × Option mapped_shared_memory × Option jarray :=
  match aInt with
  | none => (combineErrorCode be RES_INVALID_ARGUMENTS 0, aConnectionPtr, none)
  | some array =>
    if array.length ≠ 1 then
      (combineErrorCode be RES_INVALID_ARGUMENTS 0, aConnectionPtr, some array)
    else
      match aConnectionPtr with
      | none => (combineErrorCode be RES_INVALID_CONNECTION_POINTER 0, none, some array)
      | some tempConnection =>
        let tempOffset := toUnsigned 64 aOffset
        if tempConnection.size ≤ tempOffset
            ∨ tempConnection.size < (tempOffset + 4) % 2 ^ 64 then
          (combineErrorCode be RES_MEMORY_OUT_OF_BOUNDS 0, some tempConnection, some array)
        else if env.critical = false then
          (combineErrorCode be RES_OUT_OF_MEMORY 0, some tempConnection, some array)
        else
          let r := xchg4b be tempConnection.memory tempOffset (array.elems 0 % 2 ^ 32)
          (combineErrorCode be RES_OK 0,
            some { tempConnection with memory := r.2 }, some (array.setFirst r.1))

def Java_de_aschuetz_ivshmem4j_common_CommonSharedMemory_getAndSet__JJ_3S (be : Bool) (env : JNIEnv)
    (aConnectionPtr : Option mapped_shared_memory) (aOffset : Int) (aShort : Option jarray) :
    Nat × Option mapped_shared_memory × Option jarray :=
  match aShort with
  | none => (combineErrorCode be RES_INVALID_ARGUMENTS 0, aConnectionPtr, none)
  | some array =>
    if array.length ≠ 1 then
      (combineErrorCode be RES_INVALID_ARGUMENTS 0, aConnectionPtr, some array)
    else
      match aConnectionPtr with
      | none => (combineErrorCode be RES_INVALID_CONNECTION_POINTER 0, none, some array)
      | some tempConnection =>
        let tempOffset := toUnsigned 64 aOffset
        if tempConnection.size ≤ tempOffset
            ∨ tempConnection.size < (tempOffset + 2) % 2 ^ 64 then
          (combineErrorCode be RES_MEMORY_OUT_OF_BOUNDS 0, some tempConnection, some array)
        else if env.critical = false then
          (combineErrorCode be RES_OUT_OF_MEMORY 0, some tempConnection, some array)
        else
          let r := xchg2b be tempConnection.memory tempOffset (array.elems 0 % 2 ^ 16)
          (combineErrorCode be RES_OK 0,
            some { tempConnection with memory := r.2 }, some (array.setFirst r.1))

def Java_de_aschuetz_ivshmem4j_common_CommonSharedMemory_getAndSet__JJ_3B (be : Bool) (env : JNIEnv)
    (aConnectionPtr : Option mapped_shared_memory) (aOffset : Int) (aByte : Option jarray) :
    Nat × Option mapped_shared_memory × Option jarray :=
  match aByte with
  | none => (combineErrorCode be RES_INVALID_ARGUMENTS 0, aConnectionPtr, none)
  | some array =>
    if array.length ≠ 1 then
      (combineErrorCode be RES_INVALID_ARGUMENTS 0, aConnectionPtr, some array)
    else
      match aConnectionPtr with
      | none => (combineErrorCode be RES_INVALID_CONNECTION_POINTER 0, none, some array)
      | some tempConnection =>
        let tempOffset := toUnsigned 64 aOffset
        if tempConnection.size ≤ tempOffset
            ∨ tempConnection.size < (tempOffset + 1) % 2 ^ 64 then
          (combineErrorCode be RES_MEMORY_OUT_OF_BOUNDS 0, some tempConnection, some array)
        else if env.critical = false then
          (combineErrorCode be RES_OUT_OF_MEMORY 0, some tempConnection, some array)
        else
          let r := xchg1b be tempConnection.memory tempOffset (array.elems 0 % 2 ^ 8)
          (combineErrorCode be RES_OK 0,
            some { tempConnection with memory := r.2 }, some (array.setFirst r.1))

def Java_de_aschuetz_ivshmem4j_common_CommonSharedMemory_getAndAdd__JJ_3J (be : Bool) (env : JNIEnv)
    (aConnectionPtr : Option mapped_shared_memory) (aOffset : Int) (aLong : Option jarray) :
    Nat × Option mapped_shared_memory × Option jarray :=
  match aLong with
  | none => (combineErrorCode be RES_INVALID_ARGUMENTS 0, aConnectionPtr, none)
  | some array =>
    if array.length ≠ 1 then
      (combineErrorCode be RES_INVALID_ARGUMENTS 0, aConnectionPtr, some array)
    else
      match aConnectionPtr with
      | none => (combineErrorCode be RES_INVALID_CONNECTION_POINTER 0, none, some array)
      | some tempConnection =>
        let tempOffset := toUnsigned 64 aOffset
        if tempConnection.size ≤ tempOffset
            ∨ tempConnection.size < (tempOffset + 8) % 2 ^ 64 then
          (combineErrorCode be RES_MEMORY_OUT_OF_BOUNDS 0, some tempConnection, some array)
        else if env.critical = false then
          (combineErrorCode be RES_OUT_OF_MEMORY 0, some tempConnection, some array)
        else
          let r := xadd8b be tempConnection.memory tempOffset (array.elems 0 % 2 ^ 64)
          (combineErrorCode be RES_OK 0,
            some { tempConnection with memory := r.2 }, some (array.setFirst r.1))

def Java_de_aschuetz_ivshmem4j_common_CommonSharedMemory_getAndAdd__JJ_3I (be : Bool) (env : JNIEnv)
    (aConnectionPtr : Option mapped_shared_memory) (aOffset : Int) (aInt : Option jarray) :
    Nat × Option mapped_shared_memory × Option jarray :=
  match aInt with
  | none => (combineErrorCode be RES_INVALID_ARGUMENTS 0, aConnectionPtr, none)
  | some array =>
    if array.length ≠ 1 then
      (combineErrorCode be RES_INVALID_ARGUMENTS 0, aConnectionPtr, some array)
    else
      match aConnectionPtr with
      | none => (combineErrorCode be RES_INVALID_CONNECTION_POINTER 0, none, some array)
      | some tempConnection =>
        let tempOffset := toUnsigned 64 aOffset
        if tempConnection.size ≤ tempOffset
            ∨ tempConnection.size < (tempOffset + 4) % 2 ^ 64 then
          (combineErrorCode be RES_MEMORY_OUT_OF_BOUNDS 0, some tempConnection, some array)
        else if env.critical = false then
          (combineErrorCode be RES_OUT_OF_MEMORY 0, some tempConnection, some array)
        else
          let r := xadd4b be tempConnection.memory tempOffset (array.elems 0 % 2 ^ 32)
          (combineErrorCode be RES_OK 0,
            some { tempConnection with memory := r.2 }, some (array.setFirst r.1))

def Java_de_aschuetz_ivshmem4j_common_CommonSharedMemory_getAndAdd__JJ_3S (be : Bool) (env : JNIEnv)
    (aConnectionPtr : Option mapped_shared_memory) (aOffset : Int) (aShort : Option jarray) :
    Nat × Option mapped_shared_memory × Option jarray :=
  match aShort with
  | none => (combineErrorCode be RES_INVALID_ARGUMENTS 0, aConnectionPtr, none)
  | some array =>
    if array.length ≠ 1 then
      (combineErrorCode be RES_INVALID_ARGUMENTS 0, aConnectionPtr, some array)
    else
      match aConnectionPtr with
      | none => (combineErrorCode be RES_INVALID_CONNECTION_POINTER 0, none, some array)
      | some tempConnection =>
        let tempOffset := toUnsigned 64 aOffset
        if tempConnection.size ≤ tempOffset
            ∨ tempConnection.size < (tempOffset + 2) % 2 ^ 64 then
          (combineErrorCode be RES_MEMORY_OUT_OF_BOUNDS 0, some tempConnection, some array)
        else if env.critical = false then
          (combineErrorCode be RES_OUT_OF_MEMORY 0, some tempConnection, some array)
        else
          let r := xadd2b be tempConnection.memory tempOffset (array.elems 0 % 2 ^ 16)
          (combineErrorCode be RES_OK 0,
            some { tempConnection with memory := r.2 }, some (array.setFirst r.1))

/-- The source releases the array with `ReleasePrimitiveArrayCritical(env, tempResolvedBuffer,
tempResolvedBuffer, JNI_OK)`, naming the pointer where the other functions name the array;
the release moves no data here (see `JNIEnv`). -/
def Java_de_aschuetz_ivshmem4j_common_CommonSharedMemory_getAndAdd__JJ_3B (be : Bool) (env : JNIEnv)
    (aConnectionPtr : Option mapped_shared_memory) (aOffset : Int) (aByte : Option jarray) :
    Nat × Option mapped_shared_memory × Option jarray :=
  match aByte with
  | none => (combineErrorCode be RES_INVALID_ARGUMENTS 0, aConnectionPtr, none)
  | some array =>
    if array.length ≠ 1 then
      (combineErrorCode be RES_INVALID_ARGUMENTS 0, aConnectionPtr, some array)
    else
      match aConnectionPtr with
      | none => (combineErrorCode be RES_INVALID_CONNECTION_POINTER 0, none, some array)
      | some tempConnection =>
        let tempOffset := toUnsigned 64 aOffset
        if tempConnection.size ≤ tempOffset
            ∨ tempConnection.size < (tempOffset + 1) % 2 ^ 64 then
          (combineErrorCode be RES_MEMORY_OUT_OF_BOUNDS 0, some tempConnection, some array)
        else if env.critical = false then
          (combineErrorCode be RES_OUT_OF_MEMORY 0, some tempConnection, some array)
        else
          let r := xadd1b be tempConnection.memory tempOffset (array.elems 0 % 2 ^ 8)
          (combineErrorCode be RES_OK 0,
            some { tempConnection with memory := r.2 }, some (array.setFirst r.1))

def Java_de_aschuetz_ivshmem4j_common_CommonSharedMemory_compareAndSet__JJJJ (be : Bool)
    (aConnectionPtr : Option mapped_shared_memory) (aOffset : Int) (aExpect aUpdate : Int) :
    Nat × Option mapped_shared_memory :=
  match aConnectionPtr with
  | none => (combineErrorCode be RES_INVALID_CONNECTION_POINTER 0, none)
  | some tempConnection =>
    let tempOffset := toUnsigned 64 aOffset
    if tempConnection.size ≤ tempOffset
        ∨ tempConnection.size < (tempOffset + 8) % 2 ^ 64 then
      (combineErrorCode be RES_MEMORY_OUT_OF_BOUNDS 0, some tempConnection)
    else
      let r := cmpxchg8b be tempConnection.memory tempOffset
        (toUnsigned 64 aExpect) (toUnsigned 64 aUpdate)
      if r.1 = true then
        (combineErrorCode be RES_OK 0, some { tempConnection with memory := r.2 })
      else
        (combineErrorCode be RES_CMPXCHG_FAILED 0, some { tempConnection with memory := r.2 })

def Java_de_aschuetz_ivshmem4j_common_CommonSharedMemory_compareAndSet__JJII (be : Bool)
    (aConnectionPtr : Option mapped_shared_memory) (aOffset : Int) (aExpect aUpdate : Int) :
    Nat × Option mapped_shared_memory :=
  match aConnectionPtr with
  | none => (combineErrorCode be RES_INVALID_CONNECTION_POINTER 0, none)
  | some tempConnection =>
    let tempOffset := toUnsigned 64 aOffset
    if tempConnection.size ≤ tempOffset
        ∨ tempConnection.size < (tempOffset + 4) % 2 ^ 64 then
      (combineErrorCode be RES_MEMORY_OUT_OF_BOUNDS 0, some tempConnection)
    else
      let r := cmpxchg4b be tempConnection.memory tempOffset
        (toUnsigned 32 aExpect) (toUnsigned 32 aUpdate)
      if r.1 = true then
        (combineErrorCode be RES_OK 0, some { tempConnection with memory := r.2 })
      else
        (combineErrorCode be RES_CMPXCHG_FAILED 0, some { tempConnection with memory := r.2 })

def Java_de_aschuetz_ivshmem4j_common_CommonSharedMemory_compareAndSet__JJSS (be : Bool)
    (aConnectionPtr : Option mapped_shared_memory) (aOffset : Int) (aExpect aUpdate : Int) :
    Nat × Option mapped_shared_memory :=
  match aConnectionPtr with
  | none => (combineErrorCode be RES_INVALID_CONNECTION_POINTER 0, none)
  | some tempConnection =>
    let tempOffset := toUnsigned 64 aOffset
    if tempConnection.size ≤ tempOffset
        ∨ tempConnection.size < (tempOffset + 2) % 2 ^ 64 then
      (combineErrorCode be RES_MEMORY_OUT_OF_BOUNDS 0, some tempConnection)
    else
      let r := cmpxchg2b be tempConnection.memory tempOffset
        (toUnsigned 16 aExpect) (toUnsigned 16 aUpdate)
      if r.1 = true then
        (combineErrorCode be RES_OK 0, some { tempConnection with memory := r.2 })
      else
        (combineErrorCode be RES_CMPXCHG_FAILED 0, some { tempConnection with memory := r.2 })

def Java_de_aschuetz_ivshmem4j_common_CommonSharedMemory_compareAndSet__JJBB (be : Bool)
    (aConnectionPtr : Option mapped_shared_memory) (aOffset : Int) (aExpect aUpdate : Int) :
    Nat × Option mapped_shared_memory :=
  match aConnectionPtr with
  | none => (combineErrorCode be RES_INVALID_CONNECTION_POINTER 0, none)
  | some tempConnection =>
    let tempOffset := toUnsigned 64 aOffset
    if tempConnection.size ≤ tempOffset
        ∨ tempConnection.size < (tempOffset + 1) % 2 ^ 64 then
      (combineErrorCode be RES_MEMORY_OUT_OF_BOUNDS 0, some tempConnection)
    else
      let r := cmpxchg1b be tempConnection.memory tempOffset
        (toUnsigned 8 aExpect) (toUnsigned 8 aUpdate)
      if r.1 = true then
        (combineErrorCode be RES_OK 0, some { tempConnection with memory := r.2 })
      else
        (combineErrorCode be RES_CMPXCHG_FAILED 0, some { tempConnection with memory := r.2 })

/-- The result is `none` when `cmpxchg16b` faults and the function does not return. -/
def Java_de_aschuetz_ivshmem4j_common_CommonSharedMemory_compareAndSet__JJ_3B (be : Bool) (env : JNIEnv)
    (aConnectionPtr : Option mapped_shared_memory) (aOffset : Int) (aData : Option jarray) :
    Option (Nat × Option mapped_shared_memory) :=
  match aData with
  | none => some (combineErrorCode be RES_INVALID_ARGUMENTS 0, aConnectionPtr)
  | some data =>
    if data.length ≠ 32 then some (combineErrorCode be RES_INVALID_ARGUMENTS 0, aConnectionPtr)
    else
      match aConnectionPtr with
      | none => some (combineErrorCode be RES_INVALID_CONNECTION_POINTER 0, none)
      | some tempConnection =>
        let tempOffset := toUnsigned 64 aOffset
        if tempConnection.size ≤ tempOffset
            ∨ tempConnection.size < (tempOffset + 16) % 2 ^ 64 then
          some (combineErrorCode be RES_MEMORY_OUT_OF_BOUNDS 0, some tempConnection)
        else if env.critical = false then
          some (combineErrorCode be RES_OUT_OF_MEMORY 0, some tempConnection)
        else
          match cmpxchg16b be tempConnection.memory tempOffset data.elems with
          | none => none
          | some r =>
            if r.1 = true then
              some (combineErrorCode be RES_OK 0, some { tempConnection with memory := r.2 })
            else
              some (combineErrorCode be RES_CMPXCHG_FAILED 0,
                some { tempConnection with memory := r.2 })

def Java_de_aschuetz_ivshmem4j_common_CommonSharedMemory_memset (be : Bool)
    (aConnectionPtr : Option mapped_shared_memory) (aOffset : Int) (aValue : Int) (aLen : Int) :
    Nat × Option mapped_shared_memory :=
  match aConnectionPtr with
  | none => (combineErrorCode be RES_INVALID_CONNECTION_POINTER 0, none)
  | some tempConnection =>
    let tempOffset := toUnsigned 64 aOffset
    let tempLen := toUnsigned 64 aLen
    if tempConnection.size ≤ tempOffset
        ∨ tempConnection.size < (tempOffset + tempLen) % 2 ^ 64
        ∨ (tempOffset + tempLen) % 2 ^ 64 < tempOffset then
      (combineErrorCode be RES_MEMORY_OUT_OF_BOUNDS 0, some tempConnection)
    else if tempLen = 0 then
      (combineErrorCode be RES_OK 0, some tempConnection)
    else
      (combineErrorCode be RES_OK 0,
        some { tempConnection with
          memory := memset tempConnection.memory tempOffset (toUnsigned 8 aValue) tempLen })

def Java_de_aschuetz_ivshmem4j_common_CommonSharedMemory_markClosed (be : Bool)
    (aConnectionPtr : Option mapped_shared_memory) : Nat × Option mapped_shared_memory :=
  match aConnectionPtr with
  | none => (combineErrorCode be RES_INVALID_CONNECTION_POINTER 0, none)
  | some tempConnection =>
    (combineErrorCode be RES_OK 0, some { tempConnection with closed := true })

/-! ## util/linked_list.c

A list is given by its nodes from `head` to `tail` (the order of the `next`
pointers; `previous` is the same order read backwards) and its `size` field.
A node carries its `state` and the fields of the struct that embeds it. -/

inductive linked_list_node_state where
  | ADDED
  | REMOVED
  | NEW
  deriving DecidableEq, Repr

structure linked_list_node (β : Type) where
  state : linked_list_node_state
  entry : β

structure linked_list (β : Type) where
  nodes : List (linked_list_node β)
  size : Nat

def MAX_SIZE : Nat := 0xffffffff

def linked_list_init {β : Type} : linked_list β :=
  { nodes := [], size := 0 }

def linked_list_node_init {β : Type} (node : linked_list_node β) : linked_list_node β :=
  { node with state := linked_list_node_state.NEW }

def linked_list_add_last {β : Type} (list : linked_list β) (node : linked_list_node β) :
    Bool × linked_list β :=
  if node.state = linked_list_node_state.ADDED then (false, list)
  else
    match list.nodes with
    | [] => (true, { nodes := [{ node with state := linked_list_node_state.ADDED }], size := 1 })
    | _ :: _ =>
      let newSize := (list.size + 1) % 2 ^ 32
      if newSize = MAX_SIZE then (false, list)
      else
        (true, { nodes := list.nodes ++ [{ node with state := linked_list_node_state.ADDED }],
                 size := newSize })

/-- The list after `linked_list_clear` and the nodes handed to the deallocator, in order. -/
def linked_list_clear {β : Type} (list : linked_list β) :
    linked_list β × List (linked_list_node β) :=
  ({ nodes := [], size := 0 },
    list.nodes.map fun n => { n with state := linked_list_node_state.REMOVED })

/-! ## util/hash_table.c

The bucket array `hashTable` is `none` for NULL and otherwise a list of chains,
each chain the nodes reached from the bucket by following `next`. A node carries
its `hash` and the fields of the struct that embeds it. -/

structure hash_table_node (β : Type) where
  hash : Nat
  entry : β

structure hash_table (β : Type) where
  hashTable : Option (List (List (hash_table_node β)))
  hashTableLenght : Nat
  size : Nat
  comparator : hash_table_node β → hash_table_node β → Bool

/-- The bucket `hashTable[i]` (no nodes where the array has no such bucket). -/
def hash_table.bucket {β : Type} (table : hash_table β) (i : Nat) : List (hash_table_node β) :=
  (table.hashTable.getD []).getD i []

/-- The table after `hashTable[i] = chain`. -/
def hash_table.setBucket {β : Type} (table : hash_table β) (i : Nat)
    (chain : List (hash_table_node β)) : Option (List (List (hash_table_node β))) :=
  table.hashTable.map fun buckets => buckets.set i chain

def insert {β : Type} (table : hash_table β) (base : List (hash_table_node β))
    (node : hash_table_node β) : Bool × List (hash_table_node β) :=
  if base.any (fun x => table.comparator x node) then (false, base)
  else (true, base ++ [node])

def hash_table_init {β : Type} (hashTableLenght : Nat)
    (comparator : hash_table_node β → hash_table_node β → Bool) : hash_table β :=
  { hashTable := some (List.replicate hashTableLenght []), hashTableLenght := hashTableLenght,
    size := 0, comparator := comparator }

/-! `hash_table_get_optimal_length` computes in single precision. A `float` value
`x` with `x = 0` or `1 ≤ x < 2^40` is a multiple of `2^-23`; it is represented by the
natural number `x * 2^23`. -/

/-- Quotient `a / b` rounded to the nearest integer, ties to even. -/
def roundHalfEven (a b : Nat) : Nat :=
  if 2 * (a % b) < b then a / b
  else if b < 2 * (a % b) then a / b + 1
  else if a / b % 2 = 0 then a / b else a / b + 1

/-- Position of the leading bit of `n` (0 for `n < 2`), by at most `fuel` halvings. -/
def leadingBit : Nat → Nat → Nat
  | 0, _ => 0
  | fuel + 1, n => if n < 2 then 0 else leadingBit fuel (n / 2) + 1

/-- The `float` nearest to `a / (b * 2^23)` (ties to even), for a quotient that is 0 or
at least 1, as a multiple of `2^-23`. -/
def roundFloat (a b : Nat) : Nat :=
  let e := leadingBit 64 (a / (b * 2 ^ 23))
  roundHalfEven a (b * 2 ^ e) * 2 ^ e

def hash_table_get_optimal_length {β : Type} (table : Option (hash_table β)) : Nat :=
  match table with
  | none => 32
  | some table =>
    if table.hashTableLenght < 32 then 32
    else
      let size := roundFloat (table.size * 2 ^ 23) 1
      let quotient := roundFloat (size * 4) 3
      let sum := roundFloat (quotient + 2 ^ 23) 1
      sum / 2 ^ 23 % 2 ^ 32

/-- `hash_table_rehash` into a fresh array of `hashTableLenght` buckets: the returned
pointer to the old array (`none` for NULL) and the table afterwards. -/
def hash_table_rehash {β : Type} (table : hash_table β) (hashTableLenght : Nat) :
    Option (List (List (hash_table_node β))) × hash_table β :=
  if hashTableLenght = 0 then (none, table)
  else
    let hashTable :=
      (((List.range table.hashTableLenght).map fun i => table.bucket i).flatten).foldl
        (fun (acc : List (List (hash_table_node β))) tempCurrent =>
          acc.set (tempCurrent.hash % hashTableLenght)
            (insert table (acc.getD (tempCurrent.hash % hashTableLenght) []) tempCurrent).2)
        (List.replicate hashTableLenght [])
    (table.hashTable,
      { table with hashTable := some hashTable, hashTableLenght := hashTableLenght })

/-- `hash_table_add` with a node object that is not linked in the table, as both callers
pass it: the store `node->next = NULL` that precedes `insert` then changes no chain. The
call with a node object that is linked in the table is `hash_table_add_mem`. -/
def hash_table_add {β : Type} (table : hash_table β) (node : hash_table_node β) :
    Bool × hash_table β :=
  if table.hashTableLenght = 0 then (false, table)
  else
    let r := insert table (table.bucket (node.hash % table.hashTableLenght)) node
    if r.1 = true then
      (true, { table with
        hashTable := table.setBucket (node.hash % table.hashTableLenght) r.2,
        size := (table.size + 1) % 2 ^ 32 })
    else (false, table)

def hash_table_contains {β : Type} (table : hash_table β) (node : hash_table_node β) : Bool :=
  (table.bucket (node.hash % table.hashTableLenght)).any
    fun tempCurrent => table.comparator tempCurrent node

def hash_table_get {β : Type} (table : hash_table β) (node : hash_table_node β) :
    Option (hash_table_node β) :=
  (table.bucket (node.hash % table.hashTableLenght)).find?
    fun tempCurrent => table.comparator tempCurrent node

/-- The chain without its first node that the comparator matches with `node`, and that
node. -/
def removeFirstMatch {β : Type} (table : hash_table β) (node : hash_table_node β) :
    List (hash_table_node β) → Option (hash_table_node β) × List (hash_table_node β)
  | [] => (none, [])
  | x :: rest =>
    if table.comparator x node then (some x, rest)
    else ((removeFirstMatch table node rest).1, x :: (removeFirstMatch table node rest).2)

def hash_table_remove {β : Type} (table : hash_table β) (node : hash_table_node β) :
    Option (hash_table_node β) × hash_table β :=
  let r := removeFirstMatch table node (table.bucket (node.hash % table.hashTableLenght))
  match r.1 with
  | some toRemove =>
    (some toRemove, { table with
      hashTable := table.setBucket (node.hash % table.hashTableLenght) r.2,
      size := (table.size + 2 ^ 32 - 1) % 2 ^ 32 })
  | none => (none, table)

/-- The table after `hash_table_clear` and the nodes handed to the deallocator, in order. -/
def hash_table_clear {β : Type} (table : hash_table β) :
    hash_table β × List (hash_table_node β) :=
  ({ table with
      size := 0,
      hashTable := table.hashTable.map fun buckets =>
        (List.range buckets.length).map fun i =>
          if i < table.hashTableLenght then [] else buckets.getD i [] },
    ((List.range table.hashTableLenght).map fun i => table.bucket i).flatten)

/-- A `hash_table_node**` of the iterator is a cell of the table: `(i, 0)` is
`&hashTable[i]` and `(i, j + 1)` is `&n->next` for the node `n` at position `j` of chain
`i`; `none` is NULL. `cellNode` is the node the cell points to. -/
structure hash_table_iterator where
  next : Option (Nat × Nat)
  previous : Option (Nat × Nat)
  tableIndex : Nat

def cellNode {β : Type} (table : hash_table β) (cell : Nat × Nat) :
    Option (hash_table_node β) :=
  (table.bucket cell.1)[cell.2]?

/-- The first index `i` with `start ≤ i < hashTableLenght` whose bucket is not NULL. -/
def firstBucketFrom {β : Type} (table : hash_table β) (start : Nat) : Option Nat :=
  (List.range table.hashTableLenght).find?
    fun i => decide (start ≤ i) && !(table.bucket i).isEmpty

def hash_table_iterator_init {β : Type} (table : hash_table β) : hash_table_iterator :=
  match firstBucketFrom table 0 with
  | none => { next := none, previous := none, tableIndex := 2 ^ 32 - 1 }
  | some i => { next := some (i, 0), previous := none, tableIndex := i }

def hash_table_iterator_next {β : Type} (table : hash_table β)
    (iterator : hash_table_iterator) : Option (hash_table_node β) × hash_table_iterator :=
  match iterator.next with
  | none => (none, { iterator with previous := none })
  | some next =>
    match cellNode table next with
    | none => (none, { iterator with next := none, previous := none })
    | some nextNode =>
      if (cellNode table (next.1, next.2 + 1)).isSome then
        (some nextNode, { iterator with previous := some next, next := some (next.1, next.2 + 1) })
      else
        match firstBucketFrom table ((iterator.tableIndex + 1) % 2 ^ 32) with
        | some i =>
          (some nextNode, { next := some (i, 0), previous := some next, tableIndex := i })
        | none => (some nextNode, { iterator with previous := some next, next := none })

def hash_table_iterator_has_next {β : Type} (table : hash_table β)
    (iterator : hash_table_iterator) : Bool :=
  match iterator.next with
  | none => false
  | some next => (cellNode table next).isSome

/-! ## linux/ivshmem_linux_doorbell_client.c

The operating system is given by its answers: the `os_answers` of one call of
`connectIVSHMEM` hold the result of every system call the function makes. The
descriptors passed to `close` are collected in call order. -/

/-- Linux errno value of EAGAIN. -/
def EAGAIN : Int := 11

/-- Linux errno value of EWOULDBLOCK (the same as EAGAIN). -/
def EWOULDBLOCK : Int := 11

/-- Linux value of SOL_SOCKET. -/
def SOL_SOCKET : Int := 1

/-- Linux value of SCM_RIGHTS. -/
def SCM_RIGHTS : Int := 1

/-- `CMSG_LEN(sizeof(int))` on x86-64 Linux: the 16-byte header and 4 bytes of data. -/
def CMSG_LEN_sizeof_int : Nat := 20

def IVSHMEM_PACKET_SIZE : Nat := 8

def MAGIC_NUMBER : Nat := 18446744073709551615

def INTERRUPT_PACKET : Nat := 1

/-- One control message of a received `msghdr`; `data` is the `int` at `CMSG_DATA`. -/
structure cmsghdr where
  cmsg_len : Nat
  cmsg_level : Int
  cmsg_type : Int
  data : Int

/-- What one call of `recvmsg` on the server socket did: its return value, `errno` after a
return of -1, the bytes it stored through `msg_iov` (at most 8, in wire order) and the
control messages it delivered. -/
structure recvmsg_result where
  ret : Int
  errno : Int
  iov : List Nat
  control : List cmsghdr

/-- The `recvmsg` of a socket on which nothing arrives within the receive timeout. -/
def recvmsg_timeout : recvmsg_result :=
  { ret := -1, errno := EAGAIN, iov := [], control := [] }

/-- `htonl`: the identity on a big-endian host, a byte swap on a little-endian one. -/
def htonl (be : Bool) (x : Nat) : Nat :=
  if be then x % 2 ^ 32 else loadBE 4 (storeNative false 4 (fun _ => 0) 0 x) 0

def bswap_64 (x : Nat) : Nat :=
  loadBE 8 (storeNative false 8 (fun _ => 0) 0 x) 0

def convertEndian (be : Bool) (aVal : Nat) : Nat :=
  if htonl be 1 = 1 then bswap_64 aVal else aVal

/-- `struct ivshmem_packet`: `raw` are the 8 bytes of the union `data`. -/
structure ivshmem_packet where
  fd : Int
  raw : List Nat

/-- The member `data.number`: the 8 bytes of `data.raw` read as a native `uint64_t`. -/
def ivshmem_packet.number (be : Bool) (packet : ivshmem_packet) : Nat :=
  loadNative be 8 (fun i => packet.raw.getD i 0) 0

/-- `readPacket`, given what its `recvmsg` call did. -/
def readPacket (be : Bool) (msg : recvmsg_result) : Nat × ivshmem_packet :=
  let packet : ivshmem_packet :=
    { fd := 0, raw := (List.range 8).map fun i => msg.iov.getD i 0 % 256 }
  if msg.ret = -1 then
    if msg.errno = EAGAIN ∨ msg.errno = EWOULDBLOCK then
      (combineErrorCode be RES_PACKET_TIMEOUT msg.errno, packet)
    else (combineErrorCode be RES_READ_ERROR msg.errno, packet)
  else if toUnsigned 64 msg.ret < IVSHMEM_PACKET_SIZE then
    (combineErrorCode be RES_PACKET_TOO_SHORT 0, packet)
  else if msg.ret = 0 then (combineErrorCode be RES_READ_ERROR 0, packet)
  else
    match msg.control.find? (fun cmsg =>
        !(decide (cmsg.cmsg_len ≠ CMSG_LEN_sizeof_int) || decide (cmsg.cmsg_level ≠ SOL_SOCKET)
          || decide (cmsg.cmsg_type ≠ SCM_RIGHTS))) with
    | some cmsg => (combineErrorCode be RES_FD 0, { packet with fd := cmsg.data })
    | none => (combineErrorCode be RES_OK 0, packet)

structure ivshmem_vector_node where
  vector_fd : Int

/-- `struct ivshmem_peer_node` without its leading `node` (see `hash_table_node`);
`vector_list` and `vector_fds` are `none` for NULL. -/
structure ivshmem_peer_node where
  peer_id : Nat
  vector_count : Nat
  deny_new_vectors : Bool
  vector_list : Option (linked_list ivshmem_vector_node)
  vector_fds : Option (List Int)

/-- A peer node right after `memset(node, 0, sizeof(struct ivshmem_peer_node))`. -/
def ivshmem_peer_node.zero : ivshmem_peer_node :=
  { peer_id := 0, vector_count := 0, deny_new_vectors := false, vector_list := none,
    vector_fds := none }

/-- `struct ivshmem_peer_node_search` cast to a node: only `hash` and `peer_id` are read. -/
def ivshmem_peer_node_search (hash peer_id : Nat) : hash_table_node ivshmem_peer_node :=
  { hash := hash % 2 ^ 32, entry := { ivshmem_peer_node.zero with peer_id := peer_id % 2 ^ 16 } }

/-- `struct ivshem_connection`. `mapped` is `none` while `mapped.memory` is NULL and
`vector_fd_highest` is the index into `vector_fds` it points to (`none` for NULL). -/
structure ivshem_connection where
  mapped : Option mapped_shared_memory
  peers : hash_table ivshmem_peer_node
  peers_mutex_init : Bool
  peer_id : Nat
  sock_fd : Int
  shmem_fd : Int
  vector_fd_highest : Option Nat
  vector_list : Option (linked_list ivshmem_vector_node)
  vector_count : Nat
  vector_fds : Option (List Int)

/-- Descriptors closed by `deallocPeerVectorListWithClose` over the nodes of a list. -/
def closedByVectorList (list : Option (linked_list ivshmem_vector_node)) : List Int :=
  match list with
  | none => []
  | some list =>
    ((linked_list_clear list).2.map fun node => node.entry.vector_fd).filter fun fd => fd ≠ -1

/-- Descriptors closed by the loop `for (i = 0; i < vector_count; i++)` over `vector_fds`. -/
def closedByVectorArray (vector_fds : Option (List Int)) (vector_count : Nat) : List Int :=
  match vector_fds with
  | none => []
  | some fds => (fds.take vector_count).filter fun fd => fd ≠ -1

/-- The descriptors `deallocPeerStructNode` closes. -/
def deallocPeerStructNode (aNode : hash_table_node ivshmem_peer_node) : List Int :=
  closedByVectorList aNode.entry.vector_list
    ++ closedByVectorArray aNode.entry.vector_fds aNode.entry.vector_count

def comparePeerStructNode (aNode1 aNode2 : hash_table_node ivshmem_peer_node) : Bool :=
  aNode1.entry.peer_id == aNode2.entry.peer_id

/-- `initHashTable`; `gotMemory` is whether its `malloc` returns memory. The `uint64_t` of
`combineErrorCode` is returned through the `int` return type, which keeps its low 32 bits. -/
def initHashTable (be : Bool) (gotMemory : Bool) (table : hash_table ivshmem_peer_node) :
    Int × hash_table ivshmem_peer_node :=
  if gotMemory = false then
    (toSigned 32 (combineErrorCode be RES_OUT_OF_MEMORY 0 % 2 ^ 32), table)
  else
    (toSigned 32 (combineErrorCode be RES_OK 0 % 2 ^ 32),
      hash_table_init 32 comparePeerStructNode)

/-- The answers of the successive `malloc` calls still to come: `true` for memory, `false`
for NULL; calls after the last entry get memory. -/
def mallocOk (malloc : List Bool) : Bool := malloc.headD true

/-- `convertVectorListToArray` on non-NULL arguments. The result is the status, `*aVectorList`,
`*aVectorArray` and `*aVectorArraySize` after the call (the last two are always stored), and
the `malloc` answers left. -/
def convertVectorListToArray (be : Bool) (malloc : List Bool)
    (aVectorList : Option (linked_list ivshmem_vector_node)) :
    Nat × Option (linked_list ivshmem_vector_node) × Option (List Int) × Nat × List Bool :=
  match aVectorList with
  | none => (combineErrorCode be RES_OK 0, none, none, 0, malloc)
  | some tempList =>
    if tempList.size = 0 then (combineErrorCode be RES_OK 0, none, none, 0, malloc)
    else if mallocOk malloc = false then
      (combineErrorCode be RES_OUT_OF_MEMORY 0, some tempList, none, 0, malloc.tail)
    else
      (combineErrorCode be RES_OK 0, none,
        some (tempList.nodes.map fun tempVectorNode => tempVectorNode.entry.vector_fd),
        tempList.size % 2 ^ 16, malloc.tail)

/-- `closeIVSHMEM`: the connection afterwards and the descriptors closed, in order. -/
def closeIVSHMEM (aConnection : ivshem_connection) : ivshem_connection × List Int :=
  let peersClosed : List Int :=
    if aConnection.peers.hashTable.isSome then
      ((hash_table_clear aConnection.peers).2.map deallocPeerStructNode).flatten
    else []
  let shmemClosed : List Int := if aConnection.shmem_fd ≠ -1 then [aConnection.shmem_fd] else []
  let sockClosed : List Int := if aConnection.sock_fd ≠ -1 then [aConnection.sock_fd] else []
  ({ aConnection with
      peers_mutex_init := false, mapped := none,
      peers :=
        if aConnection.peers.hashTable.isSome then
          { (hash_table_clear aConnection.peers).1 with hashTable := none }
        else aConnection.peers,
      shmem_fd := -1, sock_fd := -1,
      vector_list := none, vector_fds := none },
    peersClosed ++ shmemClosed ++ sockClosed ++ closedByVectorList aConnection.vector_list
      ++ closedByVectorArray aConnection.vector_fds aConnection.vector_count)

/-- The answers of the operating system to the calls of one `connectIVSHMEM`: return
values with the `errno` each failing call leaves, the results of the successive `recvmsg`
calls (a call after the last entry runs into the receive timeout), the answers of the
successive `malloc` calls, and for `mmap` the contents of the mapped region (`none` when
it returns MAP_FAILED or NULL). -/
structure os_answers where
  socket : Int
  socket_errno : Int
  setsockopt : Int
  setsockopt_errno : Int
  connect : Int
  connect_errno : Int
  recvmsg : List recvmsg_result
  malloc : List Bool
  pthread_mutex_init : Int
  pthread_mutex_init_errno : Int
  fstat : Int
  fstat_errno : Int
  st_size : Int
  mmap : Option (Nat → Nat)
  mmap_errno : Int

/-- The `ivshem_connection` after `memset(aConnection, 0, ...)` and the three stores
`peer_id = -1`, `shmem_fd = -1`, `sock_fd = -1`. -/
def ivshem_connection.fresh : ivshem_connection :=
  { mapped := none,
    peers := { hashTable := none, hashTableLenght := 0, size := 0,
               comparator := fun _ _ => false },
    peers_mutex_init := false, peer_id := 2 ^ 16 - 1, sock_fd := -1, shmem_fd := -1,
    vector_fd_highest := none, vector_list := none, vector_count := 0, vector_fds := none }

/-- What the pointer `tempCurrentList` of the drain loop points to: nothing, the
connection's own `vector_list`, or the `vector_list` of the peer node `tempCurrentNode`,
which is the node of the table with the given peer id. -/
inductive current_list where
  | null
  | self
  | peer (peer_id : Nat)

/-- The table after a store through a pointer to the node with peer id `peer_id`. -/
def updatePeerNode (table : hash_table ivshmem_peer_node) (peer_id : Nat)
    (f : ivshmem_peer_node → ivshmem_peer_node) : hash_table ivshmem_peer_node :=
  { table with
    hashTable := table.hashTable.map fun buckets =>
      buckets.map fun chain =>
        chain.map fun n => if n.entry.peer_id = peer_id then { n with entry := f n.entry } else n }

/-- The variables of the `while (true)` loop of `connectIVSHMEM`, with the `malloc` answers
left and the descriptors closed so far. -/
structure drain_state where
  aConnection : ivshem_connection
  tempCurrentPeerID : Nat
  tempCurrentList : current_list
  malloc : List Bool
  closed : List Int

/-- How one pass of the `while (true)` loop ends: at the end of the body, at a `break`, or
at a `return` (after `closeIVSHMEM`). -/
inductive drain_step where
  | next (s : drain_state)
  | done (s : drain_state)
  | fail (status : Nat) (aConnection : ivshem_connection) (closed : List Int)

/-- The `return` of an error path: `closeIVSHMEM(aConnection); return status;`. -/
def failClosed (status : Nat) (aConnection : ivshem_connection) (closed : List Int) :
    drain_step :=
  drain_step.fail status (closeIVSHMEM aConnection).1 (closed ++ (closeIVSHMEM aConnection).2)

/-- `linked_list_add_last(tempCurrentList, &tempVectorNode->node)`; the result is ignored. -/
def addToCurrentList (aConnection : ivshem_connection) (tempCurrentList : current_list)
    (node : linked_list_node ivshmem_vector_node) : ivshem_connection :=
  match tempCurrentList with
  | current_list.null => aConnection
  | current_list.self =>
    { aConnection with
      vector_list := aConnection.vector_list.map fun l => (linked_list_add_last l node).2 }
  | current_list.peer p =>
    { aConnection with
      peers := updatePeerNode aConnection.peers p fun e =>
        { e with vector_list := e.vector_list.map fun l => (linked_list_add_last l node).2 } }

/-- One pass of the `while (true)` loop of `connectIVSHMEM`, given what `recvmsg` did. -/
def connectIVSHMEM_drain_step (be : Bool) (tempMyPeerID : Nat) (msg : recvmsg_result)
    (s : drain_state) : drain_step :=
  let myRes := (readPacket be msg).1
  let packet := (readPacket be msg).2
  if checkErrorCode be myRes RES_OK = true then
    let tempDisconnectedPeer := convertEndian be (packet.number be)
    if tempDisconnectedPeer > 0xffff then
      failClosed (combineErrorCode be RES_PEER_INVALID 0) s.aConnection s.closed
    else if tempDisconnectedPeer = tempMyPeerID then
      failClosed (combineErrorCode be RES_OWN_PEER_CLOSED 0) s.aConnection s.closed
    else
      let tempSearch := ivshmem_peer_node_search tempDisconnectedPeer tempDisconnectedPeer
      match (hash_table_remove s.aConnection.peers tempSearch).1 with
      | none => failClosed (combineErrorCode be RES_CLOSED_UNKNOWN_PEER 0) s.aConnection s.closed
      | some tempNode =>
        drain_step.done
          { s with
            aConnection :=
              { s.aConnection with peers := (hash_table_remove s.aConnection.peers tempSearch).2 },
            closed := s.closed ++ deallocPeerStructNode tempNode }
  else if checkErrorCode be myRes RES_PACKET_TIMEOUT = true then drain_step.done s
  else if checkErrorCode be myRes RES_FD = false then failClosed myRes s.aConnection s.closed
  else
    let tempPacketPeer := convertEndian be (packet.number be)
    if tempPacketPeer > 0xffff then
      failClosed (combineErrorCode be RES_PEER_INVALID 0) s.aConnection s.closed
    else
      let tempVectorNode : linked_list_node ivshmem_vector_node :=
        linked_list_node_init
          { state := linked_list_node_state.NEW, entry := { vector_fd := packet.fd } }
      if s.tempCurrentPeerID ≠ tempPacketPeer then
        if tempPacketPeer = tempMyPeerID then
          if mallocOk s.malloc = false then
            failClosed (combineErrorCode be RES_OUT_OF_MEMORY 0) s.aConnection s.closed
          else
            drain_step.next
              { s with
                aConnection := addToCurrentList s.aConnection current_list.self tempVectorNode,
                tempCurrentPeerID := tempPacketPeer, tempCurrentList := current_list.self,
                malloc := s.malloc.tail }
        else if mallocOk s.malloc = false then
          failClosed (combineErrorCode be RES_OUT_OF_MEMORY 0) s.aConnection s.closed
        else
          let tempCurrentNode : hash_table_node ivshmem_peer_node :=
            { hash := tempPacketPeer % 2 ^ 32,
              entry := { ivshmem_peer_node.zero with
                vector_count := 0, peer_id := tempPacketPeer % 2 ^ 16 } }
          if (hash_table_add s.aConnection.peers tempCurrentNode).1 = false then
            failClosed (combineErrorCode be RES_DUPLICATE_PEER 0) s.aConnection s.closed
          else
            let added : ivshem_connection :=
              { s.aConnection with peers := (hash_table_add s.aConnection.peers tempCurrentNode).2 }
            if mallocOk s.malloc.tail = false then
              failClosed (combineErrorCode be RES_OUT_OF_MEMORY 0) added s.closed
            else
              let listed : ivshem_connection :=
                { added with
                  peers := updatePeerNode added.peers (tempPacketPeer % 2 ^ 16) fun e =>
                    { e with vector_list := some linked_list_init } }
              if mallocOk s.malloc.tail.tail = false then
                failClosed (combineErrorCode be RES_OUT_OF_MEMORY 0) listed s.closed
              else
                drain_step.next
                  { s with
                    aConnection := addToCurrentList listed
                      (current_list.peer (tempPacketPeer % 2 ^ 16)) tempVectorNode,
                    tempCurrentPeerID := tempPacketPeer,
                    tempCurrentList := current_list.peer (tempPacketPeer % 2 ^ 16),
                    malloc := s.malloc.tail.tail.tail }
      else if mallocOk s.malloc = false then
        failClosed (combineErrorCode be RES_OUT_OF_MEMORY 0) s.aConnection s.closed
      else
        drain_step.next
          { s with
            aConnection := addToCurrentList s.aConnection s.tempCurrentList tempVectorNode,
            malloc := s.malloc.tail }

/-- The `while (true)` loop of `connectIVSHMEM` over the results of its `recvmsg` calls;
after the last one the socket times out. -/
def connectIVSHMEM_drain (be : Bool) (tempMyPeerID : Nat) :
    List recvmsg_result → drain_state → drain_step
  | [], s =>
    match connectIVSHMEM_drain_step be tempMyPeerID recvmsg_timeout s with
    | drain_step.next s1 => drain_step.done s1
    | r => r
  | msg :: rest, s =>
    match connectIVSHMEM_drain_step be tempMyPeerID msg s with
    | drain_step.next s1 => connectIVSHMEM_drain be tempMyPeerID rest s1
    | r => r

/-- The table after a store of `node` into the cell `cell` points to. -/
def setCellNode (table : hash_table ivshmem_peer_node) (cell : Nat × Nat)
    (node : hash_table_node ivshmem_peer_node) : hash_table ivshmem_peer_node :=
  { table with hashTable := table.setBucket cell.1 ((table.bucket cell.1).set cell.2 node) }

/-- The loop `while (hash_table_iterator_has_next(&tempIter))` of `connectIVSHMEM`, run for at
most `fuel` passes: the status of a failed conversion (`none` when the loop ends), the
table and the `malloc` answers left. -/
def connectIVSHMEM_convert (be : Bool) :
    Nat → hash_table ivshmem_peer_node → hash_table_iterator → List Bool →
      Option Nat × hash_table ivshmem_peer_node × List Bool
  | 0, peers, _, malloc => (none, peers, malloc)
  | fuel + 1, peers, tempIter, malloc =>
    if hash_table_iterator_has_next peers tempIter = true then
      match (hash_table_iterator_next peers tempIter).1,
          (hash_table_iterator_next peers tempIter).2.previous with
      | some tempPeer, some cell =>
        let r := convertVectorListToArray be malloc tempPeer.entry.vector_list
        let converted : hash_table_node ivshmem_peer_node :=
          { tempPeer with
            entry := { tempPeer.entry with
              vector_list := r.2.1, vector_fds := r.2.2.1, vector_count := r.2.2.2.1 } }
        if checkErrorCode be r.1 RES_OK = false then
          (some r.1, setCellNode peers cell converted, r.2.2.2.2)
        else
          connectIVSHMEM_convert be fuel
            (setCellNode peers cell
              { converted with entry := { converted.entry with deny_new_vectors := false } })
            (hash_table_iterator_next peers tempIter).2 r.2.2.2.2
      | _, _ => (none, peers, malloc)
    else (none, peers, malloc)

/-- The loop "find highest FD" of `connectIVSHMEM`: `highest` and `vector_fd_highest` after
the passes for the indices in `indices`. -/
def connectIVSHMEM_highest (vector_fds : Option (List Int)) :
    List Nat → Int × Option Nat → Int × Option Nat
  | [], acc => acc
  | i :: rest, acc =>
    match vector_fds with
    | none => connectIVSHMEM_highest vector_fds rest acc
    | some fds =>
      if fds.getD i 0 > acc.1 then connectIVSHMEM_highest vector_fds rest (fds.getD i 0, some i)
      else connectIVSHMEM_highest vector_fds rest acc

/-- The part of `connectIVSHMEM` after the `while (true)` loop. -/
def connectIVSHMEM_finish (be : Bool) (os : os_answers) (s : drain_state) :
    Nat × ivshem_connection × List Int :=
  let own := convertVectorListToArray be s.malloc s.aConnection.vector_list
  let c1 : ivshem_connection :=
    { s.aConnection with
      vector_list := own.2.1, vector_fds := own.2.2.1, vector_count := own.2.2.2.1 }
  if checkErrorCode be own.1 RES_OK = false then
    (own.1, (closeIVSHMEM c1).1, s.closed ++ (closeIVSHMEM c1).2)
  else
    let conv := connectIVSHMEM_convert be
      (((List.range c1.peers.hashTableLenght).map fun i => c1.peers.bucket i).flatten.length)
      c1.peers (hash_table_iterator_init c1.peers) own.2.2.2.2
    let c2 : ivshem_connection := { c1 with peers := conv.2.1 }
    match conv.1 with
    | some myRes => (myRes, (closeIVSHMEM c2).1, s.closed ++ (closeIVSHMEM c2).2)
    | none =>
      let c3 : ivshem_connection :=
        { c2 with
          vector_fd_highest :=
            (connectIVSHMEM_highest c2.vector_fds (List.range c2.vector_count)
              (-1, c2.vector_fd_highest)).2 }
      if os.fstat ≠ 0 then
        (combineErrorCode be RES_ERROR_SHMEM_FSTAT os.fstat_errno, (closeIVSHMEM c3).1,
          s.closed ++ (closeIVSHMEM c3).2)
      else
        match os.mmap with
        | none =>
          (combineErrorCode be RES_ERROR_SHMEM_MMAP os.mmap_errno, (closeIVSHMEM c3).1,
            s.closed ++ (closeIVSHMEM c3).2)
        | some memory =>
          let c4 : ivshem_connection :=
            { c3 with
              mapped := some { memory := memory, size := toUnsigned 64 os.st_size,
                               closed := false } }
          let tempSize := hash_table_get_optimal_length (some c4.peers)
          if tempSize > c4.peers.hashTableLenght then
            if mallocOk conv.2.2 = false then
              (combineErrorCode be RES_OUT_OF_MEMORY 0, (closeIVSHMEM c4).1,
                s.closed ++ (closeIVSHMEM c4).2)
            else
              let c5 : ivshem_connection :=
                { c4 with peers := (hash_table_rehash c4.peers tempSize).2 }
              match (hash_table_rehash c4.peers tempSize).1 with
              | none =>
                (combineErrorCode be RES_ERROR 0, (closeIVSHMEM c5).1,
                  s.closed ++ (closeIVSHMEM c5).2)
              | some _ => (combineErrorCode be RES_OK 0, c5, s.closed)
          else (combineErrorCode be RES_OK 0, c4, s.closed)

/-- `connectIVSHMEM`: `aDevice` is the path without its terminating NUL. The result is the
returned status, `*aConnection` on return and the descriptors closed, in order. -/
def connectIVSHMEM (be : Bool) (os : os_answers) (aDevice : List Nat) :
    Nat × ivshem_connection × List Int :=
  let c0 := ivshem_connection.fresh
  if min aDevice.length 109 > 108 then (combineErrorCode be RES_INVALID_DEVICE_PATH 0, c0, [])
  else
    let c1 : ivshem_connection := { c0 with sock_fd := os.socket }
    if c1.sock_fd = -1 then
      (combineErrorCode be RES_ERROR_CREATING_UNIX_SOCKET os.socket_errno, c1, [])
    else if os.setsockopt < 0 then
      (combineErrorCode be RES_ERROR_SETTING_TIMEOUT_ON_UNIX_SOCKET os.setsockopt_errno,
        (closeIVSHMEM c1).1, (closeIVSHMEM c1).2)
    else if os.connect < 0 then
      (combineErrorCode be RES_ERROR_CONNECTING_UNIX_SOCKET os.connect_errno,
        (closeIVSHMEM c1).1, (closeIVSHMEM c1).2)
    else
      let first := readPacket be (os.recvmsg.headD recvmsg_timeout)
      if checkErrorCode be first.1 RES_OK = false then
        (first.1, (closeIVSHMEM c1).1, (closeIVSHMEM c1).2)
      else if first.2.number be ≠ 0 then
        (combineErrorCode be RES_UNKNOWN_IVSHMEM_PROTOCOLL_VERSION 0,
          (closeIVSHMEM c1).1, (closeIVSHMEM c1).2)
      else
        let second := readPacket be (os.recvmsg.tail.headD recvmsg_timeout)
        if checkErrorCode be second.1 RES_OK = false then
          (second.1, (closeIVSHMEM c1).1, (closeIVSHMEM c1).2)
        else
          let tempMyPeerID := convertEndian be (second.2.number be)
          if tempMyPeerID > 0xffff then
            (combineErrorCode be RES_PEER_INVALID 0, (closeIVSHMEM c1).1, (closeIVSHMEM c1).2)
          else
            let c2 : ivshem_connection := { c1 with peer_id := tempMyPeerID % 2 ^ 16 }
            let third := readPacket be (os.recvmsg.tail.tail.headD recvmsg_timeout)
            if checkErrorCode be third.1 RES_FD = false then
              if checkErrorCode be third.1 RES_OK = true then
                (combineErrorCode be RES_FD_MISSING 0, (closeIVSHMEM c2).1, (closeIVSHMEM c2).2)
              else (third.1, (closeIVSHMEM c2).1, (closeIVSHMEM c2).2)
            else if convertEndian be (third.2.number be) ≠ MAGIC_NUMBER then
              ((if checkErrorCode be (toUnsigned 64 RES_UNEXPECTED_PACKET) 0 = true then 1 else 0),
                (closeIVSHMEM c2).1, (closeIVSHMEM c2).2)
            else
              let c3 : ivshem_connection :=
                { c2 with shmem_fd := third.2.fd, vector_count := 0, vector_fds := none }
              if mallocOk os.malloc = false then
                (combineErrorCode be RES_OUT_OF_MEMORY 0, (closeIVSHMEM c3).1, (closeIVSHMEM c3).2)
              else
                let c4 : ivshem_connection := { c3 with vector_list := some linked_list_init }
                let init := initHashTable be (mallocOk os.malloc.tail) c4.peers
                let myRes := toUnsigned 64 init.1
                let c5 : ivshem_connection := { c4 with peers := init.2 }
                if checkErrorCode be myRes RES_OK = false then
                  (myRes, (closeIVSHMEM c5).1, (closeIVSHMEM c5).2)
                else if os.pthread_mutex_init ≠ 0 then
                  (combineErrorCode be RES_MUTEX_INIT_ERROR os.pthread_mutex_init_errno,
                    (closeIVSHMEM c5).1, (closeIVSHMEM c5).2)
                else
                  let c6 : ivshem_connection := { c5 with peers_mutex_init := true }
                  match connectIVSHMEM_drain be tempMyPeerID os.recvmsg.tail.tail.tail
                      { aConnection := c6, tempCurrentPeerID := 2 ^ 64 - 1,
                        tempCurrentList := current_list.null,
                        malloc := os.malloc.tail.tail, closed := [] } with
                  | drain_step.fail status aConnection closed => (status, aConnection, closed)
                  | drain_step.done s => connectIVSHMEM_finish be os s
                  | drain_step.next s => connectIVSHMEM_finish be os s

/-- The cell of the node `hash_table_get` returns (`none` when it returns NULL). -/
def hash_table_get_cell {β : Type} (table : hash_table β) (node : hash_table_node β) :
    Option (Nat × Nat) :=
  ((table.bucket (node.hash % table.hashTableLenght)).findIdx?
      fun tempCurrent => table.comparator tempCurrent node).map
    fun j => (node.hash % table.hashTableLenght, j)

/-- What one call of `pollIVSHMEM` leaves behind: the returned status, `*aConnection`,
`*aPeer` and `*aVector` (`none` when the function returns before it stores them), and the
descriptors closed, in order. -/
structure poll_result where
  status : Nat
  aConnection : ivshem_connection
  aPeer : Option Nat
  aVector : Option Int
  closed : List Int

/-- The part of `pollIVSHMEM` after `tempNode` is found or created: `cell` is the cell of the
table that holds `tempNode`. The array `vector_fds` holds at least `vector_count` entries. -/
def pollIVSHMEM_store (be : Bool) (packet : ivshmem_packet) (malloc : List Bool)
    (aConnection : ivshem_connection) (tempPacketPeer : Nat) (cell : Nat × Nat)
    (tempNode : hash_table_node ivshmem_peer_node) : poll_result :=
  let denied : ivshem_connection :=
    { aConnection with
      peers := setCellNode aConnection.peers cell
        { tempNode with entry := { tempNode.entry with deny_new_vectors := true } } }
  if tempNode.entry.deny_new_vectors = true then
    { status := combineErrorCode be RES_ERROR 0, aConnection := aConnection,
      aPeer := some (tempPacketPeer % 2 ^ 16), aVector := some (-1), closed := [packet.fd] }
  else if tempNode.entry.vector_fds = none ∧ tempNode.entry.vector_count ≠ 0 then
    { status := combineErrorCode be RES_ERROR 0, aConnection := denied,
      aPeer := some (tempPacketPeer % 2 ^ 16), aVector := some (-1), closed := [packet.fd] }
  else if mallocOk malloc = false then
    { status := combineErrorCode be RES_OUT_OF_MEMORY 0, aConnection := denied,
      aPeer := some (tempPacketPeer % 2 ^ 16), aVector := some (-1), closed := [packet.fd] }
  else
    let tempNewVectors : List Int :=
      ((tempNode.entry.vector_fds.getD []).take tempNode.entry.vector_count) ++ [packet.fd]
    let vector_count := (tempNode.entry.vector_count + 1) % 2 ^ 16
    { status := combineErrorCode be RES_OK 0,
      aConnection :=
        { aConnection with
          peers := setCellNode aConnection.peers cell
            { tempNode with
              entry := { tempNode.entry with
                vector_fds := some tempNewVectors, vector_count := vector_count } } },
      aPeer := some (tempPacketPeer % 2 ^ 16), aVector := some (toSigned 32 vector_count),
      closed := [] }

/-- `pollIVSHMEM`, given what the `recvmsg` of its `readPacket` did and the answers of its
`malloc` calls. -/
def pollIVSHMEM (be : Bool) (msg : recvmsg_result) (malloc : List Bool)
    (aConnection : ivshem_connection) : poll_result :=
  let res := (readPacket be msg).1
  let packet := (readPacket be msg).2
  if checkErrorCode be res RES_OK = false ∧ checkErrorCode be res RES_FD = false then
    if checkErrorCode be res RES_PACKET_TIMEOUT = true then
      { status := combineErrorCode be RES_POLL_SERVER_TIMEOUT EAGAIN, aConnection := aConnection,
        aPeer := none, aVector := none, closed := [] }
    else
      { status := res, aConnection := aConnection, aPeer := none, aVector := none, closed := [] }
  else
    let tempPacketPeer := convertEndian be (packet.number be)
    if tempPacketPeer > 0xffff then
      { status := combineErrorCode be RES_PEER_INVALID 0, aConnection := aConnection,
        aPeer := none, aVector := none, closed := [] }
    else
      let search := ivshmem_peer_node_search tempPacketPeer tempPacketPeer
      if checkErrorCode be res RES_OK = true then
        match (hash_table_remove aConnection.peers search).1 with
        | none =>
          { status := combineErrorCode be RES_PEER_DOESNT_EXIST 0, aConnection := aConnection,
            aPeer := some (tempPacketPeer % 2 ^ 16), aVector := some (-1), closed := [] }
        | some tempNode =>
          { status := combineErrorCode be RES_OK 0,
            aConnection :=
              { aConnection with peers := (hash_table_remove aConnection.peers search).2 },
            aPeer := some (tempPacketPeer % 2 ^ 16), aVector := some (-1),
            closed := deallocPeerStructNode tempNode }
      else if checkErrorCode be res RES_FD = true then
        match hash_table_get aConnection.peers search,
            hash_table_get_cell aConnection.peers search with
        | some tempNode, some cell =>
          pollIVSHMEM_store be packet malloc aConnection tempPacketPeer cell tempNode
        | _, _ =>
          if mallocOk malloc = false then
            { status := combineErrorCode be RES_OUT_OF_MEMORY 0, aConnection := aConnection,
              aPeer := some (tempPacketPeer % 2 ^ 16), aVector := some (-1),
              closed := [packet.fd] }
          else
            let tempNode : hash_table_node ivshmem_peer_node :=
              { hash := tempPacketPeer % 2 ^ 32,
                entry := { ivshmem_peer_node.zero with
                  peer_id := tempPacketPeer % 2 ^ 16, deny_new_vectors := false } }
            if (hash_table_add aConnection.peers tempNode).1 = false then
              { status := combineErrorCode be RES_ERROR 0, aConnection := aConnection,
                aPeer := some (tempPacketPeer % 2 ^ 16), aVector := some (-1),
                closed := [packet.fd] }
            else
              pollIVSHMEM_store be packet malloc.tail
                { aConnection with peers := (hash_table_add aConnection.peers tempNode).2 }
                tempPacketPeer
                (tempNode.hash % aConnection.peers.hashTableLenght,
                  (aConnection.peers.bucket
                    (tempNode.hash % aConnection.peers.hashTableLenght)).length)
                tempNode
      else
        { status := res, aConnection := aConnection, aPeer := some (tempPacketPeer % 2 ^ 16),
          aVector := some (-1), closed := [] }


/-- Linux errno value of EINTR. -/
def EINTR : Int := 4

/-- What one call of `write` did: its return value and `errno` afterwards. -/
structure write_result where
  ret : Int
  errno : Int

/-- What one call of `sendInterrupt` leaves behind: the returned status, `*aConnection`, and
the calls of `write` it made, each with its descriptor and the bytes passed. -/
structure send_result where
  status : Nat
  aConnection : ivshem_connection
  written : List (Int × List Nat)

/-- `sendInterrupt`, given what its `write` call does. The result is `none` where the read
`tempNode->vector_fds[vector]` is outside the array (or the array is NULL). -/
def sendInterrupt (be : Bool) (w : write_result) (aConnection : ivshem_connection)
    (peer vector : Nat) : Option send_result :=
  if aConnection.peer_id = peer % 2 ^ 16 then
    some { status := combineErrorCode be RES_INTERRUPT_CANT_SELF_INTERRUPT 0,
           aConnection := aConnection, written := [] }
  else
    match hash_table_get aConnection.peers (ivshmem_peer_node_search (peer % 2 ^ 16) (peer % 2 ^ 16)) with
    | none =>
      some { status := combineErrorCode be RES_PEER_DOESNT_EXIST 0,
             aConnection := aConnection, written := [] }
    | some tempNode =>
      if tempNode.entry.vector_count ≤ vector % 2 ^ 16 then
        some { status := combineErrorCode be RES_INTERRUPT_VECTOR_TOO_BIG 0,
               aConnection := aConnection, written := [] }
      else
        match tempNode.entry.vector_fds.bind fun fds => fds[vector % 2 ^ 16]? with
        | none => none
        | some tempFD =>
          if tempFD = -1 then
            some { status := combineErrorCode be RES_INTERRUPT_VECTOR_CLOSED 0,
                   aConnection := aConnection, written := [] }
          else
            let packet : List Nat :=
              (List.range IVSHMEM_PACKET_SIZE).map
                (storeNative be 8 (fun _ => 0) 0 INTERRUPT_PACKET)
            if toUnsigned 64 w.ret ≠ IVSHMEM_PACKET_SIZE then
              some { status := combineErrorCode be RES_INTERRUPT_SEND_ERROR w.errno,
                     aConnection := aConnection, written := [(tempFD, packet)] }
            else
              some { status := combineErrorCode be RES_OK 0,
                     aConnection := aConnection, written := [(tempFD, packet)] }

/-- What the one call of `select` in `pollInterrupt` did: its return value, `errno`
afterwards, and the descriptors it reports ready (it leaves in the set the watched
descriptors among them). -/
structure select_result where
  ret : Int
  errno : Int
  ready : Int → Bool

/-- What one call of `pollInterrupt` leaves behind: the returned status, the first argument
of `select` (`none` when `select` is not called), the descriptors put into the set, the
indices `i` whose `vector_fds[i]` was passed to `read`, the entries stored into
`someVectors` from index 0 on, and `*aVectorCount` (`none` when it is not stored). -/
structure poll_interrupt_result where
  status : Nat
  nfds : Option Int
  watched : List Int
  read : List Nat
  someVectors : List Nat
  aVectorCount : Option Nat

/-- The `int` at `vector_fds + i`: `behind i` is what the memory holds at an index past the
end of the array. -/
def vectorAt (vector_fds : List Int) (behind : Nat → Int) (i : Nat) : Int :=
  vector_fds.getD i (behind i)

/-- `pollInterrupt`, given what `select` does and the return value `readRet i` of the `read`
in pass `i` of the second loop. The result is `none` where `vector_fds` or
`vector_fd_highest` is NULL when it is dereferenced. -/
def pollInterrupt (be : Bool) (sel : select_result) (readRet : Nat → Int)
    (behind : Nat → Int) (aConnection : ivshem_connection) (aMaxVectorCount : Nat) :
    Option poll_interrupt_result :=
  if aConnection.vector_count = 0 then
    some { status := combineErrorCode be RES_INTERRUPT_RECEIVE_NO_VECTORS 0, nfds := none,
           watched := [], read := [], someVectors := [], aVectorCount := none }
  else
    match aConnection.vector_fds, aConnection.vector_fd_highest with
    | some vector_fds, some vector_fd_highest =>
      let watched := (List.range aConnection.vector_count).map (vectorAt vector_fds behind)
      let nfds := vectorAt vector_fds behind vector_fd_highest
      if sel.ret = 0 then
        some { status := combineErrorCode be RES_INTERRUPT_TIMEOUT 0, nfds := some nfds,
               watched := watched, read := [], someVectors := [], aVectorCount := none }
      else if sel.ret < 0 then
        if sel.errno = EINTR then
          some { status := combineErrorCode be RES_INTERRUPT_TIMEOUT EINTR, nfds := some nfds,
                 watched := watched, read := [], someVectors := [], aVectorCount := none }
        else
          some { status := combineErrorCode be RES_INTERRUPT_RECEIVE_ERROR sel.errno,
                 nfds := some nfds, watched := watched, read := [], someVectors := [],
                 aVectorCount := none }
      else
        let read := (List.range (aMaxVectorCount % 2 ^ 16)).filter fun i =>
          decide (vectorAt vector_fds behind i ∈ watched)
            && sel.ready (vectorAt vector_fds behind i)
        let someVectors := read.filter fun i =>
          decide (toUnsigned 64 (readRet i) = IVSHMEM_PACKET_SIZE)
        if someVectors.length = 0 then
          some { status := combineErrorCode be RES_INTERRUPT_RECEIVE_ERROR 0, nfds := some nfds,
                 watched := watched, read := read, someVectors := someVectors,
                 aVectorCount := some someVectors.length }
        else
          some { status := combineErrorCode be RES_OK 0, nfds := some nfds,
                 watched := watched, read := read, someVectors := someVectors,
                 aVectorCount := some someVectors.length }
    | _, _ => none

/-! ## util/linked_list.c: retrieval, removal by index and iterators

A pointer to a node of a list is the position of the node in head-to-tail order,
`none` for NULL. -/

/-- The field `list->head`. -/
def linked_list.head {β : Type} (list : linked_list β) : Option Nat :=
  if list.nodes.length = 0 then none else some 0

/-- The field `list->tail`. -/
def linked_list.tail {β : Type} (list : linked_list β) : Option Nat :=
  if list.nodes.length = 0 then none else some (list.nodes.length - 1)

/-- The field `node->next` of the node at position `p`. -/
def linked_list.nextOf {β : Type} (list : linked_list β) (p : Nat) : Option Nat :=
  if p + 1 < list.nodes.length then some (p + 1) else none

/-- The field `node->previous` of the node at position `p`. -/
def linked_list.previousOf {β : Type} (_list : linked_list β) (p : Nat) : Option Nat :=
  if p = 0 then none else some (p - 1)

/-- The nodes reached from `current` by following `next`, `current` first. -/
def linked_list.nextChain {β : Type} (list : linked_list β) (current : Option Nat) : List Nat :=
  match current with
  | none => []
  | some p => List.range' p (list.nodes.length - p)

/-- The nodes reached from `current` by following `previous`, `current` first. -/
def linked_list.previousChain {β : Type} (_list : linked_list β) (current : Option Nat) :
    List Nat :=
  match current with
  | none => []
  | some p => (List.range (p + 1)).reverse

/-- The loop `while (current != NULL && currentIndex != index)` of `linked_list_get` along
`chain` (the nodes from `current` on, in the direction the loop follows); `advance` is the
update of the `uint32_t currentIndex`. The result is `current` after the loop. -/
def linked_list_get_loop (index : Nat) (advance : Nat → Nat) : List Nat → Nat → Option Nat
  | [], _ => none
  | p :: rest, currentIndex =>
    if currentIndex = index then some p
    else linked_list_get_loop index advance rest (advance currentIndex)

/-- `linked_list_get` for a `uint32_t index`: the node returned, `none` for NULL. -/
def linked_list_get {β : Type} (list : linked_list β) (index : Nat) : Option Nat :=
  if index ≥ list.size then none
  else if list.size / 2 > index then
    linked_list_get_loop index (fun i => (i + 1) % 2 ^ 32) (list.nextChain list.head) 0
  else
    linked_list_get_loop index (fun i => (i + 2 ^ 32 - 1) % 2 ^ 32)
      (list.previousChain list.head) ((list.size + 2 ^ 32 - 1) % 2 ^ 32)

/-- `remove_node_internal` for a node of the list: the neighbours of the node at position
`p` are linked with each other (the node itself gets the state REMOVED). -/
def remove_node_internal {β : Type} (list : linked_list β) (p : Nat) : linked_list β :=
  { list with nodes := list.nodes.eraseIdx p }

/-- `linked_list_remove`: the node returned (its position before the call, `none` for NULL)
and the list afterwards. -/
def linked_list_remove {β : Type} (list : linked_list β) (index : Nat) :
    Option Nat × linked_list β :=
  match linked_list_get list index with
  | none => (none, list)
  | some ele =>
    (some ele,
      { remove_node_internal list ele with size := (list.size + 2 ^ 32 - 1) % 2 ^ 32 })

structure linked_list_iterator where
  next : Option Nat
  previous : Option Nat
  lastReturned : Option Nat

def linked_list_iterator_ascending {β : Type} (list : linked_list β) : linked_list_iterator :=
  { lastReturned := none, next := list.head, previous := none }

def linked_list_iterator_descending {β : Type} (list : linked_list β) : linked_list_iterator :=
  { lastReturned := none, next := none, previous := list.tail }

/-- `linked_list_iterator_next`: the node returned and the iterator afterwards. -/
def linked_list_iterator_next {β : Type} (list : linked_list β)
    (iterator : linked_list_iterator) : Option Nat × linked_list_iterator :=
  match iterator.next with
  | none => (none, { iterator with lastReturned := none, previous := none })
  | some next =>
    (some next, { lastReturned := some next, next := list.nextOf next, previous := some next })

/-- `linked_list_iterator_previous`: the node returned and the iterator afterwards. -/
def linked_list_iterator_previous {β : Type} (list : linked_list β)
    (iterator : linked_list_iterator) : Option Nat × linked_list_iterator :=
  match iterator.previous with
  | none => (none, { iterator with next := none, lastReturned := none })
  | some prev =>
    (some prev, { lastReturned := some prev, next := some prev,
                  previous := list.previousOf prev })

/-! ## util/hash_table.c: removal through the iterator

`hash_table_iterator_remove` stores through the iterator's `hash_table_node**`, which can
point into a node that is no longer part of the table. For it the table is given with its
pointers: a node is an address, `next a` is the field `next` of the node at `a`,
`hashTable[i]` holds the address of the first node of chain `i`; `none` is NULL. -/

structure hash_table_memory (β : Type) where
  hashTable : List (Option Nat)
  hashTableLenght : Nat
  size : Nat
  node : Nat → hash_table_node β
  next : Nat → Option Nat

/-- A `hash_table_node**`: `&table->hashTable[i]` or `&a->next` for the node at `a`. -/
inductive hash_table_node_cell where
  | bucket (i : Nat)
  | nextOf (a : Nat)
  deriving DecidableEq, Repr

/-- The pointer `*cell`. -/
def hash_table_memory.load {β : Type} (table : hash_table_memory β) :
    hash_table_node_cell → Option Nat
  | hash_table_node_cell.bucket i => table.hashTable.getD i none
  | hash_table_node_cell.nextOf a => table.next a

/-- The memory after `*cell = value`. -/
def hash_table_memory.store {β : Type} (table : hash_table_memory β)
    (cell : hash_table_node_cell) (value : Option Nat) : hash_table_memory β :=
  match cell with
  | hash_table_node_cell.bucket i => { table with hashTable := table.hashTable.set i value }
  | hash_table_node_cell.nextOf a =>
    { table with next := fun b => if b = a then value else table.next b }

structure hash_table_memory_iterator where
  next : Option hash_table_node_cell
  previous : Option hash_table_node_cell
  tableIndex : Nat
  deriving DecidableEq, Repr

/-- The first index `i` with `start ≤ i < hashTableLenght` and `hashTable[i] != NULL`. -/
def hash_table_memory.firstBucketFrom {β : Type} (table : hash_table_memory β) (start : Nat) :
    Option Nat :=
  (List.range table.hashTableLenght).find?
    fun i => decide (start ≤ i) && (table.hashTable.getD i none).isSome

/-- `hash_table_iterator_init` on the table with its pointers. -/
def hash_table_iterator_init_mem {β : Type} (table : hash_table_memory β) :
    hash_table_memory_iterator :=
  match table.firstBucketFrom 0 with
  | none => { next := none, previous := none, tableIndex := 2 ^ 32 - 1 }
  | some i => { next := some (hash_table_node_cell.bucket i), previous := none, tableIndex := i }

/-- `hash_table_iterator_next` on the table with its pointers: the node returned and the
iterator afterwards. -/
def hash_table_iterator_next_mem {β : Type} (table : hash_table_memory β)
    (iterator : hash_table_memory_iterator) : Option Nat × hash_table_memory_iterator :=
  match iterator.next with
  | none => (none, { iterator with previous := none })
  | some next =>
    match table.load next with
    | none => (none, { iterator with next := none, previous := none })
    | some nextNode =>
      if (table.next nextNode).isSome then
        (some nextNode,
          { iterator with previous := some next,
                          next := some (hash_table_node_cell.nextOf nextNode) })
      else
        match table.firstBucketFrom ((iterator.tableIndex + 1) % 2 ^ 32) with
        | some i =>
          (some nextNode,
            { next := some (hash_table_node_cell.bucket i), previous := some next,
              tableIndex := i })
        | none => (some nextNode, { iterator with previous := some next, next := none })

/-- `hash_table_iterator_remove`: the node returned, the iterator and the table afterwards. -/
def hash_table_iterator_remove {β : Type} (table : hash_table_memory β)
    (iterator : hash_table_memory_iterator) :
    Option Nat × hash_table_memory_iterator × hash_table_memory β :=
  match iterator.previous with
  | none => (none, iterator, table)
  | some previous =>
    match table.load previous with
    | none => (none, { iterator with previous := none }, table)
    | some toRemove =>
      (some toRemove, { iterator with previous := none },
        { table.store previous (table.next toRemove) with
          size := (table.size + 2 ^ 32 - 1) % 2 ^ 32 })

/-! ## linux/ivshmem_linux_plain.c

The file behind the descriptor that `open` returns is given by its length, its bytes and
the file offset of the descriptor; `lseek` and `write` act on it as POSIX describes. The
operating system and the JVM are given by their answers to the calls of one
`createOrOpenFile`. -/

structure plain_file where
  size : Nat
  data : Nat → Nat
  offset : Nat

/-- The file after a successful `lseek(fd, offset, SEEK_SET)`. -/
def plain_file.seek (file : plain_file) (offset : Nat) : plain_file :=
  { file with offset := offset }

/-- The file after a `write` that wrote `bytes` at the file offset: a gap between the old
end of the file and the offset reads as zero bytes. -/
def plain_file.write (file : plain_file) (bytes : List Nat) : plain_file :=
  { size := max file.size (file.offset + bytes.length),
    data := fun k =>
      if file.offset ≤ k ∧ k < file.offset + bytes.length then bytes.getD (k - file.offset) 0
      else if k < file.size then file.data k else 0,
    offset := file.offset + bytes.length }

/-- The answers to the calls of `createOrOpenFile`: whether `malloc`, `GetStringUTFChars` and
`GetLongArrayElements` return memory, the return values of `open`, `fstat`, `lseek` and
`write`, the memory `mmap` returns (`none` for `MAP_FAILED` or NULL), `errno` after each of
them, and the file that is open after `open`. -/
structure plain_os_answers where
  malloc : Bool
  GetStringUTFChars : Bool
  fd : Int
  errno_open : Int
  file : plain_file
  fstat : Int
  errno_fstat : Int
  lseek : Int
  errno_lseek : Int
  write : Int
  errno_write : Int
  mmap : Option (Nat → Nat)
  errno_mmap : Int
  GetLongArrayElements : Bool

/-- `struct mapped_file`. -/
structure mapped_file where
  map : mapped_shared_memory
  fd : Int

/-- What a call of `createOrOpenFile` leaves: its status, the file, the descriptors closed,
the offsets passed to `lseek`, the offsets at which one zero byte was written, the
`struct mapped_file` handed out (`none` if none or freed) and the value stored into
`aResult[1]`. -/
structure create_result where
  status : Nat
  file : plain_file
  closed : List Int
  lseeks : List Int
  writes : List Nat
  mapped : Option mapped_file
  aResult1 : Option Int

/-- `Java_de_aschuetz_ivshmem4j_linux_plain_LinuxSharedMemory_createOrOpenFile`; `aPath` is
the length of the string and `aResult` the length of the array (`none` for NULL). The
result is `none` where the function stores through the NULL that an unchecked
`GetLongArrayElements` returned. -/
def Java_de_aschuetz_ivshmem4j_linux_plain_LinuxSharedMemory_createOrOpenFile (be : Bool)
    (os : plain_os_answers) (aPath : Option Int) (aPreferedSize : Int) (aResult : Option Int) :
    Option create_result :=
  let untouched (status : Nat) (closed : List Int) : Option create_result :=
    some { status := status, file := os.file, closed := closed, lseeks := [], writes := [],
           mapped := none, aResult1 := none }
  if aResult = none ∨ aPreferedSize ≤ 0 ∨ aPath = none ∨ aPath.getD 0 ≤ 0
      ∨ aResult.getD 0 ≠ 2 then
    untouched (combineErrorCode be RES_INVALID_ARGUMENTS 0) []
  else if os.malloc = false then untouched (combineErrorCode be RES_OUT_OF_MEMORY 0) []
  else if os.GetStringUTFChars = false then
    untouched (combineErrorCode be RES_OUT_OF_MEMORY 0) []
  else if os.fd = -1 then untouched (combineErrorCode be RES_OPEN_FAILURE os.errno_open) []
  else if os.fstat = -1 then
    untouched (combineErrorCode be RES_ERROR_SHMEM_FSTAT os.errno_fstat) [os.fd]
  else
    let st_size : Int := toSigned 64 os.file.size
    let preferred := toUnsigned 64 aPreferedSize
    let finish (size : Nat) (file : plain_file) (lseeks : List Int) (writes : List Nat) :
        Option create_result :=
      match os.mmap with
      | none =>
        some { status := combineErrorCode be RES_ERROR_SHMEM_MMAP os.errno_mmap, file := file,
               closed := [os.fd], lseeks := lseeks, writes := writes, mapped := none,
               aResult1 := none }
      | some memory =>
        if os.GetLongArrayElements = false then none
        else
          some { status := combineErrorCode be RES_OK 0, file := file, closed := [],
                 lseeks := lseeks, writes := writes,
                 mapped := some { map := { memory := memory, size := size, closed := false },
                                  fd := os.fd },
                 aResult1 := some (toSigned 64 size) }
    if st_size ≠ 0 then finish (toUnsigned 64 st_size) os.file [] []
    else if preferred > 1 ∧ os.lseek = -1 then
      some { status := combineErrorCode be RES_ERROR os.errno_lseek, file := os.file,
             closed := [os.fd], lseeks := [toSigned 64 (preferred - 1)], writes := [],
             mapped := none, aResult1 := none }
    else
      let sought := if preferred > 1 then os.file.seek (preferred - 1) else os.file
      let lseeks := if preferred > 1 then [toSigned 64 (preferred - 1)] else []
      if os.write ≠ 1 then
        some { status := combineErrorCode be RES_ERROR os.errno_write, file := sought,
               closed := [os.fd], lseeks := lseeks, writes := [], mapped := none,
               aResult1 := none }
      else finish preferred (sought.write [0]) lseeks [sought.offset]

/-! ## windows/ivshmem_windows_pci.c

A `HANDLE` is a number, `none` for `INVALID_HANDLE_VALUE`. Windows and the driver are given
by their answers to the calls of one `mapDevice`. -/

def MAX_SUPPORTED_INTERRUPTS : Nat := 32

/-- `struct ivshmem_driver_memory_map`; `memory` is `none` for NULL. -/
structure ivshmem_driver_memory_map where
  peer : Nat
  size : Nat
  memory : Option (Nat → Nat)
  vector_count : Nat

/-- `struct ivshmem_device`; `nameLength` is the length of `name`. -/
structure ivshmem_device where
  sharedMemorySize : Nat
  name : List Nat

/-- `struct ivshmem_mapped_device`: `interrupts` holds the events of the interrupts set up
so far (all others are `INVALID_HANDLE_VALUE`), `mapped` the fields `mapped.size` and
`mapped.memory`. -/
structure ivshmem_mapped_device where
  mapped : Option mapped_shared_memory
  handle : Option Nat
  map : ivshmem_driver_memory_map
  interrupts : List Nat

/-- The struct after `memset(aMappedDevice, 0, ...)`, the events set to
`INVALID_HANDLE_VALUE` and the handle set to `handle`. -/
def ivshmem_mapped_device.cleared (handle : Option Nat) : ivshmem_mapped_device :=
  { mapped := none, handle := handle,
    map := { peer := 0, size := 0, memory := none, vector_count := 0 }, interrupts := [] }

/-- The answers to the calls of `mapDevice`: the handle `CreateFile` returns, whether the
`REQUEST_MMAP` control succeeds and the map it fills in, for interrupt `i` the event
`CreateEvent` returns and whether the `REGISTER_INTERRUPT_WAIT` control succeeds, and
`GetLastError()` after each failure. -/
structure windows_answers where
  CreateFile : Option Nat
  lastError_CreateFile : Nat
  requestMmap : Bool
  lastError_requestMmap : Nat
  map : ivshmem_driver_memory_map
  CreateEvent : Nat → Option Nat
  lastError_CreateEvent : Nat → Nat
  registerInterrupt : Nat → Bool
  lastError_registerInterrupt : Nat → Nat

/-- The loop of `mapDevice` that registers the interrupts `pending` after the events
`events` have been set up: the status of a failure with the handles closed on it, or the
events of all interrupts. -/
def mapDevice_interrupts (be : Bool) (w : windows_answers) (handle : Nat) :
    List Nat → List Nat → Except (Nat × List Nat) (List Nat)
  | [], events => Except.ok events
  | i :: pending, events =>
    match w.CreateEvent i with
    | none =>
      Except.error (combineErrorCode be RES_INTERRUPT_CREATE_EVENT_FAILURE
        (w.lastError_CreateEvent i), handle :: events)
    | some event =>
      if w.registerInterrupt i = false then
        Except.error (combineErrorCode be RES_INTERRUPT_EVENT_REGISTER_FAILURE
          (w.lastError_registerInterrupt i), handle :: (events ++ [event]))
      else mapDevice_interrupts be w handle pending (events ++ [event])

/-- `mapDevice`: the `uint64_t` returned, `*aMappedDevice` afterwards and the handles
closed. -/
def mapDevice (be : Bool) (w : windows_answers) (aDevice : ivshmem_device) :
    Nat × ivshmem_mapped_device × List Nat :=
  match w.CreateFile with
  | none =>
    (combineErrorCode be RES_OPEN_FAILURE w.lastError_CreateFile,
      ivshmem_mapped_device.cleared none, [])
  | some handle =>
    if w.requestMmap = false then
      (combineErrorCode be RES_ERROR_SHMEM_MMAP w.lastError_requestMmap,
        ivshmem_mapped_device.cleared none, [handle])
    else if w.map.size ≠ aDevice.sharedMemorySize then
      (combineErrorCode be RES_ERROR_MMAP_SIZE_CHANGED 0,
        ivshmem_mapped_device.cleared none, [handle])
    else
      match w.map.memory with
      | none =>
        (combineErrorCode be RES_ERROR_SHMEM_MMAP 0, ivshmem_mapped_device.cleared none,
          [handle])
      | some memory =>
        match mapDevice_interrupts be w handle
            (List.range (min MAX_SUPPORTED_INTERRUPTS w.map.vector_count)) [] with
        | Except.error (status, closed) =>
          (status, ivshmem_mapped_device.cleared (some 0), closed)
        | Except.ok events =>
          (combineErrorCode be RES_OK 0,
            { mapped := some { memory := memory, size := w.map.size, closed := false },
              handle := some handle, map := w.map, interrupts := events }, [])

/-- What `openDevice` leaves: the `jlong` returned and, where it stores into `aHandle`, the
device behind `aHandle[0]` with the values of `aHandle[1]` and `aHandle[2]`. -/
structure open_device_result where
  status : Nat
  aHandle : Option (ivshmem_mapped_device × Nat × Nat)
  closed : List Nat

/-- `Java_de_aschuetz_ivshmem4j_windows_WindowsSharedMemory_openDevice`, given the status
and the device list that its call of `getDevices` produces; `aName` is the byte array
(`none` for NULL, and `GetByteArrayElements` returns its bytes when `pinned`), `aHandle` the
length of the array, `malloc` whether `malloc` returns memory. -/
def Java_de_aschuetz_ivshmem4j_windows_WindowsSharedMemory_openDevice (be : Bool)
    (getDevices : Nat × List ivshmem_device) (pinned malloc : Bool) (w : windows_answers)
    (aName : Option (List Nat)) (aHandle : Option Int) : open_device_result :=
  match aName, aHandle with
  | some name, some length =>
    if length ≠ 3 then
      { status := combineErrorCode be RES_INVALID_ARGUMENTS 0, aHandle := none, closed := [] }
    else if checkErrorCode be getDevices.1 RES_OK = false then
      { status := getDevices.1, aHandle := none, closed := [] }
    else if pinned = false then
      { status := combineErrorCode be RES_OUT_OF_MEMORY 0, aHandle := none, closed := [] }
    else
      match getDevices.2.find? fun device => decide (device.name = name) with
      | none =>
        { status := combineErrorCode be RES_INVALID_DEVICE_PATH 0, aHandle := none,
          closed := [] }
      | some tempFound =>
        if malloc = false then
          { status := combineErrorCode be RES_OUT_OF_MEMORY 0, aHandle := none, closed := [] }
        else
          let tempResult := (mapDevice be w tempFound).1 % 2 ^ 32
          if tempResult = toUnsigned 32 RES_OK then
            { status := combineErrorCode be RES_OK 0,
              aHandle := some ((mapDevice be w tempFound).2.1,
                (mapDevice be w tempFound).2.1.map.peer,
                (mapDevice be w tempFound).2.1.map.vector_count),
              closed := (mapDevice be w tempFound).2.2 }
          else
            { status := tempResult, aHandle := none, closed := (mapDevice be w tempFound).2.2 }
  | _, _ => { status := combineErrorCode be RES_INVALID_ARGUMENTS 0, aHandle := none,
              closed := [] }

/-! ## util/hash_table.c: insertion and lookup on the pointers

`hash_table_add` stores NULL into `node->next` before `insert` looks for the key. Where
the node passed is a node object that is linked in the table, the store cuts the chain
behind it, which chains of node values cannot show; for such a call the functions are
given here on the table with its pointers. A walk along a chain takes at most `fuel`
steps; the result `none` is a walk that has not ended within them. -/

/-- `insert` on the table with its pointers: `base` is the `hash_table_node**`, `node` the
address of the node. -/
def insert_mem {β : Type} (comparator : hash_table_node β → hash_table_node β → Bool)
    (table : hash_table_memory β) :
    Nat → hash_table_node_cell → Nat → Option (Bool × hash_table_memory β)
  | 0, _, _ => none
  | fuel + 1, base, node =>
    match table.load base with
    | some current =>
      if comparator (table.node current) (table.node node) then some (false, table)
      else insert_mem comparator table fuel (hash_table_node_cell.nextOf current) node
    | none => some (true, table.store base (some node))

/-- `hash_table_add` on the table with its pointers, for the node at the address `node`. -/
def hash_table_add_mem {β : Type} (comparator : hash_table_node β → hash_table_node β → Bool)
    (fuel : Nat) (table : hash_table_memory β) (node : Nat) :
    Option (Bool × hash_table_memory β) :=
  if table.hashTableLenght = 0 then some (false, table)
  else
    let cleared := table.store (hash_table_node_cell.nextOf node) none
    match insert_mem comparator cleared fuel
        (hash_table_node_cell.bucket ((cleared.node node).hash % cleared.hashTableLenght))
        node with
    | some (true, inserted) =>
      some (true, { inserted with size := (inserted.size + 1) % 2 ^ 32 })
    | some (false, inserted) => some (false, inserted)
    | none => none

/-- The loop of `hash_table_get` on the table with its pointers, from `tempCurrent` on: the
address of the node found (`some none` is the return value NULL). -/
def hash_table_get_loop_mem {β : Type}
    (comparator : hash_table_node β → hash_table_node β → Bool) (table : hash_table_memory β)
    (node : hash_table_node β) : Nat → Option Nat → Option (Option Nat)
  | 0, _ => none
  | _ + 1, none => some none
  | fuel + 1, some tempCurrent =>
    if comparator (table.node tempCurrent) node then some (some tempCurrent)
    else hash_table_get_loop_mem comparator table node fuel (table.next tempCurrent)

/-- `hash_table_get` on the table with its pointers. -/
def hash_table_get_mem {β : Type} (comparator : hash_table_node β → hash_table_node β → Bool)
    (fuel : Nat) (table : hash_table_memory β) (node : hash_table_node β) :
    Option (Option Nat) :=
  hash_table_get_loop_mem comparator table node fuel
    (table.hashTable.getD (node.hash % table.hashTableLenght) none)

/-! ## Vocabulary of the claims -/

/-- The bounds rule for an access of `n` bytes at offset `o` on a mapping of length `L`:
`status` is MEMORY_OUT_OF_BOUNDS exactly when `o + n > L`, and OK otherwise. -/
def ScalarBoundsRule (be : Bool) (L o n status : Nat) : Prop :=
  (status = combineErrorCode be RES_MEMORY_OUT_OF_BOUNDS 0 ↔ o + n > L) ∧
  (¬ o + n > L → status = combineErrorCode be RES_OK 0)

/-- A mapping of `size` bytes whose memory is all zero. -/
def zeroMapping (size : Nat) : mapped_shared_memory :=
  { memory := fun _ => 0, size := size, closed := false }

/-- A Java array of `length` elements, all zero. -/
def zeroArray (length : Nat) : jarray :=
  { length := length, elems := fun _ => 0 }

/-- A Java array of `length` elements whose element `i` (and the memory behind it) holds
`c + i`. -/
def rampArray (length c : Nat) : jarray :=
  { length := length, elems := fun i => c + i }

/-- A 32-byte argument of the 16-byte compare-and-set: the expected pair is all zero and
the update bytes (indices 16 to 31) hold their own index. -/
def zeroExpectArray : jarray :=
  { length := 32, elems := fun i => if i < 16 then 0 else i }

/-- The 8 payload bytes that the client decodes to `v`, least significant byte first. -/
def packetBytes (v : Nat) : List Nat :=
  (List.range 8).map fun i => v / 256 ^ i % 256

/-- A `recvmsg` that delivers the payload `v` and no control message. -/
def payload (v : Nat) : recvmsg_result :=
  { ret := 8, errno := 0, iov := packetBytes v, control := [] }

/-- A `recvmsg` that delivers the payload `v` together with the descriptor `fd`. -/
def payloadWithFd (v : Nat) (fd : Int) : recvmsg_result :=
  { ret := 8, errno := 0, iov := packetBytes v,
    control := [{ cmsg_len := CMSG_LEN_sizeof_int, cmsg_level := SOL_SOCKET,
                  cmsg_type := SCM_RIGHTS, data := fd }] }

/-- An operating system on which every call succeeds: the socket is descriptor 3, the
shared region has 4096 zero bytes, and the server sends `packets` and then stays silent. -/
def scriptedServer (packets : List recvmsg_result) : os_answers :=
  { socket := 3, socket_errno := 0, setsockopt := 0, setsockopt_errno := 0,
    connect := 0, connect_errno := 0, recvmsg := packets, malloc := [],
    pthread_mutex_init := 0, pthread_mutex_init_errno := 0,
    fstat := 0, fstat_errno := 0, st_size := 4096, mmap := some (fun _ => 0), mmap_errno := 0 }

/-- The device path "/tmp/shmemsock" as bytes. -/
def tmpShmemsock : List Nat :=
  [47, 116, 109, 112, 47, 115, 104, 109, 101, 109, 115, 111, 99, 107]

/-- The descriptor packets of a list of groups: for each group `(p, fds)` one packet with the
value `p` per descriptor of `fds`, in order. -/
def groupPackets : List (Nat × List Int) → List recvmsg_result
  | [] => []
  | g :: rest => g.2.map (payloadWithFd g.1) ++ groupPackets rest

/-- The handshake of `connectIVSHMEM` gets as far as its `while (true)` loop: the device
path fits, the socket calls, the first two `malloc` calls and `pthread_mutex_init` succeed,
and the server opens with the version 0, the self id `s` (at most 0xFFFF) and the all-ones
packet carrying the shared-memory descriptor `shm`; `rest` is what it sends afterwards. -/
def ReachesDrain (os : os_answers) (aDevice : List Nat) (s : Nat) (shm : Int)
    (rest : List recvmsg_result) : Prop :=
  aDevice.length ≤ 108 ∧ os.socket ≠ -1 ∧ ¬ os.setsockopt < 0 ∧ ¬ os.connect < 0 ∧
  mallocOk os.malloc = true ∧ mallocOk os.malloc.tail = true ∧ os.pthread_mutex_init = 0 ∧
  s ≤ 0xffff ∧ os.recvmsg = payload 0 :: payload s :: payloadWithFd MAGIC_NUMBER shm :: rest

/-- The state of the `while (true)` loop of `connectIVSHMEM` before its first pass, after a
handshake opening with the self id `s` and the shared-memory descriptor `shm`. -/
def drainStart (os : os_answers) (s : Nat) (shm : Int) : drain_state :=
  { aConnection :=
      { ivshem_connection.fresh with
        sock_fd := os.socket, peer_id := s % 2 ^ 16, shmem_fd := shm,
        vector_list := some linked_list_init,
        peers := hash_table_init 32 comparePeerStructNode, peers_mutex_init := true },
    tempCurrentPeerID := 2 ^ 64 - 1, tempCurrentList := current_list.null,
    malloc := os.malloc.tail.tail, closed := [] }

/-- The passes of the `while (true)` loop of `connectIVSHMEM` over `msgs`, as long as each
pass ends at the end of the loop body: the loop state after them, `none` when one of the
passes leaves the loop. -/
def connectIVSHMEM_drain_passes (be : Bool) (tempMyPeerID : Nat) :
    List recvmsg_result → drain_state → Option drain_state
  | [], s => some s
  | msg :: rest, s =>
    match connectIVSHMEM_drain_step be tempMyPeerID msg s with
    | drain_step.next s1 => connectIVSHMEM_drain_passes be tempMyPeerID rest s1
    | _ => none

/-- The bucket array of `length` chains that holds `nodes`: each node in the chain of its
hash, the chains in the order of `nodes`. -/
def bucketsOf {β : Type} (length : Nat) (nodes : List (hash_table_node β)) :
    List (List (hash_table_node β)) :=
  (List.range length).map fun i => nodes.filter fun n => n.hash % length = i

/-- The registry `table` holds exactly the peer nodes `nodes`: it compares nodes by peer id,
every node has its peer id (a 16-bit value) as hash and sits in the chain of its hash, and
no two nodes have the same peer id. -/
def HoldsPeers (table : hash_table ivshmem_peer_node)
    (nodes : List (hash_table_node ivshmem_peer_node)) : Prop :=
  0 < table.hashTableLenght ∧
  table.hashTable = some (bucketsOf table.hashTableLenght nodes) ∧
  table.comparator = comparePeerStructNode ∧
  (∀ n ∈ nodes, n.hash = n.entry.peer_id ∧ n.entry.peer_id < 2 ^ 16) ∧
  nodes.Pairwise fun a b => a.entry.peer_id ≠ b.entry.peer_id


/-- The vector list that holds the descriptors `fds`, in order. -/
def vectorList (fds : List Int) : linked_list ivshmem_vector_node :=
  { nodes := fds.map fun fd =>
      { state := linked_list_node_state.ADDED, entry := { vector_fd := fd } },
    size := fds.length }

/-- The registry node of the peer `g.1` while the handshake collects its descriptors `g.2`
in the vector list. -/
def listedPeer (g : Nat × List Int) : hash_table_node ivshmem_peer_node :=
  { hash := g.1,
    entry := { peer_id := g.1, vector_count := 0, deny_new_vectors := false,
               vector_list := some (vectorList g.2), vector_fds := none } }

/-- The registry node of the peer `g.1` with the vector array `g.2`; the 16-bit field
`vector_count` holds the length of the array modulo `2^16`. -/
def arrayPeer (g : Nat × List Int) : hash_table_node ivshmem_peer_node :=
  { hash := g.1,
    entry := { peer_id := g.1, vector_count := g.2.length % 2 ^ 16, deny_new_vectors := false,
               vector_list := none, vector_fds := some g.2 } }

/-- The scripted server of a handshake with two peers: version 0, self id 5, the all-ones
packet with descriptor 9, the descriptors 10 and 11 for peer 3 and the descriptor 12 for
peer 7. -/
def twoPeerServer : os_answers :=
  scriptedServer [payload 0, payload 5, payloadWithFd MAGIC_NUMBER 9, payloadWithFd 3 10,
    payloadWithFd 3 11, payloadWithFd 7 12]


/-- The list `row` after a pass that has replaced its first `j` entries `x` by `c x`. -/
def passedUpTo {α : Type} (c : α → α) (row : List α) (j : Nat) : List α :=
  (row.take j).map c ++ row.drop j

/-- The peer node after the conversion of its vector list into the vector array, when
`malloc` succeeds (the pass of the conversion loop of `connectIVSHMEM` for this node). -/
def convertedPeer (be : Bool) (n : hash_table_node ivshmem_peer_node) :
    hash_table_node ivshmem_peer_node :=
  { n with
    entry := { n.entry with
      vector_list := (convertVectorListToArray be [] n.entry.vector_list).2.1,
      vector_fds := (convertVectorListToArray be [] n.entry.vector_list).2.2.1,
      vector_count := (convertVectorListToArray be [] n.entry.vector_list).2.2.2.1,
      deny_new_vectors := false } }


/-- The state `st` of the drain loop of a handshake with self id `s` on the socket `sock` and
the shared-memory descriptor `shm`, after descriptor packets that have built the peer entries
`P` (peer id and descriptors, in arrival order) and the own descriptors `own`: the registry
holds one listed node per entry of `P`, the own vector list holds `own`, nothing is closed,
and no pending `malloc` fails. -/
def DrainInv (s : Nat) (sock shm : Int) (st : drain_state) (P : List (Nat × List Int))
    (own : List Int) : Prop :=
  HoldsPeers st.aConnection.peers (P.map listedPeer) ∧
  st.aConnection.peers.hashTableLenght = 32 ∧
  st.aConnection.vector_list = some (vectorList own) ∧ st.closed = [] ∧
  (∀ b ∈ st.malloc, b = true) ∧
  st.aConnection.peer_id = s ∧ st.aConnection.sock_fd = sock ∧ st.aConnection.shmem_fd = shm


/-- The bytes of the `uint64_t` value `v` as the host stores them. -/
def nativeBytes (be : Bool) (v : Nat) : List Nat :=
  (List.range 8).map (storeNative be 8 (fun _ => 0) 0 v)

/-- The length the specification gives for a table with `size` entries:
`max(32, ceil(size / 0.75) + 1)`. -/
def claimed_optimal_length (size : Nat) : Nat :=
  max 32 ((4 * size + 2) / 3 + 1)

/-- The peer node `n` after `pollIVSHMEM` has appended the descriptor `fd` to its vectors. -/
def withNewVector (n : hash_table_node ivshmem_peer_node) (fd : Int) :
    hash_table_node ivshmem_peer_node :=
  { n with
    entry := { n.entry with
      vector_fds := some ((n.entry.vector_fds.getD []).take n.entry.vector_count ++ [fd]),
      vector_count := n.entry.vector_count + 1 } }

/-- The node of a peer `p` that has no vectors yet. -/
def newPeer (p : Nat) : hash_table_node ivshmem_peer_node :=
  { hash := p, entry := { ivshmem_peer_node.zero with peer_id := p } }

/-- A peer 3 with 65535 vectors, all of them the descriptor 7. -/
def fullPeer : hash_table_node ivshmem_peer_node :=
  { hash := 3,
    entry := { peer_id := 3, vector_count := 65535, deny_new_vectors := false,
               vector_list := none, vector_fds := some (List.replicate 65535 7) } }

/-- A connection with the own id 5 whose registry holds `fullPeer` and nothing else. -/
def fullPeerConnection : ivshem_connection :=
  { ivshem_connection.fresh with
    peer_id := 5,
    peers := (hash_table_add (hash_table_init 32 comparePeerStructNode) fullPeer).2 }

/-- The connection after successive calls of `pollIVSHMEM`, one per event; an event is what
the `recvmsg` of the call did and the answers of its `malloc` calls. -/
def pollIVSHMEM_events (be : Bool) :
    List (recvmsg_result × List Bool) → ivshem_connection → ivshem_connection
  | [], aConnection => aConnection
  | event :: rest, aConnection =>
    pollIVSHMEM_events be rest (pollIVSHMEM be event.1 event.2 aConnection).aConnection

/-- The connection of the handshake with two peers after a packet with the descriptor 20 for
peer 3 whose `malloc` failed: peer 3 has `deny_new_vectors` set. -/
def deniedConnection : ivshem_connection :=
  (pollIVSHMEM false (payloadWithFd 3 20) [false]
    (connectIVSHMEM false twoPeerServer tmpShmemsock).2.1).aConnection

/-- Peer 3 of `deniedConnection`. -/
def deniedPeer : hash_table_node ivshmem_peer_node :=
  { hash := 3,
    entry := { peer_id := 3, vector_count := 2, deny_new_vectors := true, vector_list := none,
               vector_fds := some [10, 11] } }

/-- Four later events: a new vector for peer 7, a new peer 4, the disconnect of peer 7 and a
new vector for peer 3. -/
def laterEvents : List (recvmsg_result × List Bool) :=
  [(payloadWithFd 7 30, []), (payloadWithFd 4 31, []), (payload 7, []), (payloadWithFd 3 32, [])]

/-- A server script whose handshake gives the client the id 5 and shows it no peer. -/
def aloneServer : os_answers :=
  scriptedServer [payload 0, payload 5, payloadWithFd MAGIC_NUMBER 9]

/-- The events of 25 new peers 100 .. 124, each with one vector. -/
def manyPeers : List (recvmsg_result × List Bool) :=
  (List.range 25).map fun i => (payloadWithFd (100 + i) (200 + (i : Int)), [])

/-- The number of nodes in the chains of a table. -/
def entryCount {β : Type} (table : hash_table β) : Nat :=
  ((List.range table.hashTableLenght).map fun i => (table.bucket i).length).sum

/-- One call on a registry table: `hash_table_add` of a node, or `hash_table_remove` with
the search node of a peer id. -/
inductive table_op where
  | add (node : hash_table_node ivshmem_peer_node)
  | remove (peer_id : Nat)

/-- What such a call returned: the `bool` of `hash_table_add`, or the node pointer of
`hash_table_remove` (`none` for NULL). -/
inductive op_result where
  | added (ok : Bool)
  | removed (node : Option (hash_table_node ivshmem_peer_node))

/-- The nodes the program passes: the hash is the peer id, a `uint16_t`. -/
def table_op.wellFormed : table_op → Prop
  | table_op.add node => node.hash = node.entry.peer_id ∧ node.entry.peer_id < 2 ^ 16
  | table_op.remove peer_id => peer_id < 2 ^ 16

/-- The table after one call and what the call returned. -/
def hash_table_step (table : hash_table ivshmem_peer_node) :
    table_op → hash_table ivshmem_peer_node × op_result
  | table_op.add node =>
    ((hash_table_add table node).2, op_result.added (hash_table_add table node).1)
  | table_op.remove peer_id =>
    ((hash_table_remove table (ivshmem_peer_node_search peer_id peer_id)).2,
      op_result.removed (hash_table_remove table (ivshmem_peer_node_search peer_id peer_id)).1)

/-- The table after a sequence of calls and what the calls returned, in order. -/
def hash_table_ops :
    List table_op → hash_table ivshmem_peer_node → hash_table ivshmem_peer_node × List op_result
  | [], table => (table, [])
  | op :: rest, table =>
    ((hash_table_ops rest (hash_table_step table op).1).1,
      (hash_table_step table op).2 :: (hash_table_ops rest (hash_table_step table op).1).2)

/-- Specification side: a finite map from peer ids to nodes. -/
def finite_map : Type := Nat → Option (hash_table_node ivshmem_peer_node)

/-- Specification side: one call on the finite map. Adding a present key answers false and
changes nothing, adding an absent key answers true and binds the key to the node; removing
a key answers the node bound to it (NULL if none) and unbinds the key. -/
def finite_map_step (m : finite_map) : table_op → finite_map × op_result
  | table_op.add node =>
    if (m node.entry.peer_id).isSome then (m, op_result.added false)
    else (fun k => if k = node.entry.peer_id then some node else m k, op_result.added true)
  | table_op.remove peer_id =>
    (fun k => if k = peer_id then none else m k, op_result.removed (m peer_id))

/-- Specification side: a sequence of calls on the finite map. -/
def finite_map_ops : List table_op → finite_map → finite_map × List op_result
  | [], m => (m, [])
  | op :: rest, m =>
    ((finite_map_ops rest (finite_map_step m op).1).1,
      (finite_map_step m op).2 :: (finite_map_ops rest (finite_map_step m op).1).2)

/-- The number of calls of `hash_table_add` that returned true. -/
def successfulAdds : List op_result → Nat
  | [] => 0
  | op_result.added true :: rest => successfulAdds rest + 1
  | _ :: rest => successfulAdds rest

/-- The number of calls of `hash_table_remove` that returned a node. -/
def successfulRemoves : List op_result → Nat
  | [] => 0
  | op_result.removed (some _) :: rest => successfulRemoves rest + 1
  | _ :: rest => successfulRemoves rest

/-- The table holds the nodes `N` well-formed, counts them in `size`, and looks up what the
finite map `m` binds. -/
def MapOf (table : hash_table ivshmem_peer_node) (N : List (hash_table_node ivshmem_peer_node))
    (m : finite_map) : Prop :=
  HoldsPeers table N ∧ table.size = N.length ∧
    ∀ k, m k = N.find? fun n => n.entry.peer_id == k

/-- The nodes of a table: its chains from bucket 0 to bucket `hashTableLenght - 1`, each in
chain order. -/
def hash_table_nodes {β : Type} (table : hash_table β) : List (hash_table_node β) :=
  ((List.range table.hashTableLenght).map fun i => table.bucket i).flatten

/-- The table `table` holds the nodes `nodes` without duplicate keys: it has at least one
bucket, every node sits in the chain of its hash (the chains in the order of `nodes`), and
the comparator matches no two nodes of the table. -/
def HoldsNodes {β : Type} (table : hash_table β) (nodes : List (hash_table_node β)) : Prop :=
  0 < table.hashTableLenght ∧
  table.hashTable = some (bucketsOf table.hashTableLenght nodes) ∧
  nodes.Pairwise fun x y => table.comparator x y = false ∧ table.comparator y x = false

/-- A table of three nodes with the hashes 2, 3 and 4 in two buckets; the comparator compares
the entries. -/
def threeNodeTable : hash_table Nat :=
  { hashTable := some [[{ hash := 2, entry := 2 }, { hash := 4, entry := 4 }],
                       [{ hash := 3, entry := 3 }]],
    hashTableLenght := 2, size := 3, comparator := fun a b => a.entry == b.entry }

/-- Successive `linked_list_add_last` calls with the nodes `nodes`: the return values in
call order and the list afterwards. -/
def linked_list_add_last_all {β : Type} (list : linked_list β) :
    List (linked_list_node β) → List Bool × linked_list β
  | [] => ([], list)
  | node :: rest =>
    ((linked_list_add_last list node).1
        :: (linked_list_add_last_all (linked_list_add_last list node).2 rest).1,
      (linked_list_add_last_all (linked_list_add_last list node).2 rest).2)

/-- The return values of `calls` successive calls of `linked_list_iterator_next`. -/
def linked_list_iterator_next_calls {β : Type} (list : linked_list β) :
    Nat → linked_list_iterator → List (Option Nat)
  | 0, _ => []
  | calls + 1, iterator =>
    (linked_list_iterator_next list iterator).1
      :: linked_list_iterator_next_calls list calls (linked_list_iterator_next list iterator).2

/-- The return values of `calls` successive calls of `linked_list_iterator_previous`. -/
def linked_list_iterator_previous_calls {β : Type} (list : linked_list β) :
    Nat → linked_list_iterator → List (Option Nat)
  | 0, _ => []
  | calls + 1, iterator =>
    (linked_list_iterator_previous list iterator).1
      :: linked_list_iterator_previous_calls list calls
          (linked_list_iterator_previous list iterator).2

/-- The list with the entries `entries`, built by `linked_list_add_last` of freshly
initialised nodes to an empty list. -/
def listOfEntries (entries : List Nat) : linked_list Nat :=
  (linked_list_add_last_all linked_list_init
    (entries.map fun e => linked_list_node_init
      { state := linked_list_node_state.REMOVED, entry := e })).2

/-- The addresses of the nodes reached from the pointer `p` by following `next`, at most
`fuel` of them. -/
def hash_table_memory.chain {β : Type} (table : hash_table_memory β) :
    Nat → Option Nat → List Nat
  | 0, _ => []
  | _, none => []
  | fuel + 1, some a => a :: hash_table_memory.chain table fuel (table.next a)

/-- The table that the pointers of `table` describe: chain `i` holds the nodes reached from
`hashTable[i]` (chains of at most `fuel` nodes). -/
def hash_table_memory.toTable {β : Type} (table : hash_table_memory β) (fuel : Nat)
    (comparator : hash_table_node β → hash_table_node β → Bool) : hash_table β :=
  { hashTable := some (table.hashTable.map fun p => (table.chain fuel p).map table.node),
    hashTableLenght := table.hashTableLenght, size := table.size, comparator := comparator }

/-- A registry of 32 buckets with the peers 3 and 35 in chain 3: the node of peer 3 at the
address 100, the node of peer 35 at the address 101. -/
def twoInOneChain : hash_table_memory ivshmem_peer_node :=
  { hashTable := (List.replicate 32 none).set 3 (some 100),
    hashTableLenght := 32, size := 2,
    node := fun a => if a = 100 then newPeer 3 else newPeer 35,
    next := fun a => if a = 100 then some 101 else none }

/-- The table `twoInOneChain` after `hash_table_iterator_next`, `hash_table_iterator_remove`,
`hash_table_iterator_next`, `hash_table_iterator_remove` on a fresh iterator: the nodes
returned by the four calls, the iterator and the table afterwards. -/
def twoInOneChainDrained :
    List (Option Nat) × hash_table_memory_iterator × hash_table_memory ivshmem_peer_node :=
  let it0 := hash_table_iterator_init_mem twoInOneChain
  let r1 := hash_table_iterator_next_mem twoInOneChain it0
  let r2 := hash_table_iterator_remove twoInOneChain r1.2
  let r3 := hash_table_iterator_next_mem r2.2.2 r2.2.1
  let r4 := hash_table_iterator_remove r2.2.2 r3.2
  ([r1.1, r2.1, r3.1, r4.1], r4.2.1, r4.2.2)

/-- The frame of a view operation of width `n` at offset `o` that returns `status` and turns
the mapping behind `before` into the one behind `after` (`none` is a NULL pointer): a status
of a kind other than OK leaves every byte as it was; when `o + n ≤ 2^64` no byte outside
`[o, o + n)` changes; whatever `o + n` is, the only bytes outside `[o, o + n)` that can change
are those at an `i` with `i + 2^64` in `[o, o + n)`; the closed flag and the length are
kept. -/
def ViewFrame (be : Bool) (before : Option mapped_shared_memory) (status : Nat)
    (after : Option mapped_shared_memory) (o n : Nat) : Prop :=
  match before, after with
  | some b, some a =>
    (getErrorCode be status ≠ RES_OK → a.memory = b.memory) ∧
    (o + n ≤ 2 ^ 64 → ∀ i, ¬ (o ≤ i ∧ i < o + n) → a.memory i = b.memory i) ∧
    (∀ i, ¬ (o ≤ i ∧ i < o + n) → ¬ (o ≤ i + 2 ^ 64 ∧ i + 2 ^ 64 < o + n) →
      a.memory i = b.memory i) ∧
    a.closed = b.closed ∧ a.size = b.size
  | none, none => True
  | _, _ => False

/-- An empty registry of 32 buckets and, not linked, the node of peer 3 at the address 100
and the node of peer 35 at the address 101. -/
def emptyRegistry : hash_table_memory ivshmem_peer_node :=
  { hashTable := List.replicate 32 none, hashTableLenght := 32, size := 0,
    node := fun a => if a = 100 then newPeer 3 else newPeer 35,
    next := fun _ => none }

/-- Successive `hash_table_add` calls on the table with its pointers, with the nodes at the
addresses `nodes`: the return values in call order and the table afterwards. -/
def hash_table_add_mem_all {β : Type}
    (comparator : hash_table_node β → hash_table_node β → Bool) (fuel : Nat)
    (table : hash_table_memory β) : List Nat → Option (List Bool × hash_table_memory β)
  | [] => some ([], table)
  | node :: rest =>
    match hash_table_add_mem comparator fuel table node with
    | none => none
    | some r =>
      (hash_table_add_mem_all comparator fuel r.2 rest).map fun s => (r.1 :: s.1, s.2)

/-- A server script whose handshake gives the client the id 5 with the vectors 10, 11
and 12. -/
def threeVectorServer : os_answers :=
  scriptedServer [payload 0, payload 5, payloadWithFd MAGIC_NUMBER 9, payloadWithFd 5 10,
    payloadWithFd 5 11, payloadWithFd 5 12]

/-! ## Theorems -/

theorem toUnsigned_lt (w : Nat) (x : Int) : toUnsigned w x < 2 ^ w := by
  unfold toUnsigned
  have hpos : (0 : Int) < (2 : Int) ^ w := by positivity
  have h1 := Int.emod_nonneg x (ne_of_gt hpos)
  have h2 := Int.emod_lt_of_pos x hpos
  have h3 : ((x % (2 : Int) ^ w).toNat : Int) = x % (2 : Int) ^ w := Int.toNat_of_nonneg h1
  have h4 : ((x % (2 : Int) ^ w).toNat : Int) < ((2 ^ w : Nat) : Int) := by
    rw [h3]; push_cast; exact h2
  exact_mod_cast h4

theorem loadLE_congr (n : Nat) (f g : Nat → Nat) (a : Nat)
    (h : ∀ i, a ≤ i → i < a + n → f i = g i) : loadLE n f a = loadLE n g a := by
  induction n generalizing a with
  | zero => rfl
  | succ n ih =>
    simp only [loadLE]
    rw [h a (le_refl a) (by omega), ih (a + 1) (fun i h1 h2 => h i (by omega) (by omega))]

theorem loadBE_congr (n : Nat) (f g : Nat → Nat) (a : Nat)
    (h : ∀ i, a ≤ i → i < a + n → f i = g i) : loadBE n f a = loadBE n g a := by
  induction n generalizing a with
  | zero => rfl
  | succ n ih =>
    simp only [loadBE]
    rw [h a (le_refl a) (by omega), ih (a + 1) (fun i h1 h2 => h i (by omega) (by omega))]

theorem loadNative_congr (be : Bool) (n : Nat) (f g : Nat → Nat) (a : Nat)
    (h : ∀ i, a ≤ i → i < a + n → f i = g i) : loadNative be n f a = loadNative be n g a := by
  unfold loadNative
  split
  · exact loadBE_congr n f g a h
  · exact loadLE_congr n f g a h

theorem loadLE_lt (n : Nat) (f : Nat → Nat) (a : Nat) : loadLE n f a < 256 ^ n := by
  induction n generalizing a with
  | zero => simp [loadLE]
  | succ n ih =>
    simp only [loadLE]
    have h1 := ih (a + 1)
    have h2 : f a % 256 < 256 := Nat.mod_lt _ (by norm_num)
    rw [pow_succ]
    omega

theorem loadBE_lt (n : Nat) (f : Nat → Nat) (a : Nat) : loadBE n f a < 256 ^ n := by
  induction n generalizing a with
  | zero => simp [loadBE]
  | succ n ih =>
    simp only [loadBE]
    have h1 := ih (a + 1)
    have h2 : f a % 256 < 256 := Nat.mod_lt _ (by norm_num)
    have h3 : f a % 256 * 256 ^ n ≤ 255 * 256 ^ n := Nat.mul_le_mul_right _ (by omega)
    rw [pow_succ]
    omega

theorem loadNative_lt (be : Bool) (n : Nat) (f : Nat → Nat) (a : Nat) :
    loadNative be n f a < 256 ^ n := by
  unfold loadNative
  split
  · exact loadBE_lt n f a
  · exact loadLE_lt n f a

theorem loadLE_store (n : Nat) (mem : Nat → Nat) (a v : Nat) :
    loadLE n (fun i => if a ≤ i ∧ i < a + n then v / 256 ^ (i - a) % 256 else mem i) a
      = v % 256 ^ n := by
  induction n generalizing a v with
  | zero => simp [loadLE, Nat.mod_one]
  | succ n ih =>
    simp only [loadLE]
    have h0 : (if a ≤ a ∧ a < a + (n + 1) then v / 256 ^ (a - a) % 256 else mem a) = v % 256 := by
      simp
    rw [h0]
    have hc : loadLE n (fun i => if a ≤ i ∧ i < a + (n + 1) then v / 256 ^ (i - a) % 256 else mem i)
          (a + 1)
        = loadLE n (fun i => if a + 1 ≤ i ∧ i < a + 1 + n then v / 256 / 256 ^ (i - (a + 1)) % 256
            else mem i) (a + 1) := by
      apply loadLE_congr
      intro i h1 h2
      have e : i - a = (i - (a + 1)) + 1 := by omega
      simp only [show a ≤ i ∧ i < a + (n + 1) from ⟨by omega, by omega⟩,
        show a + 1 ≤ i ∧ i < a + 1 + n from ⟨h1, h2⟩, if_true]
      rw [e, pow_succ, Nat.mul_comm, Nat.div_div_eq_div_mul]
    rw [hc, ih (a + 1) (v / 256)]
    rw [Nat.mod_mod, pow_succ, Nat.mul_comm (256 ^ n) 256, Nat.mod_mul]

theorem loadBE_store (n : Nat) (mem : Nat → Nat) (a v : Nat) :
    loadBE n (fun i => if a ≤ i ∧ i < a + n then v / 256 ^ (n - 1 - (i - a)) % 256 else mem i) a
      = v % 256 ^ n := by
  induction n generalizing a with
  | zero => simp [loadBE, Nat.mod_one]
  | succ n ih =>
    simp only [loadBE]
    have h0 : (if a ≤ a ∧ a < a + (n + 1) then v / 256 ^ (n + 1 - 1 - (a - a)) % 256 else mem a)
        = v / 256 ^ n % 256 := by
      simp
    rw [h0]
    have hc : loadBE n (fun i => if a ≤ i ∧ i < a + (n + 1)
            then v / 256 ^ (n + 1 - 1 - (i - a)) % 256 else mem i) (a + 1)
        = loadBE n (fun i => if a + 1 ≤ i ∧ i < a + 1 + n
            then v / 256 ^ (n - 1 - (i - (a + 1))) % 256 else mem i) (a + 1) := by
      apply loadBE_congr
      intro i h1 h2
      have e : n + 1 - 1 - (i - a) = n - 1 - (i - (a + 1)) := by omega
      simp only [show a ≤ i ∧ i < a + (n + 1) from ⟨by omega, by omega⟩,
        show a + 1 ≤ i ∧ i < a + 1 + n from ⟨h1, h2⟩, if_true, e]
    rw [hc, ih (a + 1)]
    rw [Nat.mod_mod, pow_succ, Nat.mod_mul, Nat.add_comm, Nat.mul_comm]

theorem loadNative_storeNative (be : Bool) (n : Nat) (mem : Nat → Nat) (a v : Nat) :
    loadNative be n (storeNative be n mem a v) a = v % 256 ^ n := by
  cases be
  · simp only [loadNative, Bool.false_eq_true, if_false]
    refine (loadLE_congr n _ _ a (fun i h1 h2 => ?_)).trans (loadLE_store n mem a v)
    simp only [storeNative, show a ≤ i ∧ i < a + n from ⟨h1, h2⟩, and_self, if_true,
      Bool.false_eq_true, if_false]
  · simp only [loadNative, if_true]
    refine (loadBE_congr n _ _ a (fun i h1 h2 => ?_)).trans (loadBE_store n mem a v)
    simp only [storeNative, show a ≤ i ∧ i < a + n from ⟨h1, h2⟩, and_self, if_true]

theorem storeNative_frame (be : Bool) (n : Nat) (mem : Nat → Nat) (a v i : Nat)
    (h : ¬ (a ≤ i ∧ i < a + n)) (hw : ¬ (a ≤ i + 2 ^ 64 ∧ i + 2 ^ 64 < a + n)) :
    storeNative be n mem a v i = mem i := by
  simp only [storeNative, h, hw, if_false]

theorem storeNative_frame_of_le (be : Bool) (n : Nat) (mem : Nat → Nat) (a v i : Nat)
    (hb : a + n ≤ 2 ^ 64) (h : ¬ (a ≤ i ∧ i < a + n)) : storeNative be n mem a v i = mem i :=
  storeNative_frame be n mem a v i h (by omega)

theorem loadNative_storeNative_disjoint (be : Bool) (n k : Nat) (mem : Nat → Nat) (a b v : Nat)
    (h : a + n ≤ b ∨ b + k ≤ a) (hw : b + k ≤ a + 2 ^ 64) :
    loadNative be n (storeNative be k mem b v) a = loadNative be n mem a := by
  apply loadNative_congr
  intro i h1 h2
  exact storeNative_frame be k mem b v i (by omega) (by omega)

theorem toSigned32_toUnsigned32 (k : Int) (h1 : -2147483648 ≤ k) (h2 : k < 2147483648) :
    toSigned 32 (toUnsigned 32 k) = k := by
  unfold toSigned toUnsigned
  norm_num
  split_ifs <;> omega

theorem splitSecond_mergedOf (be : Bool) (first second : Int)
    (h1 : -2147483648 ≤ second) (h2 : second < 2147483648) :
    splitSecond be (mergedOf be first second % 2 ^ 64) = second := by
  have hf := toUnsigned_lt 32 first
  have hs := toUnsigned_lt 32 second
  have key := toSigned32_toUnsigned32 second h1 h2
  cases be
  · have e : (toUnsigned 32 second * 2 ^ 32 + toUnsigned 32 first) % 2 ^ 64 / 2 ^ 32 % 2 ^ 32
        = toUnsigned 32 second := by
      norm_num at hf hs ⊢
      omega
    simp only [splitSecond, mergedOf, Bool.false_eq_true, if_false, e, key]
  · have e : (toUnsigned 32 first * 2 ^ 32 + toUnsigned 32 second) % 2 ^ 64 % 2 ^ 32
        = toUnsigned 32 second := by
      norm_num at hf hs ⊢
      omega
    simp only [splitSecond, mergedOf, if_true, e, key]

/-! ### Case lemmas for the functions of shmem_common.c -/

theorem write__JJB_oob (be : Bool) (m : mapped_shared_memory) (aOffset : Int) (aByte : Int)
    (h : m.size ≤ toUnsigned 64 aOffset ∨ m.size ≤ toUnsigned 64 aOffset) :
    Java_de_aschuetz_ivshmem4j_common_CommonSharedMemory_write__JJB be (some m) aOffset aByte
      = (combineErrorCode be RES_MEMORY_OUT_OF_BOUNDS 0, some m) := by
  simp only [Java_de_aschuetz_ivshmem4j_common_CommonSharedMemory_write__JJB, if_pos h]

theorem write__JJB_ok (be : Bool) (m : mapped_shared_memory) (aOffset : Int) (aByte : Int)
    (h : ¬ (m.size ≤ toUnsigned 64 aOffset ∨ m.size ≤ toUnsigned 64 aOffset)) :
    Java_de_aschuetz_ivshmem4j_common_CommonSharedMemory_write__JJB be (some m) aOffset aByte
      = (combineErrorCode be RES_OK 0,
          some { m with memory := storeNative be 1 m.memory (toUnsigned 64 aOffset) (toUnsigned 8 aByte) }) := by
  simp only [Java_de_aschuetz_ivshmem4j_common_CommonSharedMemory_write__JJB, if_neg h]

theorem write__JJS_oob (be : Bool) (m : mapped_shared_memory) (aOffset : Int) (aShort : Int)
    (h : m.size ≤ toUnsigned 64 aOffset ∨ m.size < (toUnsigned 64 aOffset + 2) % 2 ^ 64) :
    Java_de_aschuetz_ivshmem4j_common_CommonSharedMemory_write__JJS be (some m) aOffset aShort
      = (combineErrorCode be RES_MEMORY_OUT_OF_BOUNDS 0, some m) := by
  simp only [Java_de_aschuetz_ivshmem4j_common_CommonSharedMemory_write__JJS, if_pos h]

theorem write__JJS_ok (be : Bool) (m : mapped_shared_memory) (aOffset : Int) (aShort : Int)
    (h : ¬ (m.size ≤ toUnsigned 64 aOffset ∨ m.size < (toUnsigned 64 aOffset + 2) % 2 ^ 64)) :
    Java_de_aschuetz_ivshmem4j_common_CommonSharedMemory_write__JJS be (some m) aOffset aShort
      = (combineErrorCode be RES_OK 0,
          some { m with memory := storeNative be 2 m.memory (toUnsigned 64 aOffset) (toUnsigned 16 aShort) }) := by
  simp only [Java_de_aschuetz_ivshmem4j_common_CommonSharedMemory_write__JJS, if_neg h]

theorem write__JJI_oob (be : Bool) (m : mapped_shared_memory) (aOffset : Int) (aInt : Int)
    (h : m.size ≤ toUnsigned 64 aOffset ∨ m.size < (toUnsigned 64 aOffset + 4) % 2 ^ 64) :
    Java_de_aschuetz_ivshmem4j_common_CommonSharedMemory_write__JJI be (some m) aOffset aInt
      = (combineErrorCode be RES_MEMORY_OUT_OF_BOUNDS 0, some m) := by
  simp only [Java_de_aschuetz_ivshmem4j_common_CommonSharedMemory_write__JJI, if_pos h]

theorem write__JJI_ok (be : Bool) (m : mapped_shared_memory) (aOffset : Int) (aInt : Int)
    (h : ¬ (m.size ≤ toUnsigned 64 aOffset ∨ m.size < (toUnsigned 64 aOffset + 4) % 2 ^ 64)) :
    Java_de_aschuetz_ivshmem4j_common_CommonSharedMemory_write__JJI be (some m) aOffset aInt
      = (combineErrorCode be RES_OK 0,
          some { m with memory := storeNative be 4 m.memory (toUnsigned 64 aOffset) (toUnsigned 32 aInt) }) := by
  simp only [Java_de_aschuetz_ivshmem4j_common_CommonSharedMemory_write__JJI, if_neg h]

theorem write__JJJ_oob (be : Bool) (m : mapped_shared_memory) (aOffset : Int) (aLong : Int)
    (h : m.size ≤ toUnsigned 64 aOffset ∨ m.size < (toUnsigned 64 aOffset + 8) % 2 ^ 64) :
    Java_de_aschuetz_ivshmem4j_common_CommonSharedMemory_write__JJJ be (some m) aOffset aLong
      = (combineErrorCode be RES_MEMORY_OUT_OF_BOUNDS 0, some m) := by
  simp only [Java_de_aschuetz_ivshmem4j_common_CommonSharedMemory_write__JJJ, if_pos h]

theorem write__JJJ_ok (be : Bool) (m : mapped_shared_memory) (aOffset : Int) (aLong : Int)
    (h : ¬ (m.size ≤ toUnsigned 64 aOffset ∨ m.size < (toUnsigned 64 aOffset + 8) % 2 ^ 64)) :
    Java_de_aschuetz_ivshmem4j_common_CommonSharedMemory_write__JJJ be (some m) aOffset aLong
      = (combineErrorCode be RES_OK 0,
          some { m with memory := storeNative be 8 m.memory (toUnsigned 64 aOffset) (toUnsigned 64 aLong) }) := by
  simp only [Java_de_aschuetz_ivshmem4j_common_CommonSharedMemory_write__JJJ, if_neg h]

theorem write__JJF_oob (be : Bool) (m : mapped_shared_memory) (aOffset : Int) (aFloat : Nat)
    (h : m.size ≤ toUnsigned 64 aOffset ∨ m.size < (toUnsigned 64 aOffset + 4) % 2 ^ 64) :
    Java_de_aschuetz_ivshmem4j_common_CommonSharedMemory_write__JJF be (some m) aOffset aFloat
      = (combineErrorCode be RES_MEMORY_OUT_OF_BOUNDS 0, some m) := by
  simp only [Java_de_aschuetz_ivshmem4j_common_CommonSharedMemory_write__JJF, if_pos h]

theorem write__JJF_ok (be : Bool) (m : mapped_shared_memory) (aOffset : Int) (aFloat : Nat)
    (h : ¬ (m.size ≤ toUnsigned 64 aOffset ∨ m.size < (toUnsigned 64 aOffset + 4) % 2 ^ 64)) :
    Java_de_aschuetz_ivshmem4j_common_CommonSharedMemory_write__JJF be (some m) aOffset aFloat
      = (combineErrorCode be RES_OK 0,
          some { m with memory := storeNative be 4 m.memory (toUnsigned 64 aOffset) aFloat }) := by
  simp only [Java_de_aschuetz_ivshmem4j_common_CommonSharedMemory_write__JJF, if_neg h]

theorem write__JJD_oob (be : Bool) (m : mapped_shared_memory) (aOffset : Int) (aDouble : Nat)
    (h : m.size ≤ toUnsigned 64 aOffset ∨ m.size < (toUnsigned 64 aOffset + 8) % 2 ^ 64) :
    Java_de_aschuetz_ivshmem4j_common_CommonSharedMemory_write__JJD be (some m) aOffset aDouble
      = (combineErrorCode be RES_MEMORY_OUT_OF_BOUNDS 0, some m) := by
  simp only [Java_de_aschuetz_ivshmem4j_common_CommonSharedMemory_write__JJD, if_pos h]

theorem write__JJD_ok (be : Bool) (m : mapped_shared_memory) (aOffset : Int) (aDouble : Nat)
    (h : ¬ (m.size ≤ toUnsigned 64 aOffset ∨ m.size < (toUnsigned 64 aOffset + 8) % 2 ^ 64)) :
    Java_de_aschuetz_ivshmem4j_common_CommonSharedMemory_write__JJD be (some m) aOffset aDouble
      = (combineErrorCode be RES_OK 0,
          some { m with memory := storeNative be 8 m.memory (toUnsigned 64 aOffset) aDouble }) := by
  simp only [Java_de_aschuetz_ivshmem4j_common_CommonSharedMemory_write__JJD, if_neg h]

theorem read__JJ_3B_oob (be : Bool) (env : JNIEnv) (m : mapped_shared_memory) (aOffset : Int)
    (a : jarray) (ha : a.length = 1) (h : m.size ≤ toUnsigned 64 aOffset ∨ m.size < (toUnsigned 64 aOffset + 1) % 2 ^ 64) :
    Java_de_aschuetz_ivshmem4j_common_CommonSharedMemory_read__JJ_3B be env (some m) aOffset (some a)
      = (combineErrorCode be RES_MEMORY_OUT_OF_BOUNDS 0, some a) := by
  simp only [Java_de_aschuetz_ivshmem4j_common_CommonSharedMemory_read__JJ_3B, ha, ne_eq, not_true_eq_false, if_false, if_pos h]

theorem read__JJ_3B_ok (be : Bool) (env : JNIEnv) (m : mapped_shared_memory) (aOffset : Int)
    (a : jarray) (hc : env.critical = true) (ha : a.length = 1) (h : ¬ (m.size ≤ toUnsigned 64 aOffset ∨ m.size < (toUnsigned 64 aOffset + 1) % 2 ^ 64)) :
    Java_de_aschuetz_ivshmem4j_common_CommonSharedMemory_read__JJ_3B be env (some m) aOffset (some a)
      = (combineErrorCode be RES_OK 0,
          some (a.setFirst (loadNative be 1 m.memory (toUnsigned 64 aOffset)))) := by
  simp only [Java_de_aschuetz_ivshmem4j_common_CommonSharedMemory_read__JJ_3B, ha, hc, if_neg h]
  simp

theorem read__JJ_3S_oob (be : Bool) (env : JNIEnv) (m : mapped_shared_memory) (aOffset : Int)
    (a : jarray) (ha : a.length = 1) (h : m.size ≤ toUnsigned 64 aOffset ∨ m.size < (toUnsigned 64 aOffset + 2) % 2 ^ 64) :
    Java_de_aschuetz_ivshmem4j_common_CommonSharedMemory_read__JJ_3S be env (some m) aOffset (some a)
      = (combineErrorCode be RES_MEMORY_OUT_OF_BOUNDS 0, some a) := by
  simp only [Java_de_aschuetz_ivshmem4j_common_CommonSharedMemory_read__JJ_3S, ha, ne_eq, not_true_eq_false, if_false, if_pos h]

theorem read__JJ_3S_ok (be : Bool) (env : JNIEnv) (m : mapped_shared_memory) (aOffset : Int)
    (a : jarray) (hc : env.critical = true) (ha : a.length = 1) (h : ¬ (m.size ≤ toUnsigned 64 aOffset ∨ m.size < (toUnsigned 64 aOffset + 2) % 2 ^ 64)) :
    Java_de_aschuetz_ivshmem4j_common_CommonSharedMemory_read__JJ_3S be env (some m) aOffset (some a)
      = (combineErrorCode be RES_OK 0,
          some (a.setFirst (loadNative be 2 m.memory (toUnsigned 64 aOffset)))) := by
  simp only [Java_de_aschuetz_ivshmem4j_common_CommonSharedMemory_read__JJ_3S, ha, hc, if_neg h]
  simp

theorem read__JJ_3I_oob (be : Bool) (env : JNIEnv) (m : mapped_shared_memory) (aOffset : Int)
    (a : jarray) (ha : a.length = 1) (h : m.size ≤ toUnsigned 64 aOffset ∨ m.size < (toUnsigned 64 aOffset + 4) % 2 ^ 64) :
    Java_de_aschuetz_ivshmem4j_common_CommonSharedMemory_read__JJ_3I be env (some m) aOffset (some a)
      = (combineErrorCode be RES_MEMORY_OUT_OF_BOUNDS 0, some a) := by
  simp only [Java_de_aschuetz_ivshmem4j_common_CommonSharedMemory_read__JJ_3I, ha, ne_eq, not_true_eq_false, if_false, if_pos h]

theorem read__JJ_3I_ok (be : Bool) (env : JNIEnv) (m : mapped_shared_memory) (aOffset : Int)
    (a : jarray) (hc : env.critical = true) (ha : a.length = 1) (h : ¬ (m.size ≤ toUnsigned 64 aOffset ∨ m.size < (toUnsigned 64 aOffset + 4) % 2 ^ 64)) :
    Java_de_aschuetz_ivshmem4j_common_CommonSharedMemory_read__JJ_3I be env (some m) aOffset (some a)
      = (combineErrorCode be RES_OK 0,
          some (a.setFirst (loadNative be 4 m.memory (toUnsigned 64 aOffset)))) := by
  simp only [Java_de_aschuetz_ivshmem4j_common_CommonSharedMemory_read__JJ_3I, ha, hc, if_neg h]
  simp

theorem read__JJ_3J_oob (be : Bool) (env : JNIEnv) (m : mapped_shared_memory) (aOffset : Int)
    (a : jarray) (ha : a.length = 1) (h : m.size ≤ toUnsigned 64 aOffset ∨ m.size < (toUnsigned 64 aOffset + 8) % 2 ^ 64) :
    Java_de_aschuetz_ivshmem4j_common_CommonSharedMemory_read__JJ_3J be env (some m) aOffset (some a)
      = (combineErrorCode be RES_MEMORY_OUT_OF_BOUNDS 0, some a) := by
  simp only [Java_de_aschuetz_ivshmem4j_common_CommonSharedMemory_read__JJ_3J, ha, ne_eq, not_true_eq_false, if_false, if_pos h]

theorem read__JJ_3J_ok (be : Bool) (env : JNIEnv) (m : mapped_shared_memory) (aOffset : Int)
    (a : jarray) (hc : env.critical = true) (ha : a.length = 1) (h : ¬ (m.size ≤ toUnsigned 64 aOffset ∨ m.size < (toUnsigned 64 aOffset + 8) % 2 ^ 64)) :
    Java_de_aschuetz_ivshmem4j_common_CommonSharedMemory_read__JJ_3J be env (some m) aOffset (some a)
      = (combineErrorCode be RES_OK 0,
          some (a.setFirst (loadNative be 8 m.memory (toUnsigned 64 aOffset)))) := by
  simp only [Java_de_aschuetz_ivshmem4j_common_CommonSharedMemory_read__JJ_3J, ha, hc, if_neg h]
  simp

theorem read__JJ_3F_oob (be : Bool) (env : JNIEnv) (m : mapped_shared_memory) (aOffset : Int)
    (a : jarray) (ha : a.length = 1) (h : m.size ≤ toUnsigned 64 aOffset ∨ m.size < (toUnsigned 64 aOffset + 4) % 2 ^ 64) :
    Java_de_aschuetz_ivshmem4j_common_CommonSharedMemory_read__JJ_3F be env (some m) aOffset (some a)
      = (combineErrorCode be RES_MEMORY_OUT_OF_BOUNDS 0, some a) := by
  simp only [Java_de_aschuetz_ivshmem4j_common_CommonSharedMemory_read__JJ_3F, ha, ne_eq, not_true_eq_false, if_false, if_pos h]

theorem read__JJ_3F_ok (be : Bool) (env : JNIEnv) (m : mapped_shared_memory) (aOffset : Int)
    (a : jarray) (hc : env.critical = true) (ha : a.length = 1) (h : ¬ (m.size ≤ toUnsigned 64 aOffset ∨ m.size < (toUnsigned 64 aOffset + 4) % 2 ^ 64)) :
    Java_de_aschuetz_ivshmem4j_common_CommonSharedMemory_read__JJ_3F be env (some m) aOffset (some a)
      = (combineErrorCode be RES_OK 0,
          some (a.setFirst (loadNative be 4 m.memory (toUnsigned 64 aOffset)))) := by
  simp only [Java_de_aschuetz_ivshmem4j_common_CommonSharedMemory_read__JJ_3F, ha, hc, if_neg h]
  simp

theorem read__JJ_3D_oob (be : Bool) (env : JNIEnv) (m : mapped_shared_memory) (aOffset : Int)
    (a : jarray) (ha : a.length = 1) (h : m.size ≤ toUnsigned 64 aOffset ∨ m.size < (toUnsigned 64 aOffset + 8) % 2 ^ 64) :
    Java_de_aschuetz_ivshmem4j_common_CommonSharedMemory_read__JJ_3D be env (some m) aOffset (some a)
      = (combineErrorCode be RES_MEMORY_OUT_OF_BOUNDS 0, some a) := by
  simp only [Java_de_aschuetz_ivshmem4j_common_CommonSharedMemory_read__JJ_3D, ha, ne_eq, not_true_eq_false, if_false, if_pos h]

theorem read__JJ_3D_ok (be : Bool) (env : JNIEnv) (m : mapped_shared_memory) (aOffset : Int)
    (a : jarray) (hc : env.critical = true) (ha : a.length = 1) (h : ¬ (m.size ≤ toUnsigned 64 aOffset ∨ m.size < (toUnsigned 64 aOffset + 8) % 2 ^ 64)) :
    Java_de_aschuetz_ivshmem4j_common_CommonSharedMemory_read__JJ_3D be env (some m) aOffset (some a)
      = (combineErrorCode be RES_OK 0,
          some (a.setFirst (loadNative be 8 m.memory (toUnsigned 64 aOffset)))) := by
  simp only [Java_de_aschuetz_ivshmem4j_common_CommonSharedMemory_read__JJ_3D, ha, hc, if_neg h]
  simp

theorem getAndSet__JJ_3B_oob (be : Bool) (env : JNIEnv) (m : mapped_shared_memory) (aOffset : Int)
    (a : jarray) (ha : a.length = 1) (h : m.size ≤ toUnsigned 64 aOffset ∨ m.size < (toUnsigned 64 aOffset + 1) % 2 ^ 64) :
    Java_de_aschuetz_ivshmem4j_common_CommonSharedMemory_getAndSet__JJ_3B be env (some m) aOffset (some a)
      = (combineErrorCode be RES_MEMORY_OUT_OF_BOUNDS 0, some m, some a) := by
  simp only [Java_de_aschuetz_ivshmem4j_common_CommonSharedMemory_getAndSet__JJ_3B, ha, ne_eq, not_true_eq_false, if_false, if_pos h]

theorem getAndSet__JJ_3B_ok (be : Bool) (env : JNIEnv) (m : mapped_shared_memory) (aOffset : Int)
    (a : jarray) (hc : env.critical = true) (ha : a.length = 1) (h : ¬ (m.size ≤ toUnsigned 64 aOffset ∨ m.size < (toUnsigned 64 aOffset + 1) % 2 ^ 64)) :
    Java_de_aschuetz_ivshmem4j_common_CommonSharedMemory_getAndSet__JJ_3B be env (some m) aOffset (some a)
      = (combineErrorCode be RES_OK 0,
          some { m with
            memory := storeNative be 1 m.memory (toUnsigned 64 aOffset)
              (a.elems 0 % 2 ^ 8) },
          some (a.setFirst (loadNative be 1 m.memory (toUnsigned 64 aOffset)))) := by
  simp only [Java_de_aschuetz_ivshmem4j_common_CommonSharedMemory_getAndSet__JJ_3B, ha, hc, if_neg h, xchg1b]
  simp

theorem getAndSet__JJ_3S_oob (be : Bool) (env : JNIEnv) (m : mapped_shared_memory) (aOffset : Int)
    (a : jarray) (ha : a.length = 1) (h : m.size ≤ toUnsigned 64 aOffset ∨ m.size < (toUnsigned 64 aOffset + 2) % 2 ^ 64) :
    Java_de_aschuetz_ivshmem4j_common_CommonSharedMemory_getAndSet__JJ_3S be env (some m) aOffset (some a)
      = (combineErrorCode be RES_MEMORY_OUT_OF_BOUNDS 0, some m, some a) := by
  simp only [Java_de_aschuetz_ivshmem4j_common_CommonSharedMemory_getAndSet__JJ_3S, ha, ne_eq, not_true_eq_false, if_false, if_pos h]

theorem getAndSet__JJ_3S_ok (be : Bool) (env : JNIEnv) (m : mapped_shared_memory) (aOffset : Int)
    (a : jarray) (hc : env.critical = true) (ha : a.length = 1) (h : ¬ (m.size ≤ toUnsigned 64 aOffset ∨ m.size < (toUnsigned 64 aOffset + 2) % 2 ^ 64)) :
    Java_de_aschuetz_ivshmem4j_common_CommonSharedMemory_getAndSet__JJ_3S be env (some m) aOffset (some a)
      = (combineErrorCode be RES_OK 0,
          some { m with
            memory := storeNative be 2 m.memory (toUnsigned 64 aOffset)
              (a.elems 0 % 2 ^ 16) },
          some (a.setFirst (loadNative be 2 m.memory (toUnsigned 64 aOffset)))) := by
  simp only [Java_de_aschuetz_ivshmem4j_common_CommonSharedMemory_getAndSet__JJ_3S, ha, hc, if_neg h, xchg2b]
  simp

theorem getAndSet__JJ_3I_oob (be : Bool) (env : JNIEnv) (m : mapped_shared_memory) (aOffset : Int)
    (a : jarray) (ha : a.length = 1) (h : m.size ≤ toUnsigned 64 aOffset ∨ m.size < (toUnsigned 64 aOffset + 4) % 2 ^ 64) :
    Java_de_aschuetz_ivshmem4j_common_CommonSharedMemory_getAndSet__JJ_3I be env (some m) aOffset (some a)
      = (combineErrorCode be RES_MEMORY_OUT_OF_BOUNDS 0, some m, some a) := by
  simp only [Java_de_aschuetz_ivshmem4j_common_CommonSharedMemory_getAndSet__JJ_3I, ha, ne_eq, not_true_eq_false, if_false, if_pos h]

theorem getAndSet__JJ_3I_ok (be : Bool) (env : JNIEnv) (m : mapped_shared_memory) (aOffset : Int)
    (a : jarray) (hc : env.critical = true) (ha : a.length = 1) (h : ¬ (m.size ≤ toUnsigned 64 aOffset ∨ m.size < (toUnsigned 64 aOffset + 4) % 2 ^ 64)) :
    Java_de_aschuetz_ivshmem4j_common_CommonSharedMemory_getAndSet__JJ_3I be env (some m) aOffset (some a)
      = (combineErrorCode be RES_OK 0,
          some { m with
            memory := storeNative be 4 m.memory (toUnsigned 64 aOffset)
              (a.elems 0 % 2 ^ 32) },
          some (a.setFirst (loadNative be 4 m.memory (toUnsigned 64 aOffset)))) := by
  simp only [Java_de_aschuetz_ivshmem4j_common_CommonSharedMemory_getAndSet__JJ_3I, ha, hc, if_neg h, xchg4b]
  simp

theorem getAndSet__JJ_3J_oob (be : Bool) (env : JNIEnv) (m : mapped_shared_memory) (aOffset : Int)
    (a : jarray) (ha : a.length = 1) (h : m.size ≤ toUnsigned 64 aOffset ∨ m.size < (toUnsigned 64 aOffset + 8) % 2 ^ 64) :
    Java_de_aschuetz_ivshmem4j_common_CommonSharedMemory_getAndSet__JJ_3J be env (some m) aOffset (some a)
      = (combineErrorCode be RES_MEMORY_OUT_OF_BOUNDS 0, some m, some a) := by
  simp only [Java_de_aschuetz_ivshmem4j_common_CommonSharedMemory_getAndSet__JJ_3J, ha, ne_eq, not_true_eq_false, if_false, if_pos h]

theorem getAndSet__JJ_3J_ok (be : Bool) (env : JNIEnv) (m : mapped_shared_memory) (aOffset : Int)
    (a : jarray) (hc : env.critical = true) (ha : a.length = 1) (h : ¬ (m.size ≤ toUnsigned 64 aOffset ∨ m.size < (toUnsigned 64 aOffset + 8) % 2 ^ 64)) :
    Java_de_aschuetz_ivshmem4j_common_CommonSharedMemory_getAndSet__JJ_3J be env (some m) aOffset (some a)
      = (combineErrorCode be RES_OK 0,
          some { m with
            memory := storeNative be 8 m.memory (toUnsigned 64 aOffset)
              (a.elems 0 % 2 ^ 64) },
          some (a.setFirst (loadNative be 8 m.memory (toUnsigned 64 aOffset)))) := by
  simp only [Java_de_aschuetz_ivshmem4j_common_CommonSharedMemory_getAndSet__JJ_3J, ha, hc, if_neg h, xchg8b]
  simp

theorem getAndAdd__JJ_3B_oob (be : Bool) (env : JNIEnv) (m : mapped_shared_memory) (aOffset : Int)
    (a : jarray) (ha : a.length = 1) (h : m.size ≤ toUnsigned 64 aOffset ∨ m.size < (toUnsigned 64 aOffset + 1) % 2 ^ 64) :
    Java_de_aschuetz_ivshmem4j_common_CommonSharedMemory_getAndAdd__JJ_3B be env (some m) aOffset (some a)
      = (combineErrorCode be RES_MEMORY_OUT_OF_BOUNDS 0, some m, some a) := by
  simp only [Java_de_aschuetz_ivshmem4j_common_CommonSharedMemory_getAndAdd__JJ_3B, ha, ne_eq, not_true_eq_false, if_false, if_pos h]

theorem getAndAdd__JJ_3B_ok (be : Bool) (env : JNIEnv) (m : mapped_shared_memory) (aOffset : Int)
    (a : jarray) (hc : env.critical = true) (ha : a.length = 1) (h : ¬ (m.size ≤ toUnsigned 64 aOffset ∨ m.size < (toUnsigned 64 aOffset + 1) % 2 ^ 64)) :
    Java_de_aschuetz_ivshmem4j_common_CommonSharedMemory_getAndAdd__JJ_3B be env (some m) aOffset (some a)
      = (combineErrorCode be RES_OK 0,
          some { m with
            memory := storeNative be 1 m.memory (toUnsigned 64 aOffset)
              ((loadNative be 1 m.memory (toUnsigned 64 aOffset) + a.elems 0 % 2 ^ 8) % 2 ^ 8) },
          some (a.setFirst (loadNative be 1 m.memory (toUnsigned 64 aOffset)))) := by
  simp only [Java_de_aschuetz_ivshmem4j_common_CommonSharedMemory_getAndAdd__JJ_3B, ha, hc, if_neg h, xadd1b]
  simp

theorem getAndAdd__JJ_3S_oob (be : Bool) (env : JNIEnv) (m : mapped_shared_memory) (aOffset : Int)
    (a : jarray) (ha : a.length = 1) (h : m.size ≤ toUnsigned 64 aOffset ∨ m.size < (toUnsigned 64 aOffset + 2) % 2 ^ 64) :
    Java_de_aschuetz_ivshmem4j_common_CommonSharedMemory_getAndAdd__JJ_3S be env (some m) aOffset (some a)
      = (combineErrorCode be RES_MEMORY_OUT_OF_BOUNDS 0, some m, some a) := by
  simp only [Java_de_aschuetz_ivshmem4j_common_CommonSharedMemory_getAndAdd__JJ_3S, ha, ne_eq, not_true_eq_false, if_false, if_pos h]

theorem getAndAdd__JJ_3S_ok (be : Bool) (env : JNIEnv) (m : mapped_shared_memory) (aOffset : Int)
    (a : jarray) (hc : env.critical = true) (ha : a.length = 1) (h : ¬ (m.size ≤ toUnsigned 64 aOffset ∨ m.size < (toUnsigned 64 aOffset + 2) % 2 ^ 64)) :
    Java_de_aschuetz_ivshmem4j_common_CommonSharedMemory_getAndAdd__JJ_3S be env (some m) aOffset (some a)
      = (combineErrorCode be RES_OK 0,
          some { m with
            memory := storeNative be 2 m.memory (toUnsigned 64 aOffset)
              ((loadNative be 2 m.memory (toUnsigned 64 aOffset) + a.elems 0 % 2 ^ 16) % 2 ^ 16) },
          some (a.setFirst (loadNative be 2 m.memory (toUnsigned 64 aOffset)))) := by
  simp only [Java_de_aschuetz_ivshmem4j_common_CommonSharedMemory_getAndAdd__JJ_3S, ha, hc, if_neg h, xadd2b]
  simp

theorem getAndAdd__JJ_3I_oob (be : Bool) (env : JNIEnv) (m : mapped_shared_memory) (aOffset : Int)
    (a : jarray) (ha : a.length = 1) (h : m.size ≤ toUnsigned 64 aOffset ∨ m.size < (toUnsigned 64 aOffset + 4) % 2 ^ 64) :
    Java_de_aschuetz_ivshmem4j_common_CommonSharedMemory_getAndAdd__JJ_3I be env (some m) aOffset (some a)
      = (combineErrorCode be RES_MEMORY_OUT_OF_BOUNDS 0, some m, some a) := by
  simp only [Java_de_aschuetz_ivshmem4j_common_CommonSharedMemory_getAndAdd__JJ_3I, ha, ne_eq, not_true_eq_false, if_false, if_pos h]

theorem getAndAdd__JJ_3I_ok (be : Bool) (env : JNIEnv) (m : mapped_shared_memory) (aOffset : Int)
    (a : jarray) (hc : env.critical = true) (ha : a.length = 1) (h : ¬ (m.size ≤ toUnsigned 64 aOffset ∨ m.size < (toUnsigned 64 aOffset + 4) % 2 ^ 64)) :
    Java_de_aschuetz_ivshmem4j_common_CommonSharedMemory_getAndAdd__JJ_3I be env (some m) aOffset (some a)
      = (combineErrorCode be RES_OK 0,
          some { m with
            memory := storeNative be 4 m.memory (toUnsigned 64 aOffset)
              ((loadNative be 4 m.memory (toUnsigned 64 aOffset) + a.elems 0 % 2 ^ 32) % 2 ^ 32) },
          some (a.setFirst (loadNative be 4 m.memory (toUnsigned 64 aOffset)))) := by
  simp only [Java_de_aschuetz_ivshmem4j_common_CommonSharedMemory_getAndAdd__JJ_3I, ha, hc, if_neg h, xadd4b]
  simp

theorem getAndAdd__JJ_3J_oob (be : Bool) (env : JNIEnv) (m : mapped_shared_memory) (aOffset : Int)
    (a : jarray) (ha : a.length = 1) (h : m.size ≤ toUnsigned 64 aOffset ∨ m.size < (toUnsigned 64 aOffset + 8) % 2 ^ 64) :
    Java_de_aschuetz_ivshmem4j_common_CommonSharedMemory_getAndAdd__JJ_3J be env (some m) aOffset (some a)
      = (combineErrorCode be RES_MEMORY_OUT_OF_BOUNDS 0, some m, some a) := by
  simp only [Java_de_aschuetz_ivshmem4j_common_CommonSharedMemory_getAndAdd__JJ_3J, ha, ne_eq, not_true_eq_false, if_false, if_pos h]

theorem getAndAdd__JJ_3J_ok (be : Bool) (env : JNIEnv) (m : mapped_shared_memory) (aOffset : Int)
    (a : jarray) (hc : env.critical = true) (ha : a.length = 1) (h : ¬ (m.size ≤ toUnsigned 64 aOffset ∨ m.size < (toUnsigned 64 aOffset + 8) % 2 ^ 64)) :
    Java_de_aschuetz_ivshmem4j_common_CommonSharedMemory_getAndAdd__JJ_3J be env (some m) aOffset (some a)
      = (combineErrorCode be RES_OK 0,
          some { m with
            memory := storeNative be 8 m.memory (toUnsigned 64 aOffset)
              ((loadNative be 8 m.memory (toUnsigned 64 aOffset) + a.elems 0 % 2 ^ 64) % 2 ^ 64) },
          some (a.setFirst (loadNative be 8 m.memory (toUnsigned 64 aOffset)))) := by
  simp only [Java_de_aschuetz_ivshmem4j_common_CommonSharedMemory_getAndAdd__JJ_3J, ha, hc, if_neg h, xadd8b]
  simp

theorem compareAndSet__JJBB_oob (be : Bool) (m : mapped_shared_memory)
    (aOffset aExpect aUpdate : Int) (h : m.size ≤ toUnsigned 64 aOffset ∨ m.size < (toUnsigned 64 aOffset + 1) % 2 ^ 64) :
    Java_de_aschuetz_ivshmem4j_common_CommonSharedMemory_compareAndSet__JJBB be (some m) aOffset aExpect aUpdate
      = (combineErrorCode be RES_MEMORY_OUT_OF_BOUNDS 0, some m) := by
  simp only [Java_de_aschuetz_ivshmem4j_common_CommonSharedMemory_compareAndSet__JJBB, if_pos h]

theorem compareAndSet__JJBB_hit (be : Bool) (m : mapped_shared_memory)
    (aOffset aExpect aUpdate : Int) (h : ¬ (m.size ≤ toUnsigned 64 aOffset ∨ m.size < (toUnsigned 64 aOffset + 1) % 2 ^ 64))
    (he : loadNative be 1 m.memory (toUnsigned 64 aOffset) = toUnsigned 8 aExpect) :
    Java_de_aschuetz_ivshmem4j_common_CommonSharedMemory_compareAndSet__JJBB be (some m) aOffset aExpect aUpdate
      = (combineErrorCode be RES_OK 0,
          some { m with
            memory := storeNative be 1 m.memory (toUnsigned 64 aOffset)
              (toUnsigned 8 aUpdate) }) := by
  have hlt := toUnsigned_lt 8 aExpect
  have he2 : loadNative be 1 m.memory (toUnsigned 64 aOffset) = toUnsigned 8 aExpect % 2 ^ 8 := by
    rw [Nat.mod_eq_of_lt hlt]; exact he
  simp only [Java_de_aschuetz_ivshmem4j_common_CommonSharedMemory_compareAndSet__JJBB, if_neg h, cmpxchg1b, if_pos he2, if_true]

theorem compareAndSet__JJBB_miss (be : Bool) (m : mapped_shared_memory)
    (aOffset aExpect aUpdate : Int) (h : ¬ (m.size ≤ toUnsigned 64 aOffset ∨ m.size < (toUnsigned 64 aOffset + 1) % 2 ^ 64))
    (he : loadNative be 1 m.memory (toUnsigned 64 aOffset) ≠ toUnsigned 8 aExpect) :
    Java_de_aschuetz_ivshmem4j_common_CommonSharedMemory_compareAndSet__JJBB be (some m) aOffset aExpect aUpdate
      = (combineErrorCode be RES_CMPXCHG_FAILED 0, some m) := by
  have hlt := toUnsigned_lt 8 aExpect
  have he2 : ¬ loadNative be 1 m.memory (toUnsigned 64 aOffset) = toUnsigned 8 aExpect % 2 ^ 8 := by
    rw [Nat.mod_eq_of_lt hlt]; exact he
  simp only [Java_de_aschuetz_ivshmem4j_common_CommonSharedMemory_compareAndSet__JJBB, if_neg h, cmpxchg1b, if_neg he2]
  simp

theorem compareAndSet__JJSS_oob (be : Bool) (m : mapped_shared_memory)
    (aOffset aExpect aUpdate : Int) (h : m.size ≤ toUnsigned 64 aOffset ∨ m.size < (toUnsigned 64 aOffset + 2) % 2 ^ 64) :
    Java_de_aschuetz_ivshmem4j_common_CommonSharedMemory_compareAndSet__JJSS be (some m) aOffset aExpect aUpdate
      = (combineErrorCode be RES_MEMORY_OUT_OF_BOUNDS 0, some m) := by
  simp only [Java_de_aschuetz_ivshmem4j_common_CommonSharedMemory_compareAndSet__JJSS, if_pos h]

theorem compareAndSet__JJSS_hit (be : Bool) (m : mapped_shared_memory)
    (aOffset aExpect aUpdate : Int) (h : ¬ (m.size ≤ toUnsigned 64 aOffset ∨ m.size < (toUnsigned 64 aOffset + 2) % 2 ^ 64))
    (he : loadNative be 2 m.memory (toUnsigned 64 aOffset) = toUnsigned 16 aExpect) :
    Java_de_aschuetz_ivshmem4j_common_CommonSharedMemory_compareAndSet__JJSS be (some m) aOffset aExpect aUpdate
      = (combineErrorCode be RES_OK 0,
          some { m with
            memory := storeNative be 2 m.memory (toUnsigned 64 aOffset)
              (toUnsigned 16 aUpdate) }) := by
  have hlt := toUnsigned_lt 16 aExpect
  have he2 : loadNative be 2 m.memory (toUnsigned 64 aOffset) = toUnsigned 16 aExpect % 2 ^ 16 := by
    rw [Nat.mod_eq_of_lt hlt]; exact he
  simp only [Java_de_aschuetz_ivshmem4j_common_CommonSharedMemory_compareAndSet__JJSS, if_neg h, cmpxchg2b, if_pos he2, if_true]

theorem compareAndSet__JJSS_miss (be : Bool) (m : mapped_shared_memory)
    (aOffset aExpect aUpdate : Int) (h : ¬ (m.size ≤ toUnsigned 64 aOffset ∨ m.size < (toUnsigned 64 aOffset + 2) % 2 ^ 64))
    (he : loadNative be 2 m.memory (toUnsigned 64 aOffset) ≠ toUnsigned 16 aExpect) :
    Java_de_aschuetz_ivshmem4j_common_CommonSharedMemory_compareAndSet__JJSS be (some m) aOffset aExpect aUpdate
      = (combineErrorCode be RES_CMPXCHG_FAILED 0, some m) := by
  have hlt := toUnsigned_lt 16 aExpect
  have he2 : ¬ loadNative be 2 m.memory (toUnsigned 64 aOffset) = toUnsigned 16 aExpect % 2 ^ 16 := by
    rw [Nat.mod_eq_of_lt hlt]; exact he
  simp only [Java_de_aschuetz_ivshmem4j_common_CommonSharedMemory_compareAndSet__JJSS, if_neg h, cmpxchg2b, if_neg he2]
  simp

theorem compareAndSet__JJII_oob (be : Bool) (m : mapped_shared_memory)
    (aOffset aExpect aUpdate : Int) (h : m.size ≤ toUnsigned 64 aOffset ∨ m.size < (toUnsigned 64 aOffset + 4) % 2 ^ 64) :
    Java_de_aschuetz_ivshmem4j_common_CommonSharedMemory_compareAndSet__JJII be (some m) aOffset aExpect aUpdate
      = (combineErrorCode be RES_MEMORY_OUT_OF_BOUNDS 0, some m) := by
  simp only [Java_de_aschuetz_ivshmem4j_common_CommonSharedMemory_compareAndSet__JJII, if_pos h]

theorem compareAndSet__JJII_hit (be : Bool) (m : mapped_shared_memory)
    (aOffset aExpect aUpdate : Int) (h : ¬ (m.size ≤ toUnsigned 64 aOffset ∨ m.size < (toUnsigned 64 aOffset + 4) % 2 ^ 64))
    (he : loadNative be 4 m.memory (toUnsigned 64 aOffset) = toUnsigned 32 aExpect) :
    Java_de_aschuetz_ivshmem4j_common_CommonSharedMemory_compareAndSet__JJII be (some m) aOffset aExpect aUpdate
      = (combineErrorCode be RES_OK 0,
          some { m with
            memory := storeNative be 4 m.memory (toUnsigned 64 aOffset)
              (toUnsigned 32 aUpdate) }) := by
  have hlt := toUnsigned_lt 32 aExpect
  have he2 : loadNative be 4 m.memory (toUnsigned 64 aOffset) = toUnsigned 32 aExpect % 2 ^ 32 := by
    rw [Nat.mod_eq_of_lt hlt]; exact he
  simp only [Java_de_aschuetz_ivshmem4j_common_CommonSharedMemory_compareAndSet__JJII, if_neg h, cmpxchg4b, if_pos he2, if_true]

theorem compareAndSet__JJII_miss (be : Bool) (m : mapped_shared_memory)
    (aOffset aExpect aUpdate : Int) (h : ¬ (m.size ≤ toUnsigned 64 aOffset ∨ m.size < (toUnsigned 64 aOffset + 4) % 2 ^ 64))
    (he : loadNative be 4 m.memory (toUnsigned 64 aOffset) ≠ toUnsigned 32 aExpect) :
    Java_de_aschuetz_ivshmem4j_common_CommonSharedMemory_compareAndSet__JJII be (some m) aOffset aExpect aUpdate
      = (combineErrorCode be RES_CMPXCHG_FAILED 0, some m) := by
  have hlt := toUnsigned_lt 32 aExpect
  have he2 : ¬ loadNative be 4 m.memory (toUnsigned 64 aOffset) = toUnsigned 32 aExpect % 2 ^ 32 := by
    rw [Nat.mod_eq_of_lt hlt]; exact he
  simp only [Java_de_aschuetz_ivshmem4j_common_CommonSharedMemory_compareAndSet__JJII, if_neg h, cmpxchg4b, if_neg he2]
  simp

theorem compareAndSet__JJJJ_oob (be : Bool) (m : mapped_shared_memory)
    (aOffset aExpect aUpdate : Int) (h : m.size ≤ toUnsigned 64 aOffset ∨ m.size < (toUnsigned 64 aOffset + 8) % 2 ^ 64) :
    Java_de_aschuetz_ivshmem4j_common_CommonSharedMemory_compareAndSet__JJJJ be (some m) aOffset aExpect aUpdate
      = (combineErrorCode be RES_MEMORY_OUT_OF_BOUNDS 0, some m) := by
  simp only [Java_de_aschuetz_ivshmem4j_common_CommonSharedMemory_compareAndSet__JJJJ, if_pos h]

theorem compareAndSet__JJJJ_hit (be : Bool) (m : mapped_shared_memory)
    (aOffset aExpect aUpdate : Int) (h : ¬ (m.size ≤ toUnsigned 64 aOffset ∨ m.size < (toUnsigned 64 aOffset + 8) % 2 ^ 64))
    (he : loadNative be 8 m.memory (toUnsigned 64 aOffset) = toUnsigned 64 aExpect) :
    Java_de_aschuetz_ivshmem4j_common_CommonSharedMemory_compareAndSet__JJJJ be (some m) aOffset aExpect aUpdate
      = (combineErrorCode be RES_OK 0,
          some { m with
            memory := storeNative be 8 m.memory (toUnsigned 64 aOffset)
              (toUnsigned 64 aUpdate) }) := by
  have hlt := toUnsigned_lt 64 aExpect
  have he2 : loadNative be 8 m.memory (toUnsigned 64 aOffset) = toUnsigned 64 aExpect % 2 ^ 64 := by
    rw [Nat.mod_eq_of_lt hlt]; exact he
  simp only [Java_de_aschuetz_ivshmem4j_common_CommonSharedMemory_compareAndSet__JJJJ, if_neg h, cmpxchg8b, if_pos he2, if_true]

theorem compareAndSet__JJJJ_miss (be : Bool) (m : mapped_shared_memory)
    (aOffset aExpect aUpdate : Int) (h : ¬ (m.size ≤ toUnsigned 64 aOffset ∨ m.size < (toUnsigned 64 aOffset + 8) % 2 ^ 64))
    (he : loadNative be 8 m.memory (toUnsigned 64 aOffset) ≠ toUnsigned 64 aExpect) :
    Java_de_aschuetz_ivshmem4j_common_CommonSharedMemory_compareAndSet__JJJJ be (some m) aOffset aExpect aUpdate
      = (combineErrorCode be RES_CMPXCHG_FAILED 0, some m) := by
  have hlt := toUnsigned_lt 64 aExpect
  have he2 : ¬ loadNative be 8 m.memory (toUnsigned 64 aOffset) = toUnsigned 64 aExpect % 2 ^ 64 := by
    rw [Nat.mod_eq_of_lt hlt]; exact he
  simp only [Java_de_aschuetz_ivshmem4j_common_CommonSharedMemory_compareAndSet__JJJJ, if_neg h, cmpxchg8b, if_neg he2]
  simp

theorem compareAndSet__JJ_3B_oob (be : Bool) (env : JNIEnv) (m : mapped_shared_memory)
    (aOffset : Int) (a : jarray) (ha : a.length = 32) (h : m.size ≤ toUnsigned 64 aOffset ∨ m.size < (toUnsigned 64 aOffset + 16) % 2 ^ 64) :
    Java_de_aschuetz_ivshmem4j_common_CommonSharedMemory_compareAndSet__JJ_3B be env (some m) aOffset (some a)
      = some (combineErrorCode be RES_MEMORY_OUT_OF_BOUNDS 0, some m) := by
  simp only [Java_de_aschuetz_ivshmem4j_common_CommonSharedMemory_compareAndSet__JJ_3B, ha, ne_eq, not_true_eq_false, if_false, if_pos h]

theorem memset_oob (be : Bool) (m : mapped_shared_memory) (aOffset aValue aLen : Int)
    (h : m.size ≤ toUnsigned 64 aOffset ∨ m.size < (toUnsigned 64 aOffset + toUnsigned 64 aLen) % 2 ^ 64
      ∨ (toUnsigned 64 aOffset + toUnsigned 64 aLen) % 2 ^ 64 < toUnsigned 64 aOffset) :
    Java_de_aschuetz_ivshmem4j_common_CommonSharedMemory_memset be (some m) aOffset aValue aLen
      = (combineErrorCode be RES_MEMORY_OUT_OF_BOUNDS 0, some m) := by
  simp only [Java_de_aschuetz_ivshmem4j_common_CommonSharedMemory_memset, if_pos h]

theorem write__JJ_3BII_oob (be : Bool) (env : JNIEnv) (m : mapped_shared_memory) (aOffset : Int)
    (b : jarray) (aBufferOffset aLen : Int)
    (hb : ¬ (toUnsigned 32 ((b.length : Int) - (toUnsigned 32 aBufferOffset : Int))
      < toUnsigned 64 aLen))
    (h : m.size ≤ toUnsigned 64 aOffset ∨ m.size < (toUnsigned 64 aOffset + toUnsigned 64 aLen) % 2 ^ 64) :
    Java_de_aschuetz_ivshmem4j_common_CommonSharedMemory_write__JJ_3BII be env (some m) aOffset (some b) aBufferOffset aLen
      = (combineErrorCode be RES_MEMORY_OUT_OF_BOUNDS 0, some m) := by
  simp only [Java_de_aschuetz_ivshmem4j_common_CommonSharedMemory_write__JJ_3BII, if_neg hb, if_pos h]

theorem read__JJ_3BII_oob (be : Bool) (env : JNIEnv) (m : mapped_shared_memory) (aOffset : Int)
    (b : jarray) (aBufferOffset aLen : Int)
    (hb : ¬ (toUnsigned 32 ((b.length : Int) - (toUnsigned 32 aBufferOffset : Int))
      < toUnsigned 64 aLen))
    (h : m.size ≤ toUnsigned 64 aOffset ∨ m.size < (toUnsigned 64 aOffset + toUnsigned 64 aLen) % 2 ^ 64) :
    Java_de_aschuetz_ivshmem4j_common_CommonSharedMemory_read__JJ_3BII be env (some m) aOffset (some b) aBufferOffset aLen
      = (combineErrorCode be RES_MEMORY_OUT_OF_BOUNDS 0, some b) := by
  simp only [Java_de_aschuetz_ivshmem4j_common_CommonSharedMemory_read__JJ_3BII, if_neg hb, if_pos h]

theorem write__JJ_3BII_ok (be : Bool) (env : JNIEnv) (m : mapped_shared_memory) (aOffset : Int)
    (b : jarray) (aBufferOffset aLen : Int) (hc : env.critical = true)
    (hb : ¬ (toUnsigned 32 ((b.length : Int) - (toUnsigned 32 aBufferOffset : Int))
      < toUnsigned 64 aLen))
    (h : ¬ (m.size ≤ toUnsigned 64 aOffset ∨ m.size < (toUnsigned 64 aOffset + toUnsigned 64 aLen) % 2 ^ 64)) :
    Java_de_aschuetz_ivshmem4j_common_CommonSharedMemory_write__JJ_3BII be env (some m) aOffset (some b) aBufferOffset aLen
      = (combineErrorCode be RES_OK 0,
          some { m with
            memory := wrap_memcpy m.memory (toUnsigned 64 aOffset) b.elems
              (toUnsigned 32 aBufferOffset) (toUnsigned 64 aLen) }) := by
  simp only [Java_de_aschuetz_ivshmem4j_common_CommonSharedMemory_write__JJ_3BII, if_neg hb, if_neg h, hc]
  simp

theorem read__JJ_3BII_ok (be : Bool) (env : JNIEnv) (m : mapped_shared_memory) (aOffset : Int)
    (b : jarray) (aBufferOffset aLen : Int) (hc : env.critical = true)
    (hb : ¬ (toUnsigned 32 ((b.length : Int) - (toUnsigned 32 aBufferOffset : Int))
      < toUnsigned 64 aLen))
    (h : ¬ (m.size ≤ toUnsigned 64 aOffset ∨ m.size < (toUnsigned 64 aOffset + toUnsigned 64 aLen) % 2 ^ 64)) :
    Java_de_aschuetz_ivshmem4j_common_CommonSharedMemory_read__JJ_3BII be env (some m) aOffset (some b) aBufferOffset aLen
      = (combineErrorCode be RES_OK 0,
          some { b with
            elems := wrap_memcpy b.elems (toUnsigned 32 aBufferOffset) m.memory
              (toUnsigned 64 aOffset) (toUnsigned 64 aLen) }) := by
  simp only [Java_de_aschuetz_ivshmem4j_common_CommonSharedMemory_read__JJ_3BII, if_neg hb, if_neg h, hc]
  simp

/-! ### The claims -/

/-- C1: for every 32-bit kind `k` and detail `d` (on either byte order),
`getErrorCode (combineErrorCode k d) = k`, and `checkErrorCode (combineErrorCode k d) k'`
holds exactly when `k' = k`. -/
theorem C1_error_code_roundtrip (be : Bool) (k d k' : Int)
    (hk1 : -2147483648 ≤ k) (hk2 : k < 2147483648) :
    getErrorCode be (combineErrorCode be k d) = k ∧
    (checkErrorCode be (combineErrorCode be k d) k' = true ↔ k' = k) := by
  have h := splitSecond_mergedOf be d k hk1 hk2
  refine ⟨h, ?_⟩
  unfold checkErrorCode combineErrorCode
  rw [h]
  simp only [beq_iff_eq]
  exact eq_comm

/-- C1 at kind 32 (MEMORY_OUT_OF_BOUNDS) with detail 11, little-endian host. -/
theorem C1_error_code_roundtrip_witness :
    (-2147483648 ≤ RES_MEMORY_OUT_OF_BOUNDS ∧ RES_MEMORY_OUT_OF_BOUNDS < 2147483648) ∧
    getErrorCode false (combineErrorCode false RES_MEMORY_OUT_OF_BOUNDS 11)
      = RES_MEMORY_OUT_OF_BOUNDS ∧
    (checkErrorCode false (combineErrorCode false RES_MEMORY_OUT_OF_BOUNDS 11) RES_OK = true
      ↔ RES_OK = RES_MEMORY_OUT_OF_BOUNDS) :=
  ⟨by decide, C1_error_code_roundtrip false RES_MEMORY_OUT_OF_BOUNDS 11 RES_OK
    (by decide) (by decide)⟩

/-- C2 on the code: whenever the handshake reaches the third packet (short device path,
socket calls succeeding, version packet 0, self id at most 0xFFFF), and that packet
carries a descriptor but does not decode to `0xFFFFFFFFFFFFFFFF`, `connectIVSHMEM` returns
the value of `checkErrorCode(RES_UNEXPECTED_PACKET, 0)` (1 on a little-endian host, 0 on a
big-endian one), a status whose kind is OK and not UNEXPECTED_PACKET. -/
theorem C2_magic_mismatch_returns_kind_OK (be : Bool) (os : os_answers) (aDevice : List Nat)
    (hdev : aDevice.length ≤ 108) (hsock : os.socket ≠ -1)
    (hopt : ¬ os.setsockopt < 0) (hcon : ¬ os.connect < 0)
    (h1 : checkErrorCode be (readPacket be (os.recvmsg.headD recvmsg_timeout)).1 RES_OK = true)
    (h1v : (readPacket be (os.recvmsg.headD recvmsg_timeout)).2.number be = 0)
    (h2 : checkErrorCode be (readPacket be (os.recvmsg.tail.headD recvmsg_timeout)).1 RES_OK
      = true)
    (h2v : convertEndian be ((readPacket be (os.recvmsg.tail.headD recvmsg_timeout)).2.number be)
      ≤ 0xffff)
    (h3 : checkErrorCode be (readPacket be (os.recvmsg.tail.tail.headD recvmsg_timeout)).1 RES_FD
      = true)
    (h3v : convertEndian be
      ((readPacket be (os.recvmsg.tail.tail.headD recvmsg_timeout)).2.number be) ≠ MAGIC_NUMBER) :
    (connectIVSHMEM be os aDevice).1 = (if be = true then 0 else 1) ∧
    getErrorCode be (connectIVSHMEM be os aDevice).1 = RES_OK ∧
    getErrorCode be (connectIVSHMEM be os aDevice).1 ≠ RES_UNEXPECTED_PACKET := by
  have hmin : ¬ (min aDevice.length 109 > 108) := by omega
  have hv : ¬ (convertEndian be
      ((readPacket be (os.recvmsg.tail.headD recvmsg_timeout)).2.number be) > 0xffff) := by omega
  have e : (connectIVSHMEM be os aDevice).1
      = (if checkErrorCode be (toUnsigned 64 RES_UNEXPECTED_PACKET) 0 = true then 1 else 0) := by
    unfold connectIVSHMEM
    simp only [if_neg hmin, if_neg hsock, if_neg hopt, if_neg hcon, h1, h1v, h2, h3, if_neg hv,
      if_pos h3v, ne_eq, not_true_eq_false, if_false, Bool.true_eq_false]
  rw [e]
  cases be <;> decide

/-- C2 at the failing input: the script version 0, self id 5, then the value 7 with
descriptor 4. The handshake returns 1, whose kind is OK. -/
theorem C2_magic_mismatch_returns_kind_OK_witness :
    (tmpShmemsock.length ≤ 108 ∧
      convertEndian false ((readPacket false (payloadWithFd 7 4)).2.number false) = 7 ∧
      checkErrorCode false (readPacket false (payloadWithFd 7 4)).1 RES_FD = true) ∧
    ((connectIVSHMEM false (scriptedServer [payload 0, payload 5, payloadWithFd 7 4])
        tmpShmemsock).1 = (if false = true then 0 else 1) ∧
      getErrorCode false (connectIVSHMEM false
        (scriptedServer [payload 0, payload 5, payloadWithFd 7 4]) tmpShmemsock).1 = RES_OK ∧
      getErrorCode false (connectIVSHMEM false
        (scriptedServer [payload 0, payload 5, payloadWithFd 7 4]) tmpShmemsock).1
        ≠ RES_UNEXPECTED_PACKET) :=
  ⟨⟨by decide, by decide, by decide⟩,
    C2_magic_mismatch_returns_kind_OK false
      (scriptedServer [payload 0, payload 5, payloadWithFd 7 4]) tmpShmemsock
      (by decide) (by decide) (by decide) (by decide) (by decide) (by decide) (by decide)
      (by decide) (by decide) (by decide)⟩

theorem combineErrorCode_OK_ne_MOOB (be : Bool) :
    combineErrorCode be RES_OK 0 ≠ combineErrorCode be RES_MEMORY_OUT_OF_BOUNDS 0 := by
  cases be <;> decide

theorem scalarBoundsRule_intro (be : Bool) (L o n status : Nat) (hn : 0 < n)
    (hno : o + n < 2 ^ 64)
    (h1 : (L ≤ o ∨ L < (o + n) % 2 ^ 64) →
      status = combineErrorCode be RES_MEMORY_OUT_OF_BOUNDS 0)
    (h2 : ¬ (L ≤ o ∨ L < (o + n) % 2 ^ 64) → status = combineErrorCode be RES_OK 0) :
    ScalarBoundsRule be L o n status := by
  rw [Nat.mod_eq_of_lt hno] at h1 h2
  unfold ScalarBoundsRule
  by_cases c : L ≤ o ∨ L < o + n
  · exact ⟨⟨fun _ => by omega, fun _ => h1 c⟩, fun hle => absurd (show o + n > L by omega) hle⟩
  · refine ⟨⟨fun e => ?_, fun hgt => absurd (show L ≤ o ∨ L < o + n by omega) c⟩,
      fun _ => h2 c⟩
    rw [h2 c] at e
    exact absurd e (combineErrorCode_OK_ne_MOOB be)

/-- C3: every typed scalar write and read (byte, short, int, long, float, double) on a
mapping of length `L`, at an unsigned 64-bit offset `o` with `o + n < 2^64` for its width
`n`, returns MEMORY_OUT_OF_BOUNDS exactly when `o + n > L` and OK otherwise. The reads
are given a one-element result array and a successful array pin. -/
theorem C3_scalar_bounds (be : Bool) (env : JNIEnv) (m : mapped_shared_memory)
    (aOffset v : Int) (f : Nat) (out : jarray)
    (hc : env.critical = true) (hout : out.length = 1) :
    (toUnsigned 64 aOffset + 1 < 2 ^ 64 →
      ScalarBoundsRule be m.size (toUnsigned 64 aOffset) 1
        (Java_de_aschuetz_ivshmem4j_common_CommonSharedMemory_write__JJB be (some m) aOffset v).1 ∧
      ScalarBoundsRule be m.size (toUnsigned 64 aOffset) 1
        (Java_de_aschuetz_ivshmem4j_common_CommonSharedMemory_read__JJ_3B be env (some m) aOffset (some out)).1) ∧
    (toUnsigned 64 aOffset + 2 < 2 ^ 64 →
      ScalarBoundsRule be m.size (toUnsigned 64 aOffset) 2
        (Java_de_aschuetz_ivshmem4j_common_CommonSharedMemory_write__JJS be (some m) aOffset v).1 ∧
      ScalarBoundsRule be m.size (toUnsigned 64 aOffset) 2
        (Java_de_aschuetz_ivshmem4j_common_CommonSharedMemory_read__JJ_3S be env (some m) aOffset (some out)).1) ∧
    (toUnsigned 64 aOffset + 4 < 2 ^ 64 →
      ScalarBoundsRule be m.size (toUnsigned 64 aOffset) 4
        (Java_de_aschuetz_ivshmem4j_common_CommonSharedMemory_write__JJI be (some m) aOffset v).1 ∧
      ScalarBoundsRule be m.size (toUnsigned 64 aOffset) 4
        (Java_de_aschuetz_ivshmem4j_common_CommonSharedMemory_write__JJF be (some m) aOffset f).1 ∧
      ScalarBoundsRule be m.size (toUnsigned 64 aOffset) 4
        (Java_de_aschuetz_ivshmem4j_common_CommonSharedMemory_read__JJ_3I be env (some m) aOffset (some out)).1 ∧
      ScalarBoundsRule be m.size (toUnsigned 64 aOffset) 4
        (Java_de_aschuetz_ivshmem4j_common_CommonSharedMemory_read__JJ_3F be env (some m) aOffset (some out)).1) ∧
    (toUnsigned 64 aOffset + 8 < 2 ^ 64 →
      ScalarBoundsRule be m.size (toUnsigned 64 aOffset) 8
        (Java_de_aschuetz_ivshmem4j_common_CommonSharedMemory_write__JJJ be (some m) aOffset v).1 ∧
      ScalarBoundsRule be m.size (toUnsigned 64 aOffset) 8
        (Java_de_aschuetz_ivshmem4j_common_CommonSharedMemory_write__JJD be (some m) aOffset f).1 ∧
      ScalarBoundsRule be m.size (toUnsigned 64 aOffset) 8
        (Java_de_aschuetz_ivshmem4j_common_CommonSharedMemory_read__JJ_3J be env (some m) aOffset (some out)).1 ∧
      ScalarBoundsRule be m.size (toUnsigned 64 aOffset) 8
        (Java_de_aschuetz_ivshmem4j_common_CommonSharedMemory_read__JJ_3D be env (some m) aOffset (some out)).1) := by
  refine ⟨?_, ?_, ?_, ?_⟩
  · intro h
    exact ⟨scalarBoundsRule_intro be _ _ 1 _ (by norm_num) h
        (fun c => by
          rw [Nat.mod_eq_of_lt h] at c
          rw [write__JJB_oob be m aOffset _ (by omega)])
        (fun c => by
          rw [Nat.mod_eq_of_lt h] at c
          rw [write__JJB_ok be m aOffset _ (by omega)]),
      scalarBoundsRule_intro be _ _ 1 _ (by norm_num) h
        (fun c => by rw [read__JJ_3B_oob be env m aOffset out hout c])
        (fun c => by rw [read__JJ_3B_ok be env m aOffset out hc hout c])⟩
  · intro h
    exact ⟨scalarBoundsRule_intro be _ _ 2 _ (by norm_num) h
        (fun c => by rw [write__JJS_oob be m aOffset _ c])
        (fun c => by rw [write__JJS_ok be m aOffset _ c]),
      scalarBoundsRule_intro be _ _ 2 _ (by norm_num) h
        (fun c => by rw [read__JJ_3S_oob be env m aOffset out hout c])
        (fun c => by rw [read__JJ_3S_ok be env m aOffset out hc hout c])⟩
  · intro h
    exact ⟨scalarBoundsRule_intro be _ _ 4 _ (by norm_num) h
        (fun c => by rw [write__JJI_oob be m aOffset _ c])
        (fun c => by rw [write__JJI_ok be m aOffset _ c]),
      scalarBoundsRule_intro be _ _ 4 _ (by norm_num) h
        (fun c => by rw [write__JJF_oob be m aOffset _ c])
        (fun c => by rw [write__JJF_ok be m aOffset _ c]),
      scalarBoundsRule_intro be _ _ 4 _ (by norm_num) h
        (fun c => by rw [read__JJ_3I_oob be env m aOffset out hout c])
        (fun c => by rw [read__JJ_3I_ok be env m aOffset out hc hout c]),
      scalarBoundsRule_intro be _ _ 4 _ (by norm_num) h
        (fun c => by rw [read__JJ_3F_oob be env m aOffset out hout c])
        (fun c => by rw [read__JJ_3F_ok be env m aOffset out hc hout c])⟩
  · intro h
    exact ⟨scalarBoundsRule_intro be _ _ 8 _ (by norm_num) h
        (fun c => by rw [write__JJJ_oob be m aOffset _ c])
        (fun c => by rw [write__JJJ_ok be m aOffset _ c]),
      scalarBoundsRule_intro be _ _ 8 _ (by norm_num) h
        (fun c => by rw [write__JJD_oob be m aOffset _ c])
        (fun c => by rw [write__JJD_ok be m aOffset _ c]),
      scalarBoundsRule_intro be _ _ 8 _ (by norm_num) h
        (fun c => by rw [read__JJ_3J_oob be env m aOffset out hout c])
        (fun c => by rw [read__JJ_3J_ok be env m aOffset out hc hout c]),
      scalarBoundsRule_intro be _ _ 8 _ (by norm_num) h
        (fun c => by rw [read__JJ_3D_oob be env m aOffset out hout c])
        (fun c => by rw [read__JJ_3D_ok be env m aOffset out hc hout c])⟩

/-- C3 on the mapping of length 16 of the spec's bounds scenario: the 8-byte write at
offset 8 obeys the rule and returns OK, at offsets 9 and 16 it returns
MEMORY_OUT_OF_BOUNDS. -/
theorem C3_scalar_bounds_witness :
    ((⟨true⟩ : JNIEnv).critical = true ∧ (zeroArray 1).length = 1 ∧
      toUnsigned 64 8 + 8 < 2 ^ 64) ∧
    ScalarBoundsRule false (zeroMapping 16).size (toUnsigned 64 8) 8
      (Java_de_aschuetz_ivshmem4j_common_CommonSharedMemory_write__JJJ false (some (zeroMapping 16)) 8 0).1 ∧
    (Java_de_aschuetz_ivshmem4j_common_CommonSharedMemory_write__JJJ false (some (zeroMapping 16)) 8 0).1 = combineErrorCode false RES_OK 0 ∧
    (Java_de_aschuetz_ivshmem4j_common_CommonSharedMemory_write__JJJ false (some (zeroMapping 16)) 9 0).1
      = combineErrorCode false RES_MEMORY_OUT_OF_BOUNDS 0 ∧
    (Java_de_aschuetz_ivshmem4j_common_CommonSharedMemory_write__JJJ false (some (zeroMapping 16)) 16 0).1
      = combineErrorCode false RES_MEMORY_OUT_OF_BOUNDS 0 :=
  ⟨⟨rfl, rfl, by decide⟩,
    ((C3_scalar_bounds false ⟨true⟩ (zeroMapping 16) 8 0 0 (zeroArray 1) rfl rfl).2.2.2
      (by decide)).1,
    by decide, by decide, by decide⟩

theorem toUnsigned_of_nonneg (w : Nat) (x : Int) (h0 : 0 ≤ x) (h1 : x < (2 : Int) ^ w) :
    (toUnsigned w x : Int) = x := by
  unfold toUnsigned
  rw [Int.emod_eq_of_lt h0 h1]
  exact Int.toNat_of_nonneg h0

/-- For a valid slice `[bo, bo + len)` of a Java array (whose length is below `2^31`) the
buffer check of the byte-range functions passes and the casts keep the values. -/
theorem buffer_check_of_valid (b : jarray) (bo len : Int) (h0 : 0 ≤ bo) (h1 : 0 ≤ len)
    (h2 : bo + len ≤ b.length) (h3 : (b.length : Int) < 2 ^ 31) :
    ¬ (toUnsigned 32 ((b.length : Int) - (toUnsigned 32 bo : Int)) < toUnsigned 64 len)
    ∧ (toUnsigned 64 len : Int) = len ∧ (toUnsigned 32 bo : Int) = bo := by
  have e1 : (toUnsigned 32 bo : Int) = bo := toUnsigned_of_nonneg 32 bo h0 (by norm_num; omega)
  have e2 : (toUnsigned 64 len : Int) = len := toUnsigned_of_nonneg 64 len h1 (by norm_num; omega)
  have e3 : (toUnsigned 32 ((b.length : Int) - (toUnsigned 32 bo : Int)) : Int)
      = (b.length : Int) - (toUnsigned 32 bo : Int) :=
    toUnsigned_of_nonneg 32 _ (by omega) (by norm_num; omega)
  refine ⟨?_, e2, e1⟩
  omega

/-- C4 counterexample: on a mapping of length `2^64 - 1` the 8-byte write at offset
`2^64 - 4` (so `o + n = 2^64 + 4` overflows 64 bits) is not rejected: it returns OK and
stores its first byte at offset `2^64 - 4`. -/
theorem C4_overflow_counterexample :
    (zeroMapping (2 ^ 64 - 1)).size < 2 ^ 64 ∧ toUnsigned 64 (-4) + 8 ≥ 2 ^ 64 ∧
    (Java_de_aschuetz_ivshmem4j_common_CommonSharedMemory_write__JJJ false (some (zeroMapping (2 ^ 64 - 1))) (-4) (-1)).1
      = combineErrorCode false RES_OK 0 ∧
    (Java_de_aschuetz_ivshmem4j_common_CommonSharedMemory_write__JJJ false (some (zeroMapping (2 ^ 64 - 1))) (-4) (-1)).1
      ≠ combineErrorCode false RES_MEMORY_OUT_OF_BOUNDS 0 ∧
    ((Java_de_aschuetz_ivshmem4j_common_CommonSharedMemory_write__JJJ false (some (zeroMapping (2 ^ 64 - 1))) (-4) (-1)).2.map
      fun m => m.memory (2 ^ 64 - 4)) = some 255 := by
  refine ⟨by decide, by decide, by decide, by decide, by decide⟩

/-- C4 (amended): for every operation of the shared-memory view, every unsigned 64-bit
offset `o` and access size `n` with `o + n ≥ 2^64`, and every mapping length `L` with
`L + n ≤ 2^64`, the operation returns MEMORY_OUT_OF_BOUNDS and leaves the mapping (and the
caller's array) as it was; memset does so for every mapping length. The byte-range
functions are given a valid slice of the caller's buffer, the scalar reads and the
get-and-set / get-and-add functions a one-element array, the 16-byte compare-and-set a
32-byte array. -/
theorem C4_overflow_rejected (be : Bool) (env : JNIEnv) (m : mapped_shared_memory)
    (aOffset v v2 : Int) (f : Nat) (out data buf : jarray) (aBufferOffset aLen : Int)
    (hout : out.length = 1) (hdata : data.length = 32)
    (hb0 : 0 ≤ aBufferOffset) (hb1 : 0 ≤ aLen) (hb2 : aBufferOffset + aLen ≤ buf.length)
    (hb3 : (buf.length : Int) < 2 ^ 31) :
    (toUnsigned 64 aOffset + 1 ≥ 2 ^ 64 → m.size + 1 ≤ 2 ^ 64 →
      Java_de_aschuetz_ivshmem4j_common_CommonSharedMemory_write__JJB be (some m) aOffset v
        = (combineErrorCode be RES_MEMORY_OUT_OF_BOUNDS 0, some m) ∧
      Java_de_aschuetz_ivshmem4j_common_CommonSharedMemory_read__JJ_3B be env (some m) aOffset (some out)
        = (combineErrorCode be RES_MEMORY_OUT_OF_BOUNDS 0, some out) ∧
      Java_de_aschuetz_ivshmem4j_common_CommonSharedMemory_getAndSet__JJ_3B be env (some m) aOffset (some out)
        = (combineErrorCode be RES_MEMORY_OUT_OF_BOUNDS 0, some m, some out) ∧
      Java_de_aschuetz_ivshmem4j_common_CommonSharedMemory_getAndAdd__JJ_3B be env (some m) aOffset (some out)
        = (combineErrorCode be RES_MEMORY_OUT_OF_BOUNDS 0, some m, some out) ∧
      Java_de_aschuetz_ivshmem4j_common_CommonSharedMemory_compareAndSet__JJBB be (some m) aOffset v v2
        = (combineErrorCode be RES_MEMORY_OUT_OF_BOUNDS 0, some m)) ∧
    (toUnsigned 64 aOffset + 2 ≥ 2 ^ 64 → m.size + 2 ≤ 2 ^ 64 →
      Java_de_aschuetz_ivshmem4j_common_CommonSharedMemory_write__JJS be (some m) aOffset v
        = (combineErrorCode be RES_MEMORY_OUT_OF_BOUNDS 0, some m) ∧
      Java_de_aschuetz_ivshmem4j_common_CommonSharedMemory_read__JJ_3S be env (some m) aOffset (some out)
        = (combineErrorCode be RES_MEMORY_OUT_OF_BOUNDS 0, some out) ∧
      Java_de_aschuetz_ivshmem4j_common_CommonSharedMemory_getAndSet__JJ_3S be env (some m) aOffset (some out)
        = (combineErrorCode be RES_MEMORY_OUT_OF_BOUNDS 0, some m, some out) ∧
      Java_de_aschuetz_ivshmem4j_common_CommonSharedMemory_getAndAdd__JJ_3S be env (some m) aOffset (some out)
        = (combineErrorCode be RES_MEMORY_OUT_OF_BOUNDS 0, some m, some out) ∧
      Java_de_aschuetz_ivshmem4j_common_CommonSharedMemory_compareAndSet__JJSS be (some m) aOffset v v2
        = (combineErrorCode be RES_MEMORY_OUT_OF_BOUNDS 0, some m)) ∧
    (toUnsigned 64 aOffset + 4 ≥ 2 ^ 64 → m.size + 4 ≤ 2 ^ 64 →
      Java_de_aschuetz_ivshmem4j_common_CommonSharedMemory_write__JJI be (some m) aOffset v
        = (combineErrorCode be RES_MEMORY_OUT_OF_BOUNDS 0, some m) ∧
      Java_de_aschuetz_ivshmem4j_common_CommonSharedMemory_write__JJF be (some m) aOffset f
        = (combineErrorCode be RES_MEMORY_OUT_OF_BOUNDS 0, some m) ∧
      Java_de_aschuetz_ivshmem4j_common_CommonSharedMemory_read__JJ_3I be env (some m) aOffset (some out)
        = (combineErrorCode be RES_MEMORY_OUT_OF_BOUNDS 0, some out) ∧
      Java_de_aschuetz_ivshmem4j_common_CommonSharedMemory_read__JJ_3F be env (some m) aOffset (some out)
        = (combineErrorCode be RES_MEMORY_OUT_OF_BOUNDS 0, some out) ∧
      Java_de_aschuetz_ivshmem4j_common_CommonSharedMemory_getAndSet__JJ_3I be env (some m) aOffset (some out)
        = (combineErrorCode be RES_MEMORY_OUT_OF_BOUNDS 0, some m, some out) ∧
      Java_de_aschuetz_ivshmem4j_common_CommonSharedMemory_getAndAdd__JJ_3I be env (some m) aOffset (some out)
        = (combineErrorCode be RES_MEMORY_OUT_OF_BOUNDS 0, some m, some out) ∧
      Java_de_aschuetz_ivshmem4j_common_CommonSharedMemory_compareAndSet__JJII be (some m) aOffset v v2
        = (combineErrorCode be RES_MEMORY_OUT_OF_BOUNDS 0, some m)) ∧
    (toUnsigned 64 aOffset + 8 ≥ 2 ^ 64 → m.size + 8 ≤ 2 ^ 64 →
      Java_de_aschuetz_ivshmem4j_common_CommonSharedMemory_write__JJJ be (some m) aOffset v
        = (combineErrorCode be RES_MEMORY_OUT_OF_BOUNDS 0, some m) ∧
      Java_de_aschuetz_ivshmem4j_common_CommonSharedMemory_write__JJD be (some m) aOffset f
        = (combineErrorCode be RES_MEMORY_OUT_OF_BOUNDS 0, some m) ∧
      Java_de_aschuetz_ivshmem4j_common_CommonSharedMemory_read__JJ_3J be env (some m) aOffset (some out)
        = (combineErrorCode be RES_MEMORY_OUT_OF_BOUNDS 0, some out) ∧
      Java_de_aschuetz_ivshmem4j_common_CommonSharedMemory_read__JJ_3D be env (some m) aOffset (some out)
        = (combineErrorCode be RES_MEMORY_OUT_OF_BOUNDS 0, some out) ∧
      Java_de_aschuetz_ivshmem4j_common_CommonSharedMemory_getAndSet__JJ_3J be env (some m) aOffset (some out)
        = (combineErrorCode be RES_MEMORY_OUT_OF_BOUNDS 0, some m, some out) ∧
      Java_de_aschuetz_ivshmem4j_common_CommonSharedMemory_getAndAdd__JJ_3J be env (some m) aOffset (some out)
        = (combineErrorCode be RES_MEMORY_OUT_OF_BOUNDS 0, some m, some out) ∧
      Java_de_aschuetz_ivshmem4j_common_CommonSharedMemory_compareAndSet__JJJJ be (some m) aOffset v v2
        = (combineErrorCode be RES_MEMORY_OUT_OF_BOUNDS 0, some m)) ∧
    (toUnsigned 64 aOffset + 16 ≥ 2 ^ 64 → m.size + 16 ≤ 2 ^ 64 →
      Java_de_aschuetz_ivshmem4j_common_CommonSharedMemory_compareAndSet__JJ_3B be env (some m) aOffset (some data)
        = some (combineErrorCode be RES_MEMORY_OUT_OF_BOUNDS 0, some m)) ∧
    (toUnsigned 64 aOffset + toUnsigned 64 aLen ≥ 2 ^ 64 → m.size + toUnsigned 64 aLen ≤ 2 ^ 64 →
      Java_de_aschuetz_ivshmem4j_common_CommonSharedMemory_write__JJ_3BII be env (some m) aOffset (some buf) aBufferOffset aLen
        = (combineErrorCode be RES_MEMORY_OUT_OF_BOUNDS 0, some m) ∧
      Java_de_aschuetz_ivshmem4j_common_CommonSharedMemory_read__JJ_3BII be env (some m) aOffset (some buf) aBufferOffset aLen
        = (combineErrorCode be RES_MEMORY_OUT_OF_BOUNDS 0, some buf)) ∧
    (toUnsigned 64 aOffset + toUnsigned 64 aLen ≥ 2 ^ 64 →
      Java_de_aschuetz_ivshmem4j_common_CommonSharedMemory_memset be (some m) aOffset v aLen
        = (combineErrorCode be RES_MEMORY_OUT_OF_BOUNDS 0, some m)) := by
  have ho := toUnsigned_lt 64 aOffset
  have hl := toUnsigned_lt 64 aLen
  have hbuf := (buffer_check_of_valid buf aBufferOffset aLen hb0 hb1 hb2 hb3).1
  refine ⟨?_, ?_, ?_, ?_, ?_, ?_, ?_⟩
  · intro h1 h2
    exact ⟨write__JJB_oob be m aOffset _ (Or.inl (by omega)),
      read__JJ_3B_oob be env m aOffset out hout (Or.inl (by omega)),
      getAndSet__JJ_3B_oob be env m aOffset out hout (Or.inl (by omega)),
      getAndAdd__JJ_3B_oob be env m aOffset out hout (Or.inl (by omega)),
      compareAndSet__JJBB_oob be m aOffset v v2 (Or.inl (by omega))⟩
  · intro h1 h2
    exact ⟨write__JJS_oob be m aOffset _ (Or.inl (by omega)),
      read__JJ_3S_oob be env m aOffset out hout (Or.inl (by omega)),
      getAndSet__JJ_3S_oob be env m aOffset out hout (Or.inl (by omega)),
      getAndAdd__JJ_3S_oob be env m aOffset out hout (Or.inl (by omega)),
      compareAndSet__JJSS_oob be m aOffset v v2 (Or.inl (by omega))⟩
  · intro h1 h2
    exact ⟨write__JJI_oob be m aOffset _ (Or.inl (by omega)),
      write__JJF_oob be m aOffset _ (Or.inl (by omega)),
      read__JJ_3I_oob be env m aOffset out hout (Or.inl (by omega)),
      read__JJ_3F_oob be env m aOffset out hout (Or.inl (by omega)),
      getAndSet__JJ_3I_oob be env m aOffset out hout (Or.inl (by omega)),
      getAndAdd__JJ_3I_oob be env m aOffset out hout (Or.inl (by omega)),
      compareAndSet__JJII_oob be m aOffset v v2 (Or.inl (by omega))⟩
  · intro h1 h2
    exact ⟨write__JJJ_oob be m aOffset _ (Or.inl (by omega)),
      write__JJD_oob be m aOffset _ (Or.inl (by omega)),
      read__JJ_3J_oob be env m aOffset out hout (Or.inl (by omega)),
      read__JJ_3D_oob be env m aOffset out hout (Or.inl (by omega)),
      getAndSet__JJ_3J_oob be env m aOffset out hout (Or.inl (by omega)),
      getAndAdd__JJ_3J_oob be env m aOffset out hout (Or.inl (by omega)),
      compareAndSet__JJJJ_oob be m aOffset v v2 (Or.inl (by omega))⟩
  · intro h1 h2
    exact compareAndSet__JJ_3B_oob be env m aOffset data hdata (Or.inl (by omega))
  · intro h1 h2
    exact ⟨write__JJ_3BII_oob be env m aOffset buf aBufferOffset aLen hbuf (Or.inl (by omega)),
      read__JJ_3BII_oob be env m aOffset buf aBufferOffset aLen hbuf (Or.inl (by omega))⟩
  · intro h1
    refine memset_oob be m aOffset v aLen ?_
    have e : (toUnsigned 64 aOffset + toUnsigned 64 aLen) % 2 ^ 64
        = toUnsigned 64 aOffset + toUnsigned 64 aLen - 2 ^ 64 := by
      rw [Nat.mod_eq_sub_mod h1]
      exact Nat.mod_eq_of_lt (by omega)
    rw [e]
    omega

/-- C4 (amended) on a mapping of length 16 with the 8-byte accesses at offset `2^64 - 1`. -/
theorem C4_overflow_rejected_witness :
    ((zeroArray 1).length = 1 ∧ (zeroArray 32).length = 32 ∧ (0 : Int) ≤ 0 ∧ (0 : Int) ≤ 4 ∧
      (0 : Int) + 4 ≤ (zeroArray 4).length ∧ ((zeroArray 4).length : Int) < 2 ^ 31 ∧
      toUnsigned 64 (-1) + 8 ≥ 2 ^ 64 ∧ (zeroMapping 16).size + 8 ≤ 2 ^ 64) ∧
    Java_de_aschuetz_ivshmem4j_common_CommonSharedMemory_write__JJJ false (some (zeroMapping 16)) (-1) 7
      = (combineErrorCode false RES_MEMORY_OUT_OF_BOUNDS 0, some (zeroMapping 16)) :=
  ⟨⟨rfl, rfl, by decide, by decide, by decide, by decide, by decide, by decide⟩,
    ((C4_overflow_rejected false ⟨true⟩ (zeroMapping 16) (-1) 7 0 0 (zeroArray 1) (zeroArray 32)
      (zeroArray 4) 0 4 rfl rfl (by decide) (by decide) (by decide) (by decide)).2.2.2.1
      (by decide) (by decide)).1⟩

theorem toUnsigned64_of_neg (x : Int) (h0 : x < 0) (h1 : -18446744073709551616 ≤ x) :
    (toUnsigned 64 x : Int) = x + 18446744073709551616 := by
  unfold toUnsigned
  norm_num
  omega

/-- The part of the slice test of the byte-range functions that works: with
`0 ≤ bufferOffset ≤ B`, a negative `len` and a `len` with `bufferOffset + len > B` (both
`jint` values) are rejected with BUFFER_OUT_OF_BOUNDS. -/
theorem bytes_buffer_rejected (be : Bool) (env : JNIEnv) (m : mapped_shared_memory)
    (aOffset : Int) (b : jarray) (bo len : Int)
    (hB : (b.length : Int) < 2 ^ 31) (hbo0 : 0 ≤ bo) (hbo1 : bo ≤ b.length)
    (hlen : -2 ^ 31 ≤ len) (hlen2 : len < 2 ^ 31) (hbad : len < 0 ∨ bo + len > b.length) :
    Java_de_aschuetz_ivshmem4j_common_CommonSharedMemory_write__JJ_3BII be env (some m) aOffset (some b) bo len
      = (combineErrorCode be RES_BUFFER_OUT_OF_BOUNDS 0, some m) ∧
    Java_de_aschuetz_ivshmem4j_common_CommonSharedMemory_read__JJ_3BII be env (some m) aOffset (some b) bo len
      = (combineErrorCode be RES_BUFFER_OUT_OF_BOUNDS 0, some b) := by
  have e1 : (toUnsigned 32 bo : Int) = bo := toUnsigned_of_nonneg 32 bo hbo0 (by norm_num; omega)
  have e3 : (toUnsigned 32 ((b.length : Int) - (toUnsigned 32 bo : Int)) : Int)
      = (b.length : Int) - (toUnsigned 32 bo : Int) :=
    toUnsigned_of_nonneg 32 _ (by omega) (by norm_num; omega)
  have hchk : toUnsigned 32 ((b.length : Int) - (toUnsigned 32 bo : Int)) < toUnsigned 64 len := by
    by_cases hneg : len < 0
    · have e2 := toUnsigned64_of_neg len hneg (by norm_num at hlen ⊢; omega)
      norm_num at hlen
      omega
    · have e2 : (toUnsigned 64 len : Int) = len :=
        toUnsigned_of_nonneg 64 len (by omega) (by norm_num at hlen2 ⊢; omega)
      omega
  constructor
  · simp only [Java_de_aschuetz_ivshmem4j_common_CommonSharedMemory_write__JJ_3BII, if_pos hchk]
  · simp only [Java_de_aschuetz_ivshmem4j_common_CommonSharedMemory_read__JJ_3BII, if_pos hchk]

/-- C5 at the failing input: with a caller buffer of length 4, `bufferOffset = 5` and
`len = 1` (and also `bufferOffset = -1`), on a mapping of length 16 at offset 0, both
write_bytes and read_bytes return OK instead of BUFFER_OUT_OF_BOUNDS; the write copies the
byte behind the array into the mapping and the read stores behind the array. -/
theorem C5_bad_buffer_offset_accepted :
    (Java_de_aschuetz_ivshmem4j_common_CommonSharedMemory_write__JJ_3BII false ⟨true⟩ (some (zeroMapping 16)) 0 (some (rampArray 4 10)) 5 1).1
      = combineErrorCode false RES_OK 0 ∧
    ((Java_de_aschuetz_ivshmem4j_common_CommonSharedMemory_write__JJ_3BII false ⟨true⟩ (some (zeroMapping 16)) 0 (some (rampArray 4 10)) 5 1).2.map
      fun m => m.memory 0) = some 15 ∧
    (Java_de_aschuetz_ivshmem4j_common_CommonSharedMemory_read__JJ_3BII false ⟨true⟩ (some (zeroMapping 16)) 0 (some (rampArray 4 10)) 5 1).1
      = combineErrorCode false RES_OK 0 ∧
    ((Java_de_aschuetz_ivshmem4j_common_CommonSharedMemory_read__JJ_3BII false ⟨true⟩ (some (zeroMapping 16)) 0 (some (rampArray 4 10)) 5 1).2.map
      fun a => (a.length, a.elems 5)) = some (4, 0) ∧
    (Java_de_aschuetz_ivshmem4j_common_CommonSharedMemory_write__JJ_3BII false ⟨true⟩ (some (zeroMapping 16)) 0 (some (rampArray 4 10)) (-1) 1).1
      = combineErrorCode false RES_OK 0 ∧
    (Java_de_aschuetz_ivshmem4j_common_CommonSharedMemory_read__JJ_3BII false ⟨true⟩ (some (zeroMapping 16)) 0 (some (rampArray 4 10)) (-1) 1).1
      = combineErrorCode false RES_OK 0 ∧
    combineErrorCode false RES_OK 0 ≠ combineErrorCode false RES_BUFFER_OUT_OF_BOUNDS 0 := by
  refine ⟨by decide, by decide, by decide, by decide, by decide, by decide, by decide⟩

/-- C6: on every mapping, for an offset `o` and a length `n` with `o + n ≤ length` and
`o < length`, write_bytes of a valid `n`-byte slice of `src` returns OK, and read_bytes of
the same range into a valid `n`-byte slice of `dst` then returns OK, leaves that slice
equal to the bytes written and the rest of `dst` unchanged. -/
theorem C6_bytes_roundtrip (be : Bool) (env : JNIEnv) (m : mapped_shared_memory)
    (aOffset : Int) (src dst : jarray) (s d n : Nat)
    (hc : env.critical = true)
    (hm1 : toUnsigned 64 aOffset + n ≤ m.size) (hm2 : toUnsigned 64 aOffset < m.size)
    (hs : s + n ≤ src.length) (hs3 : src.length < 2 ^ 31)
    (hd : d + n ≤ dst.length) (hd3 : dst.length < 2 ^ 31) :
    ∃ m1 dst1,
      Java_de_aschuetz_ivshmem4j_common_CommonSharedMemory_write__JJ_3BII be env (some m) aOffset (some src) s n
        = (combineErrorCode be RES_OK 0, some m1) ∧
      Java_de_aschuetz_ivshmem4j_common_CommonSharedMemory_read__JJ_3BII be env (some m1) aOffset (some dst) d n
        = (combineErrorCode be RES_OK 0, some dst1) ∧
      dst1.length = dst.length ∧
      (∀ i, i < n → dst1.elems (d + i) = src.elems (s + i) % 256) ∧
      (∀ j, ¬ (d ≤ j ∧ j < d + n) → dst1.elems j = dst.elems j) := by
  obtain ⟨hbs, hns, hss⟩ := buffer_check_of_valid src s n (by omega) (by omega)
    (by exact_mod_cast hs) (by norm_num; omega)
  obtain ⟨hbd, _, hdd⟩ := buffer_check_of_valid dst d n (by omega) (by omega)
    (by exact_mod_cast hd) (by norm_num; omega)
  have en : toUnsigned 64 (n : Int) = n := by exact_mod_cast hns
  have es : toUnsigned 32 (s : Int) = s := by exact_mod_cast hss
  have ed : toUnsigned 32 (d : Int) = d := by exact_mod_cast hdd
  have hin : ¬ (m.size ≤ toUnsigned 64 aOffset ∨ m.size < (toUnsigned 64 aOffset + toUnsigned 64 (n : Int)) % 2 ^ 64) := by
    rw [en]
    have := Nat.mod_le (toUnsigned 64 aOffset + n) (2 ^ 64)
    omega
  refine ⟨_, _, write__JJ_3BII_ok be env m aOffset src s n hc hbs hin,
    read__JJ_3BII_ok be env _ aOffset dst d n hc hbd hin, rfl, ?_, ?_⟩
  · intro i hi
    simp only [wrap_memcpy, en, es, ed]
    rw [if_pos ⟨by omega, by omega⟩, if_pos ⟨by omega, by omega⟩]
    rw [Nat.mod_mod]
    congr 2
    omega
  · intro j hj
    simp only [wrap_memcpy, en, ed]
    rw [if_neg hj, if_neg (by omega)]

/-- C6 on a mapping of length 16: two bytes of a four-byte source (from index 1) written
at offset 4 and read back into a zeroed four-byte destination at index 2. -/
theorem C6_bytes_roundtrip_witness :
    ((⟨true⟩ : JNIEnv).critical = true ∧ toUnsigned 64 4 + 2 ≤ (zeroMapping 16).size ∧
      toUnsigned 64 4 < (zeroMapping 16).size ∧ 1 + 2 ≤ (rampArray 4 10).length ∧
      (rampArray 4 10).length < 2 ^ 31 ∧ 2 + 2 ≤ (zeroArray 4).length ∧
      (zeroArray 4).length < 2 ^ 31) ∧
    ∃ m1 dst1,
      Java_de_aschuetz_ivshmem4j_common_CommonSharedMemory_write__JJ_3BII false ⟨true⟩ (some (zeroMapping 16)) 4 (some (rampArray 4 10))
          ((1 : Nat) : Int) ((2 : Nat) : Int)
        = (combineErrorCode false RES_OK 0, some m1) ∧
      Java_de_aschuetz_ivshmem4j_common_CommonSharedMemory_read__JJ_3BII false ⟨true⟩ (some m1) 4 (some (zeroArray 4))
          ((2 : Nat) : Int) ((2 : Nat) : Int)
        = (combineErrorCode false RES_OK 0, some dst1) ∧
      dst1.length = (zeroArray 4).length ∧
      (∀ i, i < 2 → dst1.elems (2 + i) = (rampArray 4 10).elems (1 + i) % 256) ∧
      (∀ j, ¬ (2 ≤ j ∧ j < 2 + 2) → dst1.elems j = (zeroArray 4).elems j) :=
  ⟨⟨rfl, by decide, by decide, by decide, by decide, by decide, by decide⟩,
    C6_bytes_roundtrip false ⟨true⟩ (zeroMapping 16) 4 (rampArray 4 10) (zeroArray 4) 1 2 2
      rfl (by decide) (by decide) (by decide) (by decide) (by decide) (by decide)⟩

theorem toSigned8_toUnsigned8 (k : Int) (h1 : -128 ≤ k) (h2 : k < 128) :
    toSigned 8 (toUnsigned 8 k) = k := by
  unfold toSigned toUnsigned
  norm_num
  split_ifs <;> omega

theorem toSigned16_toUnsigned16 (k : Int) (h1 : -32768 ≤ k) (h2 : k < 32768) :
    toSigned 16 (toUnsigned 16 k) = k := by
  unfold toSigned toUnsigned
  norm_num
  split_ifs <;> omega

theorem toSigned64_toUnsigned64 (k : Int) (h1 : -9223372036854775808 ≤ k) (h2 : k < 9223372036854775808) :
    toSigned 64 (toUnsigned 64 k) = k := by
  unfold toSigned toUnsigned
  norm_num
  split_ifs <;> omega

theorem in_bounds_check (L o n : Nat) (h : o + n ≤ L) (hn : 0 < n) :
    ¬ (L ≤ o ∨ L < (o + n) % 2 ^ 64) := by
  have := Nat.mod_le (o + n) (2 ^ 64)
  omega

/-- C7: for every width of 8, 16, 32 and 64 bits, every value `v` of that width and
every offset `o` with `o + sizeof(W) ≤ length`, write_W(o, v) returns OK and the read_W(o)
that follows returns OK and delivers `v`; a float or double round-trips as its bit
pattern `f`. -/
theorem C7_scalar_roundtrip (be : Bool) (env : JNIEnv) (m : mapped_shared_memory)
    (aOffset v : Int) (f : Nat) (out : jarray)
    (hc : env.critical = true) (hout : out.length = 1) :
    (toUnsigned 64 aOffset + 1 ≤ m.size → -128 ≤ v → v < 128 →
      ∃ m1 out1,
        Java_de_aschuetz_ivshmem4j_common_CommonSharedMemory_write__JJB be (some m) aOffset v = (combineErrorCode be RES_OK 0, some m1) ∧
        Java_de_aschuetz_ivshmem4j_common_CommonSharedMemory_read__JJ_3B be env (some m1) aOffset (some out) = (combineErrorCode be RES_OK 0, some out1) ∧
        out1.elems 0 = toUnsigned 8 v ∧ toSigned 8 (out1.elems 0) = v) ∧
    (toUnsigned 64 aOffset + 2 ≤ m.size → -32768 ≤ v → v < 32768 →
      ∃ m1 out1,
        Java_de_aschuetz_ivshmem4j_common_CommonSharedMemory_write__JJS be (some m) aOffset v = (combineErrorCode be RES_OK 0, some m1) ∧
        Java_de_aschuetz_ivshmem4j_common_CommonSharedMemory_read__JJ_3S be env (some m1) aOffset (some out) = (combineErrorCode be RES_OK 0, some out1) ∧
        out1.elems 0 = toUnsigned 16 v ∧ toSigned 16 (out1.elems 0) = v) ∧
    (toUnsigned 64 aOffset + 4 ≤ m.size → -2147483648 ≤ v → v < 2147483648 →
      ∃ m1 out1,
        Java_de_aschuetz_ivshmem4j_common_CommonSharedMemory_write__JJI be (some m) aOffset v = (combineErrorCode be RES_OK 0, some m1) ∧
        Java_de_aschuetz_ivshmem4j_common_CommonSharedMemory_read__JJ_3I be env (some m1) aOffset (some out) = (combineErrorCode be RES_OK 0, some out1) ∧
        out1.elems 0 = toUnsigned 32 v ∧ toSigned 32 (out1.elems 0) = v) ∧
    (toUnsigned 64 aOffset + 8 ≤ m.size → -9223372036854775808 ≤ v → v < 9223372036854775808 →
      ∃ m1 out1,
        Java_de_aschuetz_ivshmem4j_common_CommonSharedMemory_write__JJJ be (some m) aOffset v = (combineErrorCode be RES_OK 0, some m1) ∧
        Java_de_aschuetz_ivshmem4j_common_CommonSharedMemory_read__JJ_3J be env (some m1) aOffset (some out) = (combineErrorCode be RES_OK 0, some out1) ∧
        out1.elems 0 = toUnsigned 64 v ∧ toSigned 64 (out1.elems 0) = v) ∧
    (toUnsigned 64 aOffset + 4 ≤ m.size → f < 2 ^ 32 →
      ∃ m1 out1,
        Java_de_aschuetz_ivshmem4j_common_CommonSharedMemory_write__JJF be (some m) aOffset f = (combineErrorCode be RES_OK 0, some m1) ∧
        Java_de_aschuetz_ivshmem4j_common_CommonSharedMemory_read__JJ_3F be env (some m1) aOffset (some out) = (combineErrorCode be RES_OK 0, some out1) ∧
        out1.elems 0 = f) ∧
    (toUnsigned 64 aOffset + 8 ≤ m.size → f < 2 ^ 64 →
      ∃ m1 out1,
        Java_de_aschuetz_ivshmem4j_common_CommonSharedMemory_write__JJD be (some m) aOffset f = (combineErrorCode be RES_OK 0, some m1) ∧
        Java_de_aschuetz_ivshmem4j_common_CommonSharedMemory_read__JJ_3D be env (some m1) aOffset (some out) = (combineErrorCode be RES_OK 0, some out1) ∧
        out1.elems 0 = f) := by
  refine ⟨?_, ?_, ?_, ?_, ?_, ?_⟩
  · intro h hv1 hv2
    have hu := toUnsigned_lt 8 v
    have e : loadNative be 1 (storeNative be 1 m.memory (toUnsigned 64 aOffset) (toUnsigned 8 v))
        (toUnsigned 64 aOffset) = toUnsigned 8 v := by
      rw [loadNative_storeNative]
      exact Nat.mod_eq_of_lt (by norm_num at hu ⊢; exact hu)
    refine ⟨_, _, write__JJB_ok be m aOffset v (by omega),
      read__JJ_3B_ok be env _ aOffset out hc hout (in_bounds_check _ _ _ h (by norm_num)),
      ?_, ?_⟩
    · simp only [jarray.setFirst, if_true, e]
    · simp only [jarray.setFirst, if_true, e]
      exact toSigned8_toUnsigned8 v hv1 hv2
  · intro h hv1 hv2
    have hu := toUnsigned_lt 16 v
    have e : loadNative be 2 (storeNative be 2 m.memory (toUnsigned 64 aOffset) (toUnsigned 16 v))
        (toUnsigned 64 aOffset) = toUnsigned 16 v := by
      rw [loadNative_storeNative]
      exact Nat.mod_eq_of_lt (by norm_num at hu ⊢; exact hu)
    refine ⟨_, _, write__JJS_ok be m aOffset v (in_bounds_check _ _ _ h (by norm_num)),
      read__JJ_3S_ok be env _ aOffset out hc hout (in_bounds_check _ _ _ h (by norm_num)),
      ?_, ?_⟩
    · simp only [jarray.setFirst, if_true, e]
    · simp only [jarray.setFirst, if_true, e]
      exact toSigned16_toUnsigned16 v hv1 hv2
  · intro h hv1 hv2
    have hu := toUnsigned_lt 32 v
    have e : loadNative be 4 (storeNative be 4 m.memory (toUnsigned 64 aOffset) (toUnsigned 32 v))
        (toUnsigned 64 aOffset) = toUnsigned 32 v := by
      rw [loadNative_storeNative]
      exact Nat.mod_eq_of_lt (by norm_num at hu ⊢; exact hu)
    refine ⟨_, _, write__JJI_ok be m aOffset v (in_bounds_check _ _ _ h (by norm_num)),
      read__JJ_3I_ok be env _ aOffset out hc hout (in_bounds_check _ _ _ h (by norm_num)),
      ?_, ?_⟩
    · simp only [jarray.setFirst, if_true, e]
    · simp only [jarray.setFirst, if_true, e]
      exact toSigned32_toUnsigned32 v hv1 hv2
  · intro h hv1 hv2
    have hu := toUnsigned_lt 64 v
    have e : loadNative be 8 (storeNative be 8 m.memory (toUnsigned 64 aOffset) (toUnsigned 64 v))
        (toUnsigned 64 aOffset) = toUnsigned 64 v := by
      rw [loadNative_storeNative]
      exact Nat.mod_eq_of_lt (by norm_num at hu ⊢; exact hu)
    refine ⟨_, _, write__JJJ_ok be m aOffset v (in_bounds_check _ _ _ h (by norm_num)),
      read__JJ_3J_ok be env _ aOffset out hc hout (in_bounds_check _ _ _ h (by norm_num)),
      ?_, ?_⟩
    · simp only [jarray.setFirst, if_true, e]
    · simp only [jarray.setFirst, if_true, e]
      exact toSigned64_toUnsigned64 v hv1 hv2
  · intro h hf
    have e : loadNative be 4 (storeNative be 4 m.memory (toUnsigned 64 aOffset) f) (toUnsigned 64 aOffset) = f := by
      rw [loadNative_storeNative]
      exact Nat.mod_eq_of_lt (by norm_num at hf ⊢; exact hf)
    refine ⟨_, _, write__JJF_ok be m aOffset f (in_bounds_check _ _ _ h (by norm_num)),
      read__JJ_3F_ok be env _ aOffset out hc hout (in_bounds_check _ _ _ h (by norm_num)),
      ?_⟩
    simp only [jarray.setFirst, if_true, e]
  · intro h hf
    have e : loadNative be 8 (storeNative be 8 m.memory (toUnsigned 64 aOffset) f) (toUnsigned 64 aOffset) = f := by
      rw [loadNative_storeNative]
      exact Nat.mod_eq_of_lt (by norm_num at hf ⊢; exact hf)
    refine ⟨_, _, write__JJD_ok be m aOffset f (in_bounds_check _ _ _ h (by norm_num)),
      read__JJ_3D_ok be env _ aOffset out hc hout (in_bounds_check _ _ _ h (by norm_num)),
      ?_⟩
    simp only [jarray.setFirst, if_true, e]

/-- C7 for the 32-bit write of `-559038737` (0xDEADBEEF) at offset 0 of a mapping of
length 4096. -/
theorem C7_scalar_roundtrip_witness :
    ((⟨true⟩ : JNIEnv).critical = true ∧ (zeroArray 1).length = 1 ∧
      toUnsigned 64 0 + 4 ≤ (zeroMapping 4096).size ∧
      (-2147483648 : Int) ≤ -559038737 ∧ (-559038737 : Int) < 2147483648) ∧
    ∃ m1 out1,
      Java_de_aschuetz_ivshmem4j_common_CommonSharedMemory_write__JJI false (some (zeroMapping 4096)) 0 (-559038737)
        = (combineErrorCode false RES_OK 0, some m1) ∧
      Java_de_aschuetz_ivshmem4j_common_CommonSharedMemory_read__JJ_3I false ⟨true⟩ (some m1) 0 (some (zeroArray 1))
        = (combineErrorCode false RES_OK 0, some out1) ∧
      out1.elems 0 = toUnsigned 32 (-559038737) ∧ toSigned 32 (out1.elems 0) = -559038737 :=
  ⟨⟨rfl, rfl, by decide, by decide, by decide⟩,
    (C7_scalar_roundtrip false ⟨true⟩ (zeroMapping 4096) 0 (-559038737) 0 (zeroArray 1)
      rfl rfl).2.2.1 (by decide) (by decide) (by decide)⟩

/-- C8: for every width of 8, 16, 32 and 64 bits and every in-bounds offset `o`,
compare_and_set_W(o, expect, update) returns OK and leaves `update` at `o` when the value at
`o` equalled `expect`, and otherwise returns CMPXCHG_FAILED and leaves the mapping as it
was. -/
theorem C8_compare_and_set (be : Bool) (m : mapped_shared_memory)
    (aOffset aExpect aUpdate : Int) :
    (toUnsigned 64 aOffset + 1 ≤ m.size →
      (loadNative be 1 m.memory (toUnsigned 64 aOffset) = toUnsigned 8 aExpect →
        ∃ m1, Java_de_aschuetz_ivshmem4j_common_CommonSharedMemory_compareAndSet__JJBB be (some m) aOffset aExpect aUpdate = (combineErrorCode be RES_OK 0, some m1) ∧
          loadNative be 1 m1.memory (toUnsigned 64 aOffset) = toUnsigned 8 aUpdate) ∧
      (loadNative be 1 m.memory (toUnsigned 64 aOffset) ≠ toUnsigned 8 aExpect →
        Java_de_aschuetz_ivshmem4j_common_CommonSharedMemory_compareAndSet__JJBB be (some m) aOffset aExpect aUpdate = (combineErrorCode be RES_CMPXCHG_FAILED 0, some m))) ∧
    (toUnsigned 64 aOffset + 2 ≤ m.size →
      (loadNative be 2 m.memory (toUnsigned 64 aOffset) = toUnsigned 16 aExpect →
        ∃ m1, Java_de_aschuetz_ivshmem4j_common_CommonSharedMemory_compareAndSet__JJSS be (some m) aOffset aExpect aUpdate = (combineErrorCode be RES_OK 0, some m1) ∧
          loadNative be 2 m1.memory (toUnsigned 64 aOffset) = toUnsigned 16 aUpdate) ∧
      (loadNative be 2 m.memory (toUnsigned 64 aOffset) ≠ toUnsigned 16 aExpect →
        Java_de_aschuetz_ivshmem4j_common_CommonSharedMemory_compareAndSet__JJSS be (some m) aOffset aExpect aUpdate = (combineErrorCode be RES_CMPXCHG_FAILED 0, some m))) ∧
    (toUnsigned 64 aOffset + 4 ≤ m.size →
      (loadNative be 4 m.memory (toUnsigned 64 aOffset) = toUnsigned 32 aExpect →
        ∃ m1, Java_de_aschuetz_ivshmem4j_common_CommonSharedMemory_compareAndSet__JJII be (some m) aOffset aExpect aUpdate = (combineErrorCode be RES_OK 0, some m1) ∧
          loadNative be 4 m1.memory (toUnsigned 64 aOffset) = toUnsigned 32 aUpdate) ∧
      (loadNative be 4 m.memory (toUnsigned 64 aOffset) ≠ toUnsigned 32 aExpect →
        Java_de_aschuetz_ivshmem4j_common_CommonSharedMemory_compareAndSet__JJII be (some m) aOffset aExpect aUpdate = (combineErrorCode be RES_CMPXCHG_FAILED 0, some m))) ∧
    (toUnsigned 64 aOffset + 8 ≤ m.size →
      (loadNative be 8 m.memory (toUnsigned 64 aOffset) = toUnsigned 64 aExpect →
        ∃ m1, Java_de_aschuetz_ivshmem4j_common_CommonSharedMemory_compareAndSet__JJJJ be (some m) aOffset aExpect aUpdate = (combineErrorCode be RES_OK 0, some m1) ∧
          loadNative be 8 m1.memory (toUnsigned 64 aOffset) = toUnsigned 64 aUpdate) ∧
      (loadNative be 8 m.memory (toUnsigned 64 aOffset) ≠ toUnsigned 64 aExpect →
        Java_de_aschuetz_ivshmem4j_common_CommonSharedMemory_compareAndSet__JJJJ be (some m) aOffset aExpect aUpdate = (combineErrorCode be RES_CMPXCHG_FAILED 0, some m))) := by
  refine ⟨?_, ?_, ?_, ?_⟩
  · intro h
    have hin := in_bounds_check m.size (toUnsigned 64 aOffset) 1 h (by norm_num)
    refine ⟨fun he => ⟨_, compareAndSet__JJBB_hit be m aOffset aExpect aUpdate hin he, ?_⟩,
      fun he => compareAndSet__JJBB_miss be m aOffset aExpect aUpdate hin he⟩
    have hu := toUnsigned_lt 8 aUpdate
    simp only [loadNative_storeNative]
    exact Nat.mod_eq_of_lt (by norm_num at hu ⊢; exact hu)
  · intro h
    have hin := in_bounds_check m.size (toUnsigned 64 aOffset) 2 h (by norm_num)
    refine ⟨fun he => ⟨_, compareAndSet__JJSS_hit be m aOffset aExpect aUpdate hin he, ?_⟩,
      fun he => compareAndSet__JJSS_miss be m aOffset aExpect aUpdate hin he⟩
    have hu := toUnsigned_lt 16 aUpdate
    simp only [loadNative_storeNative]
    exact Nat.mod_eq_of_lt (by norm_num at hu ⊢; exact hu)
  · intro h
    have hin := in_bounds_check m.size (toUnsigned 64 aOffset) 4 h (by norm_num)
    refine ⟨fun he => ⟨_, compareAndSet__JJII_hit be m aOffset aExpect aUpdate hin he, ?_⟩,
      fun he => compareAndSet__JJII_miss be m aOffset aExpect aUpdate hin he⟩
    have hu := toUnsigned_lt 32 aUpdate
    simp only [loadNative_storeNative]
    exact Nat.mod_eq_of_lt (by norm_num at hu ⊢; exact hu)
  · intro h
    have hin := in_bounds_check m.size (toUnsigned 64 aOffset) 8 h (by norm_num)
    refine ⟨fun he => ⟨_, compareAndSet__JJJJ_hit be m aOffset aExpect aUpdate hin he, ?_⟩,
      fun he => compareAndSet__JJJJ_miss be m aOffset aExpect aUpdate hin he⟩
    have hu := toUnsigned_lt 64 aUpdate
    simp only [loadNative_storeNative]
    exact Nat.mod_eq_of_lt (by norm_num at hu ⊢; exact hu)

/-- C8 on zeroed memory of length 16, 64-bit width: the theorem at `cas(0, 0, 42)`, and
the scenario `cas(0, 0, 42)` is OK, the following `cas(0, 0, 7)` is CMPXCHG_FAILED and
the value read back is 42. -/
theorem C8_compare_and_set_witness :
    (toUnsigned 64 0 + 8 ≤ (zeroMapping 16).size ∧
      loadNative false 8 (zeroMapping 16).memory (toUnsigned 64 0) = toUnsigned 64 0) ∧
    (∃ m1, Java_de_aschuetz_ivshmem4j_common_CommonSharedMemory_compareAndSet__JJJJ false (some (zeroMapping 16)) 0 0 42
        = (combineErrorCode false RES_OK 0, some m1) ∧
      loadNative false 8 m1.memory (toUnsigned 64 0) = toUnsigned 64 42) ∧
    (Java_de_aschuetz_ivshmem4j_common_CommonSharedMemory_compareAndSet__JJJJ false (some (zeroMapping 16)) 0 0 42).1
      = combineErrorCode false RES_OK 0 ∧
    (Java_de_aschuetz_ivshmem4j_common_CommonSharedMemory_compareAndSet__JJJJ false
      (Java_de_aschuetz_ivshmem4j_common_CommonSharedMemory_compareAndSet__JJJJ false (some (zeroMapping 16)) 0 0 42).2 0 0 7).1
      = combineErrorCode false RES_CMPXCHG_FAILED 0 ∧
    ((Java_de_aschuetz_ivshmem4j_common_CommonSharedMemory_read__JJ_3J false ⟨true⟩
      (Java_de_aschuetz_ivshmem4j_common_CommonSharedMemory_compareAndSet__JJJJ false
        (Java_de_aschuetz_ivshmem4j_common_CommonSharedMemory_compareAndSet__JJJJ false (some (zeroMapping 16)) 0 0 42).2 0 0 7).2
      0 (some (zeroArray 1))).2.map fun a => a.elems 0) = some 42 :=
  ⟨⟨by decide, by decide⟩,
    ((C8_compare_and_set false (zeroMapping 16) 0 0 42).2.2.2 (by decide)).1 (by decide),
    by decide, by decide, by decide⟩

/-- C9: for every width of 8, 16, 32 and 64 bits, with the operand `v` in the caller's
one-element array: at an in-bounds offset `o`, get_and_set returns OK, hands back the
value `x` that was at `o` and leaves `v` there; get_and_add returns OK, hands back `x` and
leaves `(x + v) mod 2^W` there. Each returns MEMORY_OUT_OF_BOUNDS exactly when the scalar
write of the same width at the same offset does. -/
theorem C9_get_and_set_add (be : Bool) (env : JNIEnv) (m : mapped_shared_memory)
    (aOffset v : Int) (out : jarray)
    (hc : env.critical = true) (hout : out.length = 1) :
    ((toUnsigned 64 aOffset + 1 ≤ m.size →
        (∃ m1 out1,
          Java_de_aschuetz_ivshmem4j_common_CommonSharedMemory_getAndSet__JJ_3B be env (some m) aOffset (some out) = (combineErrorCode be RES_OK 0, some m1, some out1) ∧
          out1.elems 0 = loadNative be 1 m.memory (toUnsigned 64 aOffset) ∧
          loadNative be 1 m1.memory (toUnsigned 64 aOffset) = out.elems 0 % 2 ^ 8) ∧
        (∃ m1 out1,
          Java_de_aschuetz_ivshmem4j_common_CommonSharedMemory_getAndAdd__JJ_3B be env (some m) aOffset (some out) = (combineErrorCode be RES_OK 0, some m1, some out1) ∧
          out1.elems 0 = loadNative be 1 m.memory (toUnsigned 64 aOffset) ∧
          loadNative be 1 m1.memory (toUnsigned 64 aOffset)
            = (loadNative be 1 m.memory (toUnsigned 64 aOffset) + out.elems 0 % 2 ^ 8) % 2 ^ 8)) ∧
      ((Java_de_aschuetz_ivshmem4j_common_CommonSharedMemory_getAndSet__JJ_3B be env (some m) aOffset (some out)).1 = combineErrorCode be RES_MEMORY_OUT_OF_BOUNDS 0
        ↔ (Java_de_aschuetz_ivshmem4j_common_CommonSharedMemory_write__JJB be (some m) aOffset v).1 = combineErrorCode be RES_MEMORY_OUT_OF_BOUNDS 0) ∧
      ((Java_de_aschuetz_ivshmem4j_common_CommonSharedMemory_getAndAdd__JJ_3B be env (some m) aOffset (some out)).1 = combineErrorCode be RES_MEMORY_OUT_OF_BOUNDS 0
        ↔ (Java_de_aschuetz_ivshmem4j_common_CommonSharedMemory_write__JJB be (some m) aOffset v).1 = combineErrorCode be RES_MEMORY_OUT_OF_BOUNDS 0)) ∧
    ((toUnsigned 64 aOffset + 2 ≤ m.size →
        (∃ m1 out1,
          Java_de_aschuetz_ivshmem4j_common_CommonSharedMemory_getAndSet__JJ_3S be env (some m) aOffset (some out) = (combineErrorCode be RES_OK 0, some m1, some out1) ∧
          out1.elems 0 = loadNative be 2 m.memory (toUnsigned 64 aOffset) ∧
          loadNative be 2 m1.memory (toUnsigned 64 aOffset) = out.elems 0 % 2 ^ 16) ∧
        (∃ m1 out1,
          Java_de_aschuetz_ivshmem4j_common_CommonSharedMemory_getAndAdd__JJ_3S be env (some m) aOffset (some out) = (combineErrorCode be RES_OK 0, some m1, some out1) ∧
          out1.elems 0 = loadNative be 2 m.memory (toUnsigned 64 aOffset) ∧
          loadNative be 2 m1.memory (toUnsigned 64 aOffset)
            = (loadNative be 2 m.memory (toUnsigned 64 aOffset) + out.elems 0 % 2 ^ 16) % 2 ^ 16)) ∧
      ((Java_de_aschuetz_ivshmem4j_common_CommonSharedMemory_getAndSet__JJ_3S be env (some m) aOffset (some out)).1 = combineErrorCode be RES_MEMORY_OUT_OF_BOUNDS 0
        ↔ (Java_de_aschuetz_ivshmem4j_common_CommonSharedMemory_write__JJS be (some m) aOffset v).1 = combineErrorCode be RES_MEMORY_OUT_OF_BOUNDS 0) ∧
      ((Java_de_aschuetz_ivshmem4j_common_CommonSharedMemory_getAndAdd__JJ_3S be env (some m) aOffset (some out)).1 = combineErrorCode be RES_MEMORY_OUT_OF_BOUNDS 0
        ↔ (Java_de_aschuetz_ivshmem4j_common_CommonSharedMemory_write__JJS be (some m) aOffset v).1 = combineErrorCode be RES_MEMORY_OUT_OF_BOUNDS 0)) ∧
    ((toUnsigned 64 aOffset + 4 ≤ m.size →
        (∃ m1 out1,
          Java_de_aschuetz_ivshmem4j_common_CommonSharedMemory_getAndSet__JJ_3I be env (some m) aOffset (some out) = (combineErrorCode be RES_OK 0, some m1, some out1) ∧
          out1.elems 0 = loadNative be 4 m.memory (toUnsigned 64 aOffset) ∧
          loadNative be 4 m1.memory (toUnsigned 64 aOffset) = out.elems 0 % 2 ^ 32) ∧
        (∃ m1 out1,
          Java_de_aschuetz_ivshmem4j_common_CommonSharedMemory_getAndAdd__JJ_3I be env (some m) aOffset (some out) = (combineErrorCode be RES_OK 0, some m1, some out1) ∧
          out1.elems 0 = loadNative be 4 m.memory (toUnsigned 64 aOffset) ∧
          loadNative be 4 m1.memory (toUnsigned 64 aOffset)
            = (loadNative be 4 m.memory (toUnsigned 64 aOffset) + out.elems 0 % 2 ^ 32) % 2 ^ 32)) ∧
      ((Java_de_aschuetz_ivshmem4j_common_CommonSharedMemory_getAndSet__JJ_3I be env (some m) aOffset (some out)).1 = combineErrorCode be RES_MEMORY_OUT_OF_BOUNDS 0
        ↔ (Java_de_aschuetz_ivshmem4j_common_CommonSharedMemory_write__JJI be (some m) aOffset v).1 = combineErrorCode be RES_MEMORY_OUT_OF_BOUNDS 0) ∧
      ((Java_de_aschuetz_ivshmem4j_common_CommonSharedMemory_getAndAdd__JJ_3I be env (some m) aOffset (some out)).1 = combineErrorCode be RES_MEMORY_OUT_OF_BOUNDS 0
        ↔ (Java_de_aschuetz_ivshmem4j_common_CommonSharedMemory_write__JJI be (some m) aOffset v).1 = combineErrorCode be RES_MEMORY_OUT_OF_BOUNDS 0)) ∧
    ((toUnsigned 64 aOffset + 8 ≤ m.size →
        (∃ m1 out1,
          Java_de_aschuetz_ivshmem4j_common_CommonSharedMemory_getAndSet__JJ_3J be env (some m) aOffset (some out) = (combineErrorCode be RES_OK 0, some m1, some out1) ∧
          out1.elems 0 = loadNative be 8 m.memory (toUnsigned 64 aOffset) ∧
          loadNative be 8 m1.memory (toUnsigned 64 aOffset) = out.elems 0 % 2 ^ 64) ∧
        (∃ m1 out1,
          Java_de_aschuetz_ivshmem4j_common_CommonSharedMemory_getAndAdd__JJ_3J be env (some m) aOffset (some out) = (combineErrorCode be RES_OK 0, some m1, some out1) ∧
          out1.elems 0 = loadNative be 8 m.memory (toUnsigned 64 aOffset) ∧
          loadNative be 8 m1.memory (toUnsigned 64 aOffset)
            = (loadNative be 8 m.memory (toUnsigned 64 aOffset) + out.elems 0 % 2 ^ 64) % 2 ^ 64)) ∧
      ((Java_de_aschuetz_ivshmem4j_common_CommonSharedMemory_getAndSet__JJ_3J be env (some m) aOffset (some out)).1 = combineErrorCode be RES_MEMORY_OUT_OF_BOUNDS 0
        ↔ (Java_de_aschuetz_ivshmem4j_common_CommonSharedMemory_write__JJJ be (some m) aOffset v).1 = combineErrorCode be RES_MEMORY_OUT_OF_BOUNDS 0) ∧
      ((Java_de_aschuetz_ivshmem4j_common_CommonSharedMemory_getAndAdd__JJ_3J be env (some m) aOffset (some out)).1 = combineErrorCode be RES_MEMORY_OUT_OF_BOUNDS 0
        ↔ (Java_de_aschuetz_ivshmem4j_common_CommonSharedMemory_write__JJJ be (some m) aOffset v).1 = combineErrorCode be RES_MEMORY_OUT_OF_BOUNDS 0)) := by
  have ho := toUnsigned_lt 64 aOffset
  refine ⟨?_, ?_, ?_, ?_⟩
  · refine ⟨fun h => ?_, ?_, ?_⟩
    · have hin := in_bounds_check m.size (toUnsigned 64 aOffset) 1 h (by norm_num)
      refine ⟨⟨_, _, getAndSet__JJ_3B_ok be env m aOffset out hc hout hin, ?_, ?_⟩,
        ⟨_, _, getAndAdd__JJ_3B_ok be env m aOffset out hc hout hin, ?_, ?_⟩⟩
      · simp only [jarray.setFirst, if_true]
      · simp only [loadNative_storeNative]
        exact Nat.mod_eq_of_lt (by norm_num; exact Nat.mod_lt _ (by norm_num))
      · simp only [jarray.setFirst, if_true]
      · simp only [loadNative_storeNative]
        exact Nat.mod_eq_of_lt (by norm_num; exact Nat.mod_lt _ (by norm_num))
    · by_cases c : m.size ≤ toUnsigned 64 aOffset ∨ m.size < (toUnsigned 64 aOffset + 1) % 2 ^ 64
      · rw [getAndSet__JJ_3B_oob be env m aOffset out hout c,
          write__JJB_oob be m aOffset v (by omega)]
      · rw [getAndSet__JJ_3B_ok be env m aOffset out hc hout c,
          write__JJB_ok be m aOffset v (by omega)]
    · by_cases c : m.size ≤ toUnsigned 64 aOffset ∨ m.size < (toUnsigned 64 aOffset + 1) % 2 ^ 64
      · rw [getAndAdd__JJ_3B_oob be env m aOffset out hout c,
          write__JJB_oob be m aOffset v (by omega)]
      · rw [getAndAdd__JJ_3B_ok be env m aOffset out hc hout c,
          write__JJB_ok be m aOffset v (by omega)]
  · refine ⟨fun h => ?_, ?_, ?_⟩
    · have hin := in_bounds_check m.size (toUnsigned 64 aOffset) 2 h (by norm_num)
      refine ⟨⟨_, _, getAndSet__JJ_3S_ok be env m aOffset out hc hout hin, ?_, ?_⟩,
        ⟨_, _, getAndAdd__JJ_3S_ok be env m aOffset out hc hout hin, ?_, ?_⟩⟩
      · simp only [jarray.setFirst, if_true]
      · simp only [loadNative_storeNative]
        exact Nat.mod_eq_of_lt (by norm_num; exact Nat.mod_lt _ (by norm_num))
      · simp only [jarray.setFirst, if_true]
      · simp only [loadNative_storeNative]
        exact Nat.mod_eq_of_lt (by norm_num; exact Nat.mod_lt _ (by norm_num))
    · by_cases c : m.size ≤ toUnsigned 64 aOffset ∨ m.size < (toUnsigned 64 aOffset + 2) % 2 ^ 64
      · rw [getAndSet__JJ_3S_oob be env m aOffset out hout c,
          write__JJS_oob be m aOffset v c]
      · rw [getAndSet__JJ_3S_ok be env m aOffset out hc hout c,
          write__JJS_ok be m aOffset v (by omega)]
    · by_cases c : m.size ≤ toUnsigned 64 aOffset ∨ m.size < (toUnsigned 64 aOffset + 2) % 2 ^ 64
      · rw [getAndAdd__JJ_3S_oob be env m aOffset out hout c,
          write__JJS_oob be m aOffset v c]
      · rw [getAndAdd__JJ_3S_ok be env m aOffset out hc hout c,
          write__JJS_ok be m aOffset v (by omega)]
  · refine ⟨fun h => ?_, ?_, ?_⟩
    · have hin := in_bounds_check m.size (toUnsigned 64 aOffset) 4 h (by norm_num)
      refine ⟨⟨_, _, getAndSet__JJ_3I_ok be env m aOffset out hc hout hin, ?_, ?_⟩,
        ⟨_, _, getAndAdd__JJ_3I_ok be env m aOffset out hc hout hin, ?_, ?_⟩⟩
      · simp only [jarray.setFirst, if_true]
      · simp only [loadNative_storeNative]
        exact Nat.mod_eq_of_lt (by norm_num; exact Nat.mod_lt _ (by norm_num))
      · simp only [jarray.setFirst, if_true]
      · simp only [loadNative_storeNative]
        exact Nat.mod_eq_of_lt (by norm_num; exact Nat.mod_lt _ (by norm_num))
    · by_cases c : m.size ≤ toUnsigned 64 aOffset ∨ m.size < (toUnsigned 64 aOffset + 4) % 2 ^ 64
      · rw [getAndSet__JJ_3I_oob be env m aOffset out hout c,
          write__JJI_oob be m aOffset v c]
      · rw [getAndSet__JJ_3I_ok be env m aOffset out hc hout c,
          write__JJI_ok be m aOffset v (by omega)]
    · by_cases c : m.size ≤ toUnsigned 64 aOffset ∨ m.size < (toUnsigned 64 aOffset + 4) % 2 ^ 64
      · rw [getAndAdd__JJ_3I_oob be env m aOffset out hout c,
          write__JJI_oob be m aOffset v c]
      · rw [getAndAdd__JJ_3I_ok be env m aOffset out hc hout c,
          write__JJI_ok be m aOffset v (by omega)]
  · refine ⟨fun h => ?_, ?_, ?_⟩
    · have hin := in_bounds_check m.size (toUnsigned 64 aOffset) 8 h (by norm_num)
      refine ⟨⟨_, _, getAndSet__JJ_3J_ok be env m aOffset out hc hout hin, ?_, ?_⟩,
        ⟨_, _, getAndAdd__JJ_3J_ok be env m aOffset out hc hout hin, ?_, ?_⟩⟩
      · simp only [jarray.setFirst, if_true]
      · simp only [loadNative_storeNative]
        exact Nat.mod_eq_of_lt (by norm_num; exact Nat.mod_lt _ (by norm_num))
      · simp only [jarray.setFirst, if_true]
      · simp only [loadNative_storeNative]
        exact Nat.mod_eq_of_lt (by norm_num; exact Nat.mod_lt _ (by norm_num))
    · by_cases c : m.size ≤ toUnsigned 64 aOffset ∨ m.size < (toUnsigned 64 aOffset + 8) % 2 ^ 64
      · rw [getAndSet__JJ_3J_oob be env m aOffset out hout c,
          write__JJJ_oob be m aOffset v c]
      · rw [getAndSet__JJ_3J_ok be env m aOffset out hc hout c,
          write__JJJ_ok be m aOffset v (by omega)]
    · by_cases c : m.size ≤ toUnsigned 64 aOffset ∨ m.size < (toUnsigned 64 aOffset + 8) % 2 ^ 64
      · rw [getAndAdd__JJ_3J_oob be env m aOffset out hout c,
          write__JJJ_oob be m aOffset v c]
      · rw [getAndAdd__JJ_3J_ok be env m aOffset out hc hout c,
          write__JJJ_ok be m aOffset v (by omega)]

/-- C9 for the 8-bit width on a mapping of length 16 whose bytes are zero, with the
operand 200 at offset 3; adding 200 twice leaves `(200 + 200) mod 256 = 144`. -/
theorem C9_get_and_set_add_witness :
    ((⟨true⟩ : JNIEnv).critical = true ∧ (rampArray 1 200).length = 1 ∧
      toUnsigned 64 3 + 1 ≤ (zeroMapping 16).size) ∧
    (∃ m1 out1,
      Java_de_aschuetz_ivshmem4j_common_CommonSharedMemory_getAndAdd__JJ_3B false ⟨true⟩ (some (zeroMapping 16)) 3 (some (rampArray 1 200))
        = (combineErrorCode false RES_OK 0, some m1, some out1) ∧
      out1.elems 0 = loadNative false 1 (zeroMapping 16).memory (toUnsigned 64 3) ∧
      loadNative false 1 m1.memory (toUnsigned 64 3)
        = (loadNative false 1 (zeroMapping 16).memory (toUnsigned 64 3)
            + (rampArray 1 200).elems 0 % 2 ^ 8) % 2 ^ 8) ∧
    ((Java_de_aschuetz_ivshmem4j_common_CommonSharedMemory_getAndAdd__JJ_3B false ⟨true⟩
      (Java_de_aschuetz_ivshmem4j_common_CommonSharedMemory_getAndAdd__JJ_3B false ⟨true⟩ (some (zeroMapping 16)) 3
        (some (rampArray 1 200))).2.1 3 (some (rampArray 1 200))).2.1.map
      fun m => m.memory 3) = some 144 :=
  ⟨⟨rfl, rfl, by decide⟩,
    ((C9_get_and_set_add false ⟨true⟩ (zeroMapping 16) 3 0 (rampArray 1 200) rfl rfl).1.1
      (by decide)).2,
    by decide⟩

theorem compareAndSet__JJ_3B_hit (be : Bool) (env : JNIEnv) (m : mapped_shared_memory)
    (aOffset : Int) (a : jarray) (hc : env.critical = true) (ha : a.length = 32)
    (h : ¬ (m.size ≤ toUnsigned 64 aOffset ∨ m.size < (toUnsigned 64 aOffset + 16) % 2 ^ 64))
    (hal : toUnsigned 64 aOffset % 16 = 0)
    (he : loadNative be 8 m.memory (toUnsigned 64 aOffset) = loadNative be 8 a.elems 0
      ∧ loadNative be 8 m.memory (toUnsigned 64 aOffset + 8) = loadNative be 8 a.elems 8) :
    Java_de_aschuetz_ivshmem4j_common_CommonSharedMemory_compareAndSet__JJ_3B be env (some m) aOffset (some a)
      = some (combineErrorCode be RES_OK 0,
          some { m with
            memory := storeNative be 8
              (storeNative be 8 m.memory (toUnsigned 64 aOffset) (loadNative be 8 a.elems 16))
              (toUnsigned 64 aOffset + 8) (loadNative be 8 a.elems 24) }) := by
  simp only [Java_de_aschuetz_ivshmem4j_common_CommonSharedMemory_compareAndSet__JJ_3B, ha, ne_eq, not_true_eq_false, if_false, if_neg h, hc,
    cmpxchg16b, hal, if_pos he]
  simp

theorem compareAndSet__JJ_3B_miss (be : Bool) (env : JNIEnv) (m : mapped_shared_memory)
    (aOffset : Int) (a : jarray) (hc : env.critical = true) (ha : a.length = 32)
    (h : ¬ (m.size ≤ toUnsigned 64 aOffset ∨ m.size < (toUnsigned 64 aOffset + 16) % 2 ^ 64))
    (hal : toUnsigned 64 aOffset % 16 = 0)
    (he : ¬ (loadNative be 8 m.memory (toUnsigned 64 aOffset) = loadNative be 8 a.elems 0
      ∧ loadNative be 8 m.memory (toUnsigned 64 aOffset + 8) = loadNative be 8 a.elems 8)) :
    Java_de_aschuetz_ivshmem4j_common_CommonSharedMemory_compareAndSet__JJ_3B be env (some m) aOffset (some a)
      = some (combineErrorCode be RES_CMPXCHG_FAILED 0, some m) := by
  simp only [Java_de_aschuetz_ivshmem4j_common_CommonSharedMemory_compareAndSet__JJ_3B, ha, ne_eq, not_true_eq_false, if_false, if_neg h, hc,
    cmpxchg16b, hal, if_neg he]
  simp

theorem compareAndSet__JJ_3B_fault (be : Bool) (env : JNIEnv) (m : mapped_shared_memory)
    (aOffset : Int) (a : jarray) (hc : env.critical = true) (ha : a.length = 32)
    (h : ¬ (m.size ≤ toUnsigned 64 aOffset ∨ m.size < (toUnsigned 64 aOffset + 16) % 2 ^ 64))
    (hal : toUnsigned 64 aOffset % 16 ≠ 0) :
    Java_de_aschuetz_ivshmem4j_common_CommonSharedMemory_compareAndSet__JJ_3B be env (some m) aOffset (some a) = none := by
  simp only [Java_de_aschuetz_ivshmem4j_common_CommonSharedMemory_compareAndSet__JJ_3B, ha, ne_eq, not_true_eq_false, if_false, if_neg h, hc,
    cmpxchg16b, hal, not_false_eq_true, if_true]
  simp

/-- The cases of compare_and_set_128(o, buf), the buffer read as four 64-bit words
`w0 .. w3`. A buffer whose length is not 32 yields INVALID_ARGUMENTS. With a 32-byte
buffer, an offset with `o + 16 > length` yields MEMORY_OUT_OF_BOUNDS when the mapping
length `L` satisfies `L + 16 ≤ 2^64`. With `o + 16 ≤ length` and `o` a multiple of 16: if
the low quadword at `o` is `w0` and the high quadword at `o + 8` is `w1`, the call returns
OK and the quadwords become `w2` and `w3`; otherwise it returns CMPXCHG_FAILED and the
mapping is as it was. -/
theorem compareAndSet__JJ_3B_cases (be : Bool) (env : JNIEnv)
    (conn : Option mapped_shared_memory) (m : mapped_shared_memory) (aOffset : Int)
    (data : jarray) :
    (data.length ≠ 32 →
      (Java_de_aschuetz_ivshmem4j_common_CommonSharedMemory_compareAndSet__JJ_3B be env conn aOffset (some data)).map (fun r => r.1)
        = some (combineErrorCode be RES_INVALID_ARGUMENTS 0)) ∧
    (data.length = 32 → toUnsigned 64 aOffset + 16 > m.size → m.size + 16 ≤ 2 ^ 64 →
      Java_de_aschuetz_ivshmem4j_common_CommonSharedMemory_compareAndSet__JJ_3B be env (some m) aOffset (some data)
        = some (combineErrorCode be RES_MEMORY_OUT_OF_BOUNDS 0, some m)) ∧
    (data.length = 32 → env.critical = true → toUnsigned 64 aOffset + 16 ≤ m.size → toUnsigned 64 aOffset % 16 = 0 →
      ((loadNative be 8 m.memory (toUnsigned 64 aOffset) = loadNative be 8 data.elems 0
          ∧ loadNative be 8 m.memory (toUnsigned 64 aOffset + 8) = loadNative be 8 data.elems 8) →
        ∃ m1, Java_de_aschuetz_ivshmem4j_common_CommonSharedMemory_compareAndSet__JJ_3B be env (some m) aOffset (some data)
            = some (combineErrorCode be RES_OK 0, some m1) ∧
          loadNative be 8 m1.memory (toUnsigned 64 aOffset) = loadNative be 8 data.elems 16 ∧
          loadNative be 8 m1.memory (toUnsigned 64 aOffset + 8) = loadNative be 8 data.elems 24) ∧
      (¬ (loadNative be 8 m.memory (toUnsigned 64 aOffset) = loadNative be 8 data.elems 0
          ∧ loadNative be 8 m.memory (toUnsigned 64 aOffset + 8) = loadNative be 8 data.elems 8) →
        Java_de_aschuetz_ivshmem4j_common_CommonSharedMemory_compareAndSet__JJ_3B be env (some m) aOffset (some data)
          = some (combineErrorCode be RES_CMPXCHG_FAILED 0, some m))) := by
  have ho := toUnsigned_lt 64 aOffset
  refine ⟨fun hl => ?_, fun hl h1 h2 => ?_, fun hl hc h hal => ?_⟩
  · simp only [Java_de_aschuetz_ivshmem4j_common_CommonSharedMemory_compareAndSet__JJ_3B, if_pos hl, Option.map_some']
  · refine compareAndSet__JJ_3B_oob be env m aOffset data hl ?_
    by_cases hw : toUnsigned 64 aOffset + 16 < 2 ^ 64
    · rw [Nat.mod_eq_of_lt hw]; omega
    · exact Or.inl (by omega)
  · have hin := in_bounds_check m.size (toUnsigned 64 aOffset) 16 h (by norm_num)
    refine ⟨fun he => ⟨_, compareAndSet__JJ_3B_hit be env m aOffset data hc hl hin hal he,
        ?_, ?_⟩,
      fun he => compareAndSet__JJ_3B_miss be env m aOffset data hc hl hin hal he⟩
    · have hw := loadNative_lt be 8 data.elems 16
      simp only
      rw [loadNative_storeNative_disjoint be 8 8 _ _ _ _ (Or.inl (le_refl _)) (by omega),
        loadNative_storeNative]
      exact Nat.mod_eq_of_lt hw
    · have hw := loadNative_lt be 8 data.elems 24
      simp only
      rw [loadNative_storeNative]
      exact Nat.mod_eq_of_lt hw

/-- The 16-byte compare-and-set on a zeroed mapping of length 32 at offset 16 with an
all-zero expected pair: the call returns OK and the 16 bytes become the update pair. -/
theorem compareAndSet__JJ_3B_cases_example :
    (zeroExpectArray.length = 32 ∧ (⟨true⟩ : JNIEnv).critical = true ∧
      toUnsigned 64 16 + 16 ≤ (zeroMapping 32).size ∧ toUnsigned 64 16 % 16 = 0 ∧
      (loadNative false 8 (zeroMapping 32).memory (toUnsigned 64 16)
          = loadNative false 8 zeroExpectArray.elems 0
        ∧ loadNative false 8 (zeroMapping 32).memory (toUnsigned 64 16 + 8)
          = loadNative false 8 zeroExpectArray.elems 8)) ∧
    (∃ m1, Java_de_aschuetz_ivshmem4j_common_CommonSharedMemory_compareAndSet__JJ_3B false ⟨true⟩ (some (zeroMapping 32)) 16
          (some zeroExpectArray)
        = some (combineErrorCode false RES_OK 0, some m1) ∧
      loadNative false 8 m1.memory (toUnsigned 64 16)
        = loadNative false 8 zeroExpectArray.elems 16 ∧
      loadNative false 8 m1.memory (toUnsigned 64 16 + 8)
        = loadNative false 8 zeroExpectArray.elems 24) ∧
    ((Java_de_aschuetz_ivshmem4j_common_CommonSharedMemory_compareAndSet__JJ_3B false ⟨true⟩ (some (zeroMapping 32)) 16
        (some zeroExpectArray)).map fun r =>
          r.2.map fun m => (m.memory 15, m.memory 16, m.memory 31))
      = some (some (0, 16, 31)) :=
  ⟨⟨rfl, rfl, by decide, by decide, by decide, by decide⟩,
    ((compareAndSet__JJ_3B_cases false ⟨true⟩ none (zeroMapping 32) 16 zeroExpectArray).2.2
      rfl rfl (by decide) (by decide)).1 ⟨by decide, by decide⟩,
    by decide⟩

theorem memset_ok (be : Bool) (m : mapped_shared_memory) (aOffset aValue aLen : Int)
    (h : ¬ (m.size ≤ toUnsigned 64 aOffset ∨ m.size < (toUnsigned 64 aOffset + toUnsigned 64 aLen) % 2 ^ 64
      ∨ (toUnsigned 64 aOffset + toUnsigned 64 aLen) % 2 ^ 64 < toUnsigned 64 aOffset)) :
    Java_de_aschuetz_ivshmem4j_common_CommonSharedMemory_memset be (some m) aOffset aValue aLen
      = (combineErrorCode be RES_OK 0,
          some (if toUnsigned 64 aLen = 0 then m else
            { m with
              memory := memset m.memory (toUnsigned 64 aOffset) (toUnsigned 8 aValue)
                (toUnsigned 64 aLen) })) := by
  simp only [Java_de_aschuetz_ivshmem4j_common_CommonSharedMemory_memset, if_neg h]
  split <;> rfl

theorem memset_check_iff (L o n : Nat) (ho : o < 2 ^ 64) (hn : n < 2 ^ 64) :
    (L ≤ o ∨ L < (o + n) % 2 ^ 64 ∨ (o + n) % 2 ^ 64 < o) ↔ (o ≥ L ∨ o + n > L ∨ o + n ≥ 2 ^ 64) := by
  by_cases h1 : o + n < 2 ^ 64
  · rw [Nat.mod_eq_of_lt h1]
    omega
  · have e : (o + n) % 2 ^ 64 = o + n - 2 ^ 64 := by
      rw [Nat.mod_eq_sub_mod (by omega)]
      exact Nat.mod_eq_of_lt (by omega)
    rw [e]
    omega

/-- C11: `memset` with offset `o`, byte `b` and length `n` (the arguments read as unsigned
64-bit and 8-bit values) on a mapping of length `L` returns MEMORY_OUT_OF_BOUNDS and leaves
the mapping alone exactly when `o ≥ L`, `o + n > L` or `o + n` wraps around 64 bits.
Otherwise it returns OK, every byte in `[o, o + n)` equals `b` afterwards and every other
byte, the length and the closed flag are unchanged. With `n = 0` and `o < L` it returns OK
and the mapping is unchanged. -/
theorem C11_memset_range (be : Bool) (m : mapped_shared_memory) (aOffset aValue aLen : Int) :
    ((Java_de_aschuetz_ivshmem4j_common_CommonSharedMemory_memset be (some m) aOffset aValue aLen).1
        = combineErrorCode be RES_MEMORY_OUT_OF_BOUNDS 0
      ↔ (toUnsigned 64 aOffset ≥ m.size ∨ toUnsigned 64 aOffset + toUnsigned 64 aLen > m.size
          ∨ toUnsigned 64 aOffset + toUnsigned 64 aLen ≥ 2 ^ 64)) ∧
    ((toUnsigned 64 aOffset ≥ m.size ∨ toUnsigned 64 aOffset + toUnsigned 64 aLen > m.size
          ∨ toUnsigned 64 aOffset + toUnsigned 64 aLen ≥ 2 ^ 64) →
      Java_de_aschuetz_ivshmem4j_common_CommonSharedMemory_memset be (some m) aOffset aValue aLen
        = (combineErrorCode be RES_MEMORY_OUT_OF_BOUNDS 0, some m)) ∧
    (¬ (toUnsigned 64 aOffset ≥ m.size ∨ toUnsigned 64 aOffset + toUnsigned 64 aLen > m.size
          ∨ toUnsigned 64 aOffset + toUnsigned 64 aLen ≥ 2 ^ 64) →
      ∃ m1, Java_de_aschuetz_ivshmem4j_common_CommonSharedMemory_memset be (some m) aOffset aValue aLen
          = (combineErrorCode be RES_OK 0, some m1) ∧
        m1.size = m.size ∧ m1.closed = m.closed ∧
        (∀ i, toUnsigned 64 aOffset ≤ i → i < toUnsigned 64 aOffset + toUnsigned 64 aLen →
          m1.memory i = toUnsigned 8 aValue) ∧
        (∀ i, ¬ (toUnsigned 64 aOffset ≤ i ∧ i < toUnsigned 64 aOffset + toUnsigned 64 aLen) →
          m1.memory i = m.memory i)) ∧
    (toUnsigned 64 aLen = 0 → toUnsigned 64 aOffset < m.size →
      Java_de_aschuetz_ivshmem4j_common_CommonSharedMemory_memset be (some m) aOffset aValue aLen
        = (combineErrorCode be RES_OK 0, some m)) := by
  have ho := toUnsigned_lt 64 aOffset
  have hn := toUnsigned_lt 64 aLen
  have hb := toUnsigned_lt 8 aValue
  have hiff := memset_check_iff m.size (toUnsigned 64 aOffset) (toUnsigned 64 aLen) ho hn
  refine ⟨?_, ?_, ?_, ?_⟩
  · constructor
    · intro h
      by_contra hc
      rw [memset_ok be m aOffset aValue aLen (fun c => hc (hiff.mp c))] at h
      exact combineErrorCode_OK_ne_MOOB be h
    · intro h
      rw [memset_oob be m aOffset aValue aLen (hiff.mpr h)]
  · intro h
    exact memset_oob be m aOffset aValue aLen (hiff.mpr h)
  · intro h
    refine ⟨_, memset_ok be m aOffset aValue aLen (fun c => h (hiff.mp c)), ?_, ?_, ?_, ?_⟩
    · split <;> rfl
    · split <;> rfl
    · intro i h1 h2
      have hlen : toUnsigned 64 aLen ≠ 0 := by omega
      rw [if_neg hlen]
      simp only [memset, if_pos (And.intro h1 h2)]
      exact Nat.mod_eq_of_lt (by norm_num at hb ⊢; omega)
    · intro i hi
      split
      · rfl
      · simp only [memset, if_neg hi]
  · intro h0 hL
    rw [memset_ok be m aOffset aValue aLen (by rw [h0]; simp; omega), if_pos h0]

/-- C11 on a zeroed mapping of length 16: filling 4 bytes at offset 12 with the byte 0xAB
returns OK and changes exactly the bytes 12 to 15, the same call with length 5 is rejected,
and a fill of length 0 at offset 15 returns OK. -/
theorem C11_memset_range_witness :
    (∃ m1, Java_de_aschuetz_ivshmem4j_common_CommonSharedMemory_memset false (some (zeroMapping 16)) 12 (-85) 4
        = (combineErrorCode false RES_OK 0, some m1) ∧ m1.size = 16 ∧
        (m1.memory 11, m1.memory 12, m1.memory 15, m1.memory 16) = (0, 171, 171, 0)) ∧
    Java_de_aschuetz_ivshmem4j_common_CommonSharedMemory_memset false (some (zeroMapping 16)) 12 (-85) 5
      = (combineErrorCode false RES_MEMORY_OUT_OF_BOUNDS 0, some (zeroMapping 16)) ∧
    Java_de_aschuetz_ivshmem4j_common_CommonSharedMemory_memset false (some (zeroMapping 16)) 15 (-85) 0
      = (combineErrorCode false RES_OK 0, some (zeroMapping 16)) := by
  refine ⟨?_, ?_, ?_⟩
  · obtain ⟨m1, e, hs, _, hin, hout⟩ :=
      (C11_memset_range false (zeroMapping 16) 12 (-85) 4).2.2.1 (by decide)
    refine ⟨m1, e, hs, ?_⟩
    rw [hout 11 (by decide), hout 16 (by decide), hin 12 (by decide) (by decide),
      hin 15 (by decide) (by decide)]
    rfl
  · exact (C11_memset_range false (zeroMapping 16) 12 (-85) 5).2.1 (by decide)
  · exact (C11_memset_range false (zeroMapping 16) 15 (-85) 0).2.2.2 (by decide) (by decide)

theorem loadLE_digit (n : Nat) (f : Nat → Nat) (a i : Nat) (hi : i < n) :
    loadLE n f a / 256 ^ i % 256 = f (a + i) % 256 := by
  induction n generalizing a i with
  | zero => omega
  | succ n ih =>
    simp only [loadLE]
    cases i with
    | zero =>
      simp only [pow_zero, Nat.div_one, Nat.add_zero]
      rw [Nat.add_mul_mod_self_left, Nat.mod_mod]
    | succ j =>
      rw [pow_succ, Nat.mul_comm (256 ^ j) 256, ← Nat.div_div_eq_div_mul]
      have e : (f a % 256 + 256 * loadLE n f (a + 1)) / 256 = loadLE n f (a + 1) := by
        rw [Nat.add_mul_div_left _ _ (by decide : 0 < 256),
          Nat.div_eq_of_lt (Nat.mod_lt _ (by decide)), Nat.zero_add]
      rw [e, ih (a + 1) j (by omega)]
      congr 2
      omega

theorem loadBE_digit (n : Nat) (f : Nat → Nat) (a i : Nat) (hi : i < n) :
    loadBE n f a / 256 ^ i % 256 = f (a + (n - 1 - i)) % 256 := by
  induction n generalizing a with
  | zero => omega
  | succ n ih =>
    simp only [loadBE]
    by_cases h : i = n
    · subst h
      rw [Nat.add_comm, Nat.add_mul_div_right _ _ (Nat.pow_pos (by decide)),
        Nat.div_eq_of_lt (loadBE_lt _ f (a + 1)), Nat.zero_add, Nat.mod_mod]
      congr 2
      omega
    · have hin : i < n := by omega
      have e : f a % 256 * 256 ^ n = f a % 256 * 256 ^ (n - 1 - i) * 256 * 256 ^ i := by
        rw [Nat.mul_assoc, Nat.mul_assoc, ← pow_succ', ← pow_add]
        congr 2
        omega
      rw [e, Nat.add_comm, Nat.add_mul_div_right _ _ (Nat.pow_pos (by decide)),
        Nat.add_mul_mod_self_right, ih (a + 1) hin]
      congr 2
      omega

theorem loadLE_congr_mod (n : Nat) (f g : Nat → Nat) (a : Nat)
    (h : ∀ i, a ≤ i → i < a + n → f i % 256 = g i % 256) : loadLE n f a = loadLE n g a := by
  induction n generalizing a with
  | zero => rfl
  | succ n ih =>
    simp only [loadLE]
    rw [h a (Nat.le_refl a) (by omega), ih (a + 1) (fun i h1 h2 => h i (by omega) (by omega))]

theorem htonl_big (x : Nat) : htonl true x = x % 2 ^ 32 := rfl

theorem htonl_little_one : htonl false 1 = 16777216 := by decide

theorem bswap_64_loadBE (f : Nat → Nat) (a : Nat) : bswap_64 (loadBE 8 f a) = loadLE 8 f a := by
  unfold bswap_64
  have hc : loadBE 8 (storeNative false 8 (fun _ => 0) 0 (loadBE 8 f a)) 0
      = loadBE 8 (fun i => if 0 ≤ i ∧ i < 0 + 8 then
          loadLE 8 f a / 256 ^ (8 - 1 - (i - 0)) % 256 else 0) 0 := by
    apply loadBE_congr
    intro i h1 h2
    simp only [storeNative, show (0 ≤ i ∧ i < 0 + 8) from ⟨h1, h2⟩, and_self, if_true,
      Bool.false_eq_true, if_false]
    rw [loadBE_digit 8 f a (i - 0) (by omega), loadLE_digit 8 f a (8 - 1 - (i - 0)) (by omega)]
  rw [hc, loadBE_store 8 (fun _ => 0) 0 (loadLE 8 f a), Nat.mod_eq_of_lt (loadLE_lt 8 f a)]

theorem convertEndian_big (v : Nat) : convertEndian true v = bswap_64 v := by
  simp only [convertEndian, htonl_big]
  rfl

theorem convertEndian_little (v : Nat) : convertEndian false v = v := by
  simp only [convertEndian, htonl_little_one]
  rfl

/-- On either host the client decodes the 8 payload bytes least significant byte first. -/
theorem convertEndian_loadNative (be : Bool) (f : Nat → Nat) (a : Nat) :
    convertEndian be (loadNative be 8 f a) = loadLE 8 f a := by
  cases be
  · rw [convertEndian_little]
    rfl
  · rw [convertEndian_big]
    exact bswap_64_loadBE f a


theorem readPacket_raw (be : Bool) (msg : recvmsg_result) :
    (readPacket be msg).2.raw = (List.range 8).map fun i => msg.iov.getD i 0 % 256 := by
  unfold readPacket
  simp only
  split
  · split <;> rfl
  · split
    · rfl
    · split
      · rfl
      · split <;> rfl

theorem convertEndian_number (be : Bool) (packet : ivshmem_packet) :
    convertEndian be (packet.number be) = loadLE 8 (fun i => packet.raw.getD i 0) 0 :=
  convertEndian_loadNative be _ 0

/-- C12, counterexample: on a little-endian host the payload bytes 0,0,0,0,0,0,0,5 decode to
`5 * 2^56`, not to the big-endian integer 5; `convertEndian` leaves the word 1 unchanged on a
little-endian host and swaps it to `2^56` on a big-endian host. -/
theorem C12_counterexample :
    convertEndian false ((readPacket false
        { ret := 8, errno := 0, iov := [0, 0, 0, 0, 0, 0, 0, 5], control := [] }).2.number false)
      = 5 * 2 ^ 56 ∧
    convertEndian false ((readPacket false
        { ret := 8, errno := 0, iov := [0, 0, 0, 0, 0, 0, 0, 5], control := [] }).2.number false)
      ≠ 0 * 2 ^ 56 + 0 * 2 ^ 48 + 0 * 2 ^ 40 + 0 * 2 ^ 32 + 0 * 2 ^ 24 + 0 * 2 ^ 16 + 0 * 2 ^ 8 + 5 ∧
    convertEndian false 1 = 1 ∧ convertEndian true 1 = 2 ^ 56 := by
  decide

/-- C12 (amended): on either host the client decodes the 8 payload bytes `b0..b7` of a
server packet as the little-endian integer `b0 + b1*2^8 + ... + b7*2^56`; `convertEndian`
is the identity on a little-endian host and the 64-bit byte swap on a big-endian host. -/
theorem C12_decodes_little_endian (be : Bool) (fd : Int) (b0 b1 b2 b3 b4 b5 b6 b7 : Nat)
    (h0 : b0 < 256) (h1 : b1 < 256) (h2 : b2 < 256) (h3 : b3 < 256) (h4 : b4 < 256)
    (h5 : b5 < 256) (h6 : b6 < 256) (h7 : b7 < 256) :
    convertEndian be
        (ivshmem_packet.number be { fd := fd, raw := [b0, b1, b2, b3, b4, b5, b6, b7] })
      = b0 + b1 * 2 ^ 8 + b2 * 2 ^ 16 + b3 * 2 ^ 24 + b4 * 2 ^ 32 + b5 * 2 ^ 40 + b6 * 2 ^ 48
        + b7 * 2 ^ 56 ∧
    (∀ v, convertEndian false v = v) ∧
    (∀ v, convertEndian true v = bswap_64 v) ∧
    bswap_64 (b0 * 2 ^ 56 + b1 * 2 ^ 48 + b2 * 2 ^ 40 + b3 * 2 ^ 32 + b4 * 2 ^ 24 + b5 * 2 ^ 16
        + b6 * 2 ^ 8 + b7)
      = b0 + b1 * 2 ^ 8 + b2 * 2 ^ 16 + b3 * 2 ^ 24 + b4 * 2 ^ 32 + b5 * 2 ^ 40 + b6 * 2 ^ 48
        + b7 * 2 ^ 56 := by
  refine ⟨?_, convertEndian_little, convertEndian_big, ?_⟩
  · rw [convertEndian_number]
    simp only [loadLE, List.getD_cons_zero, List.getD_cons_succ, Nat.zero_add,
      Nat.mod_eq_of_lt h0, Nat.mod_eq_of_lt h1, Nat.mod_eq_of_lt h2, Nat.mod_eq_of_lt h3,
      Nat.mod_eq_of_lt h4, Nat.mod_eq_of_lt h5, Nat.mod_eq_of_lt h6, Nat.mod_eq_of_lt h7]
    omega
  · have e := bswap_64_loadBE (fun i => [b0, b1, b2, b3, b4, b5, b6, b7].getD i 0) 0
    simp only [loadLE, loadBE, List.getD_cons_zero, List.getD_cons_succ, Nat.zero_add,
      Nat.mod_eq_of_lt h0, Nat.mod_eq_of_lt h1, Nat.mod_eq_of_lt h2, Nat.mod_eq_of_lt h3,
      Nat.mod_eq_of_lt h4, Nat.mod_eq_of_lt h5, Nat.mod_eq_of_lt h6, Nat.mod_eq_of_lt h7] at e
    norm_num at e ⊢
    have ea : b0 * 72057594037927936 + b1 * 281474976710656 + b2 * 1099511627776
          + b3 * 4294967296 + b4 * 16777216 + b5 * 65536 + b6 * 256 + b7
        = b0 * 72057594037927936 + (b1 * 281474976710656 + (b2 * 1099511627776
          + (b3 * 4294967296 + (b4 * 16777216 + (b5 * 65536 + (b6 * 256 + b7)))))) := by
      omega
    rw [ea, e]
    omega

/-- C12 (amended) on the payload bytes 1,2,3,4,5,6,7,8 received on a little-endian host. -/
theorem C12_decodes_little_endian_witness :
    ((1 : Nat) < 256 ∧ (8 : Nat) < 256) ∧
    convertEndian false
        (ivshmem_packet.number false { fd := 0, raw := [1, 2, 3, 4, 5, 6, 7, 8] })
      = 1 + 2 * 2 ^ 8 + 3 * 2 ^ 16 + 4 * 2 ^ 24 + 5 * 2 ^ 32 + 6 * 2 ^ 40 + 7 * 2 ^ 48
        + 8 * 2 ^ 56 :=
  ⟨⟨by decide, by decide⟩,
    (C12_decodes_little_endian false 0 1 2 3 4 5 6 7 8 (by decide) (by decide) (by decide)
      (by decide) (by decide) (by decide) (by decide) (by decide)).1⟩

/-- C13: for every received message, reading the 8 payload bytes into a native 64-bit word
and applying `convertEndian` gives the same integer on a big-endian host as on a
little-endian host, namely the value of the bytes read least significant byte first. -/
theorem C13_decode_host_independent (msg : recvmsg_result) :
    convertEndian true ((readPacket true msg).2.number true)
      = convertEndian false ((readPacket false msg).2.number false) ∧
    (∀ be, convertEndian be ((readPacket be msg).2.number be)
      = loadLE 8 (fun i => msg.iov.getD i 0) 0) := by
  have key : ∀ be, convertEndian be ((readPacket be msg).2.number be)
      = loadLE 8 (fun i => msg.iov.getD i 0) 0 := by
    intro be
    rw [convertEndian_number, readPacket_raw]
    apply loadLE_congr_mod
    intro i _ hi
    have hi8 : i < 8 := by omega
    simp only [List.getD_eq_getElem?_getD, List.getElem?_map, List.getElem?_range hi8,
      Option.map_some', Option.getD_some, Nat.mod_mod]
  exact ⟨(key true).trans (key false).symm, key⟩

theorem getErrorCode_combineErrorCode (be : Bool) (k d : Int)
    (hk1 : -2147483648 ≤ k) (hk2 : k < 2147483648) :
    getErrorCode be (combineErrorCode be k d) = k :=
  splitSecond_mergedOf be d k hk1 hk2

theorem checkErrorCode_combineErrorCode (be : Bool) (k d k' : Int)
    (hk1 : -2147483648 ≤ k) (hk2 : k < 2147483648) :
    checkErrorCode be (combineErrorCode be k d) k' = decide (k = k') := by
  unfold checkErrorCode combineErrorCode
  rw [splitSecond_mergedOf be d k hk1 hk2]
  by_cases h : k = k'
  · simp [h]
  · simp [h]

theorem checkErrorCode_eq_getErrorCode (be : Bool) (aCombined : Nat) (aMyCode : Int) :
    checkErrorCode be aCombined aMyCode = decide (getErrorCode be aCombined = aMyCode) := by
  unfold checkErrorCode getErrorCode
  by_cases h : splitSecond be (aCombined % 2 ^ 64) = aMyCode
  · rw [decide_eq_true h]
    exact beq_iff_eq.mpr h
  · rw [decide_eq_false h]
    exact beq_eq_false_iff_ne.mpr h

theorem readPacket_short (be : Bool) (r errno : Int) (iov : List Nat) (control : List cmsghdr)
    (h0 : 0 ≤ r) (h8 : r < 8) :
    (readPacket be { ret := r, errno := errno, iov := iov, control := control }).1
      = combineErrorCode be RES_PACKET_TOO_SHORT 0 := by
  have h1 : ¬ r = -1 := by omega
  have h2 : toUnsigned 64 r < IVSHMEM_PACKET_SIZE := by
    have e := toUnsigned_of_nonneg 64 r h0 (by norm_num; omega)
    unfold IVSHMEM_PACKET_SIZE
    omega
  simp only [readPacket, if_neg h1, if_pos h2]

/-- C14 on the code: a `recvmsg` that returns `r` with `0 ≤ r < 8` makes `readPacket` return
PACKET_TOO_SHORT. This includes the zero-byte read `r = 0`, whose status is PACKET_TOO_SHORT
and not READ_ERROR: the test `ret < IVSHMEM_PACKET_SIZE` comes before the test `ret == 0`. -/
theorem C14_zero_byte_read_is_too_short (be : Bool) (errno : Int) (iov : List Nat)
    (control : List cmsghdr) :
    (∀ r : Int, 0 ≤ r → r < 8 →
      (readPacket be { ret := r, errno := errno, iov := iov, control := control }).1
        = combineErrorCode be RES_PACKET_TOO_SHORT 0) ∧
    getErrorCode be (readPacket be { ret := 0, errno := errno, iov := iov, control := control }).1
      = RES_PACKET_TOO_SHORT ∧
    getErrorCode be (readPacket be { ret := 0, errno := errno, iov := iov, control := control }).1
      ≠ RES_READ_ERROR := by
  refine ⟨fun r h0 h8 => readPacket_short be r errno iov control h0 h8, ?_, ?_⟩
  · rw [readPacket_short be 0 errno iov control (by decide) (by decide)]
    exact getErrorCode_combineErrorCode be _ 0 (by decide) (by decide)
  · rw [readPacket_short be 0 errno iov control (by decide) (by decide),
      getErrorCode_combineErrorCode be _ 0 (by decide) (by decide)]
    decide

/-- C15 on the code: when the socket calls succeed and the first packet of the handshake
carries a descriptor, or the first packet is the version 0 without descriptor and the
second packet carries a descriptor, `connectIVSHMEM` returns the status of `readPacket`
unchanged, a status of kind FD. -/
theorem C15_handshake_returns_kind_FD (be : Bool) (os : os_answers) (aDevice : List Nat)
    (hdev : aDevice.length ≤ 108) (hsock : os.socket ≠ -1)
    (hopt : ¬ os.setsockopt < 0) (hcon : ¬ os.connect < 0) :
    (getErrorCode be (readPacket be (os.recvmsg.headD recvmsg_timeout)).1 = RES_FD →
      getErrorCode be (connectIVSHMEM be os aDevice).1 = RES_FD) ∧
    (checkErrorCode be (readPacket be (os.recvmsg.headD recvmsg_timeout)).1 RES_OK = true →
      (readPacket be (os.recvmsg.headD recvmsg_timeout)).2.number be = 0 →
      getErrorCode be (readPacket be (os.recvmsg.tail.headD recvmsg_timeout)).1 = RES_FD →
      getErrorCode be (connectIVSHMEM be os aDevice).1 = RES_FD) := by
  have hmin : ¬ (min aDevice.length 109 > 108) := by omega
  constructor
  · intro h1
    have hc : checkErrorCode be (readPacket be (os.recvmsg.headD recvmsg_timeout)).1 RES_OK
        = false := by
      rw [checkErrorCode_eq_getErrorCode, h1]
      decide
    have e : (connectIVSHMEM be os aDevice).1
        = (readPacket be (os.recvmsg.headD recvmsg_timeout)).1 := by
      unfold connectIVSHMEM
      simp only [if_neg hmin, if_neg hsock, if_neg hopt, if_neg hcon, hc, if_true]
    rw [e, h1]
  · intro h1 h1v h2
    have hc : checkErrorCode be (readPacket be (os.recvmsg.tail.headD recvmsg_timeout)).1 RES_OK
        = false := by
      rw [checkErrorCode_eq_getErrorCode, h2]
      decide
    have e : (connectIVSHMEM be os aDevice).1
        = (readPacket be (os.recvmsg.tail.headD recvmsg_timeout)).1 := by
      unfold connectIVSHMEM
      simp only [if_neg hmin, if_neg hsock, if_neg hopt, if_neg hcon, h1, h1v, hc, if_true,
        ne_eq, not_true_eq_false, if_false, Bool.true_eq_false]
    rw [e, h2]

/-- C15 at the failing inputs: the scripts whose first packet is the value 0 with
descriptor 9, and version 0 followed by the self id 5 with descriptor 9. -/
theorem C15_handshake_returns_kind_FD_witness :
    (tmpShmemsock.length ≤ 108 ∧
      getErrorCode false (readPacket false (payloadWithFd 0 9)).1 = RES_FD) ∧
    getErrorCode false (connectIVSHMEM false (scriptedServer [payloadWithFd 0 9])
      tmpShmemsock).1 = RES_FD ∧
    getErrorCode false (connectIVSHMEM false (scriptedServer [payload 0, payloadWithFd 5 9])
      tmpShmemsock).1 = RES_FD :=
  ⟨⟨by decide, by decide⟩,
    (C15_handshake_returns_kind_FD false (scriptedServer [payloadWithFd 0 9]) tmpShmemsock
      (by decide) (by decide) (by decide) (by decide)).1 (by decide),
    (C15_handshake_returns_kind_FD false (scriptedServer [payload 0, payloadWithFd 5 9])
      tmpShmemsock (by decide) (by decide) (by decide) (by decide)).2 (by decide) (by decide)
      (by decide)⟩

theorem pollIVSHMEM_store_kind_ne_FD (be : Bool) (packet : ivshmem_packet) (malloc : List Bool)
    (aConnection : ivshem_connection) (tempPacketPeer : Nat) (cell : Nat × Nat)
    (tempNode : hash_table_node ivshmem_peer_node) :
    getErrorCode be
      (pollIVSHMEM_store be packet malloc aConnection tempPacketPeer cell tempNode).status
      ≠ RES_FD := by
  have hk : ∀ k : Int, -2147483648 ≤ k → k < 2147483648 → k ≠ RES_FD → ∀ d,
      getErrorCode be (combineErrorCode be k d) ≠ RES_FD := by
    intro k h1 h2 h3 d
    rw [getErrorCode_combineErrorCode be k d h1 h2]
    exact h3
  unfold pollIVSHMEM_store
  simp only
  split
  · exact hk _ (by decide) (by decide) (by decide) _
  · split
    · exact hk _ (by decide) (by decide) (by decide) _
    · split
      · exact hk _ (by decide) (by decide) (by decide) _
      · exact hk _ (by decide) (by decide) (by decide) _

/-- No call of `pollIVSHMEM` returns a status of kind FD. -/
theorem pollIVSHMEM_kind_ne_FD (be : Bool) (msg : recvmsg_result) (malloc : List Bool)
    (aConnection : ivshem_connection) :
    getErrorCode be (pollIVSHMEM be msg malloc aConnection).status ≠ RES_FD := by
  have hk : ∀ k : Int, -2147483648 ≤ k → k < 2147483648 → k ≠ RES_FD → ∀ d,
      getErrorCode be (combineErrorCode be k d) ≠ RES_FD := by
    intro k h1 h2 h3 d
    rw [getErrorCode_combineErrorCode be k d h1 h2]
    exact h3
  unfold pollIVSHMEM
  simp only
  split
  · rename_i hnot
    split
    · exact hk _ (by decide) (by decide) (by decide) _
    · intro hfd
      have := hnot.2
      rw [checkErrorCode_eq_getErrorCode, hfd] at this
      simp at this
  · rename_i hnot
    split
    · exact hk _ (by decide) (by decide) (by decide) _
    · split
      · split
        · exact hk _ (by decide) (by decide) (by decide) _
        · exact hk _ (by decide) (by decide) (by decide) _
      · rename_i hok
        split
        · split
          · exact pollIVSHMEM_store_kind_ne_FD be _ _ _ _ _ _
          · split
            · exact hk _ (by decide) (by decide) (by decide) _
            · split
              · exact hk _ (by decide) (by decide) (by decide) _
              · exact pollIVSHMEM_store_kind_ne_FD be _ _ _ _ _ _
        · rename_i hfd
          exfalso
          apply hnot
          constructor
          · simpa using hok
          · simpa using hfd

theorem decode_readPacket (be : Bool) (msg : recvmsg_result) :
    convertEndian be ((readPacket be msg).2.number be) = loadLE 8 (fun i => msg.iov.getD i 0) 0 := by
  rw [convertEndian_number, readPacket_raw]
  apply loadLE_congr_mod
  intro i _ hi
  have hi8 : i < 8 := by omega
  simp only [List.getD_eq_getElem?_getD, List.getElem?_map, List.getElem?_range hi8,
    Option.map_some', Option.getD_some, Nat.mod_mod]

theorem loadLE_packetBytes (v : Nat) :
    loadLE 8 (fun i => (packetBytes v).getD i 0) 0 = v % 2 ^ 64 := by
  have e : loadLE 8 (fun i => (packetBytes v).getD i 0) 0
      = loadLE 8 (fun i => if 0 ≤ i ∧ i < 0 + 8 then v / 256 ^ (i - 0) % 256 else 0) 0 := by
    apply loadLE_congr
    intro i h1 h2
    have hi8 : i < 8 := by omega
    simp only [packetBytes, List.getD_eq_getElem?_getD, List.getElem?_map,
      List.getElem?_range hi8, Option.map_some', Option.getD_some,
      show (0 ≤ i ∧ i < 0 + 8) from ⟨h1, h2⟩, if_true, Nat.sub_zero, and_self]
  rw [e, loadLE_store 8 (fun _ => 0) 0 v]
  norm_num

theorem decode_payload (be : Bool) (v : Nat) :
    convertEndian be ((readPacket be (payload v)).2.number be) = v % 2 ^ 64 := by
  rw [decode_readPacket]
  exact loadLE_packetBytes v

theorem decode_payloadWithFd (be : Bool) (v : Nat) (fd : Int) :
    convertEndian be ((readPacket be (payloadWithFd v fd)).2.number be) = v % 2 ^ 64 := by
  rw [decode_readPacket]
  exact loadLE_packetBytes v

theorem readPacket_payload_status (be : Bool) (v : Nat) :
    (readPacket be (payload v)).1 = combineErrorCode be RES_OK 0 := by
  simp [readPacket, payload, toUnsigned, IVSHMEM_PACKET_SIZE]

theorem readPacket_payloadWithFd_status (be : Bool) (v : Nat) (fd : Int) :
    (readPacket be (payloadWithFd v fd)).1 = combineErrorCode be RES_FD 0 := by
  simp [readPacket, payloadWithFd, toUnsigned, IVSHMEM_PACKET_SIZE]

theorem readPacket_payloadWithFd_fd (be : Bool) (v : Nat) (fd : Int) :
    (readPacket be (payloadWithFd v fd)).2.fd = fd := by
  simp [readPacket, payloadWithFd, toUnsigned, IVSHMEM_PACKET_SIZE]

theorem number_payload_zero (be : Bool) : (readPacket be (payload 0)).2.number be = 0 := by
  cases be <;> decide

theorem checkErrorCode_OK_OK (be : Bool) :
    checkErrorCode be (combineErrorCode be RES_OK 0) RES_OK = true := by
  cases be <;> decide

theorem checkErrorCode_FD_OK (be : Bool) :
    checkErrorCode be (combineErrorCode be RES_FD 0) RES_OK = false := by
  cases be <;> decide

theorem checkErrorCode_FD_FD (be : Bool) :
    checkErrorCode be (combineErrorCode be RES_FD 0) RES_FD = true := by
  cases be <;> decide

theorem checkErrorCode_FD_TIMEOUT (be : Bool) :
    checkErrorCode be (combineErrorCode be RES_FD 0) RES_PACKET_TIMEOUT = false := by
  cases be <;> decide

theorem checkErrorCode_OK_FD (be : Bool) :
    checkErrorCode be (combineErrorCode be RES_OK 0) RES_FD = false := by
  cases be <;> decide

theorem initHashTable_ok (be : Bool) (table : hash_table ivshmem_peer_node) :
    checkErrorCode be (toUnsigned 64 (initHashTable be true table).1) RES_OK = true ∧
    (initHashTable be true table).2 = hash_table_init 32 comparePeerStructNode := by
  constructor
  · have e : (initHashTable be true table).1
        = toSigned 32 (combineErrorCode be RES_OK 0 % 2 ^ 32) := rfl
    rw [e]
    cases be <;> decide
  · rfl

theorem connectIVSHMEM_reaches_drain (be : Bool) (os : os_answers) (aDevice : List Nat) (s : Nat)
    (shm : Int) (rest : List recvmsg_result) (h : ReachesDrain os aDevice s shm rest) :
    connectIVSHMEM be os aDevice
      = match connectIVSHMEM_drain be s rest (drainStart os s shm) with
        | drain_step.fail status aConnection closed => (status, aConnection, closed)
        | drain_step.done st => connectIVSHMEM_finish be os st
        | drain_step.next st => connectIVSHMEM_finish be os st := by
  obtain ⟨hdev, hsock, hopt, hcon, hm1, hm2, hmutex, hs, hrecv⟩ := h
  have hmin : ¬ (min aDevice.length 109 > 108) := by omega
  have hs64 : s % 2 ^ 64 = s := Nat.mod_eq_of_lt (by omega)
  have hsv : ¬ (s > 0xffff) := by omega
  have hmagic : MAGIC_NUMBER % 2 ^ 64 = MAGIC_NUMBER := by decide
  have hmut : ¬ (os.pthread_mutex_init ≠ 0) := by simp [hmutex]
  unfold connectIVSHMEM
  simp only [if_neg hmin, if_neg hsock, if_neg hopt, if_neg hcon, hrecv, List.headD_cons,
    List.tail_cons, readPacket_payload_status, checkErrorCode_OK_OK, number_payload_zero,
    decode_payload, hs64, if_neg hsv, readPacket_payloadWithFd_status, checkErrorCode_FD_FD,
    decode_payloadWithFd, hmagic, hm1, hm2, (initHashTable_ok be _).1, (initHashTable_ok be _).2,
    if_neg hmut, readPacket_payloadWithFd_fd,
    ne_eq, not_true_eq_false, if_false, Bool.true_eq_false]
  rfl

theorem connectIVSHMEM_drain_append (be : Bool) (s : Nat) (pre rest : List recvmsg_result)
    (st st1 : drain_state) (h : connectIVSHMEM_drain_passes be s pre st = some st1) :
    connectIVSHMEM_drain be s (pre ++ rest) st = connectIVSHMEM_drain be s rest st1 := by
  induction pre generalizing st with
  | nil =>
    simp only [connectIVSHMEM_drain_passes, Option.some.injEq] at h
    rw [h]
    rfl
  | cons msg pre ih =>
    simp only [connectIVSHMEM_drain_passes] at h
    simp only [List.cons_append, connectIVSHMEM_drain]
    cases hstep : connectIVSHMEM_drain_step be s msg st with
    | next s1 =>
      rw [hstep] at h
      exact ih s1 h
    | done s1 =>
      rw [hstep] at h
      exact absurd h (by simp)
    | fail a b c =>
      rw [hstep] at h
      exact absurd h (by simp)

theorem drain_step_own_peer_closed (be : Bool) (s : Nat) (msg : recvmsg_result)
    (st : drain_state) (hs : s ≤ 0xffff)
    (hres : checkErrorCode be (readPacket be msg).1 RES_OK = true)
    (hval : convertEndian be ((readPacket be msg).2.number be) = s) :
    connectIVSHMEM_drain_step be s msg st
      = failClosed (combineErrorCode be RES_OWN_PEER_CLOSED 0) st.aConnection st.closed := by
  have hsv : ¬ (s > 0xffff) := by omega
  simp only [connectIVSHMEM_drain_step, hres, hval, if_true, if_neg hsv]

theorem drain_step_peer_invalid (be : Bool) (s : Nat) (msg : recvmsg_result)
    (st : drain_state)
    (hres : checkErrorCode be (readPacket be msg).1 RES_OK = true
      ∨ checkErrorCode be (readPacket be msg).1 RES_FD = true)
    (hval : convertEndian be ((readPacket be msg).2.number be) > 0xffff) :
    connectIVSHMEM_drain_step be s msg st
      = failClosed (combineErrorCode be RES_PEER_INVALID 0) st.aConnection st.closed := by
  rcases hres with hok | hfd
  · simp only [connectIVSHMEM_drain_step, hok, if_true, if_pos hval]
  · have hk : getErrorCode be (readPacket be msg).1 = RES_FD := by
      rw [checkErrorCode_eq_getErrorCode] at hfd
      exact of_decide_eq_true hfd
    have h1 : checkErrorCode be (readPacket be msg).1 RES_OK = false := by
      rw [checkErrorCode_eq_getErrorCode, hk]
      decide
    have h2 : checkErrorCode be (readPacket be msg).1 RES_PACKET_TIMEOUT = false := by
      rw [checkErrorCode_eq_getErrorCode, hk]
      decide
    simp only [connectIVSHMEM_drain_step, h1, h2, hfd, if_pos hval, Bool.false_eq_true,
      if_false, Bool.true_eq_false]

theorem connectIVSHMEM_drain_fails (be : Bool) (os : os_answers) (aDevice : List Nat) (s : Nat)
    (shm : Int) (pre rest : List recvmsg_result) (msg : recvmsg_result) (status : Nat)
    (h : ReachesDrain os aDevice s shm (pre ++ msg :: rest))
    (hpre : (connectIVSHMEM_drain_passes be s pre (drainStart os s shm)).isSome = true)
    (hstep : ∀ st : drain_state, connectIVSHMEM_drain_step be s msg st
      = failClosed status st.aConnection st.closed) :
    (connectIVSHMEM be os aDevice).1 = status := by
  obtain ⟨st, hst⟩ := Option.isSome_iff_exists.mp hpre
  rw [connectIVSHMEM_reaches_drain be os aDevice s shm _ h,
    connectIVSHMEM_drain_append be s pre (msg :: rest) _ st hst]
  simp only [connectIVSHMEM_drain, hstep st, failClosed]

/-- C18: whenever the handshake has reached its drain loop with self id `s` and the loop has
taken the packets `pre` (whatever registry they have built), a packet without descriptor
whose value is `s` makes `connectIVSHMEM` fail with OWN_PEER_CLOSED; the loop pass fails so
from every loop state. -/
theorem C18_own_peer_closed (be : Bool) (os : os_answers) (aDevice : List Nat) (s : Nat)
    (shm : Int) (pre rest : List recvmsg_result) (msg : recvmsg_result)
    (h : ReachesDrain os aDevice s shm (pre ++ msg :: rest))
    (hpre : (connectIVSHMEM_drain_passes be s pre (drainStart os s shm)).isSome = true)
    (hres : checkErrorCode be (readPacket be msg).1 RES_OK = true)
    (hval : convertEndian be ((readPacket be msg).2.number be) = s) :
    (connectIVSHMEM be os aDevice).1 = combineErrorCode be RES_OWN_PEER_CLOSED 0 ∧
    getErrorCode be (connectIVSHMEM be os aDevice).1 = RES_OWN_PEER_CLOSED ∧
    (∀ st : drain_state, connectIVSHMEM_drain_step be s msg st
      = drain_step.fail (combineErrorCode be RES_OWN_PEER_CLOSED 0)
          (closeIVSHMEM st.aConnection).1 (st.closed ++ (closeIVSHMEM st.aConnection).2)) := by
  have hs : s ≤ 0xffff := h.2.2.2.2.2.2.2.1
  have e := connectIVSHMEM_drain_fails be os aDevice s shm pre rest msg _ h hpre
    (fun st => drain_step_own_peer_closed be s msg st hs hres hval)
  refine ⟨e, ?_, fun st => drain_step_own_peer_closed be s msg st hs hres hval⟩
  rw [e]
  exact getErrorCode_combineErrorCode be _ 0 (by decide) (by decide)

/-- C18 on the script version 0, self id 5, the all-ones packet with descriptor 9, one
descriptor for peer 3, then the value 5 without descriptor. -/
theorem C18_own_peer_closed_witness :
    getErrorCode false (connectIVSHMEM false
      (scriptedServer [payload 0, payload 5, payloadWithFd MAGIC_NUMBER 9, payloadWithFd 3 10,
        payload 5]) tmpShmemsock).1 = RES_OWN_PEER_CLOSED :=
  (C18_own_peer_closed false
    (scriptedServer [payload 0, payload 5, payloadWithFd MAGIC_NUMBER 9, payloadWithFd 3 10,
      payload 5]) tmpShmemsock 5 9 [payloadWithFd 3 10] [] (payload 5)
    ⟨by decide, by decide, by decide, by decide, by decide, by decide, by decide, by decide, rfl⟩
    (by decide) (by decide) (by decide)).2.1

/-- C19: every packet value above 0xFFFF is rejected with PEER_INVALID: as the self id (the
second packet of the handshake), as a packet of the drain loop with or without descriptor
(after whatever packets the loop has taken), and as an event of `pollIVSHMEM`, which then
leaves the connection with its registry unchanged and closes nothing. -/
theorem C19_peer_invalid (be : Bool) :
    (∀ (os : os_answers) (aDevice : List Nat),
      aDevice.length ≤ 108 → os.socket ≠ -1 → ¬ os.setsockopt < 0 → ¬ os.connect < 0 →
      checkErrorCode be (readPacket be (os.recvmsg.headD recvmsg_timeout)).1 RES_OK = true →
      (readPacket be (os.recvmsg.headD recvmsg_timeout)).2.number be = 0 →
      checkErrorCode be (readPacket be (os.recvmsg.tail.headD recvmsg_timeout)).1 RES_OK = true →
      convertEndian be ((readPacket be (os.recvmsg.tail.headD recvmsg_timeout)).2.number be)
        > 0xffff →
      (connectIVSHMEM be os aDevice).1 = combineErrorCode be RES_PEER_INVALID 0) ∧
    (∀ (os : os_answers) (aDevice : List Nat) (s : Nat) (shm : Int)
        (pre rest : List recvmsg_result) (msg : recvmsg_result),
      ReachesDrain os aDevice s shm (pre ++ msg :: rest) →
      (connectIVSHMEM_drain_passes be s pre (drainStart os s shm)).isSome = true →
      (checkErrorCode be (readPacket be msg).1 RES_OK = true
        ∨ checkErrorCode be (readPacket be msg).1 RES_FD = true) →
      convertEndian be ((readPacket be msg).2.number be) > 0xffff →
      (connectIVSHMEM be os aDevice).1 = combineErrorCode be RES_PEER_INVALID 0) ∧
    (∀ (msg : recvmsg_result) (malloc : List Bool) (aConnection : ivshem_connection),
      (checkErrorCode be (readPacket be msg).1 RES_OK = true
        ∨ checkErrorCode be (readPacket be msg).1 RES_FD = true) →
      convertEndian be ((readPacket be msg).2.number be) > 0xffff →
      (pollIVSHMEM be msg malloc aConnection).status = combineErrorCode be RES_PEER_INVALID 0 ∧
      (pollIVSHMEM be msg malloc aConnection).aConnection = aConnection ∧
      (pollIVSHMEM be msg malloc aConnection).closed = []) := by
  refine ⟨?_, ?_, ?_⟩
  · intro os aDevice hdev hsock hopt hcon h1 h1v h2 h2v
    have hmin : ¬ (min aDevice.length 109 > 108) := by omega
    unfold connectIVSHMEM
    simp only [if_neg hmin, if_neg hsock, if_neg hopt, if_neg hcon, h1, h1v, h2, if_pos h2v,
      ne_eq, not_true_eq_false, if_false, Bool.true_eq_false]
  · intro os aDevice s shm pre rest msg h hpre hres hval
    exact connectIVSHMEM_drain_fails be os aDevice s shm pre rest msg _ h hpre
      (fun st => drain_step_peer_invalid be s msg st hres hval)
  · intro msg malloc aConnection hres hval
    have hnot : ¬ (checkErrorCode be (readPacket be msg).1 RES_OK = false
        ∧ checkErrorCode be (readPacket be msg).1 RES_FD = false) := by
      rintro ⟨a, b⟩
      rcases hres with h | h
      · rw [a] at h
        exact Bool.false_ne_true h
      · rw [b] at h
        exact Bool.false_ne_true h
    simp only [pollIVSHMEM, if_neg hnot, if_pos hval, and_self]

/-- C19 on three scripts with the value 0x10000: as the self id, as a descriptor packet of the
drain loop, and as an event without descriptor polled on a fresh connection. -/
theorem C19_peer_invalid_witness :
    getErrorCode false (connectIVSHMEM false (scriptedServer [payload 0, payload 65536])
      tmpShmemsock).1 = RES_PEER_INVALID ∧
    getErrorCode false (connectIVSHMEM false
      (scriptedServer [payload 0, payload 5, payloadWithFd MAGIC_NUMBER 9, payloadWithFd 3 10,
        payloadWithFd 65536 11]) tmpShmemsock).1 = RES_PEER_INVALID ∧
    getErrorCode false (pollIVSHMEM false (payload 65536) [] ivshem_connection.fresh).status
      = RES_PEER_INVALID := by
  have h := C19_peer_invalid false
  refine ⟨?_, ?_, ?_⟩
  · rw [h.1 (scriptedServer [payload 0, payload 65536]) tmpShmemsock (by decide) (by decide)
      (by decide) (by decide) (by decide) (by decide) (by decide) (by decide)]
    decide
  · rw [h.2.1 (scriptedServer [payload 0, payload 5, payloadWithFd MAGIC_NUMBER 9,
        payloadWithFd 3 10, payloadWithFd 65536 11]) tmpShmemsock 5 9 [payloadWithFd 3 10] []
      (payloadWithFd 65536 11)
      ⟨by decide, by decide, by decide, by decide, by decide, by decide, by decide, by decide,
        rfl⟩ (by decide) (Or.inr (by decide)) (by decide)]
    decide
  · rw [(h.2.2 (payload 65536) [] ivshem_connection.fresh (Or.inl (by decide)) (by decide)).1]
    decide

theorem set_map_range {α : Type} (L k : Nat) (f : Nat → α) (c : α) :
    ((List.range L).map f).set k c = (List.range L).map fun i => if i = k then c else f i := by
  apply List.ext_getElem
  · simp
  · intro i h1 h2
    simp only [List.length_set, List.length_map, List.length_range] at h1
    simp only [List.getElem_set, List.getElem_map, List.getElem_range]
    by_cases h : k = i
    · simp [h]
    · have h' : ¬ i = k := fun e => h e.symm
      simp [h, h']

theorem getD_map_range {α : Type} (L i : Nat) (f : Nat → α) (d : α) (hi : i < L) :
    ((List.range L).map f).getD i d = f i := by
  simp [List.getD_eq_getElem?_getD, List.getElem?_map, List.getElem?_range hi]

theorem find?_filter_of_imp {α : Type} (q r : α → Bool) (l : List α)
    (h : ∀ x ∈ l, q x = true → r x = true) : (l.filter r).find? q = l.find? q := by
  induction l with
  | nil => rfl
  | cons x l ih =>
    have ih' := ih (fun y hy => h y (List.mem_cons_of_mem x hy))
    by_cases hr : r x = true
    · rw [List.filter_cons_of_pos hr]
      simp only [List.find?_cons]
      rw [ih']
    · have hq : q x = false := by
        by_contra hq
        exact hr (h x (List.mem_cons_self x l) (by simpa using hq))
      rw [List.filter_cons_of_neg hr]
      simp only [List.find?_cons, hq]
      exact ih'

theorem removeFirstMatch_eq {β : Type} (table : hash_table β) (node : hash_table_node β)
    (l : List (hash_table_node β)) :
    removeFirstMatch table node l
      = (l.find? (fun x => table.comparator x node), l.eraseP (fun x => table.comparator x node)) := by
  induction l with
  | nil => rfl
  | cons x l ih =>
    simp only [removeFirstMatch, List.find?_cons, List.eraseP_cons]
    by_cases h : table.comparator x node = true
    · simp [h]
    · have h' : table.comparator x node = false := by simpa using h
      simp [h', ih]

theorem eraseP_eq_filter_of_pairwise {α : Type} (p : α → Bool) (l : List α)
    (h : l.Pairwise fun a b => ¬ (p a = true ∧ p b = true)) :
    l.eraseP p = l.filter fun x => !p x := by
  induction l with
  | nil => rfl
  | cons x l ih =>
    rw [List.pairwise_cons] at h
    by_cases hx : p x = true
    · have hl : l.filter (fun y => !p y) = l := by
        apply List.filter_eq_self.mpr
        intro y hy
        have := h.1 y hy
        simp only [hx, true_and] at this
        simpa using this
      simp [List.eraseP_cons, hx, hl]
    · have hx' : p x = false := by simpa using hx
      simp [List.eraseP_cons, hx', ih h.2]

theorem length_bucketsOf {β : Type} (L : Nat) (N : List (hash_table_node β)) :
    (bucketsOf L N).length = L := by
  simp [bucketsOf]

theorem getD_bucketsOf {β : Type} (L i : Nat) (N : List (hash_table_node β)) (hi : i < L) :
    (bucketsOf L N).getD i [] = N.filter fun n => n.hash % L = i :=
  getD_map_range L i _ [] hi

theorem bucket_of_holds (table : hash_table ivshmem_peer_node)
    (N : List (hash_table_node ivshmem_peer_node)) (h : HoldsPeers table N) (i : Nat)
    (hi : i < table.hashTableLenght) :
    table.bucket i = N.filter fun n => n.hash % table.hashTableLenght = i := by
  unfold hash_table.bucket
  rw [h.2.1]
  exact getD_bucketsOf _ i N hi

theorem search_hash (p : Nat) (hp : p < 2 ^ 16) :
    (ivshmem_peer_node_search p p).hash = p ∧ (ivshmem_peer_node_search p p).entry.peer_id = p := by
  constructor
  · exact Nat.mod_eq_of_lt (by omega)
  · exact Nat.mod_eq_of_lt hp

/-- In a registry that holds `N`, `hash_table_get` finds the node of `N` with the peer id. -/
theorem hash_table_get_of_holds (table : hash_table ivshmem_peer_node)
    (N : List (hash_table_node ivshmem_peer_node)) (h : HoldsPeers table N) (p : Nat)
    (hp : p < 2 ^ 16) :
    hash_table_get table (ivshmem_peer_node_search p p)
      = N.find? fun n => n.entry.peer_id == p := by
  obtain ⟨hL, hB, hc, hN, hpw⟩ := h
  have hs := search_hash p hp
  unfold hash_table_get
  rw [bucket_of_holds table N ⟨hL, hB, hc, hN, hpw⟩ _ (Nat.mod_lt _ hL), hc, hs.1]
  have e : (fun tempCurrent => comparePeerStructNode tempCurrent (ivshmem_peer_node_search p p))
      = fun n => n.entry.peer_id == p := by
    funext n
    simp only [comparePeerStructNode, hs.2]
  rw [e]
  apply find?_filter_of_imp
  intro x hx hq
  have hid : x.entry.peer_id = p := by simpa using hq
  simp only [decide_eq_true_eq]
  rw [(hN x hx).1, hid]

theorem holds_filter (table : hash_table ivshmem_peer_node)
    (N : List (hash_table_node ivshmem_peer_node)) (h : HoldsPeers table N)
    (q : hash_table_node ivshmem_peer_node → Bool) (size : Nat) :
    HoldsPeers
      { table with hashTable := some (bucketsOf table.hashTableLenght (N.filter q)), size := size }
      (N.filter q) := by
  obtain ⟨hL, _, hc, hN, hpw⟩ := h
  exact ⟨hL, rfl, hc, fun n hn => hN n (List.mem_filter.mp hn).1, hpw.sublist (List.filter_sublist N)⟩

theorem set_bucketsOf_remove (L p : Nat) (N : List (hash_table_node ivshmem_peer_node))
    (hN : ∀ n ∈ N, n.hash = n.entry.peer_id ∧ n.entry.peer_id < 2 ^ 16)
    (hpw : N.Pairwise fun a b => a.entry.peer_id ≠ b.entry.peer_id) :
    (bucketsOf L N).set (p % L)
        ((N.filter fun n => n.hash % L = p % L).eraseP fun n => n.entry.peer_id == p)
      = bucketsOf L (N.filter fun n => n.entry.peer_id != p) := by
  unfold bucketsOf
  rw [set_map_range]
  apply List.map_congr_left
  intro i hi
  by_cases hik : i = p % L
  · rw [if_pos hik, eraseP_eq_filter_of_pairwise]
    · rw [List.filter_filter, List.filter_filter, hik]
      apply List.filter_congr
      intro x _
      simp only [bne, Bool.and_comm]
    · refine List.Pairwise.sublist (List.filter_sublist N) (hpw.imp ?_)
      intro a b hab hboth
      apply hab
      have ha : a.entry.peer_id = p := by simpa using hboth.1
      have hb : b.entry.peer_id = p := by simpa using hboth.2
      rw [ha, hb]
  · rw [if_neg hik, List.filter_filter]
    apply List.filter_congr
    intro x hx
    by_cases hr : x.hash % L = i
    · have hne : x.entry.peer_id ≠ p := by
        intro e
        apply hik
        rw [← hr, (hN x hx).1, e]
      simp [hr, hne]
    · simp [hr]

/-- In a registry that holds `N`, `hash_table_remove` returns the node of `N` with the peer
id, if there is one, and the registry then holds the other nodes of `N`. -/
theorem hash_table_remove_of_holds (table : hash_table ivshmem_peer_node)
    (N : List (hash_table_node ivshmem_peer_node)) (h : HoldsPeers table N) (p : Nat)
    (hp : p < 2 ^ 16) :
    (hash_table_remove table (ivshmem_peer_node_search p p)).1
      = N.find? (fun n => n.entry.peer_id == p) ∧
    ((N.find? fun n => n.entry.peer_id == p).isSome = true →
      HoldsPeers (hash_table_remove table (ivshmem_peer_node_search p p)).2
        (N.filter fun n => n.entry.peer_id != p)) ∧
    ((N.find? fun n => n.entry.peer_id == p) = none →
      (hash_table_remove table (ivshmem_peer_node_search p p)).2 = table) := by
  have hget := hash_table_get_of_holds table N h p hp
  obtain ⟨hL, hB, hc, hN, hpw⟩ := h
  have hs := search_hash p hp
  have e : (fun tempCurrent => table.comparator tempCurrent (ivshmem_peer_node_search p p))
      = fun n => n.entry.peer_id == p := by
    funext n
    simp only [hc, comparePeerStructNode, hs.2]
  have hfind : (removeFirstMatch table (ivshmem_peer_node_search p p)
      (table.bucket ((ivshmem_peer_node_search p p).hash % table.hashTableLenght))).1
      = N.find? (fun n => n.entry.peer_id == p) := by
    rw [removeFirstMatch_eq, ← hget]
    rfl
  refine ⟨?_, ?_, ?_⟩
  · unfold hash_table_remove
    simp only
    rw [hfind]
    cases N.find? (fun n => n.entry.peer_id == p) <;> rfl
  · intro hsome
    obtain ⟨x, hx⟩ := Option.isSome_iff_exists.mp hsome
    have e2 : (hash_table_remove table (ivshmem_peer_node_search p p)).2
        = { table with
            hashTable := some (bucketsOf table.hashTableLenght
              (N.filter fun n => n.entry.peer_id != p)),
            size := (table.size + 2 ^ 32 - 1) % 2 ^ 32 } := by
      unfold hash_table_remove
      simp only
      rw [hfind, hx]
      simp only [hash_table.setBucket, hB, Option.map_some']
      rw [removeFirstMatch_eq]
      simp only [e, hs.1]
      rw [bucket_of_holds table N ⟨hL, hB, hc, hN, hpw⟩ _ (Nat.mod_lt _ hL),
        set_bucketsOf_remove _ p N hN hpw]
    rw [e2]
    exact holds_filter table N ⟨hL, hB, hc, hN, hpw⟩ _ _
  · intro hnone
    unfold hash_table_remove
    simp only
    rw [hfind, hnone]

/-- C20: `pollIVSHMEM` on a packet without descriptor that carries `p ≤ 0xFFFF`, on a
connection whose registry holds the peer nodes `N`. If peer `p` is in the registry, the call
returns OK with `*aPeer = p` and `*aVector = -1`, it closes the descriptors of the removed
node, peer `p` is no longer in the registry, the registry holds the other nodes of `N` and
every lookup of another peer gives what it gave before. If peer `p` is absent, the call
returns PEER_DOESNT_EXIST and leaves the connection with its registry unchanged. -/
theorem C20_poll_disconnect (be : Bool) (msg : recvmsg_result) (malloc : List Bool)
    (aConnection : ivshem_connection) (N : List (hash_table_node ivshmem_peer_node)) (p : Nat)
    (hreg : HoldsPeers aConnection.peers N)
    (hres : checkErrorCode be (readPacket be msg).1 RES_OK = true)
    (hval : convertEndian be ((readPacket be msg).2.number be) = p) (hp : p ≤ 0xffff) :
    (∀ n, hash_table_get aConnection.peers (ivshmem_peer_node_search p p) = some n →
      (pollIVSHMEM be msg malloc aConnection).status = combineErrorCode be RES_OK 0 ∧
      (pollIVSHMEM be msg malloc aConnection).aPeer = some p ∧
      (pollIVSHMEM be msg malloc aConnection).aVector = some (-1) ∧
      (pollIVSHMEM be msg malloc aConnection).closed = deallocPeerStructNode n ∧
      hash_table_get (pollIVSHMEM be msg malloc aConnection).aConnection.peers
        (ivshmem_peer_node_search p p) = none ∧
      HoldsPeers (pollIVSHMEM be msg malloc aConnection).aConnection.peers
        (N.filter fun x => x.entry.peer_id != p) ∧
      (∀ q, q ≤ 0xffff → q ≠ p →
        hash_table_get (pollIVSHMEM be msg malloc aConnection).aConnection.peers
            (ivshmem_peer_node_search q q)
          = hash_table_get aConnection.peers (ivshmem_peer_node_search q q)) ∧
      (pollIVSHMEM be msg malloc aConnection).aConnection
        = { aConnection with
            peers := (pollIVSHMEM be msg malloc aConnection).aConnection.peers }) ∧
    (hash_table_get aConnection.peers (ivshmem_peer_node_search p p) = none →
      (pollIVSHMEM be msg malloc aConnection).status
        = combineErrorCode be RES_PEER_DOESNT_EXIST 0 ∧
      (pollIVSHMEM be msg malloc aConnection).aConnection = aConnection ∧
      (pollIVSHMEM be msg malloc aConnection).closed = []) := by
  have hp16 : p < 2 ^ 16 := by omega
  have hpm : p % 2 ^ 16 = p := Nat.mod_eq_of_lt hp16
  have hv : ¬ (p > 0xffff) := by omega
  have hget := hash_table_get_of_holds aConnection.peers N hreg p hp16
  obtain ⟨hr1, hr2, _⟩ := hash_table_remove_of_holds aConnection.peers N hreg p hp16
  constructor
  · intro n hn
    have hfind : N.find? (fun x => x.entry.peer_id == p) = some n := by rw [← hget, hn]
    have hrem : (hash_table_remove aConnection.peers (ivshmem_peer_node_search p p)).1 = some n := by
      rw [hr1, hfind]
    have hholds := hr2 (by rw [hfind]; rfl)
    have e : pollIVSHMEM be msg malloc aConnection
        = { status := combineErrorCode be RES_OK 0,
            aConnection :=
              { aConnection with
                peers := (hash_table_remove aConnection.peers (ivshmem_peer_node_search p p)).2 },
            aPeer := some p, aVector := some (-1), closed := deallocPeerStructNode n } := by
      simp only [pollIVSHMEM, hval, if_neg hv, hres, if_true, hrem, hpm, Bool.true_eq_false,
        false_and, if_false]
    rw [e]
    refine ⟨rfl, rfl, rfl, rfl, ?_, hholds, ?_, rfl⟩
    · simp only
      rw [hash_table_get_of_holds _ _ hholds p hp16]
      apply List.find?_eq_none.mpr
      intro x hx
      have := (List.mem_filter.mp hx).2
      simpa using this
    · intro q hq hqp
      have hq16 : q < 2 ^ 16 := by omega
      simp only
      rw [hash_table_get_of_holds _ _ hholds q hq16,
        hash_table_get_of_holds _ _ hreg q hq16]
      apply find?_filter_of_imp
      intro x _ hx
      have hid : x.entry.peer_id = q := by simpa using hx
      simp [hid, hqp]
  · intro hn
    have hrem : (hash_table_remove aConnection.peers (ivshmem_peer_node_search p p)).1 = none := by
      rw [hr1, ← hget, hn]
    have e : pollIVSHMEM be msg malloc aConnection
        = { status := combineErrorCode be RES_PEER_DOESNT_EXIST 0, aConnection := aConnection,
            aPeer := some p, aVector := some (-1), closed := [] } := by
      simp only [pollIVSHMEM, hval, if_neg hv, hres, if_true, hrem, hpm, Bool.true_eq_false,
        false_and, if_false]
    rw [e]
    exact ⟨rfl, rfl, rfl⟩

/-- C20 on the connection of the handshake with two peers, whose registry holds peer 3 with
the descriptors 10 and 11 and peer 7 with the descriptor 12: the event 3 without descriptor
returns OK and removes peer 3, peer 7 stays; the event 4 returns PEER_DOESNT_EXIST. -/
theorem C20_poll_disconnect_witness :
    HoldsPeers (connectIVSHMEM false twoPeerServer tmpShmemsock).2.1.peers
      [arrayPeer (3, [10, 11]), arrayPeer (7, [12])] ∧
    ((pollIVSHMEM false (payload 3) [] (connectIVSHMEM false twoPeerServer tmpShmemsock).2.1).status
        = combineErrorCode false RES_OK 0 ∧
      (pollIVSHMEM false (payload 3) [] (connectIVSHMEM false twoPeerServer tmpShmemsock).2.1).aPeer
        = some 3 ∧
      (pollIVSHMEM false (payload 3) [] (connectIVSHMEM false twoPeerServer tmpShmemsock).2.1).aVector
        = some (-1) ∧
      (pollIVSHMEM false (payload 3) [] (connectIVSHMEM false twoPeerServer tmpShmemsock).2.1).closed
        = [10, 11] ∧
      hash_table_get
        (pollIVSHMEM false (payload 3) []
          (connectIVSHMEM false twoPeerServer tmpShmemsock).2.1).aConnection.peers
        (ivshmem_peer_node_search 3 3) = none ∧
      hash_table_get
        (pollIVSHMEM false (payload 3) []
          (connectIVSHMEM false twoPeerServer tmpShmemsock).2.1).aConnection.peers
        (ivshmem_peer_node_search 7 7) = some (arrayPeer (7, [12]))) ∧
    (pollIVSHMEM false (payload 4) [] (connectIVSHMEM false twoPeerServer tmpShmemsock).2.1).status
      = combineErrorCode false RES_PEER_DOESNT_EXIST 0 := by
  have hreg : HoldsPeers (connectIVSHMEM false twoPeerServer tmpShmemsock).2.1.peers
      [arrayPeer (3, [10, 11]), arrayPeer (7, [12])] :=
    ⟨by decide, by rfl, by rfl, by decide, by decide⟩
  have h3 := (C20_poll_disconnect false (payload 3) []
    (connectIVSHMEM false twoPeerServer tmpShmemsock).2.1 _ 3 hreg (by decide) (by decide)
    (by decide)).1 (arrayPeer (3, [10, 11])) (by rfl)
  have h4 := (C20_poll_disconnect false (payload 4) []
    (connectIVSHMEM false twoPeerServer tmpShmemsock).2.1 _ 4 hreg (by decide) (by decide)
    (by decide)).2 (by rfl)
  refine ⟨hreg, ⟨h3.1, h3.2.1, h3.2.2.1, ?_, h3.2.2.2.2.1, ?_⟩, h4.1⟩
  · rw [h3.2.2.2.1]
    decide
  · rw [h3.2.2.2.2.2.2.1 7 (by decide) (by decide)]
    rfl

theorem set_of_getElem? {α : Type} (l : List α) (n : Nat) (x : α) (h : l[n]? = some x) :
    l.set n x = l := by
  induction l generalizing n with
  | nil => rfl
  | cons y l ih =>
    cases n with
    | zero =>
      simp only [List.getElem?_cons_zero, Option.some.injEq] at h
      rw [List.set_cons_zero, h]
    | succ n =>
      simp only [List.getElem?_cons_succ] at h
      rw [List.set_cons_succ, ih n h]

theorem passedUpTo_zero {α : Type} (c : α → α) (row : List α) : passedUpTo c row 0 = row := by
  simp [passedUpTo]

theorem passedUpTo_length {α : Type} (c : α → α) (row : List α) :
    passedUpTo c row row.length = row.map c := by
  simp [passedUpTo]

theorem length_passedUpTo {α : Type} (c : α → α) (row : List α) (j : Nat) :
    (passedUpTo c row j).length = row.length := by
  simp only [passedUpTo, List.length_append, List.length_map, List.length_take, List.length_drop]
  omega

theorem passedUpTo_getElem? {α : Type} (c : α → α) (row : List α) (j k : Nat) (hk : j ≤ k) :
    (passedUpTo c row j)[k]? = row[k]? := by
  by_cases hj : j ≤ row.length
  · have hlen : ((row.take j).map c).length = j := by
      simp only [List.length_map, List.length_take]
      omega
    unfold passedUpTo
    rw [List.getElem?_append_right (by omega), hlen, List.getElem?_drop]
    congr 1
    omega
  · have e : row.drop j = [] := List.drop_eq_nil_of_le (by omega)
    have e2 : row.take j = row := List.take_of_length_le (by omega)
    unfold passedUpTo
    rw [e, e2, List.append_nil]
    rw [List.getElem?_eq_none (by simp only [List.length_map]; omega),
      List.getElem?_eq_none (by omega)]

theorem passedUpTo_succ {α : Type} (c : α → α) (row : List α) (j : Nat) (x : α)
    (hx : row[j]? = some x) :
    (passedUpTo c row j).set j (c x) = passedUpTo c row (j + 1) := by
  have hj : j < row.length := by
    by_contra h
    rw [List.getElem?_eq_none (by omega)] at hx
    exact absurd hx (by simp)
  have hxe : row[j] = x := by
    rw [List.getElem?_eq_getElem hj] at hx
    exact Option.some.inj hx
  have hlen : ((row.take j).map c).length = j := by
    simp only [List.length_map, List.length_take]
    omega
  unfold passedUpTo
  rw [List.set_append_right _ _ (by omega), hlen, Nat.sub_self,
    List.drop_eq_getElem_cons hj, List.set_cons_zero, List.take_succ,
    List.getElem?_eq_getElem hj, hxe]
  simp

theorem passedUpTo_skip {α : Type} (c : α → α) (row : List α) (lo hi : Nat) (hle : lo ≤ hi)
    (h : ∀ a x, lo ≤ a → a < hi → row[a]? = some x → c x = x) :
    passedUpTo c row lo = passedUpTo c row hi := by
  induction hi with
  | zero =>
    have : lo = 0 := by omega
    rw [this]
  | succ n ih =>
    by_cases hlo : lo = n + 1
    · rw [hlo]
    · have ih' := ih (by omega) (fun a x h1 h2 h3 => h a x h1 (by omega) h3)
      rw [ih']
      cases hx : row[n]? with
      | none =>
        have hn : row.length ≤ n := by
          by_contra hc
          rw [List.getElem?_eq_getElem (by omega)] at hx
          exact absurd hx (by simp)
        unfold passedUpTo
        rw [List.take_of_length_le hn, List.take_of_length_le (by omega),
          List.drop_eq_nil_of_le hn, List.drop_eq_nil_of_le (by omega)]
      | some x =>
        rw [← passedUpTo_succ c row n x hx, h n x (by omega) (by omega) hx]
        exact (set_of_getElem? _ n x (by rw [passedUpTo_getElem? c row n n (Nat.le_refl n), hx])).symm

theorem find?_range_some (p : Nat → Bool) (L i : Nat) (h : (List.range L).find? p = some i) :
    i < L ∧ p i = true ∧ ∀ k, k < i → p k = false := by
  induction L with
  | zero => simp at h
  | succ n ih =>
    rw [List.range_succ, List.find?_append] at h
    cases hn : (List.range n).find? p with
    | some k =>
      rw [hn] at h
      simp only [Option.or, Option.some.injEq] at h
      subst h
      obtain ⟨h1, h2, h3⟩ := ih hn
      exact ⟨by omega, h2, h3⟩
    | none =>
      rw [hn] at h
      simp only [Option.or, List.find?_cons, List.find?_nil] at h
      have hall : ∀ k, k < n → p k = false := by
        intro k hk
        have := List.find?_eq_none.mp hn k (List.mem_range.mpr hk)
        simpa using this
      by_cases hp : p n = true
      · rw [hp] at h
        simp only [Option.some.injEq] at h
        subst h
        exact ⟨by omega, hp, hall⟩
      · have hp' : p n = false := by simpa using hp
        rw [hp'] at h
        simp at h

theorem find?_range_none (p : Nat → Bool) (L : Nat) (h : (List.range L).find? p = none) :
    ∀ k, k < L → p k = false := by
  intro k hk
  have := List.find?_eq_none.mp h k (List.mem_range.mpr hk)
  simpa using this

theorem bucket_mk {β : Type} (t : hash_table β) (B : List (List (hash_table_node β))) (a : Nat) :
    hash_table.bucket { t with hashTable := some B } a = B.getD a [] := rfl

theorem getD_set_self {α : Type} (l : List α) (i : Nat) (x d : α) (hi : i < l.length) :
    (l.set i x).getD i d = x := by
  simp [List.getD_eq_getElem?_getD, List.getElem?_set, hi]

theorem getD_set_ne {α : Type} (l : List α) (i a : Nat) (x d : α) (hi : i ≠ a) :
    (l.set i x).getD a d = l.getD a d := by
  simp [List.getD_eq_getElem?_getD, List.getElem?_set, hi]

theorem getD_passedUpTo {α : Type} (c : α → α) (row : List α) (j k : Nat) (d : α) (hk : j ≤ k) :
    (passedUpTo c row j).getD k d = row.getD k d := by
  simp only [List.getD_eq_getElem?_getD, passedUpTo_getElem? c row j k hk]

/-- `firstBucketFrom` on a table whose chains from `start` on are those of `B`. -/
theorem firstBucketFrom_spec {β : Type} (t : hash_table β) (B : List (List (hash_table_node β)))
    (start : Nat) (hlen : t.hashTableLenght = B.length)
    (hb : ∀ a, start ≤ a → t.bucket a = B.getD a []) :
    (∀ i, firstBucketFrom t start = some i →
      start ≤ i ∧ i < B.length ∧ B.getD i [] ≠ [] ∧ ∀ a, start ≤ a → a < i → B.getD a [] = []) ∧
    (firstBucketFrom t start = none → ∀ a, start ≤ a → a < B.length → B.getD a [] = []) := by
  constructor
  · intro i h
    obtain ⟨h1, h2, h3⟩ := find?_range_some _ _ _ h
    simp only [Bool.and_eq_true, decide_eq_true_eq, Bool.not_eq_true', List.isEmpty_eq_false] at h2
    refine ⟨h2.1, by omega, ?_, ?_⟩
    · rw [← hb i h2.1]
      exact h2.2
    · intro a ha hai
      have := h3 a hai
      simp only [Bool.and_eq_false_imp, decide_eq_true_eq, Bool.not_eq_false',
        List.isEmpty_iff] at this
      rw [← hb a ha]
      exact this ha
  · intro h a ha hal
    have := find?_range_none _ _ h a (by omega)
    simp only [Bool.and_eq_false_imp, decide_eq_true_eq, Bool.not_eq_false',
      List.isEmpty_iff] at this
    rw [← hb a ha]
    exact this ha

theorem mallocOk_of_all (m : List Bool) (h : ∀ b ∈ m, b = true) : mallocOk m = true := by
  cases m with
  | nil => rfl
  | cons b m => exact h b (List.mem_cons_self b m)

theorem all_tail (m : List Bool) (h : ∀ b ∈ m, b = true) : ∀ b ∈ m.tail, b = true :=
  fun b hb => h b (List.mem_of_mem_tail hb)

theorem convertVectorListToArray_ok (be : Bool) (malloc : List Bool)
    (l : Option (linked_list ivshmem_vector_node)) (hm : ∀ b ∈ malloc, b = true) :
    (convertVectorListToArray be malloc l).1 = combineErrorCode be RES_OK 0 ∧
    (convertVectorListToArray be malloc l).2.1 = (convertVectorListToArray be [] l).2.1 ∧
    (convertVectorListToArray be malloc l).2.2.1 = (convertVectorListToArray be [] l).2.2.1 ∧
    (convertVectorListToArray be malloc l).2.2.2.1 = (convertVectorListToArray be [] l).2.2.2.1 ∧
    (∀ b ∈ (convertVectorListToArray be malloc l).2.2.2.2, b = true) := by
  have h1 : ¬ (mallocOk malloc = false) := by simp [mallocOk_of_all malloc hm]
  have h2 : ¬ (mallocOk [] = false) := by decide
  cases l with
  | none => exact ⟨rfl, rfl, rfl, rfl, hm⟩
  | some tempList =>
    by_cases hs : tempList.size = 0
    · simp only [convertVectorListToArray, if_pos hs]
      exact ⟨trivial, trivial, trivial, trivial, hm⟩
    · simp only [convertVectorListToArray, if_neg hs, if_neg h1, if_neg h2]
      exact ⟨trivial, trivial, trivial, trivial, all_tail malloc hm⟩

theorem sum_length_drop_le {α : Type} (B : List (List α)) (a b : Nat) (h : a ≤ b) :
    ((B.drop b).map List.length).sum ≤ ((B.drop a).map List.length).sum := by
  induction B generalizing a b with
  | nil => simp
  | cons x B ih =>
    cases a with
    | zero =>
      cases b with
      | zero => exact Nat.le_refl _
      | succ b =>
        simp only [List.drop_succ_cons, List.drop_zero, List.map_cons, List.sum_cons]
        have := ih 0 b (Nat.zero_le b)
        simp only [List.drop_zero] at this
        omega
    | succ a =>
      cases b with
      | zero => omega
      | succ b =>
        simp only [List.drop_succ_cons]
        exact ih a b (by omega)

theorem sum_length_drop {α : Type} (B : List (List α)) (i : Nat) (hi : i < B.length) :
    ((B.drop i).map List.length).sum
      = (B.getD i []).length + ((B.drop (i + 1)).map List.length).sum := by
  rw [List.drop_eq_getElem_cons hi]
  simp only [List.map_cons, List.sum_cons, List.getD_eq_getElem?_getD,
    List.getElem?_eq_getElem hi, Option.getD_some]

theorem connectIVSHMEM_convert_step (be : Bool) (fuel : Nat)
    (T : hash_table ivshmem_peer_node) (it it1 : hash_table_iterator) (malloc : List Bool)
    (x : hash_table_node ivshmem_peer_node) (cell : Nat × Nat)
    (h1 : hash_table_iterator_has_next T it = true)
    (h2 : hash_table_iterator_next T it = (some x, it1)) (h3 : it1.previous = some cell)
    (hm : ∀ b ∈ malloc, b = true) :
    connectIVSHMEM_convert be (fuel + 1) T it malloc
      = connectIVSHMEM_convert be fuel (setCellNode T cell (convertedPeer be x)) it1
          (convertVectorListToArray be malloc x.entry.vector_list).2.2.2.2 := by
  obtain ⟨hc1, hc2, hc3, hc4, _⟩ := convertVectorListToArray_ok be malloc x.entry.vector_list hm
  have hok : ¬ (checkErrorCode be (combineErrorCode be RES_OK 0) RES_OK = false) := by
    rw [checkErrorCode_OK_OK]
    simp
  simp only [connectIVSHMEM_convert, h1, if_true, h2, h3, hc1, if_neg hok, hc2, hc3, hc4]
  rfl

theorem connectIVSHMEM_convert_end (be : Bool) (fuel : Nat)
    (T : hash_table ivshmem_peer_node) (prev : Option (Nat × Nat)) (k : Nat)
    (malloc : List Bool) :
    connectIVSHMEM_convert be fuel T { next := none, previous := prev, tableIndex := k } malloc
      = (none, T, malloc) := by
  cases fuel with
  | zero => rfl
  | succ fuel =>
    simp only [connectIVSHMEM_convert, hash_table_iterator_has_next, Bool.false_eq_true, if_false]

theorem setCellNode_mk (t : hash_table ivshmem_peer_node)
    (B : List (List (hash_table_node ivshmem_peer_node))) (i j : Nat)
    (row : List (hash_table_node ivshmem_peer_node))
    (y : hash_table_node ivshmem_peer_node) (hi : i < B.length) :
    setCellNode { t with hashTable := some (B.set i row) } (i, j) y
      = { t with hashTable := some (B.set i (row.set j y)) } := by
  simp only [setCellNode, hash_table.setBucket, Option.map_some', bucket_mk,
    getD_set_self B i row [] hi, List.set_set]

/-- The conversion loop of `connectIVSHMEM`, started at the cell `(i, j)` of a table whose
cells before it are converted, converts every remaining node when no `malloc` fails. -/
theorem connectIVSHMEM_convert_from (be : Bool) (t : hash_table ivshmem_peer_node)
    (B : List (List (hash_table_node ivshmem_peer_node))) (hL : B.length < 2 ^ 32)
    (hlen : t.hashTableLenght = B.length) (fuel : Nat) :
    ∀ (i j : Nat) (prev : Option (Nat × Nat)) (malloc : List Bool),
      i < B.length → j < (B.getD i []).length → (∀ b ∈ malloc, b = true) →
      ((B.getD i []).length - j) + ((B.drop (i + 1)).map List.length).sum ≤ fuel →
      ∃ m, (∀ b ∈ m, b = true) ∧
        connectIVSHMEM_convert be fuel
          { t with
            hashTable := some ((passedUpTo (List.map (convertedPeer be)) B i).set i
              (passedUpTo (convertedPeer be) (B.getD i []) j)) }
          { next := some (i, j), previous := prev, tableIndex := i } malloc
        = (none, { t with hashTable := some (B.map (List.map (convertedPeer be))) }, m) := by
  induction fuel with
  | zero =>
    intro i j prev malloc hi hj hm hfuel
    omega
  | succ fuel ih =>
    intro i j prev malloc hi hj hm hfuel
    have hiP : i < (passedUpTo (List.map (convertedPeer be)) B i).length := by
      rw [length_passedUpTo]
      exact hi
    obtain ⟨x, hx⟩ : ∃ x, (B.getD i [])[j]? = some x := ⟨_, List.getElem?_eq_getElem hj⟩
    have hbi : hash_table.bucket
        { t with
          hashTable := some ((passedUpTo (List.map (convertedPeer be)) B i).set i
            (passedUpTo (convertedPeer be) (B.getD i []) j)) } i
        = passedUpTo (convertedPeer be) (B.getD i []) j := by
      rw [bucket_mk, getD_set_self _ _ _ _ hiP]
    have hcell : cellNode
        { t with
          hashTable := some ((passedUpTo (List.map (convertedPeer be)) B i).set i
            (passedUpTo (convertedPeer be) (B.getD i []) j)) } (i, j) = some x := by
      unfold cellNode
      rw [hbi, passedUpTo_getElem? _ _ j j (Nat.le_refl j), hx]
    have hcell2 : cellNode
        { t with
          hashTable := some ((passedUpTo (List.map (convertedPeer be)) B i).set i
            (passedUpTo (convertedPeer be) (B.getD i []) j)) } (i, j + 1)
        = (B.getD i [])[j + 1]? := by
      unfold cellNode
      rw [hbi, passedUpTo_getElem? _ _ j (j + 1) (by omega)]
    have hc5 := (convertVectorListToArray_ok be malloc x.entry.vector_list hm).2.2.2.2
    have hnext : hash_table_iterator_has_next
        { t with
          hashTable := some ((passedUpTo (List.map (convertedPeer be)) B i).set i
            (passedUpTo (convertedPeer be) (B.getD i []) j)) }
        { next := some (i, j), previous := prev, tableIndex := i } = true := by
      simp only [hash_table_iterator_has_next, hcell, Option.isSome_some]
    have hset : setCellNode
        { t with
          hashTable := some ((passedUpTo (List.map (convertedPeer be)) B i).set i
            (passedUpTo (convertedPeer be) (B.getD i []) j)) } (i, j) (convertedPeer be x)
        = { t with
            hashTable := some ((passedUpTo (List.map (convertedPeer be)) B i).set i
              (passedUpTo (convertedPeer be) (B.getD i []) (j + 1))) } := by
      rw [setCellNode_mk t _ i j _ _ hiP, passedUpTo_succ _ _ j x hx]
    have hBi : B[i]? = some (B.getD i []) := by
      rw [List.getD_eq_getElem?_getD, List.getElem?_eq_getElem hi]
      rfl
    by_cases hj1 : j + 1 < (B.getD i []).length
    · have hsome : ((B.getD i [])[j + 1]?).isSome = true := by
        rw [List.getElem?_eq_getElem hj1]
        rfl
      have hstep : hash_table_iterator_next
          { t with
            hashTable := some ((passedUpTo (List.map (convertedPeer be)) B i).set i
              (passedUpTo (convertedPeer be) (B.getD i []) j)) }
          { next := some (i, j), previous := prev, tableIndex := i }
          = (some x, { next := some (i, j + 1), previous := some (i, j), tableIndex := i }) := by
        simp only [hash_table_iterator_next, hcell, hcell2, hsome, if_true]
      rw [connectIVSHMEM_convert_step be fuel _ _ _ malloc x (i, j) hnext hstep rfl hm, hset]
      exact ih i (j + 1) (some (i, j)) _ hi hj1 hc5 (by omega)
    · have hnone : ((B.getD i [])[j + 1]?).isSome = false := by
        rw [List.getElem?_eq_none (by omega)]
        rfl
      have hfull : (passedUpTo (List.map (convertedPeer be)) B i).set i
            (passedUpTo (convertedPeer be) (B.getD i []) (j + 1))
          = passedUpTo (List.map (convertedPeer be)) B (i + 1) := by
        have e : j + 1 = (B.getD i []).length := by omega
        rw [e, passedUpTo_length, passedUpTo_succ _ _ i _ hBi]
      have hmod : (i + 1) % 2 ^ 32 = i + 1 := Nat.mod_eq_of_lt (by omega)
      have hspec := firstBucketFrom_spec
        { t with
          hashTable := some ((passedUpTo (List.map (convertedPeer be)) B i).set i
            (passedUpTo (convertedPeer be) (B.getD i []) j)) } B (i + 1) hlen
        (fun a ha => by
          rw [bucket_mk, getD_set_ne _ _ _ _ _ (by omega), getD_passedUpTo _ _ _ _ _ (by omega)])
      cases hfb : firstBucketFrom
          { t with
            hashTable := some ((passedUpTo (List.map (convertedPeer be)) B i).set i
              (passedUpTo (convertedPeer be) (B.getD i []) j)) } (i + 1) with
      | some i1 =>
        obtain ⟨h1, h2, h3, h4⟩ := hspec.1 i1 hfb
        have hstep : hash_table_iterator_next
            { t with
              hashTable := some ((passedUpTo (List.map (convertedPeer be)) B i).set i
                (passedUpTo (convertedPeer be) (B.getD i []) j)) }
            { next := some (i, j), previous := prev, tableIndex := i }
            = (some x, { next := some (i1, 0), previous := some (i, j), tableIndex := i1 }) := by
          simp only [hash_table_iterator_next, hcell, hcell2, hnone, hmod, hfb,
            Bool.false_eq_true, if_false]
        have hskip : passedUpTo (List.map (convertedPeer be)) B (i + 1)
            = (passedUpTo (List.map (convertedPeer be)) B i1).set i1
                (passedUpTo (convertedPeer be) (B.getD i1 []) 0) := by
          rw [passedUpTo_zero]
          rw [passedUpTo_skip (List.map (convertedPeer be)) B (i + 1) i1 h1]
          · have hB1 : B[i1]? = some (B.getD i1 []) := by
              rw [List.getD_eq_getElem?_getD, List.getElem?_eq_getElem h2]
              rfl
            exact (set_of_getElem? _ i1 _
              (by rw [passedUpTo_getElem? _ _ i1 i1 (Nat.le_refl i1), hB1])).symm
          · intro a y ha1 ha2 hy
            have := h4 a ha1 ha2
            rw [List.getD_eq_getElem?_getD, hy] at this
            simp only [Option.getD_some] at this
            rw [this]
            rfl
        have hpos : 0 < (B.getD i1 []).length := List.length_pos.mpr h3
        rw [connectIVSHMEM_convert_step be fuel _ _ _ malloc x (i, j) hnext hstep rfl hm, hset,
          hfull, hskip]
        refine ih i1 0 (some (i, j)) _ h2 hpos hc5 ?_
        have hle := sum_length_drop_le B (i + 1) i1 h1
        rw [sum_length_drop B i1 h2] at hle
        omega
      | none =>
        have hall := hspec.2 hfb
        have hstep : hash_table_iterator_next
            { t with
              hashTable := some ((passedUpTo (List.map (convertedPeer be)) B i).set i
                (passedUpTo (convertedPeer be) (B.getD i []) j)) }
            { next := some (i, j), previous := prev, tableIndex := i }
            = (some x, { next := none, previous := some (i, j), tableIndex := i }) := by
          simp only [hash_table_iterator_next, hcell, hcell2, hnone, hmod, hfb,
            Bool.false_eq_true, if_false]
        have hskip : passedUpTo (List.map (convertedPeer be)) B (i + 1)
            = B.map (List.map (convertedPeer be)) := by
          rw [← passedUpTo_length]
          apply passedUpTo_skip (List.map (convertedPeer be)) B (i + 1) B.length (by omega)
          intro a y ha1 ha2 hy
          have := hall a ha1 ha2
          rw [List.getD_eq_getElem?_getD, hy] at this
          simp only [Option.getD_some] at this
          rw [this]
          rfl
        rw [connectIVSHMEM_convert_step be fuel _ _ _ malloc x (i, j) hnext hstep rfl hm, hset,
          hfull, hskip, connectIVSHMEM_convert_end]
        exact ⟨_, hc5, rfl⟩

theorem range_map_getD {α : Type} (B : List (List α)) :
    (List.range B.length).map (fun i => B.getD i []) = B := by
  apply List.ext_getElem
  · simp
  · intro i h1 h2
    simp [List.getD_eq_getElem?_getD, List.getElem?_eq_getElem h2]

theorem bucketsOf_nil {β : Type} (L : Nat) :
    bucketsOf L ([] : List (hash_table_node β)) = List.replicate L [] := by
  unfold bucketsOf
  apply List.ext_getElem
  · simp
  · intro i h1 h2
    simp

theorem set_bucketsOf_add {β : Type} (L : Nat) (Z : List (hash_table_node β))
    (y : hash_table_node β) :
    (bucketsOf L Z).set (y.hash % L) ((Z.filter fun n => n.hash % L = y.hash % L) ++ [y])
      = bucketsOf L (Z ++ [y]) := by
  unfold bucketsOf
  rw [set_map_range]
  apply List.map_congr_left
  intro i _
  rw [List.filter_append]
  by_cases hik : i = y.hash % L
  · rw [if_pos hik, hik]
    simp
  · rw [if_neg hik]
    have : ¬ (y.hash % L = i) := fun e => hik e.symm
    simp [this]

theorem mem_flatten_bucketsOf {β : Type} (L : Nat) (N : List (hash_table_node β)) (hL : 0 < L)
    (n : hash_table_node β) : n ∈ (bucketsOf L N).flatten ↔ n ∈ N := by
  simp only [bucketsOf, List.mem_flatten, List.mem_map, List.mem_range]
  constructor
  · rintro ⟨l, ⟨i, _, rfl⟩, hn⟩
    exact (List.mem_filter.mp hn).1
  · intro hn
    exact ⟨_, ⟨n.hash % L, Nat.mod_lt _ hL, rfl⟩, List.mem_filter.mpr ⟨hn, by simp⟩⟩

theorem pairwise_flatten_bucketsOf (L : Nat) (N : List (hash_table_node ivshmem_peer_node))
    (hN : ∀ n ∈ N, n.hash = n.entry.peer_id ∧ n.entry.peer_id < 2 ^ 16)
    (hpw : N.Pairwise fun a b => a.entry.peer_id ≠ b.entry.peer_id) :
    (bucketsOf L N).flatten.Pairwise fun a b => a.entry.peer_id ≠ b.entry.peer_id := by
  rw [List.pairwise_flatten]
  constructor
  · intro l hl
    simp only [bucketsOf, List.mem_map, List.mem_range] at hl
    obtain ⟨i, _, rfl⟩ := hl
    exact hpw.filter _
  · unfold bucketsOf
    rw [List.pairwise_map]
    refine (List.pairwise_lt_range L).imp ?_
    intro i k hik x hx y hy hxy
    have h1 := List.mem_filter.mp hx
    have h2 := List.mem_filter.mp hy
    have e1 : x.hash % L = i := by simpa using h1.2
    have e2 : y.hash % L = k := by simpa using h2.2
    rw [(hN x h1.1).1, hxy, ← (hN y h2.1).1, e2] at e1
    omega

theorem insert_fresh (table : hash_table ivshmem_peer_node)
    (hc : table.comparator = comparePeerStructNode)
    (base : List (hash_table_node ivshmem_peer_node)) (y : hash_table_node ivshmem_peer_node)
    (h : ∀ x ∈ base, x.entry.peer_id ≠ y.entry.peer_id) :
    insert table base y = (true, base ++ [y]) := by
  have hany : base.any (fun x => table.comparator x y) = false := by
    rw [List.any_eq_false]
    intro x hx
    rw [hc]
    simp only [comparePeerStructNode, beq_iff_eq]
    exact h x hx
  simp only [insert, hany, Bool.false_eq_true, if_false]

theorem rehash_foldl (table : hash_table ivshmem_peer_node)
    (hc : table.comparator = comparePeerStructNode) (L : Nat) (hL : 0 < L)
    (Y Z : List (hash_table_node ivshmem_peer_node))
    (hpw : (Z ++ Y).Pairwise fun a b => a.entry.peer_id ≠ b.entry.peer_id) :
    Y.foldl
        (fun (acc : List (List (hash_table_node ivshmem_peer_node))) tempCurrent =>
          acc.set (tempCurrent.hash % L)
            (insert table (acc.getD (tempCurrent.hash % L) []) tempCurrent).2)
        (bucketsOf L Z)
      = bucketsOf L (Z ++ Y) := by
  induction Y generalizing Z with
  | nil => simp
  | cons y Y ih =>
    have hpw2 : ((Z ++ [y]) ++ Y).Pairwise fun a b => a.entry.peer_id ≠ b.entry.peer_id := by
      simpa using hpw
    have hZy : ∀ x ∈ Z, x.entry.peer_id ≠ y.entry.peer_id := by
      intro x hx
      exact (List.pairwise_append.mp hpw).2.2 x hx y (List.mem_cons_self y Y)
    simp only [List.foldl_cons]
    rw [getD_bucketsOf L _ Z (Nat.mod_lt _ hL),
      insert_fresh table hc _ y (fun x hx => hZy x (List.mem_filter.mp hx).1)]
    simp only
    rw [set_bucketsOf_add, ih (Z ++ [y]) hpw2]
    simp

/-- Rehashing a registry that holds `N` gives a registry that holds the same nodes. -/
theorem hash_table_rehash_of_holds (table : hash_table ivshmem_peer_node)
    (N : List (hash_table_node ivshmem_peer_node)) (h : HoldsPeers table N) (L : Nat)
    (hL : 0 < L) :
    (hash_table_rehash table L).1 = table.hashTable ∧
    HoldsPeers (hash_table_rehash table L).2 (bucketsOf table.hashTableLenght N).flatten ∧
    (hash_table_rehash table L).2.hashTableLenght = L := by
  obtain ⟨hL0, hB, hc, hN, hpw⟩ := h
  have hL' : ¬ L = 0 := by omega
  have hb : ((List.range table.hashTableLenght).map fun i => table.bucket i)
      = bucketsOf table.hashTableLenght N := by
    unfold hash_table.bucket
    rw [hB]
    simp only [Option.getD_some]
    have := range_map_getD (bucketsOf table.hashTableLenght N)
    rw [length_bucketsOf] at this
    exact this
  have hpwf := pairwise_flatten_bucketsOf table.hashTableLenght N hN hpw
  have hfold := rehash_foldl table hc L hL (bucketsOf table.hashTableLenght N).flatten [] (by simpa using hpwf)
  rw [bucketsOf_nil] at hfold
  simp only [List.nil_append] at hfold
  refine ⟨?_, ⟨?_, ?_, ?_, ?_, hpwf⟩, ?_⟩
  · simp only [hash_table_rehash, if_neg hL']
  · simp only [hash_table_rehash, if_neg hL']
    exact hL
  · simp only [hash_table_rehash, if_neg hL', hb, hfold]
  · simp only [hash_table_rehash, if_neg hL']
    exact hc
  · intro n hn
    exact hN n ((mem_flatten_bucketsOf _ N hL0 n).mp hn)
  · simp only [hash_table_rehash, if_neg hL']

/-- The conversion loop of `connectIVSHMEM` over a whole table converts every node when no
`malloc` fails and the fuel covers the number of nodes. -/
theorem connectIVSHMEM_convert_all (be : Bool) (t : hash_table ivshmem_peer_node)
    (B : List (List (hash_table_node ivshmem_peer_node))) (hB : t.hashTable = some B)
    (hlen : t.hashTableLenght = B.length) (hL : B.length < 2 ^ 32) (malloc : List Bool)
    (hm : ∀ b ∈ malloc, b = true) (fuel : Nat) (hfuel : B.flatten.length ≤ fuel) :
    ∃ m, (∀ b ∈ m, b = true) ∧
      connectIVSHMEM_convert be fuel t (hash_table_iterator_init t) malloc
        = (none, { t with hashTable := some (B.map (List.map (convertedPeer be))) }, m) := by
  have ht : t = { t with hashTable := some B } := by
    cases t
    simp only at hB
    rw [hB]
  have hspec := firstBucketFrom_spec t B 0 hlen
    (fun a _ => by
      unfold hash_table.bucket
      rw [hB]
      rfl)
  have hempty : ∀ (a : Nat) (y : List (hash_table_node ivshmem_peer_node)),
      B.getD a [] = [] → B[a]? = some y → List.map (convertedPeer be) y = y := by
    intro a y h hy
    rw [List.getD_eq_getElem?_getD, hy] at h
    simp only [Option.getD_some] at h
    rw [h]
    rfl
  cases hfb : firstBucketFrom t 0 with
  | none =>
    have hall := hspec.2 hfb
    have hskip : B = B.map (List.map (convertedPeer be)) := by
      rw [← passedUpTo_length, ← passedUpTo_skip (List.map (convertedPeer be)) B 0 B.length
        (Nat.zero_le _) (fun a y h1 h2 hy => hempty a y (hall a h1 h2) hy), passedUpTo_zero]
    simp only [hash_table_iterator_init, hfb]
    rw [connectIVSHMEM_convert_end, ← hskip, ← ht]
    exact ⟨malloc, hm, rfl⟩
  | some i0 =>
    obtain ⟨_, h2, h3, h4⟩ := hspec.1 i0 hfb
    have hB0 : B[i0]? = some (B.getD i0 []) := by
      rw [List.getD_eq_getElem?_getD, List.getElem?_eq_getElem h2]
      rfl
    have hskip : B = (passedUpTo (List.map (convertedPeer be)) B i0).set i0
        (passedUpTo (convertedPeer be) (B.getD i0 []) 0) := by
      rw [passedUpTo_zero, ← passedUpTo_skip (List.map (convertedPeer be)) B 0 i0
        (Nat.zero_le _) (fun a y h1 h2 hy => hempty a y (h4 a h1 h2) hy), passedUpTo_zero]
      exact (set_of_getElem? _ i0 _ hB0).symm
    have hpos : 0 < (B.getD i0 []).length := List.length_pos.mpr h3
    have hle := sum_length_drop_le B 0 i0 (Nat.zero_le _)
    rw [sum_length_drop B i0 h2, List.drop_zero] at hle
    have e0 := List.length_flatten B
    obtain ⟨m, hm1, hm2⟩ := connectIVSHMEM_convert_from be t B hL hlen fuel i0 0 none malloc h2
      hpos hm (by omega)
    refine ⟨m, hm1, ?_⟩
    simp only [hash_table_iterator_init, hfb]
    rw [← hm2]
    congr 1
    rw [← hskip]
    exact ht

theorem convertedPeer_hash (be : Bool) (n : hash_table_node ivshmem_peer_node) :
    (convertedPeer be n).hash = n.hash ∧ (convertedPeer be n).entry.peer_id = n.entry.peer_id :=
  ⟨rfl, rfl⟩

theorem bucketsOf_map (L : Nat) (N : List (hash_table_node ivshmem_peer_node))
    (g : hash_table_node ivshmem_peer_node → hash_table_node ivshmem_peer_node)
    (hg : ∀ n, (g n).hash = n.hash) :
    (bucketsOf L N).map (List.map g) = bucketsOf L (N.map g) := by
  unfold bucketsOf
  rw [List.map_map]
  apply List.map_congr_left
  intro i _
  simp only [Function.comp]
  rw [List.filter_map]
  congr 1
  apply List.filter_congr
  intro x _
  simp only [Function.comp, hg]

theorem holds_map (table : hash_table ivshmem_peer_node)
    (N : List (hash_table_node ivshmem_peer_node)) (h : HoldsPeers table N)
    (g : hash_table_node ivshmem_peer_node → hash_table_node ivshmem_peer_node)
    (hg : ∀ n, (g n).hash = n.hash ∧ (g n).entry.peer_id = n.entry.peer_id) :
    HoldsPeers
      { table with hashTable := some ((bucketsOf table.hashTableLenght N).map (List.map g)) }
      (N.map g) := by
  obtain ⟨hL, _, hc, hN, hpw⟩ := h
  refine ⟨hL, ?_, hc, ?_, ?_⟩
  · simp only
    rw [bucketsOf_map _ N g (fun n => (hg n).1)]
  · intro n hn
    obtain ⟨x, hx, rfl⟩ := List.mem_map.mp hn
    rw [(hg x).1, (hg x).2]
    exact hN x hx
  · rw [List.pairwise_map]
    refine hpw.imp ?_
    intro a b hab
    rw [(hg a).2, (hg b).2]
    exact hab

/-- The part of `connectIVSHMEM` after the drain loop, on a loop state whose registry holds the
nodes `N`, when no `malloc` fails and `fstat` and `mmap` succeed: it returns OK, closes
nothing more, converts the own vector list and every peer node, and maps the memory. -/
theorem connectIVSHMEM_finish_ok (be : Bool) (os : os_answers) (st : drain_state)
    (N : List (hash_table_node ivshmem_peer_node)) (mem : Nat → Nat)
    (hreg : HoldsPeers st.aConnection.peers N)
    (hL : st.aConnection.peers.hashTableLenght < 2 ^ 32)
    (hm : ∀ b ∈ st.malloc, b = true) (hfstat : os.fstat = 0) (hmmap : os.mmap = some mem) :
    (connectIVSHMEM_finish be os st).1 = combineErrorCode be RES_OK 0 ∧
    (connectIVSHMEM_finish be os st).2.2 = st.closed ∧
    (∃ X, HoldsPeers (connectIVSHMEM_finish be os st).2.1.peers X ∧
      ∀ n, n ∈ X ↔ n ∈ N.map (convertedPeer be)) ∧
    (connectIVSHMEM_finish be os st).2.1.peer_id = st.aConnection.peer_id ∧
    (connectIVSHMEM_finish be os st).2.1.sock_fd = st.aConnection.sock_fd ∧
    (connectIVSHMEM_finish be os st).2.1.shmem_fd = st.aConnection.shmem_fd ∧
    (connectIVSHMEM_finish be os st).2.1.vector_list
      = (convertVectorListToArray be [] st.aConnection.vector_list).2.1 ∧
    (connectIVSHMEM_finish be os st).2.1.vector_fds
      = (convertVectorListToArray be [] st.aConnection.vector_list).2.2.1 ∧
    (connectIVSHMEM_finish be os st).2.1.vector_count
      = (convertVectorListToArray be [] st.aConnection.vector_list).2.2.2.1 ∧
    (connectIVSHMEM_finish be os st).2.1.mapped
      = some { memory := mem, size := toUnsigned 64 os.st_size, closed := false } := by
  obtain ⟨ho1, ho2, ho3, ho4, ho5⟩ :=
    convertVectorListToArray_ok be st.malloc st.aConnection.vector_list hm
  have hB := hreg.2.1
  have hb : ((List.range st.aConnection.peers.hashTableLenght).map
      fun i => st.aConnection.peers.bucket i)
      = bucketsOf st.aConnection.peers.hashTableLenght N := by
    unfold hash_table.bucket
    rw [hB]
    simp only [Option.getD_some]
    have := range_map_getD (bucketsOf st.aConnection.peers.hashTableLenght N)
    rw [length_bucketsOf] at this
    exact this
  obtain ⟨m, hm1, hconv⟩ := connectIVSHMEM_convert_all be st.aConnection.peers
    (bucketsOf st.aConnection.peers.hashTableLenght N) hB (length_bucketsOf _ _).symm
    (by rw [length_bucketsOf]; exact hL) _ ho5
    (bucketsOf st.aConnection.peers.hashTableLenght N).flatten.length (Nat.le_refl _)
  have h2 := holds_map st.aConnection.peers N hreg (convertedPeer be) (convertedPeer_hash be)
  have hok : ¬ (checkErrorCode be (combineErrorCode be RES_OK 0) RES_OK = false) := by
    rw [checkErrorCode_OK_OK]
    simp
  have hmo : ¬ (mallocOk m = false) := by simp [mallocOk_of_all m hm1]
  simp only [connectIVSHMEM_finish, ho1, if_neg hok, hb, hconv, hfstat, hmmap, ne_eq,
    not_true_eq_false, if_false, if_neg hmo]
  by_cases ht : hash_table_get_optimal_length
      (some
        { st.aConnection.peers with
          hashTable := some (List.map (List.map (convertedPeer be))
            (bucketsOf st.aConnection.peers.hashTableLenght N)) })
      > st.aConnection.peers.hashTableLenght
  · obtain ⟨hr1, hr2, _⟩ := hash_table_rehash_of_holds _ _ h2
      (hash_table_get_optimal_length
        (some
          { st.aConnection.peers with
            hashTable := some (List.map (List.map (convertedPeer be))
              (bucketsOf st.aConnection.peers.hashTableLenght N)) }))
      (by omega)
    simp only at hr1
    simp only [if_pos ht, hr1, ho2, ho3, ho4]
    refine ⟨trivial, trivial, ⟨_, hr2, ?_⟩, trivial, trivial, trivial, trivial, trivial, trivial,
      trivial⟩
    intro n
    rw [bucketsOf_map _ N _ (fun n => (convertedPeer_hash be n).1)]
    exact mem_flatten_bucketsOf _ _ hreg.1 n
  · simp only [if_neg ht, ho2, ho3, ho4]
    exact ⟨trivial, trivial, ⟨_, h2, fun n => Iff.rfl⟩, trivial, trivial, trivial, trivial,
      trivial, trivial, trivial⟩

/-- Adding a node with a new peer id to a registry that holds `N`. -/
theorem hash_table_add_of_holds (table : hash_table ivshmem_peer_node)
    (N : List (hash_table_node ivshmem_peer_node)) (h : HoldsPeers table N)
    (node : hash_table_node ivshmem_peer_node)
    (hnode : node.hash = node.entry.peer_id ∧ node.entry.peer_id < 2 ^ 16)
    (hnew : ∀ n ∈ N, n.entry.peer_id ≠ node.entry.peer_id) :
    (hash_table_add table node).1 = true ∧
    HoldsPeers (hash_table_add table node).2 (N ++ [node]) ∧
    (hash_table_add table node).2.hashTableLenght = table.hashTableLenght := by
  obtain ⟨hL, hB, hc, hN, hpw⟩ := h
  have hL0 : ¬ table.hashTableLenght = 0 := by omega
  have hins := insert_fresh table hc
    (table.bucket (node.hash % table.hashTableLenght)) node
    (by
      rw [bucket_of_holds table N ⟨hL, hB, hc, hN, hpw⟩ _ (Nat.mod_lt _ hL)]
      intro x hx
      exact hnew x (List.mem_filter.mp hx).1)
  have e : hash_table_add table node
      = (true, { table with
          hashTable := some (bucketsOf table.hashTableLenght (N ++ [node])),
          size := (table.size + 1) % 2 ^ 32 }) := by
    simp only [hash_table_add, if_neg hL0, hins, if_true, hash_table.setBucket, hB,
      Option.map_some']
    rw [bucket_of_holds table N ⟨hL, hB, hc, hN, hpw⟩ _ (Nat.mod_lt _ hL), set_bucketsOf_add]
  rw [e]
  refine ⟨rfl, ⟨hL, rfl, hc, ?_, ?_⟩, rfl⟩
  · intro n hn
    rcases List.mem_append.mp hn with hn | hn
    · exact hN n hn
    · rw [List.mem_singleton.mp hn]
      exact hnode
  · rw [List.pairwise_append]
    refine ⟨hpw, List.pairwise_singleton _ _, ?_⟩
    intro a ha b hb
    rw [List.mem_singleton.mp hb]
    exact hnew a ha

/-- A store through a pointer to the node of a peer, in a registry that holds `N`. -/
theorem updatePeerNode_of_holds (table : hash_table ivshmem_peer_node)
    (N : List (hash_table_node ivshmem_peer_node)) (h : HoldsPeers table N) (p : Nat)
    (f : ivshmem_peer_node → ivshmem_peer_node) (hf : ∀ e, (f e).peer_id = e.peer_id) :
    HoldsPeers (updatePeerNode table p f)
      (N.map fun n => if n.entry.peer_id = p then { n with entry := f n.entry } else n) ∧
    (updatePeerNode table p f).hashTableLenght = table.hashTableLenght := by
  have e : updatePeerNode table p f
      = { table with
          hashTable := some ((bucketsOf table.hashTableLenght N).map
            (List.map fun n => if n.entry.peer_id = p then { n with entry := f n.entry } else n)) } := by
    simp only [updatePeerNode, h.2.1, Option.map_some']
  rw [e]
  refine ⟨holds_map table N h _ ?_, rfl⟩
  intro n
  by_cases hn : n.entry.peer_id = p
  · simp only [if_pos hn, hf, and_self]
  · simp only [if_neg hn, and_self]

theorem add_last_vectorList (fds : List Int) (fd : Int) (h : fds.length + 1 < 2 ^ 32 - 1) :
    (linked_list_add_last (vectorList fds)
        (linked_list_node_init
          { state := linked_list_node_state.NEW, entry := { vector_fd := fd } })).2
      = vectorList (fds ++ [fd]) := by
  cases fds with
  | nil => rfl
  | cons x xs =>
    have hlen : (x :: xs).length = xs.length + 1 := rfl
    have hmod : (xs.length + 1 + 1) % 2 ^ 32 = xs.length + 1 + 1 :=
      Nat.mod_eq_of_lt (by omega)
    have hne : ¬ (xs.length + 1 + 1 = MAX_SIZE) := by
      unfold MAX_SIZE
      omega
    simp only [linked_list_add_last, linked_list_node_init, vectorList, List.map_cons,
      reduceCtorEq, if_false, List.map_append, List.map_nil,
      List.length_append, List.length_cons, List.length_nil, hmod, if_neg hne,
      List.cons_append]

theorem holds_hash_table_init :
    HoldsPeers (hash_table_init 32 comparePeerStructNode) [] :=
  ⟨by decide, by rw [bucketsOf_nil]; rfl, rfl, fun _ hn => absurd hn (List.not_mem_nil _),
    List.Pairwise.nil⟩

theorem drain_step_same (be : Bool) (s q : Nat) (fd : Int) (st : drain_state)
    (hq : q ≤ 0xffff) (hcur : st.tempCurrentPeerID = q) (hm : mallocOk st.malloc = true) :
    connectIVSHMEM_drain_step be s (payloadWithFd q fd) st
      = drain_step.next
          { st with
            aConnection := addToCurrentList st.aConnection st.tempCurrentList
              (linked_list_node_init
                { state := linked_list_node_state.NEW, entry := { vector_fd := fd } }),
            malloc := st.malloc.tail } := by
  have hq64 : q % 2 ^ 64 = q := Nat.mod_eq_of_lt (by omega)
  have hqv : ¬ (q > 0xffff) := by omega
  simp only [connectIVSHMEM_drain_step, readPacket_payloadWithFd_status, checkErrorCode_FD_OK,
    checkErrorCode_FD_TIMEOUT, checkErrorCode_FD_FD, decode_payloadWithFd, hq64, if_neg hqv,
    readPacket_payloadWithFd_fd, hcur, hm, ne_eq, not_true_eq_false, if_false,
    Bool.false_eq_true, Bool.true_eq_false]

theorem drain_step_self (be : Bool) (s : Nat) (fd : Int) (st : drain_state)
    (hs : s ≤ 0xffff) (hcur : st.tempCurrentPeerID ≠ s) (hm : mallocOk st.malloc = true) :
    connectIVSHMEM_drain_step be s (payloadWithFd s fd) st
      = drain_step.next
          { st with
            aConnection := addToCurrentList st.aConnection current_list.self
              (linked_list_node_init
                { state := linked_list_node_state.NEW, entry := { vector_fd := fd } }),
            tempCurrentPeerID := s, tempCurrentList := current_list.self,
            malloc := st.malloc.tail } := by
  have hq64 : s % 2 ^ 64 = s := Nat.mod_eq_of_lt (by omega)
  have hqv : ¬ (s > 0xffff) := by omega
  simp only [connectIVSHMEM_drain_step, readPacket_payloadWithFd_status, checkErrorCode_FD_OK,
    checkErrorCode_FD_TIMEOUT, checkErrorCode_FD_FD, decode_payloadWithFd, hq64, if_neg hqv,
    readPacket_payloadWithFd_fd, hcur, hm, ne_eq, not_true_eq_false, if_false, not_false_eq_true,
    if_true, Bool.false_eq_true, Bool.true_eq_false]

theorem drain_step_new (be : Bool) (s q : Nat) (fd : Int) (st : drain_state)
    (hq : q ≤ 0xffff) (hcur : st.tempCurrentPeerID ≠ q) (hqs : q ≠ s)
    (hm1 : mallocOk st.malloc = true) (hm2 : mallocOk st.malloc.tail = true)
    (hm3 : mallocOk st.malloc.tail.tail = true)
    (hadd : (hash_table_add st.aConnection.peers
      { hash := q, entry := { ivshmem_peer_node.zero with vector_count := 0, peer_id := q } }).1
      = true) :
    connectIVSHMEM_drain_step be s (payloadWithFd q fd) st
      = drain_step.next
          { st with
            aConnection := addToCurrentList
              { st.aConnection with
                peers := updatePeerNode
                  (hash_table_add st.aConnection.peers
                    { hash := q,
                      entry := { ivshmem_peer_node.zero with vector_count := 0, peer_id := q } }).2
                  q fun e => { e with vector_list := some linked_list_init } }
              (current_list.peer q)
              (linked_list_node_init
                { state := linked_list_node_state.NEW, entry := { vector_fd := fd } }),
            tempCurrentPeerID := q, tempCurrentList := current_list.peer q,
            malloc := st.malloc.tail.tail.tail } := by
  have hq64 : q % 2 ^ 64 = q := Nat.mod_eq_of_lt (by omega)
  have hq32 : q % 2 ^ 32 = q := Nat.mod_eq_of_lt (by omega)
  have hq16 : q % 2 ^ 16 = q := Nat.mod_eq_of_lt (by omega)
  have hqv : ¬ (q > 0xffff) := by omega
  simp only [connectIVSHMEM_drain_step, readPacket_payloadWithFd_status, checkErrorCode_FD_OK,
    checkErrorCode_FD_TIMEOUT, checkErrorCode_FD_FD, decode_payloadWithFd, hq64, hq32, hq16,
    if_neg hqv, readPacket_payloadWithFd_fd, hcur, hqs, hm1, hm2, hm3, hadd, ne_eq,
    not_true_eq_false, if_false, not_false_eq_true, if_true, Bool.false_eq_true,
    Bool.true_eq_false]

theorem drain_step_timeout (be : Bool) (s : Nat) (st : drain_state) :
    connectIVSHMEM_drain_step be s recvmsg_timeout st = drain_step.done st := by
  have h1 : checkErrorCode be (readPacket be recvmsg_timeout).1 RES_OK = false := by
    cases be <;> decide
  have h2 : checkErrorCode be (readPacket be recvmsg_timeout).1 RES_PACKET_TIMEOUT = true := by
    cases be <;> decide
  simp only [connectIVSHMEM_drain_step, h1, h2, Bool.false_eq_true, if_false, if_true]

theorem map_update_listed (P : List (Nat × List Int)) (q : Nat)
    (f : ivshmem_peer_node → ivshmem_peer_node) (node : hash_table_node ivshmem_peer_node)
    (hnew : ∀ g ∈ P, g.1 ≠ q) :
    (P.map listedPeer ++ [node]).map
        (fun n => if n.entry.peer_id = q then { n with entry := f n.entry } else n)
      = P.map listedPeer
        ++ [if node.entry.peer_id = q then { node with entry := f node.entry } else node] := by
  rw [List.map_append, List.map_singleton]
  congr 1
  rw [List.map_map]
  apply List.map_congr_left
  intro g hg
  have : ¬ ((listedPeer g).entry.peer_id = q) := hnew g hg
  simp only [Function.comp, if_neg this]

theorem drain_packet_self (be : Bool) (s : Nat) (sock shm fd : Int) (st : drain_state)
    (P : List (Nat × List Int)) (own : List Int) (hs : s ≤ 0xffff)
    (hinv : DrainInv s sock shm st P own)
    (hcur : st.tempCurrentPeerID = s → st.tempCurrentList = current_list.self)
    (hlen : own.length + 1 < 2 ^ 32 - 1) :
    ∃ st1, connectIVSHMEM_drain_step be s (payloadWithFd s fd) st = drain_step.next st1 ∧
      DrainInv s sock shm st1 P (own ++ [fd]) ∧ st1.tempCurrentPeerID = s ∧
      st1.tempCurrentList = current_list.self := by
  obtain ⟨h1, h2, h3, h4, h5, h6, h7, h8⟩ := hinv
  have hm := mallocOk_of_all st.malloc h5
  have hlist : (st.aConnection.vector_list.map fun l =>
      (linked_list_add_last l (linked_list_node_init
        { state := linked_list_node_state.NEW, entry := { vector_fd := fd } })).2)
      = some (vectorList (own ++ [fd])) := by
    rw [h3, Option.map_some', add_last_vectorList own fd hlen]
  by_cases hc : st.tempCurrentPeerID = s
  · refine ⟨_, drain_step_same be s s fd st hs hc hm, ?_, hc, hcur hc⟩
    rw [hcur hc]
    exact ⟨h1, h2, hlist, h4, all_tail _ h5, h6, h7, h8⟩
  · refine ⟨_, drain_step_self be s fd st hs hc hm, ?_, rfl, rfl⟩
    exact ⟨h1, h2, hlist, h4, all_tail _ h5, h6, h7, h8⟩

theorem drain_packet_same_peer (be : Bool) (s q : Nat) (sock shm fd : Int) (st : drain_state)
    (P : List (Nat × List Int)) (fds own : List Int) (hq : q ≤ 0xffff)
    (hinv : DrainInv s sock shm st (P ++ [(q, fds)]) own)
    (hcur : st.tempCurrentPeerID = q) (hlist : st.tempCurrentList = current_list.peer q)
    (hlen : fds.length + 1 < 2 ^ 32 - 1) :
    ∃ st1, connectIVSHMEM_drain_step be s (payloadWithFd q fd) st = drain_step.next st1 ∧
      DrainInv s sock shm st1 (P ++ [(q, fds ++ [fd])]) own ∧ st1.tempCurrentPeerID = q ∧
      st1.tempCurrentList = current_list.peer q := by
  obtain ⟨h1, h2, h3, h4, h5, h6, h7, h8⟩ := hinv
  have hm := mallocOk_of_all st.malloc h5
  have hnew : ∀ g ∈ P, g.1 ≠ q := by
    intro g hg
    have hpw := h1.2.2.2.2
    rw [List.map_append, List.pairwise_append] at hpw
    exact hpw.2.2 (listedPeer g) (List.mem_map_of_mem _ hg) (listedPeer (q, fds))
      (List.mem_singleton.mpr rfl)
  obtain ⟨hu1, hu2⟩ := updatePeerNode_of_holds st.aConnection.peers _ h1 q
    (fun e => { e with vector_list := e.vector_list.map fun l =>
      (linked_list_add_last l (linked_list_node_init
        { state := linked_list_node_state.NEW, entry := { vector_fd := fd } })).2 })
    (fun _ => rfl)
  rw [List.map_append, List.map_singleton, map_update_listed P q
    (fun e => { e with vector_list := e.vector_list.map fun l =>
      (linked_list_add_last l (linked_list_node_init
        { state := linked_list_node_state.NEW, entry := { vector_fd := fd } })).2 })
    (listedPeer (q, fds)) hnew] at hu1
  have hnode : (if (listedPeer (q, fds)).entry.peer_id = q then
      { listedPeer (q, fds) with
        entry := { (listedPeer (q, fds)).entry with
          vector_list := (listedPeer (q, fds)).entry.vector_list.map fun l =>
            (linked_list_add_last l (linked_list_node_init
              { state := linked_list_node_state.NEW, entry := { vector_fd := fd } })).2 } }
      else listedPeer (q, fds)) = listedPeer (q, fds ++ [fd]) := by
    have hid : (listedPeer (q, fds)).entry.peer_id = q := rfl
    rw [if_pos hid]
    simp only [listedPeer, Option.map_some', add_last_vectorList fds fd hlen]
  rw [hnode] at hu1
  refine ⟨_, drain_step_same be s q fd st hq hcur hm, ?_, hcur, hlist⟩
  rw [hlist]
  refine ⟨?_, ?_, h3, h4, all_tail _ h5, h6, h7, h8⟩
  · rw [List.map_append, List.map_singleton]
    exact hu1
  · exact hu2.trans h2

theorem drain_packet_new_peer (be : Bool) (s q : Nat) (sock shm fd : Int) (st : drain_state)
    (P : List (Nat × List Int)) (own : List Int) (hq : q ≤ 0xffff)
    (hinv : DrainInv s sock shm st P own)
    (hcur : st.tempCurrentPeerID ≠ q) (hqs : q ≠ s) (hnew : ∀ g ∈ P, g.1 ≠ q) :
    ∃ st1, connectIVSHMEM_drain_step be s (payloadWithFd q fd) st = drain_step.next st1 ∧
      DrainInv s sock shm st1 (P ++ [(q, [fd])]) own ∧ st1.tempCurrentPeerID = q ∧
      st1.tempCurrentList = current_list.peer q := by
  obtain ⟨h1, h2, h3, h4, h5, h6, h7, h8⟩ := hinv
  have hm1 := mallocOk_of_all st.malloc h5
  have hm2 := mallocOk_of_all _ (all_tail _ h5)
  have hm3 := mallocOk_of_all _ (all_tail _ (all_tail _ h5))
  obtain ⟨ha1, ha2, ha3⟩ := hash_table_add_of_holds st.aConnection.peers _ h1
    { hash := q, entry := { ivshmem_peer_node.zero with vector_count := 0, peer_id := q } }
    ⟨rfl, by simp only; omega⟩
    (by
      intro n hn
      obtain ⟨g, hg, rfl⟩ := List.mem_map.mp hn
      exact hnew g hg)
  obtain ⟨hu1, hu2⟩ := updatePeerNode_of_holds _ _ ha2 q
    (fun e => { e with vector_list := some linked_list_init }) (fun _ => rfl)
  rw [map_update_listed P q (fun e => { e with vector_list := some linked_list_init })
    { hash := q, entry := { ivshmem_peer_node.zero with vector_count := 0, peer_id := q } }
    hnew] at hu1
  obtain ⟨hv1, hv2⟩ := updatePeerNode_of_holds _ _ hu1 q
    (fun e => { e with vector_list := e.vector_list.map fun l =>
      (linked_list_add_last l (linked_list_node_init
        { state := linked_list_node_state.NEW, entry := { vector_fd := fd } })).2 })
    (fun _ => rfl)
  rw [map_update_listed P q
    (fun e => { e with vector_list := e.vector_list.map fun l =>
      (linked_list_add_last l (linked_list_node_init
        { state := linked_list_node_state.NEW, entry := { vector_fd := fd } })).2 })
    _ hnew] at hv1
  refine ⟨_, drain_step_new be s q fd st hq hcur hqs hm1 hm2 hm3 ha1, ?_, rfl, rfl⟩
  refine ⟨?_, ?_, h3, h4, all_tail _ (all_tail _ (all_tail _ h5)), h6, h7, h8⟩
  · convert hv1 using 2
    rw [List.map_append, List.map_singleton]
    congr 2
    simp only [if_true, listedPeer, ivshmem_peer_node.zero, Option.map_some']
    rw [show (linked_list_init : linked_list ivshmem_vector_node) = vectorList [] from rfl,
      add_last_vectorList [] fd (by decide)]
    rfl
  · exact hv2.trans (hu2.trans (ha3.trans h2))

theorem connectIVSHMEM_drain_passes_append (be : Bool) (s : Nat) (a b : List recvmsg_result)
    (st : drain_state) :
    connectIVSHMEM_drain_passes be s (a ++ b) st
      = (connectIVSHMEM_drain_passes be s a st).bind (connectIVSHMEM_drain_passes be s b) := by
  induction a generalizing st with
  | nil => rfl
  | cons msg a ih =>
    simp only [List.cons_append, connectIVSHMEM_drain_passes]
    cases connectIVSHMEM_drain_step be s msg st with
    | next s1 => exact ih s1
    | done s1 => rfl
    | fail x y z => rfl

theorem length_groupPackets (G : List (Nat × List Int)) :
    (groupPackets G).length = (G.map fun g => g.2.length).sum := by
  induction G with
  | nil => rfl
  | cons g G ih =>
    simp only [groupPackets, List.length_append, List.length_map, List.map_cons, List.sum_cons, ih]

theorem drain_rest_self (be : Bool) (s : Nat) (sock shm : Int) (P : List (Nat × List Int))
    (hs : s ≤ 0xffff) (fds : List Int) :
    ∀ (st : drain_state) (own : List Int), DrainInv s sock shm st P own →
      st.tempCurrentPeerID = s → st.tempCurrentList = current_list.self →
      own.length + fds.length < 2 ^ 32 - 1 →
      ∃ st1, connectIVSHMEM_drain_passes be s (fds.map (payloadWithFd s)) st = some st1 ∧
        DrainInv s sock shm st1 P (own ++ fds) ∧ st1.tempCurrentPeerID = s ∧
        st1.tempCurrentList = current_list.self := by
  induction fds with
  | nil =>
    intro st own hinv hc hl _
    refine ⟨st, rfl, ?_, hc, hl⟩
    rw [List.append_nil]
    exact hinv
  | cons fd fds ih =>
    intro st own hinv hc hl hlen
    simp only [List.length_cons] at hlen
    obtain ⟨st1, e1, hinv1, hc1, hl1⟩ := drain_packet_self be s sock shm fd st P own hs hinv
      (fun _ => hl) (by omega)
    obtain ⟨st2, e2, hinv2, hc2, hl2⟩ := ih st1 (own ++ [fd]) hinv1 hc1 hl1
      (by simp only [List.length_append, List.length_singleton]; omega)
    refine ⟨st2, ?_, ?_, hc2, hl2⟩
    · simp only [List.map_cons, connectIVSHMEM_drain_passes, e1]
      exact e2
    · rw [List.append_assoc] at hinv2
      exact hinv2

theorem drain_rest_peer (be : Bool) (s q : Nat) (sock shm : Int) (P : List (Nat × List Int))
    (own : List Int) (hq : q ≤ 0xffff) (fds : List Int) :
    ∀ (st : drain_state) (done : List Int), DrainInv s sock shm st (P ++ [(q, done)]) own →
      st.tempCurrentPeerID = q → st.tempCurrentList = current_list.peer q →
      done.length + fds.length < 2 ^ 32 - 1 →
      ∃ st1, connectIVSHMEM_drain_passes be s (fds.map (payloadWithFd q)) st = some st1 ∧
        DrainInv s sock shm st1 (P ++ [(q, done ++ fds)]) own ∧ st1.tempCurrentPeerID = q ∧
        st1.tempCurrentList = current_list.peer q := by
  induction fds with
  | nil =>
    intro st done hinv hc hl _
    refine ⟨st, rfl, ?_, hc, hl⟩
    rw [List.append_nil]
    exact hinv
  | cons fd fds ih =>
    intro st done hinv hc hl hlen
    simp only [List.length_cons] at hlen
    obtain ⟨st1, e1, hinv1, hc1, hl1⟩ := drain_packet_same_peer be s q sock shm fd st P done own
      hq hinv hc hl (by omega)
    obtain ⟨st2, e2, hinv2, hc2, hl2⟩ := ih st1 (done ++ [fd]) hinv1 hc1 hl1
      (by simp only [List.length_append, List.length_singleton]; omega)
    refine ⟨st2, ?_, ?_, hc2, hl2⟩
    · simp only [List.map_cons, connectIVSHMEM_drain_passes, e1]
      exact e2
    · rw [List.append_assoc] at hinv2
      exact hinv2

/-- The drain loop over the descriptor packets of the groups `G`: every pass ends at the end
of the loop body, the non-self groups become the new peer entries in order, and the
descriptors of the self groups are appended to the own descriptors. -/
theorem drain_groups (be : Bool) (s : Nat) (sock shm : Int) (hs : s ≤ 0xffff)
    (G : List (Nat × List Int)) :
    ∀ (st : drain_state) (P : List (Nat × List Int)) (own : List Int),
      DrainInv s sock shm st P own →
      (st.tempCurrentPeerID = 2 ^ 64 - 1 ∨
        (st.tempCurrentPeerID = s ∧ st.tempCurrentList = current_list.self) ∨
        st.tempCurrentPeerID ∈ P.map Prod.fst) →
      (∀ g ∈ P, g.1 ≠ s) →
      (∀ g ∈ G, g.1 ≤ 0xffff ∧ g.2 ≠ []) →
      (P.map Prod.fst ++ (G.filter fun g => g.1 ≠ s).map Prod.fst).Nodup →
      own.length + (G.map fun g => g.2.length).sum < 2 ^ 32 - 1 →
      ∃ st1, connectIVSHMEM_drain_passes be s (groupPackets G) st = some st1 ∧
        DrainInv s sock shm st1 (P ++ G.filter fun g => g.1 ≠ s)
          (own ++ ((G.filter fun g => g.1 = s).map Prod.snd).flatten) := by
  induction G with
  | nil =>
    intro st P own hinv _ _ _ _ _
    refine ⟨st, rfl, ?_⟩
    simp only [List.filter_nil, List.append_nil, List.map_nil, List.flatten_nil]
    exact hinv
  | cons g G ih =>
    intro st P own hinv hcur hP hG hnd hlen
    obtain ⟨q, l⟩ := g
    have hq := (hG (q, l) (List.mem_cons_self _ _)).1
    have hl := (hG (q, l) (List.mem_cons_self _ _)).2
    have hG2 : ∀ g ∈ G, g.1 ≤ 0xffff ∧ g.2 ≠ [] := fun g hg => hG g (List.mem_cons_of_mem _ hg)
    simp only at hq hl
    obtain ⟨fd, fds, rfl⟩ : ∃ fd fds, l = fd :: fds := by
      cases l with
      | nil => exact absurd rfl hl
      | cons fd fds => exact ⟨fd, fds, rfl⟩
    simp only [List.map_cons, List.sum_cons, List.length_cons] at hlen
    by_cases hqs : q = s
    · subst hqs
      have hc : st.tempCurrentPeerID = q → st.tempCurrentList = current_list.self := by
        intro e
        rcases hcur with h | h | h
        · omega
        · exact h.2
        · obtain ⟨g, hg, hg2⟩ := List.mem_map.mp h
          exact absurd (hg2.trans e) (hP g hg)
      obtain ⟨st1, e1, hinv1, hc1, hl1⟩ := drain_packet_self be q sock shm fd st P own hs hinv
        hc (by omega)
      obtain ⟨st2, e2, hinv2, hc2, hl2⟩ := drain_rest_self be q sock shm P hs fds st1
        (own ++ [fd]) hinv1 hc1 hl1
        (by simp only [List.length_append, List.length_singleton]; omega)
      have hnd2 : (P.map Prod.fst ++ (G.filter fun g => g.1 ≠ q).map Prod.fst).Nodup := by
        simpa using hnd
      obtain ⟨st3, e3, hinv3⟩ := ih st2 P ((own ++ [fd]) ++ fds) hinv2 (Or.inr (Or.inl ⟨hc2, hl2⟩))
        hP hG2 hnd2
        (by simp only [List.length_append, List.length_singleton]; omega)
      refine ⟨st3, ?_, ?_⟩
      · show connectIVSHMEM_drain_passes be q
          (payloadWithFd q fd :: (fds.map (payloadWithFd q) ++ groupPackets G)) st = some st3
        simp only [connectIVSHMEM_drain_passes, e1]
        rw [connectIVSHMEM_drain_passes_append, e2]
        exact e3
      · have ef : ((q, fd :: fds) :: G).filter (fun g => g.1 ≠ q) = G.filter fun g => g.1 ≠ q := by
          simp
        have eo : (((q, fd :: fds) :: G).filter (fun g => g.1 = q)).map Prod.snd
            = (fd :: fds) :: (G.filter fun g => g.1 = q).map Prod.snd := by
          simp
        rw [ef, eo, List.flatten_cons]
        simpa using hinv3
    · have ef : ((q, fd :: fds) :: G).filter (fun g => g.1 ≠ s)
          = (q, fd :: fds) :: G.filter fun g => g.1 ≠ s := by
        simp [hqs]
      have eo : (((q, fd :: fds) :: G).filter (fun g => g.1 = s))
          = G.filter fun g => g.1 = s := by
        simp [hqs]
      rw [ef] at hnd
      simp only [List.map_cons] at hnd
      have hqP : q ∉ P.map Prod.fst := by
        intro hmem
        have := List.nodup_append.mp hnd
        exact this.2.2 hmem (List.mem_cons_self _ _)
      have hnew : ∀ g ∈ P, g.1 ≠ q := fun g hg e => hqP (e ▸ List.mem_map_of_mem Prod.fst hg)
      have hc : st.tempCurrentPeerID ≠ q := by
        intro e
        rcases hcur with h | h | h
        · omega
        · exact hqs (e.symm.trans h.1)
        · exact hqP (e ▸ h)
      obtain ⟨st1, e1, hinv1, hc1, hl1⟩ := drain_packet_new_peer be s q sock shm fd st P own hq
        hinv hc hqs hnew
      obtain ⟨st2, e2, hinv2, hc2, _⟩ := drain_rest_peer be s q sock shm P own hq fds st1 [fd]
        hinv1 hc1 hl1 (by simp only [List.length_singleton]; omega)
      have hnd2 : ((P ++ [(q, fd :: fds)]).map Prod.fst
          ++ (G.filter fun g => g.1 ≠ s).map Prod.fst).Nodup := by
        simpa using hnd
      obtain ⟨st3, e3, hinv3⟩ := ih st2 (P ++ [(q, fd :: fds)]) own hinv2
        (Or.inr (Or.inr (by rw [hc2]; simp)))
        (by
          intro g hg
          rcases List.mem_append.mp hg with h | h
          · exact hP g h
          · rw [List.mem_singleton.mp h]
            exact hqs)
        hG2 hnd2 (by omega)
      refine ⟨st3, ?_, ?_⟩
      · show connectIVSHMEM_drain_passes be s
          (payloadWithFd q fd :: (fds.map (payloadWithFd q) ++ groupPackets G)) st = some st3
        simp only [connectIVSHMEM_drain_passes, e1]
        rw [connectIVSHMEM_drain_passes_append, e2]
        exact e3
      · rw [ef, eo]
        simpa using hinv3

theorem drainInv_start (os : os_answers) (s : Nat) (shm : Int) (hs : s ≤ 0xffff)
    (hall : ∀ b ∈ os.malloc, b = true) :
    DrainInv s os.socket shm (drainStart os s shm) [] [] :=
  ⟨holds_hash_table_init, rfl, rfl, rfl, all_tail _ (all_tail _ hall),
    Nat.mod_eq_of_lt (by omega), rfl, rfl⟩

theorem drain_groups_from_start (be : Bool) (os : os_answers) (s : Nat) (shm : Int)
    (G : List (Nat × List Int)) (hs : s ≤ 0xffff) (hall : ∀ b ∈ os.malloc, b = true)
    (hG : ∀ g ∈ G, g.1 ≤ 0xffff ∧ g.2 ≠ [])
    (hnd : ((G.filter fun g => g.1 ≠ s).map Prod.fst).Nodup)
    (hlen : (groupPackets G).length < 2 ^ 32 - 1) :
    ∃ st1, connectIVSHMEM_drain_passes be s (groupPackets G) (drainStart os s shm) = some st1 ∧
      DrainInv s os.socket shm st1 (G.filter fun g => g.1 ≠ s)
        ((G.filter fun g => g.1 = s).map Prod.snd).flatten := by
  rw [length_groupPackets] at hlen
  obtain ⟨st1, e1, hinv⟩ := drain_groups be s os.socket shm hs G (drainStart os s shm) [] []
    (drainInv_start os s shm hs hall) (Or.inl rfl) (fun _ hg => absurd hg (List.not_mem_nil _))
    hG (by simpa using hnd) (by simpa using hlen)
  exact ⟨st1, e1, by simpa using hinv⟩

theorem connectIVSHMEM_drain_done (be : Bool) (s : Nat) (pre : List recvmsg_result)
    (st st1 : drain_state) (h : connectIVSHMEM_drain_passes be s pre st = some st1) :
    connectIVSHMEM_drain be s pre st = drain_step.done st1 := by
  have e := connectIVSHMEM_drain_append be s pre [] st st1 h
  rw [List.append_nil] at e
  rw [e]
  simp only [connectIVSHMEM_drain, drain_step_timeout]

theorem convert_vectorList (be : Bool) (fds : List Int) (h : fds ≠ []) :
    convertVectorListToArray be [] (some (vectorList fds))
      = (combineErrorCode be RES_OK 0, none, some fds, fds.length % 2 ^ 16, []) := by
  have hsize : ¬ (fds.length = 0) := fun e => h (List.length_eq_zero.mp e)
  have hm : ¬ (mallocOk [] = false) := by decide
  have hnodes : ((vectorList fds).nodes.map fun tempVectorNode => tempVectorNode.entry.vector_fd)
      = fds := by
    simp only [vectorList, List.map_map]
    exact List.map_id fds
  have hsz : (vectorList fds).size = fds.length := rfl
  simp only [convertVectorListToArray, if_neg hsize, if_neg hm, hnodes, hsz, List.tail_nil]

theorem convertedPeer_listedPeer (be : Bool) (g : Nat × List Int) (hg : g.2 ≠ []) :
    convertedPeer be (listedPeer g) = arrayPeer g := by
  have e : (listedPeer g).entry.vector_list = some (vectorList g.2) := rfl
  simp only [convertedPeer, e, convert_vectorList be g.2 hg]
  rfl

theorem convert_own (be : Bool) (own : List Int) :
    (convertVectorListToArray be [] (some (vectorList own))).2.2.1
      = (if own = [] then none else some own) ∧
    (convertVectorListToArray be [] (some (vectorList own))).2.2.2.1
      = (if own = [] then 0 else own.length % 2 ^ 16) ∧
    (convertVectorListToArray be [] (some (vectorList own))).2.1 = none := by
  by_cases ho : own = []
  · subst ho
    exact ⟨rfl, rfl, rfl⟩
  · rw [convert_vectorList be own ho, if_neg ho, if_neg ho]
    exact ⟨rfl, rfl, rfl⟩

theorem find?_of_mem_pairwise (X : List (hash_table_node ivshmem_peer_node))
    (hpw : X.Pairwise fun a b => a.entry.peer_id ≠ b.entry.peer_id)
    (n : hash_table_node ivshmem_peer_node) (hn : n ∈ X) :
    X.find? (fun x => x.entry.peer_id == n.entry.peer_id) = some n := by
  induction X with
  | nil => exact absurd hn (List.not_mem_nil _)
  | cons y X ih =>
    rw [List.pairwise_cons] at hpw
    rcases List.mem_cons.mp hn with h | h
    · subst h
      simp
    · have hne : ¬ (y.entry.peer_id = n.entry.peer_id) := hpw.1 n h
      simp only [List.find?_cons, beq_iff_eq, hne]
      have : (y.entry.peer_id == n.entry.peer_id) = false := by simpa using hne
      rw [this]
      exact ih hpw.2 h

theorem perm_of_holds (X Y : List (hash_table_node ivshmem_peer_node))
    (hX : X.Pairwise fun a b => a.entry.peer_id ≠ b.entry.peer_id)
    (hY : Y.Pairwise fun a b => a.entry.peer_id ≠ b.entry.peer_id)
    (h : ∀ n, n ∈ X ↔ n ∈ Y) : X.Perm Y := by
  have h1 : X.Nodup := hX.imp (fun hab e => hab (by rw [e]))
  have h2 : Y.Nodup := hY.imp (fun hab e => hab (by rw [e]))
  exact (List.perm_ext_iff_of_nodup h1 h2).mpr h

/-- The part of `connectIVSHMEM` after the drain loop, on a loop state whose registry holds
the listed nodes of the peer entries `P` and whose own vector list holds `own`. -/
theorem connectIVSHMEM_finish_of_listed (be : Bool) (os : os_answers) (st : drain_state)
    (P : List (Nat × List Int)) (own : List Int) (mem : Nat → Nat)
    (h1 : HoldsPeers st.aConnection.peers (P.map listedPeer))
    (h2 : st.aConnection.peers.hashTableLenght = 32)
    (h3 : st.aConnection.vector_list = some (vectorList own))
    (h5 : ∀ b ∈ st.malloc, b = true) (hP : ∀ g ∈ P, g.2 ≠ [])
    (hfstat : os.fstat = 0) (hmmap : os.mmap = some mem) :
    (connectIVSHMEM_finish be os st).1 = combineErrorCode be RES_OK 0 ∧
    (connectIVSHMEM_finish be os st).2.2 = st.closed ∧
    (∃ X, HoldsPeers (connectIVSHMEM_finish be os st).2.1.peers X ∧ X.Perm (P.map arrayPeer)) ∧
    (connectIVSHMEM_finish be os st).2.1.peer_id = st.aConnection.peer_id ∧
    (connectIVSHMEM_finish be os st).2.1.sock_fd = st.aConnection.sock_fd ∧
    (connectIVSHMEM_finish be os st).2.1.shmem_fd = st.aConnection.shmem_fd ∧
    (connectIVSHMEM_finish be os st).2.1.vector_list = none ∧
    (connectIVSHMEM_finish be os st).2.1.vector_fds = (if own = [] then none else some own) ∧
    (connectIVSHMEM_finish be os st).2.1.vector_count
      = (if own = [] then 0 else own.length % 2 ^ 16) ∧
    (connectIVSHMEM_finish be os st).2.1.mapped
      = some { memory := mem, size := toUnsigned 64 os.st_size, closed := false } := by
  obtain ⟨f1, f2, ⟨X, fX, fmem⟩, f4, f5, f6, f7, f8, f9, f10⟩ :=
    connectIVSHMEM_finish_ok be os st (P.map listedPeer) mem h1 (by rw [h2]; decide) h5 hfstat
      hmmap
  have hmap : (P.map listedPeer).map (convertedPeer be) = P.map arrayPeer := by
    rw [List.map_map]
    apply List.map_congr_left
    intro g hg
    exact convertedPeer_listedPeer be g (hP g hg)
  rw [hmap] at fmem
  have hY : (P.map arrayPeer).Pairwise fun a b => a.entry.peer_id ≠ b.entry.peer_id := by
    have := h1.2.2.2.2
    rw [List.pairwise_map] at this ⊢
    exact this
  obtain ⟨c1, c2, c3⟩ := convert_own be own
  rw [h3] at f7 f8 f9
  exact ⟨f1, f2, ⟨X, fX, perm_of_holds X _ fX.2.2.2.2 hY fmem⟩, f4, f5, f6, by rw [f7, c3],
    by rw [f8, c1], by rw [f9, c2], f10⟩

/-- Lookups in a registry that holds a permutation of the array nodes of `P`. -/
theorem hash_table_get_of_perm (table : hash_table ivshmem_peer_node)
    (X : List (hash_table_node ivshmem_peer_node)) (P : List (Nat × List Int))
    (hX : HoldsPeers table X) (hperm : X.Perm (P.map arrayPeer)) :
    (∀ g ∈ P, hash_table_get table (ivshmem_peer_node_search g.1 g.1) = some (arrayPeer g)) ∧
    (∀ p, p ≤ 0xffff → p ∉ P.map Prod.fst →
      hash_table_get table (ivshmem_peer_node_search p p) = none) := by
  constructor
  · intro g hg
    have hmem : arrayPeer g ∈ X := hperm.mem_iff.mpr (List.mem_map_of_mem _ hg)
    have h16 := (hX.2.2.2.1 _ hmem).2
    rw [hash_table_get_of_holds table X hX g.1 h16]
    exact find?_of_mem_pairwise X hX.2.2.2.2 (arrayPeer g) hmem
  · intro p hp hnot
    rw [hash_table_get_of_holds table X hX p (by omega)]
    apply List.find?_eq_none.mpr
    intro x hx
    obtain ⟨g, hg, rfl⟩ := List.mem_map.mp (hperm.mem_iff.mp hx)
    simp only [beq_iff_eq]
    intro e
    exact hnot (List.mem_map.mpr ⟨g, hg, e⟩)

/-- The handshake over the descriptor packets of the groups `G` followed by a timeout. -/
theorem connectIVSHMEM_groups (be : Bool) (os : os_answers) (aDevice : List Nat) (s : Nat)
    (shm : Int) (G : List (Nat × List Int)) (mem : Nat → Nat)
    (h : ReachesDrain os aDevice s shm (groupPackets G))
    (hall : ∀ b ∈ os.malloc, b = true) (hfstat : os.fstat = 0) (hmmap : os.mmap = some mem)
    (hG : ∀ g ∈ G, g.1 ≤ 0xffff ∧ g.2 ≠ [])
    (hnd : ((G.filter fun g => g.1 ≠ s).map Prod.fst).Nodup)
    (hlen : (groupPackets G).length < 2 ^ 32 - 1) :
    (connectIVSHMEM be os aDevice).1 = combineErrorCode be RES_OK 0 ∧
    (connectIVSHMEM be os aDevice).2.2 = [] ∧
    (∃ X, HoldsPeers (connectIVSHMEM be os aDevice).2.1.peers X ∧
      X.Perm ((G.filter fun g => g.1 ≠ s).map arrayPeer)) ∧
    (connectIVSHMEM be os aDevice).2.1.peer_id = s ∧
    (connectIVSHMEM be os aDevice).2.1.sock_fd = os.socket ∧
    (connectIVSHMEM be os aDevice).2.1.shmem_fd = shm ∧
    (connectIVSHMEM be os aDevice).2.1.vector_list = none ∧
    (connectIVSHMEM be os aDevice).2.1.vector_fds
      = (if ((G.filter fun g => g.1 = s).map Prod.snd).flatten = [] then none
          else some ((G.filter fun g => g.1 = s).map Prod.snd).flatten) ∧
    (connectIVSHMEM be os aDevice).2.1.vector_count
      = (if ((G.filter fun g => g.1 = s).map Prod.snd).flatten = [] then 0
          else ((G.filter fun g => g.1 = s).map Prod.snd).flatten.length % 2 ^ 16) ∧
    (connectIVSHMEM be os aDevice).2.1.mapped
      = some { memory := mem, size := toUnsigned 64 os.st_size, closed := false } := by
  have hs : s ≤ 0xffff := h.2.2.2.2.2.2.2.1
  obtain ⟨st1, e1, hinv⟩ := drain_groups_from_start be os s shm G hs hall hG hnd hlen
  have e : connectIVSHMEM be os aDevice = connectIVSHMEM_finish be os st1 := by
    rw [connectIVSHMEM_reaches_drain be os aDevice s shm _ h,
      connectIVSHMEM_drain_done be s _ _ st1 e1]
  rw [e]
  obtain ⟨h1, h2, h3, h4, h5, h6, h7, h8⟩ := hinv
  obtain ⟨f1, f2, f3, f4, f5, f6, f7, f8, f9, f10⟩ :=
    connectIVSHMEM_finish_of_listed be os st1 _ _ mem h1 h2 h3 h5
      (fun g hg => (hG g (List.mem_filter.mp hg).1).2) hfstat hmmap
  exact ⟨f1, f2.trans h4, f3, f4.trans h6, f5.trans h7, f6.trans h8, f7, f8, f9, f10⟩

theorem filter_fst_eq_of_nodup (G : List (Nat × List Int)) (hnd : (G.map Prod.fst).Nodup)
    (g : Nat × List Int) (hg : g ∈ G) : G.filter (fun x => x.1 = g.1) = [g] := by
  induction G with
  | nil => exact absurd hg (List.not_mem_nil _)
  | cons y G ih =>
    rw [List.map_cons, List.nodup_cons] at hnd
    rcases List.mem_cons.mp hg with h | h
    · subst h
      have hnone : G.filter (fun x => x.1 = g.1) = [] := by
        apply List.filter_eq_nil_iff.mpr
        intro x hx
        simp only [decide_eq_true_eq]
        intro e
        exact hnd.1 (e ▸ List.mem_map_of_mem Prod.fst hx)
      simp [hnone]
    · have hne : ¬ (y.1 = g.1) := fun e => hnd.1 (e ▸ List.mem_map_of_mem Prod.fst h)
      simp only [List.filter_cons, hne, decide_False, Bool.false_eq_true, if_false]
      exact ih hnd.2 h

/-- C16: for every handshake script that opens with the version 0, a self id `s ≤ 0xFFFF` and
the all-ones packet with the shared-memory descriptor, continues with descriptor packets
grouped by pairwise distinct peer ids `≤ 0xFFFF` (fewer than `2^32 - 1` packets) and then
times out, with every call of the operating system succeeding: `connectIVSHMEM` returns OK
and closes nothing, `peer_id` is `s`, the registry holds exactly one node per group of a peer
`p ≠ s` (a permutation of the array nodes of these groups), the lookup of each such peer
gives the node whose vector array is the descriptors sent for it in arrival order (and whose
16-bit `vector_count` is their number modulo `2^16`), the descriptors of a group for `s`
become the own vector array in arrival order, without such a group the own array stays NULL,
and the lookup of `s` and of every id that did not occur finds nothing. -/
theorem C16_handshake_builds_registry (be : Bool) (os : os_answers) (aDevice : List Nat)
    (s : Nat) (shm : Int) (groups : List (Nat × List Int)) (mem : Nat → Nat)
    (h : ReachesDrain os aDevice s shm (groupPackets groups))
    (hall : ∀ b ∈ os.malloc, b = true) (hfstat : os.fstat = 0) (hmmap : os.mmap = some mem)
    (hids : (groups.map Prod.fst).Nodup)
    (hgroups : ∀ g ∈ groups, g.1 ≤ 0xffff ∧ g.2 ≠ [])
    (hcount : (groupPackets groups).length < 2 ^ 32 - 1) :
    (connectIVSHMEM be os aDevice).1 = combineErrorCode be RES_OK 0 ∧
    (connectIVSHMEM be os aDevice).2.2 = [] ∧
    (connectIVSHMEM be os aDevice).2.1.peer_id = s ∧
    (∃ X, HoldsPeers (connectIVSHMEM be os aDevice).2.1.peers X ∧
      X.Perm ((groups.filter fun g => g.1 ≠ s).map arrayPeer)) ∧
    (∀ g ∈ groups, g.1 ≠ s →
      hash_table_get (connectIVSHMEM be os aDevice).2.1.peers (ivshmem_peer_node_search g.1 g.1)
        = some (arrayPeer g)) ∧
    (∀ g ∈ groups, g.1 = s →
      (connectIVSHMEM be os aDevice).2.1.vector_fds = some g.2 ∧
      (connectIVSHMEM be os aDevice).2.1.vector_count = g.2.length % 2 ^ 16) ∧
    ((∀ g ∈ groups, g.1 ≠ s) →
      (connectIVSHMEM be os aDevice).2.1.vector_fds = none ∧
      (connectIVSHMEM be os aDevice).2.1.vector_count = 0) ∧
    hash_table_get (connectIVSHMEM be os aDevice).2.1.peers (ivshmem_peer_node_search s s)
      = none ∧
    (∀ p, p ≤ 0xffff → p ∉ groups.map Prod.fst →
      hash_table_get (connectIVSHMEM be os aDevice).2.1.peers (ivshmem_peer_node_search p p)
        = none) := by
  have hs : s ≤ 0xffff := h.2.2.2.2.2.2.2.1
  have hnd : ((groups.filter fun g => g.1 ≠ s).map Prod.fst).Nodup :=
    hids.sublist ((List.filter_sublist groups).map Prod.fst)
  obtain ⟨r1, r2, ⟨X, hX, hperm⟩, r4, _, _, _, r8, r9, _⟩ :=
    connectIVSHMEM_groups be os aDevice s shm groups mem h hall hfstat hmmap hgroups hnd hcount
  obtain ⟨g1, g2⟩ := hash_table_get_of_perm _ X _ hX hperm
  refine ⟨r1, r2, r4, ⟨X, hX, hperm⟩, ?_, ?_, ?_, ?_, ?_⟩
  · intro g hg hgs
    exact g1 g (List.mem_filter.mpr ⟨hg, by simpa using hgs⟩)
  · intro g hg hgs
    have e := filter_fst_eq_of_nodup groups hids g hg
    rw [hgs] at e
    have hne : ¬ (g.2 = []) := (hgroups g hg).2
    rw [r8, r9, e]
    simp only [List.map_cons, List.map_nil, List.flatten_cons, List.flatten_nil, List.append_nil,
      if_neg hne, and_self]
  · intro hno
    have e : groups.filter (fun g => g.1 = s) = [] := by
      apply List.filter_eq_nil_iff.mpr
      intro x hx
      simpa using hno x hx
    rw [r8, r9, e]
    simp
  · apply g2 s hs
    intro hmem
    obtain ⟨g, hg, e⟩ := List.mem_map.mp hmem
    have := (List.mem_filter.mp hg).2
    simp only [decide_eq_true_eq] at this
    exact this e
  · intro p hp hnot
    apply g2 p hp
    intro hmem
    obtain ⟨g, hg, e⟩ := List.mem_map.mp hmem
    exact hnot (List.mem_map.mpr ⟨g, (List.mem_filter.mp hg).1, e⟩)

/-- C16 on the handshake with two peers (self id 5; the descriptors 10 and 11 for peer 3, then
12 for peer 7), and on the script with the own descriptors 20 and 21 followed by the
descriptor 10 for peer 3. -/
theorem C16_handshake_builds_registry_witness :
    ((connectIVSHMEM false twoPeerServer tmpShmemsock).1 = combineErrorCode false RES_OK 0 ∧
      (connectIVSHMEM false twoPeerServer tmpShmemsock).2.1.peer_id = 5 ∧
      hash_table_get (connectIVSHMEM false twoPeerServer tmpShmemsock).2.1.peers
        (ivshmem_peer_node_search 3 3) = some (arrayPeer (3, [10, 11])) ∧
      hash_table_get (connectIVSHMEM false twoPeerServer tmpShmemsock).2.1.peers
        (ivshmem_peer_node_search 7 7) = some (arrayPeer (7, [12])) ∧
      hash_table_get (connectIVSHMEM false twoPeerServer tmpShmemsock).2.1.peers
        (ivshmem_peer_node_search 5 5) = none ∧
      (connectIVSHMEM false twoPeerServer tmpShmemsock).2.1.vector_fds = none) ∧
    (connectIVSHMEM false
      (scriptedServer [payload 0, payload 5, payloadWithFd MAGIC_NUMBER 9, payloadWithFd 5 20,
        payloadWithFd 5 21, payloadWithFd 3 10]) tmpShmemsock).2.1.vector_fds
      = some [20, 21] := by
  have h1 := C16_handshake_builds_registry false twoPeerServer tmpShmemsock 5 9
    [(3, [10, 11]), (7, [12])] (fun _ => 0)
    ⟨by decide, by decide, by decide, by decide, by decide, by decide, by decide, by decide, rfl⟩
    (by decide) (by decide) rfl (by decide) (by decide) (by decide)
  have h2 := C16_handshake_builds_registry false
    (scriptedServer [payload 0, payload 5, payloadWithFd MAGIC_NUMBER 9, payloadWithFd 5 20,
      payloadWithFd 5 21, payloadWithFd 3 10]) tmpShmemsock 5 9
    [(5, [20, 21]), (3, [10])] (fun _ => 0)
    ⟨by decide, by decide, by decide, by decide, by decide, by decide, by decide, by decide, rfl⟩
    (by decide) (by decide) rfl (by decide) (by decide) (by decide)
  exact ⟨⟨h1.1, h1.2.2.1, h1.2.2.2.2.1 (3, [10, 11]) (by decide) (by decide),
    h1.2.2.2.2.1 (7, [12]) (by decide) (by decide), h1.2.2.2.2.2.2.2.1,
    (h1.2.2.2.2.2.2.1 (by decide)).1⟩,
    (h2.2.2.2.2.2.1 (5, [20, 21]) (by decide) rfl).1⟩

theorem drain_step_disconnect_none (be : Bool) (s v : Nat) (msg : recvmsg_result)
    (st : drain_state)
    (hres : checkErrorCode be (readPacket be msg).1 RES_OK = true)
    (hval : convertEndian be ((readPacket be msg).2.number be) = v)
    (hv : v ≤ 0xffff) (hvs : v ≠ s)
    (hrem : (hash_table_remove st.aConnection.peers (ivshmem_peer_node_search v v)).1 = none) :
    connectIVSHMEM_drain_step be s msg st
      = failClosed (combineErrorCode be RES_CLOSED_UNKNOWN_PEER 0) st.aConnection st.closed := by
  have hvv : ¬ (v > 0xffff) := by omega
  simp only [connectIVSHMEM_drain_step, hres, hval, if_true, if_neg hvv, if_neg hvs, hrem]

theorem drain_step_disconnect_some (be : Bool) (s v : Nat) (msg : recvmsg_result)
    (st : drain_state) (tempNode : hash_table_node ivshmem_peer_node)
    (hres : checkErrorCode be (readPacket be msg).1 RES_OK = true)
    (hval : convertEndian be ((readPacket be msg).2.number be) = v)
    (hv : v ≤ 0xffff) (hvs : v ≠ s)
    (hrem : (hash_table_remove st.aConnection.peers (ivshmem_peer_node_search v v)).1
      = some tempNode) :
    connectIVSHMEM_drain_step be s msg st
      = drain_step.done
          { st with
            aConnection :=
              { st.aConnection with
                peers := (hash_table_remove st.aConnection.peers
                  (ivshmem_peer_node_search v v)).2 },
            closed := st.closed ++ deallocPeerStructNode tempNode } := by
  have hvv : ¬ (v > 0xffff) := by omega
  simp only [connectIVSHMEM_drain_step, hres, hval, if_true, if_neg hvv, if_neg hvs, hrem]

theorem filter_listedPeer (P : List (Nat × List Int)) (v : Nat) :
    (P.map listedPeer).filter (fun n => n.entry.peer_id != v)
      = (P.filter fun g => g.1 ≠ v).map listedPeer := by
  rw [List.filter_map]
  congr 1
  apply List.filter_congr
  intro g _
  by_cases h : g.1 = v <;> simp [Function.comp, listedPeer, bne, h]

theorem dealloc_listedPeer (g : Nat × List Int) :
    deallocPeerStructNode (listedPeer g) = g.2.filter fun fd => fd ≠ -1 := by
  simp only [deallocPeerStructNode, listedPeer, closedByVectorList, closedByVectorArray,
    linked_list_clear, vectorList, List.map_map, List.append_nil]
  congr 1
  exact List.map_id g.2

/-- C17: a handshake whose drain loop has taken the descriptor packets of the groups
`groups` (non-self peer ids pairwise distinct, all `≤ 0xFFFF`) then receives a packet
without descriptor that carries `v ≤ 0xFFFF`, `v ≠ s`. At that packet the registry holds one
listed node per non-self group. If peer `v` is among them, the drain stops and the handshake
completes with OK: the descriptors of peer `v` are closed, its lookup finds nothing, and the
registry holds exactly the array nodes of the other non-self groups, each found by its
lookup. If peer `v` is not in the registry, the handshake fails with CLOSED_UNKNOWN_PEER. -/
theorem C17_drain_disconnect (be : Bool) (os : os_answers) (aDevice : List Nat) (s : Nat)
    (shm : Int) (groups : List (Nat × List Int)) (msg : recvmsg_result) (v : Nat)
    (rest : List recvmsg_result) (mem : Nat → Nat)
    (h : ReachesDrain os aDevice s shm (groupPackets groups ++ msg :: rest))
    (hall : ∀ b ∈ os.malloc, b = true) (hfstat : os.fstat = 0) (hmmap : os.mmap = some mem)
    (hids : ((groups.filter fun g => g.1 ≠ s).map Prod.fst).Nodup)
    (hgroups : ∀ g ∈ groups, g.1 ≤ 0xffff ∧ g.2 ≠ [])
    (hcount : (groupPackets groups).length < 2 ^ 32 - 1)
    (hres : checkErrorCode be (readPacket be msg).1 RES_OK = true)
    (hval : convertEndian be ((readPacket be msg).2.number be) = v)
    (hv : v ≤ 0xffff) (hvs : v ≠ s) :
    (∃ st, connectIVSHMEM_drain_passes be s (groupPackets groups) (drainStart os s shm) = some st ∧
      HoldsPeers st.aConnection.peers ((groups.filter fun g => g.1 ≠ s).map listedPeer)) ∧
    (∀ g ∈ groups, g.1 = v →
      (connectIVSHMEM be os aDevice).1 = combineErrorCode be RES_OK 0 ∧
      (connectIVSHMEM be os aDevice).2.2 = g.2.filter (fun fd => fd ≠ -1) ∧
      (connectIVSHMEM be os aDevice).2.1.peer_id = s ∧
      (∃ X, HoldsPeers (connectIVSHMEM be os aDevice).2.1.peers X ∧
        X.Perm (((groups.filter fun g => g.1 ≠ s).filter fun g => g.1 ≠ v).map arrayPeer)) ∧
      hash_table_get (connectIVSHMEM be os aDevice).2.1.peers (ivshmem_peer_node_search v v)
        = none ∧
      (∀ g1 ∈ groups, g1.1 ≠ s → g1.1 ≠ v →
        hash_table_get (connectIVSHMEM be os aDevice).2.1.peers
          (ivshmem_peer_node_search g1.1 g1.1) = some (arrayPeer g1))) ∧
    ((∀ g ∈ groups, g.1 ≠ v) →
      (connectIVSHMEM be os aDevice).1 = combineErrorCode be RES_CLOSED_UNKNOWN_PEER 0) := by
  have hs : s ≤ 0xffff := h.2.2.2.2.2.2.2.1
  have hv16 : v < 2 ^ 16 := by omega
  obtain ⟨st1, e1, hinv⟩ := drain_groups_from_start be os s shm groups hs hall hgroups hids hcount
  obtain ⟨h1, h2, h3, h4, h5, h6, h7, h8⟩ := hinv
  obtain ⟨hr1, hr2, _⟩ := hash_table_remove_of_holds st1.aConnection.peers _ h1 v hv16
  refine ⟨⟨st1, e1, h1⟩, ?_, ?_⟩
  · intro g hg hgv
    have hgP : g ∈ groups.filter (fun g => g.1 ≠ s) :=
      List.mem_filter.mpr ⟨hg, by simpa [hgv] using hvs⟩
    have hfind : ((groups.filter fun g => g.1 ≠ s).map listedPeer).find?
        (fun n => n.entry.peer_id == v) = some (listedPeer g) := by
      have := find?_of_mem_pairwise _ h1.2.2.2.2 (listedPeer g) (List.mem_map_of_mem _ hgP)
      rw [show (listedPeer g).entry.peer_id = v from hgv] at this
      exact this
    have hrem := hr1.trans hfind
    have hholds := hr2 (by rw [hfind]; rfl)
    rw [filter_listedPeer] at hholds
    have hstep := drain_step_disconnect_some be s v msg st1 _ hres hval hv hvs hrem
    have e : connectIVSHMEM be os aDevice
        = connectIVSHMEM_finish be os
            { st1 with
              aConnection :=
                { st1.aConnection with
                  peers := (hash_table_remove st1.aConnection.peers
                    (ivshmem_peer_node_search v v)).2 },
              closed := st1.closed ++ deallocPeerStructNode (listedPeer g) } := by
      rw [connectIVSHMEM_reaches_drain be os aDevice s shm _ h,
        connectIVSHMEM_drain_append be s _ (msg :: rest) _ st1 e1]
      simp only [connectIVSHMEM_drain, hstep]
    have hlen32 : (hash_table_remove st1.aConnection.peers
        (ivshmem_peer_node_search v v)).2.hashTableLenght = 32 := by
      simp only [hash_table_remove]
      split <;> exact h2
    obtain ⟨f1, f2, ⟨X, fX, fperm⟩, f4, _⟩ := connectIVSHMEM_finish_of_listed be os
      { st1 with
        aConnection :=
          { st1.aConnection with
            peers := (hash_table_remove st1.aConnection.peers
              (ivshmem_peer_node_search v v)).2 },
        closed := st1.closed ++ deallocPeerStructNode (listedPeer g) }
      ((groups.filter fun g => g.1 ≠ s).filter fun g => g.1 ≠ v)
      ((groups.filter fun g => g.1 = s).map Prod.snd).flatten mem hholds hlen32 h3 h5
      (fun g hg => (hgroups g (List.mem_filter.mp (List.mem_filter.mp hg).1).1).2) hfstat hmmap
    obtain ⟨g1, g2⟩ := hash_table_get_of_perm _ X _ fX fperm
    rw [e]
    refine ⟨f1, ?_, f4.trans h6, ⟨X, fX, fperm⟩, ?_, ?_⟩
    · rw [f2]
      simp only [h4, List.nil_append]
      exact dealloc_listedPeer g
    · apply g2 v hv
      intro hmem
      obtain ⟨x, hx, e2⟩ := List.mem_map.mp hmem
      have := (List.mem_filter.mp hx).2
      simp only [decide_eq_true_eq] at this
      exact this e2
    · intro x hx hxs hxv
      exact g1 x (List.mem_filter.mpr ⟨List.mem_filter.mpr ⟨hx, by simpa using hxs⟩,
        by simpa using hxv⟩)
  · intro hno
    have hfind : ((groups.filter fun g => g.1 ≠ s).map listedPeer).find?
        (fun n => n.entry.peer_id == v) = none := by
      apply List.find?_eq_none.mpr
      intro x hx
      obtain ⟨g, hg, rfl⟩ := List.mem_map.mp hx
      simp only [beq_iff_eq]
      exact hno g (List.mem_filter.mp hg).1
    have hrem := hr1.trans hfind
    have hstep := drain_step_disconnect_none be s v msg st1 hres hval hv hvs hrem
    rw [connectIVSHMEM_reaches_drain be os aDevice s shm _ h,
      connectIVSHMEM_drain_append be s _ (msg :: rest) _ st1 e1]
    simp only [connectIVSHMEM_drain, hstep, failClosed]

/-- C17 on the handshake with two peers followed by the value 3 without descriptor (peer 3 is
removed and its descriptors 10 and 11 are closed, peer 7 is kept), and followed by the value
4 without descriptor (CLOSED_UNKNOWN_PEER). -/
theorem C17_drain_disconnect_witness :
    ((connectIVSHMEM false
        (scriptedServer [payload 0, payload 5, payloadWithFd MAGIC_NUMBER 9, payloadWithFd 3 10,
          payloadWithFd 3 11, payloadWithFd 7 12, payload 3]) tmpShmemsock).1
        = combineErrorCode false RES_OK 0 ∧
      (connectIVSHMEM false
        (scriptedServer [payload 0, payload 5, payloadWithFd MAGIC_NUMBER 9, payloadWithFd 3 10,
          payloadWithFd 3 11, payloadWithFd 7 12, payload 3]) tmpShmemsock).2.2 = [10, 11] ∧
      hash_table_get (connectIVSHMEM false
        (scriptedServer [payload 0, payload 5, payloadWithFd MAGIC_NUMBER 9, payloadWithFd 3 10,
          payloadWithFd 3 11, payloadWithFd 7 12, payload 3]) tmpShmemsock).2.1.peers
        (ivshmem_peer_node_search 3 3) = none ∧
      hash_table_get (connectIVSHMEM false
        (scriptedServer [payload 0, payload 5, payloadWithFd MAGIC_NUMBER 9, payloadWithFd 3 10,
          payloadWithFd 3 11, payloadWithFd 7 12, payload 3]) tmpShmemsock).2.1.peers
        (ivshmem_peer_node_search 7 7) = some (arrayPeer (7, [12]))) ∧
    (connectIVSHMEM false
      (scriptedServer [payload 0, payload 5, payloadWithFd MAGIC_NUMBER 9, payloadWithFd 3 10,
        payloadWithFd 3 11, payloadWithFd 7 12, payload 4]) tmpShmemsock).1
      = combineErrorCode false RES_CLOSED_UNKNOWN_PEER 0 := by
  have h1 := (C17_drain_disconnect false
    (scriptedServer [payload 0, payload 5, payloadWithFd MAGIC_NUMBER 9, payloadWithFd 3 10,
      payloadWithFd 3 11, payloadWithFd 7 12, payload 3]) tmpShmemsock 5 9
    [(3, [10, 11]), (7, [12])] (payload 3) 3 [] (fun _ => 0)
    ⟨by decide, by decide, by decide, by decide, by decide, by decide, by decide, by decide, rfl⟩
    (by decide) (by decide) rfl (by decide) (by decide) (by decide) (by decide) (by decide)
    (by decide) (by decide)).2.1 (3, [10, 11]) (by decide) rfl
  have h2 := (C17_drain_disconnect false
    (scriptedServer [payload 0, payload 5, payloadWithFd MAGIC_NUMBER 9, payloadWithFd 3 10,
      payloadWithFd 3 11, payloadWithFd 7 12, payload 4]) tmpShmemsock 5 9
    [(3, [10, 11]), (7, [12])] (payload 4) 4 [] (fun _ => 0)
    ⟨by decide, by decide, by decide, by decide, by decide, by decide, by decide, by decide, rfl⟩
    (by decide) (by decide) rfl (by decide) (by decide) (by decide) (by decide) (by decide)
    (by decide) (by decide)).2.2 (by decide)
  exact ⟨⟨h1.1, h1.2.1, h1.2.2.2.2.1, h1.2.2.2.2.2 (7, [12]) (by decide) (by decide) (by decide)⟩,
    h2⟩

/-! ### sendInterrupt and pollInterrupt -/

theorem toUnsigned_eq_iff (x : Int) (k : Nat) (hk : k < 2 ^ 63)
    (hx : -(2 : Int) ^ 63 ≤ x ∧ x < (2 : Int) ^ 63) : toUnsigned 64 x = k ↔ x = (k : Int) := by
  unfold toUnsigned
  constructor
  · intro h
    have h2 : ((x % (2 : Int) ^ 64).toNat : Int) = (k : Int) := by rw [h]
    rw [Int.toNat_of_nonneg (Int.emod_nonneg _ (by norm_num))] at h2
    omega
  · intro h
    subst h
    have : ((k : Int) % (2 : Int) ^ 64) = (k : Int) := by omega
    rw [this]
    exact Int.toNat_natCast k

theorem loadNative_nativeBytes (be : Bool) (v : Nat) :
    loadNative be 8 (fun i => (nativeBytes be v).getD i 0) 0 = v % 2 ^ 64 := by
  have h := loadNative_storeNative be 8 (fun _ => 0) 0 v
  have hc : loadNative be 8 (fun i => (nativeBytes be v).getD i 0) 0
      = loadNative be 8 (storeNative be 8 (fun _ => 0) 0 v) 0 := by
    apply loadNative_congr
    intro i h1 h2
    have hi : i < 8 := by omega
    simp only [nativeBytes]
    rw [getD_map_range 8 i _ 0 hi]
  rw [hc, h]
  norm_num

/-- C23: on every connection (whatever its registry holds) and for every vector index,
`sendInterrupt` with the connection's own peer id as target returns
INTERRUPT_CANT_SELF_INTERRUPT, calls `write` on no descriptor and leaves the connection
with its registry as it was. -/
theorem C23_send_to_self (be : Bool) (w : write_result) (aConnection : ivshem_connection)
    (vector : Nat) (hid : aConnection.peer_id < 2 ^ 16) :
    sendInterrupt be w aConnection aConnection.peer_id vector
      = some { status := combineErrorCode be RES_INTERRUPT_CANT_SELF_INTERRUPT 0,
               aConnection := aConnection, written := [] } := by
  unfold sendInterrupt
  rw [if_pos (Nat.mod_eq_of_lt hid).symm]

/-- C23 on the connection of the handshake with two peers, whose own id is 5: a send to
(5, 0) is refused with INTERRUPT_CANT_SELF_INTERRUPT. -/
theorem C23_send_to_self_witness :
    (connectIVSHMEM false twoPeerServer tmpShmemsock).2.1.peer_id = 5 ∧
    sendInterrupt false { ret := 8, errno := 0 }
        (connectIVSHMEM false twoPeerServer tmpShmemsock).2.1
        (connectIVSHMEM false twoPeerServer tmpShmemsock).2.1.peer_id 0
      = some { status := combineErrorCode false RES_INTERRUPT_CANT_SELF_INTERRUPT 0,
               aConnection := (connectIVSHMEM false twoPeerServer tmpShmemsock).2.1,
               written := [] } :=
  ⟨by decide, C23_send_to_self false { ret := 8, errno := 0 }
    (connectIVSHMEM false twoPeerServer tmpShmemsock).2.1 0 (by decide)⟩
/-- C24: `sendInterrupt` to a target `p` other than the own peer id, with vector index `v`.
If the registry has no entry for `p`, the call returns PEER_DOESNT_EXIST; else if `v` is not
below the target's vector count, INTERRUPT_VECTOR_TOO_BIG; else if the target's descriptor
at index `v` is -1, INTERRUPT_VECTOR_CLOSED; else it makes one call of `write`, on that
descriptor, with the 8 bytes of the `uint64_t` value 1, and returns OK if `write` returned
8 and INTERRUPT_SEND_ERROR (with `errno`) otherwise. In every case the connection with its
registry is what it was. -/
theorem C24_send_interrupt (be : Bool) (w : write_result) (aConnection : ivshem_connection)
    (p v : Nat) (hp : p < 2 ^ 16) (hv : v < 2 ^ 16) (hself : aConnection.peer_id ≠ p)
    (hret : -(2 : Int) ^ 63 ≤ w.ret ∧ w.ret < (2 : Int) ^ 63) :
    (hash_table_get aConnection.peers (ivshmem_peer_node_search p p) = none →
      sendInterrupt be w aConnection p v
        = some { status := combineErrorCode be RES_PEER_DOESNT_EXIST 0,
                 aConnection := aConnection, written := [] }) ∧
    (∀ n, hash_table_get aConnection.peers (ivshmem_peer_node_search p p) = some n →
      (n.entry.vector_count ≤ v →
        sendInterrupt be w aConnection p v
          = some { status := combineErrorCode be RES_INTERRUPT_VECTOR_TOO_BIG 0,
                   aConnection := aConnection, written := [] }) ∧
      (∀ fds fd, v < n.entry.vector_count → n.entry.vector_fds = some fds →
          fds[v]? = some fd →
        (fd = -1 →
          sendInterrupt be w aConnection p v
            = some { status := combineErrorCode be RES_INTERRUPT_VECTOR_CLOSED 0,
                     aConnection := aConnection, written := [] }) ∧
        (fd ≠ -1 → w.ret = 8 →
          sendInterrupt be w aConnection p v
            = some { status := combineErrorCode be RES_OK 0,
                     aConnection := aConnection, written := [(fd, nativeBytes be 1)] }) ∧
        (fd ≠ -1 → w.ret ≠ 8 →
          sendInterrupt be w aConnection p v
            = some { status := combineErrorCode be RES_INTERRUPT_SEND_ERROR w.errno,
                     aConnection := aConnection, written := [(fd, nativeBytes be 1)] }))) ∧
    (nativeBytes be 1).length = 8 ∧
    loadNative be 8 (fun i => (nativeBytes be 1).getD i 0) 0 = 1 := by
  have hpm : p % 2 ^ 16 = p := Nat.mod_eq_of_lt hp
  have hvm : v % 2 ^ 16 = v := Nat.mod_eq_of_lt hv
  have h8 : toUnsigned 64 w.ret = IVSHMEM_PACKET_SIZE ↔ w.ret = 8 := by
    have := toUnsigned_eq_iff w.ret 8 (by norm_num) hret
    simpa [IVSHMEM_PACKET_SIZE] using this
  refine ⟨?_, ?_, ?_, ?_⟩
  · intro hget
    unfold sendInterrupt
    rw [hpm, if_neg hself, hget]
  · intro n hget
    refine ⟨?_, ?_⟩
    · intro hbig
      unfold sendInterrupt
      rw [hpm, hvm, if_neg hself, hget]
      simp only [if_pos hbig]
    · intro fds fd hsmall hfds hfd
      have hbind : (n.entry.vector_fds.bind fun fds => fds[v]?) = some fd := by
        rw [hfds]; exact hfd
      refine ⟨?_, ?_, ?_⟩
      · intro hclosed
        unfold sendInterrupt
        rw [hpm, hvm, if_neg hself, hget]
        simp only [if_neg (Nat.not_le.mpr hsmall), hbind, if_pos hclosed]
      · intro hopen hw
        unfold sendInterrupt
        rw [hpm, hvm, if_neg hself, hget]
        simp only [if_neg (Nat.not_le.mpr hsmall), hbind, if_neg hopen]
        rw [if_neg (not_not.mpr (h8.mpr hw))]
        rfl
      · intro hopen hw
        unfold sendInterrupt
        rw [hpm, hvm, if_neg hself, hget]
        simp only [if_neg (Nat.not_le.mpr hsmall), hbind, if_neg hopen]
        rw [if_pos (fun h => hw (h8.mp h))]
        rfl
  · simp [nativeBytes]
  · rw [loadNative_nativeBytes]; norm_num

/-- C24 on the connection of the handshake with two peers (own id 5, peer 3 with the
descriptors 10 and 11, peer 7 with the descriptor 12): a send to (3, 1) writes the value 1 to
descriptor 11 and returns OK, or INTERRUPT_SEND_ERROR when `write` fails; a send to (3, 2)
returns INTERRUPT_VECTOR_TOO_BIG and a send to (4, 0) returns PEER_DOESNT_EXIST. -/
theorem C24_send_interrupt_witness :
    sendInterrupt false { ret := 8, errno := 0 }
        (connectIVSHMEM false twoPeerServer tmpShmemsock).2.1 3 1
      = some { status := combineErrorCode false RES_OK 0,
               aConnection := (connectIVSHMEM false twoPeerServer tmpShmemsock).2.1,
               written := [(11, [1, 0, 0, 0, 0, 0, 0, 0])] } ∧
    sendInterrupt false { ret := 8, errno := 0 }
        (connectIVSHMEM false twoPeerServer tmpShmemsock).2.1 3 2
      = some { status := combineErrorCode false RES_INTERRUPT_VECTOR_TOO_BIG 0,
               aConnection := (connectIVSHMEM false twoPeerServer tmpShmemsock).2.1,
               written := [] } ∧
    sendInterrupt false { ret := 8, errno := 0 }
        (connectIVSHMEM false twoPeerServer tmpShmemsock).2.1 4 0
      = some { status := combineErrorCode false RES_PEER_DOESNT_EXIST 0,
               aConnection := (connectIVSHMEM false twoPeerServer tmpShmemsock).2.1,
               written := [] } :=
  ⟨((C24_send_interrupt false { ret := 8, errno := 0 }
      (connectIVSHMEM false twoPeerServer tmpShmemsock).2.1 3 1 (by decide) (by decide)
      (by decide) (by decide)).2.1 (arrayPeer (3, [10, 11])) rfl).2 [10, 11] 11
      (by decide) rfl rfl |>.2.1 (by decide) (by decide),
   ((C24_send_interrupt false { ret := 8, errno := 0 }
      (connectIVSHMEM false twoPeerServer tmpShmemsock).2.1 3 2 (by decide) (by decide)
      (by decide) (by decide)).2.1 (arrayPeer (3, [10, 11])) rfl).1 (by decide),
   (C24_send_interrupt false { ret := 8, errno := 0 }
      (connectIVSHMEM false twoPeerServer tmpShmemsock).2.1 4 0 (by decide) (by decide)
      (by decide) (by decide)).1 rfl⟩
theorem leadingBit_spec : ∀ (fuel n : Nat), n < 2 ^ fuel → 1 ≤ n →
    2 ^ leadingBit fuel n ≤ n ∧ n < 2 ^ (leadingBit fuel n + 1)
  | 0, n, h, h1 => by
    simp at h
    omega
  | fuel + 1, n, h, h1 => by
    simp only [leadingBit]
    by_cases h2 : n < 2
    · rw [if_pos h2]
      simp
      omega
    · rw [if_neg h2]
      have hlt : n / 2 < 2 ^ fuel := by
        rw [pow_succ] at h
        omega
      have ih := leadingBit_spec fuel (n / 2) hlt (by omega)
      rw [pow_succ, pow_succ]
      rw [pow_succ] at ih
      omega

theorem leadingBit_eq (n e : Nat) (h1 : 2 ^ e ≤ n) (h2 : n < 2 ^ (e + 1)) (h3 : n < 2 ^ 64) :
    leadingBit 64 n = e := by
  have hn : 1 ≤ n := le_trans (Nat.one_le_two_pow) h1
  obtain ⟨a, b⟩ := leadingBit_spec 64 n h3 hn
  have c1 : leadingBit 64 n < e + 1 := by
    by_contra hc
    have : 2 ^ (e + 1) ≤ 2 ^ leadingBit 64 n := Nat.pow_le_pow_right (by norm_num) (by omega)
    omega
  have c2 : e < leadingBit 64 n + 1 := by
    by_contra hc
    have : 2 ^ (leadingBit 64 n + 1) ≤ 2 ^ e := Nat.pow_le_pow_right (by norm_num) (by omega)
    omega
  omega

theorem roundHalfEven_bounds (a b : Nat) (hb : 0 < b) :
    2 * (b * roundHalfEven a b) ≤ 2 * a + b ∧ 2 * a ≤ 2 * (b * roundHalfEven a b) + b := by
  have h1 := Nat.div_add_mod a b
  have h2 := Nat.mod_lt a hb
  unfold roundHalfEven
  split_ifs <;> (try simp only [Nat.mul_add, Nat.mul_one]) <;>
    generalize b * (a / b) = X at * <;> omega

theorem roundFloat_of_bracket (a b e : Nat) (h1 : 2 ^ e ≤ a / (b * 2 ^ 23))
    (h2 : a / (b * 2 ^ 23) < 2 ^ (e + 1)) (h3 : a / (b * 2 ^ 23) < 2 ^ 64) :
    roundFloat a b = roundHalfEven a (b * 2 ^ e) * 2 ^ e := by
  unfold roundFloat
  simp only [leadingBit_eq _ e h1 h2 h3]


theorem roundFloat_exact (s : Nat) (hs : s < 2 ^ 24) :
    roundFloat (s * 2 ^ 23) 1 = s * 2 ^ 23 := by
  by_cases h0 : s = 0
  · subst h0
    decide
  · have hI : s * 2 ^ 23 / (1 * 2 ^ 23) = s := by omega
    obtain ⟨a, b⟩ := leadingBit_spec 64 s (by omega) (by omega)
    have he : leadingBit 64 s ≤ 23 := by
      by_contra hc
      have : 2 ^ 24 ≤ 2 ^ leadingBit 64 s := Nat.pow_le_pow_right (by norm_num) (by omega)
      omega
    unfold roundFloat
    simp only [hI]
    have hb := roundHalfEven_bounds (s * 2 ^ 23) (1 * 2 ^ leadingBit 64 s) (by positivity)
    generalize leadingBit 64 s = e at *
    generalize hr : roundHalfEven (s * 2 ^ 23) (1 * 2 ^ e) = r at *
    clear hr
    interval_cases e <;> omega

theorem optimal_of_bracket (s e : Nat) (he1 : 1 ≤ e) (he : e ≤ 22) (h1 : 2 ^ e ≤ 4 * s / 3)
    (h2 : 4 * s / 3 < 2 ^ (e + 1)) :
    roundFloat (roundFloat (s * 2 ^ 23 * 4) 3 + 2 ^ 23) 1 / 2 ^ 23 = 4 * s / 3 + 1 := by
  have hI : s * 2 ^ 23 * 4 / (3 * 2 ^ 23) = 4 * s / 3 := by omega
  have hI64 : 4 * s / 3 < 2 ^ 64 := by
    have : 2 ^ (e + 1) ≤ 2 ^ 23 := Nat.pow_le_pow_right (by norm_num) (by omega)
    omega
  rw [roundFloat_of_bracket _ 3 e (by rw [hI]; exact h1) (by rw [hI]; exact h2)
    (by rw [hI]; exact hI64)]
  have hb := roundHalfEven_bounds (s * 2 ^ 23 * 4) (3 * 2 ^ e) (by positivity)
  generalize hr : roundHalfEven (s * 2 ^ 23 * 4) (3 * 2 ^ e) = r at *
  clear hr
  have hJ : (r * 2 ^ e + 2 ^ 23) / (1 * 2 ^ 23) = 4 * s / 3 + 1 := by
    interval_cases e <;> omega
  have hJ2 : 4 * s / 3 + 1 < 2 ^ (e + 1) := by
    interval_cases e <;> omega
  rw [roundFloat_of_bracket _ 1 e (by rw [hJ]; omega) (by rw [hJ]; exact hJ2)
    (by
      rw [hJ]
      have : 2 ^ (e + 1) ≤ 2 ^ 23 := Nat.pow_le_pow_right (by norm_num) (by omega)
      omega)]
  have hb3 := roundHalfEven_bounds (r * 2 ^ e + 2 ^ 23) (1 * 2 ^ e) (by positivity)
  generalize hr3 : roundHalfEven (r * 2 ^ e + 2 ^ 23) (1 * 2 ^ e) = r3 at *
  clear hr3
  interval_cases e <;> omega

theorem hash_table_get_optimal_length_eq {β : Type} (table : hash_table β)
    (hlen : 32 ≤ table.hashTableLenght) (hs : table.size < 6291458) :
    hash_table_get_optimal_length (some table) = 4 * table.size / 3 + 1 := by
  unfold hash_table_get_optimal_length
  simp only [if_neg (Nat.not_lt.mpr hlen)]
  rw [roundFloat_exact table.size (by omega)]
  generalize table.size = s at *
  have hfin : ∀ x, x = 4 * s / 3 + 1 → x % 2 ^ 32 = 4 * s / 3 + 1 := by
    intro x hx
    omega
  apply hfin
  by_cases h0 : s = 0
  · subst h0
    decide
  · by_cases h1 : s = 1
    · subst h1
      decide
    · by_cases h2 : s = 6291456
      · subst h2
        decide
      · by_cases h3 : s = 6291457
        · subst h3
          decide
        · obtain ⟨a, b⟩ := leadingBit_spec 64 (4 * s / 3) (by omega) (by omega)
          have he : leadingBit 64 (4 * s / 3) ≤ 22 := by
            by_contra hc
            have : 2 ^ 23 ≤ 2 ^ leadingBit 64 (4 * s / 3) :=
              Nat.pow_le_pow_right (by norm_num) (by omega)
            omega
          have he1 : 1 ≤ leadingBit 64 (4 * s / 3) := by
            by_contra hc
            have h00 : leadingBit 64 (4 * s / 3) = 0 := by omega
            rw [h00] at b
            omega
          exact optimal_of_bracket s _ he1 he a b

/-- C28, as the sentence stands, fails: the table right after `hash_table_init` with 32
buckets has no entries, the sentence gives `max(32, ceil(0 / 0.75) + 1) = 32`, and
`hash_table_get_optimal_length` returns 1; with 25 entries the sentence gives 35 and the
function returns 34. From 6291458 entries on the single precision rounding shows: there
the function returns 8388612, where `floor(size / 0.75) + 1` is 8388611. -/
theorem C28_counterexample :
    (hash_table_init 32 comparePeerStructNode).size = 0 ∧
    claimed_optimal_length 0 = 32 ∧
    hash_table_get_optimal_length (some (hash_table_init 32 comparePeerStructNode)) = 1 ∧
    claimed_optimal_length 25 = 35 ∧
    hash_table_get_optimal_length
      (some { hash_table_init 32 comparePeerStructNode with size := 25 }) = 34 ∧
    4 * 6291458 / 3 + 1 = 8388611 ∧
    hash_table_get_optimal_length
      (some { hash_table_init 32 comparePeerStructNode with size := 6291458 }) = 8388612 := by
  refine ⟨rfl, by decide, ?_, by decide, ?_, by decide, by decide⟩
  · exact hash_table_get_optimal_length_eq _ (by decide) (by decide)
  · exact hash_table_get_optimal_length_eq _ (by decide) (by decide)

/-- C28, amended: for a table with at least 32 buckets and fewer than 6291458 entries,
`hash_table_get_optimal_length` returns `floor(size / 0.75) + 1` (the single precision
computation gives that value there), which is below 32 exactly when `size < 24`; for a table
with fewer than 32 buckets and for a NULL table it returns 32. -/
theorem C28_optimal_length {β : Type} (table : hash_table β) :
    (table.hashTableLenght < 32 → hash_table_get_optimal_length (some table) = 32) ∧
    (32 ≤ table.hashTableLenght → table.size < 6291458 →
      hash_table_get_optimal_length (some table) = 4 * table.size / 3 + 1 ∧
      (hash_table_get_optimal_length (some table) < 32 ↔ table.size < 24)) ∧
    hash_table_get_optimal_length (none : Option (hash_table β)) = 32 := by
  refine ⟨?_, ?_, rfl⟩
  · intro h
    unfold hash_table_get_optimal_length
    simp only [if_pos h]
  · intro h1 h2
    rw [hash_table_get_optimal_length_eq table h1 h2]
    exact ⟨rfl, by omega⟩

/-! ### pollIVSHMEM on a packet with a descriptor -/

theorem findIdx?_of_find? {α : Type} (q : α → Bool) :
    ∀ (l : List α) (x : α), l.find? q = some x →
      ∃ j, l.findIdx? q = some j ∧ l[j]? = some x
  | [], x, h => by simp at h
  | a :: l, x, h => by
    rw [List.findIdx?_cons]
    by_cases ha : q a = true
    · rw [List.find?_cons_of_pos _ ha] at h
      refine ⟨0, by rw [if_pos ha], ?_⟩
      simpa using h
    · rw [List.find?_cons_of_neg _ ha] at h
      obtain ⟨j, h1, h2⟩ := findIdx?_of_find? q l x h
      refine ⟨j + 1, ?_, by simpa using h2⟩
      rw [if_neg ha, List.findIdx?_succ, h1]
      rfl

theorem findIdx?_none_of_find? {α : Type} (q : α → Bool) (l : List α) (h : l.find? q = none) :
    l.findIdx? q = none := by
  rw [List.findIdx?_eq_none_iff]
  intro x hx
  have := List.find?_eq_none.mp h x hx
  simpa using this

theorem set_findIdx?_eq_map {α : Type} (q : α → Bool) (y : α) :
    ∀ (l : List α) (j : Nat), (l.Pairwise fun a b => ¬ (q a = true ∧ q b = true)) →
      l.findIdx? q = some j → l.set j y = l.map fun x => if q x = true then y else x
  | [], j, _, h => by simp at h
  | a :: l, j, hpw, h => by
    rw [List.findIdx?_cons] at h
    rw [List.pairwise_cons] at hpw
    by_cases ha : q a = true
    · rw [if_pos ha] at h
      have hj : j = 0 := by simpa using h.symm
      subst hj
      simp only [List.set_cons_zero, List.map_cons, if_pos ha]
      congr 1
      symm
      conv_rhs => rw [← List.map_id l]
      apply List.map_congr_left
      intro b hb
      have := hpw.1 b hb
      have hqb : ¬ q b = true := fun hq => this ⟨ha, hq⟩
      simp only [if_neg hqb, id]
    · rw [if_neg ha, List.findIdx?_succ] at h
      cases hidx : l.findIdx? q with
      | none => rw [hidx] at h; simp at h
      | some j' =>
        rw [hidx] at h
        have hj : j = j' + 1 := by simpa using h.symm
        subst hj
        simp only [List.set_cons_succ, List.map_cons, if_neg ha]
        rw [set_findIdx?_eq_map q y l j' hpw.2 hidx]

theorem hash_table_add_form {β : Type} (table : hash_table β) (node : hash_table_node β)
    (h : (hash_table_add table node).1 = true) :
    (hash_table_add table node).2
      = { table with
          hashTable := table.setBucket (node.hash % table.hashTableLenght)
            (table.bucket (node.hash % table.hashTableLenght) ++ [node]),
          size := (table.size + 1) % 2 ^ 32 } := by
  unfold hash_table_add at h ⊢
  by_cases h0 : table.hashTableLenght = 0
  · rw [if_pos h0] at h
    simp at h
  · rw [if_neg h0] at h ⊢
    simp only [insert] at h ⊢
    by_cases hany : (table.bucket (node.hash % table.hashTableLenght)).any
        (fun x => table.comparator x node) = true
    · simp only [hany, if_true] at h
      simp at h
    · simp only [hany, if_false, Bool.false_eq_true, if_true]
theorem mem_unique_of_holds (N : List (hash_table_node ivshmem_peer_node))
    (hpw : N.Pairwise fun a b => a.entry.peer_id ≠ b.entry.peer_id) (p : Nat)
    (n : hash_table_node ivshmem_peer_node)
    (hfind : N.find? (fun x => x.entry.peer_id == p) = some n)
    (x : hash_table_node ivshmem_peer_node) (hx : x ∈ N) (hid : x.entry.peer_id = p) :
    x = n := by
  have h1 := find?_of_mem_pairwise N hpw x hx
  rw [hid, hfind] at h1
  exact (Option.some.inj h1).symm

theorem setCellNode_found (table : hash_table ivshmem_peer_node)
    (N : List (hash_table_node ivshmem_peer_node)) (h : HoldsPeers table N) (p : Nat)
    (hp : p < 2 ^ 16) (n : hash_table_node ivshmem_peer_node)
    (hfind : N.find? (fun x => x.entry.peer_id == p) = some n) :
    ∃ cell, hash_table_get_cell table (ivshmem_peer_node_search p p) = some cell ∧
      ∀ n2 : hash_table_node ivshmem_peer_node, n2.hash = n.hash →
        n2.entry.peer_id = n.entry.peer_id →
        HoldsPeers (setCellNode table cell n2)
          (N.map fun x => if x.entry.peer_id = p then n2 else x) ∧
        (setCellNode table cell n2).hashTableLenght = table.hashTableLenght ∧
        (setCellNode table cell n2).size = table.size := by
  have h0 := h
  obtain ⟨hL, hB, hc, hN, hpw⟩ := h
  have hs := search_hash p hp
  have hnid : n.entry.peer_id = p := by
    have := List.find?_some hfind
    simpa using this
  have hb := bucket_of_holds table N h0 (p % table.hashTableLenght) (Nat.mod_lt _ hL)
  have hq : (fun tempCurrent => table.comparator tempCurrent (ivshmem_peer_node_search p p))
      = fun x => x.entry.peer_id == p := by
    funext x
    rw [hc]
    simp only [comparePeerStructNode, hs.2]
  have hfindb : (N.filter fun x => x.hash % table.hashTableLenght = p % table.hashTableLenght).find?
      (fun x => x.entry.peer_id == p) = some n := by
    rw [← hfind]
    apply find?_filter_of_imp
    intro x hx hqx
    have hid : x.entry.peer_id = p := by simpa using hqx
    simp only [decide_eq_true_eq]
    rw [(hN x hx).1, hid]
  obtain ⟨j, hj1, _⟩ := findIdx?_of_find? _ _ n hfindb
  refine ⟨(p % table.hashTableLenght, j), ?_, ?_⟩
  · unfold hash_table_get_cell
    rw [hs.1, hb, hq, hj1]
    rfl
  · intro n2 hh hid
    let g : hash_table_node ivshmem_peer_node → hash_table_node ivshmem_peer_node :=
      fun x => if x.entry.peer_id = p then { hash := x.hash, entry := n2.entry } else x
    have hg : ∀ x, (g x).hash = x.hash ∧ (g x).entry.peer_id = x.entry.peer_id := by
      intro x
      by_cases hx : x.entry.peer_id = p
      · simp only [g, if_pos hx, true_and]
        rw [hid, hnid, hx]
      · simp only [g, if_neg hx, true_and]
    have hgN : ∀ x ∈ N, g x = if x.entry.peer_id = p then n2 else x := by
      intro x hx
      by_cases hxp : x.entry.peer_id = p
      · have hxn := mem_unique_of_holds N hpw p n hfind x hx hxp
        simp only [g, if_pos hxp]
        rw [hxn, ← hh]
      · simp only [g, if_neg hxp]
    have hm := holds_map table N h0 g hg
    have hmap : N.map g = N.map fun x => if x.entry.peer_id = p then n2 else x :=
      List.map_congr_left hgN
    have htab : setCellNode table (p % table.hashTableLenght, j) n2
        = { table with
            hashTable := some ((bucketsOf table.hashTableLenght N).map (List.map g)) } := by
      unfold setCellNode
      simp only [hash_table.setBucket, hB, Option.map_some', hb]
      congr 2
      unfold bucketsOf
      rw [set_map_range, List.map_map]
      apply List.map_congr_left
      intro k _
      simp only [Function.comp]
      by_cases hk : k = p % table.hashTableLenght
      · rw [if_pos hk, hk]
        rw [set_findIdx?_eq_map (fun x => x.entry.peer_id == p) n2 _ j ?_ hj1]
        · apply List.map_congr_left
          intro x hx
          rw [hgN x (List.mem_filter.mp hx).1]
          by_cases hxp : x.entry.peer_id = p
          · simp [hxp]
          · simp [hxp]
        · have hsub : (N.filter fun x =>
              x.hash % table.hashTableLenght = p % table.hashTableLenght).Pairwise
              fun a b => a.entry.peer_id ≠ b.entry.peer_id :=
            hpw.sublist (List.filter_sublist _)
          refine hsub.imp ?_
          intro a b hab hboth
          apply hab
          have ha : a.entry.peer_id = p := by simpa using hboth.1
          have hb2 : b.entry.peer_id = p := by simpa using hboth.2
          rw [ha, hb2]
      · rw [if_neg hk]
        symm
        conv_rhs => rw [← List.map_id (N.filter fun n => n.hash % table.hashTableLenght = k)]
        apply List.map_congr_left
        intro x hx
        have hx1 := List.mem_filter.mp hx
        have hxk : x.hash % table.hashTableLenght = k := by simpa using hx1.2
        have hxp : ¬ x.entry.peer_id = p := by
          intro hxp
          apply hk
          rw [← hxk, (hN x hx1.1).1, hxp]
        simp only [g, if_neg hxp, id]
    rw [htab, ← hmap]
    exact ⟨hm, rfl, rfl⟩
theorem setCellNode_new (table : hash_table ivshmem_peer_node)
    (N : List (hash_table_node ivshmem_peer_node)) (h : HoldsPeers table N)
    (t n2 : hash_table_node ivshmem_peer_node)
    (ht : t.hash = t.entry.peer_id ∧ t.entry.peer_id < 2 ^ 16)
    (hnew : ∀ n ∈ N, n.entry.peer_id ≠ t.entry.peer_id)
    (hh : n2.hash = t.hash) (hid : n2.entry.peer_id = t.entry.peer_id) :
    (hash_table_add table t).1 = true ∧
    HoldsPeers
      (setCellNode (hash_table_add table t).2
        (t.hash % table.hashTableLenght, (table.bucket (t.hash % table.hashTableLenght)).length)
        n2)
      (N ++ [n2]) ∧
    (setCellNode (hash_table_add table t).2
        (t.hash % table.hashTableLenght, (table.bucket (t.hash % table.hashTableLenght)).length)
        n2).hashTableLenght = table.hashTableLenght ∧
    (setCellNode (hash_table_add table t).2
        (t.hash % table.hashTableLenght, (table.bucket (t.hash % table.hashTableLenght)).length)
        n2).size = (table.size + 1) % 2 ^ 32 := by
  obtain ⟨a1, _, _⟩ := hash_table_add_of_holds table N h t ht hnew
  obtain ⟨b1, b2, b3⟩ := hash_table_add_of_holds table N h n2
    (by rw [hh, hid]; exact ht) (by rw [hid]; exact hnew)
  have hL := h.1
  obtain ⟨B, hB⟩ : ∃ B, table.hashTable = some B := ⟨_, h.2.1⟩
  have hBlen : B.length = table.hashTableLenght := by
    have := h.2.1
    rw [hB] at this
    rw [Option.some.inj this, length_bucketsOf]
  have e : setCellNode (hash_table_add table t).2
      (t.hash % table.hashTableLenght, (table.bucket (t.hash % table.hashTableLenght)).length) n2
      = (hash_table_add table n2).2 := by
    rw [hash_table_add_form table t a1, hash_table_add_form table n2 b1, hh]
    unfold setCellNode
    simp only [hash_table.setBucket, hash_table.bucket, hB, Option.map_some', Option.getD_some]
    have hi : t.hash % table.hashTableLenght < B.length := by
      rw [hBlen]; exact Nat.mod_lt _ hL
    rw [getD_set_self B _ _ _ hi, List.set_set]
    congr 3
    simp
  rw [e]
  refine ⟨a1, b2, b3, ?_⟩
  rw [hash_table_add_form table n2 b1]
theorem checkErrorCode_OK_of_FD (be : Bool) (res : Nat)
    (h : checkErrorCode be res RES_FD = true) : checkErrorCode be res RES_OK = false := by
  rw [checkErrorCode_eq_getErrorCode] at h ⊢
  have h1 : getErrorCode be res = RES_FD := by simpa using h
  rw [h1]
  decide

theorem hash_table_get_cell_none {β : Type} (table : hash_table β) (node : hash_table_node β)
    (h : hash_table_get table node = none) : hash_table_get_cell table node = none := by
  unfold hash_table_get at h
  unfold hash_table_get_cell
  rw [findIdx?_none_of_find? _ _ h]
  rfl

theorem pollIVSHMEM_fd_found (be : Bool) (msg : recvmsg_result) (malloc : List Bool)
    (aConnection : ivshem_connection) (p : Nat) (cell : Nat × Nat)
    (n : hash_table_node ivshmem_peer_node)
    (hres : checkErrorCode be (readPacket be msg).1 RES_FD = true)
    (hval : convertEndian be ((readPacket be msg).2.number be) = p) (hp : p ≤ 0xffff)
    (hget : hash_table_get aConnection.peers (ivshmem_peer_node_search p p) = some n)
    (hcell : hash_table_get_cell aConnection.peers (ivshmem_peer_node_search p p) = some cell) :
    pollIVSHMEM be msg malloc aConnection
      = pollIVSHMEM_store be (readPacket be msg).2 malloc aConnection p cell n := by
  have hok := checkErrorCode_OK_of_FD be _ hres
  have hv : ¬ p > 0xffff := by omega
  simp only [pollIVSHMEM, hval, if_neg hv, hres, hok, if_true, Bool.true_eq_false,
    and_false, false_and, if_false, hget, hcell, Bool.false_eq_true]

theorem pollIVSHMEM_fd_new (be : Bool) (msg : recvmsg_result) (malloc : List Bool)
    (aConnection : ivshem_connection) (p : Nat)
    (hres : checkErrorCode be (readPacket be msg).1 RES_FD = true)
    (hval : convertEndian be ((readPacket be msg).2.number be) = p) (hp : p ≤ 0xffff)
    (hget : hash_table_get aConnection.peers (ivshmem_peer_node_search p p) = none) :
    pollIVSHMEM be msg malloc aConnection
      = if mallocOk malloc = false then
          { status := combineErrorCode be RES_OUT_OF_MEMORY 0, aConnection := aConnection,
            aPeer := some p, aVector := some (-1), closed := [(readPacket be msg).2.fd] }
        else if (hash_table_add aConnection.peers
            { hash := p, entry := { ivshmem_peer_node.zero with peer_id := p } }).1 = false then
          { status := combineErrorCode be RES_ERROR 0, aConnection := aConnection,
            aPeer := some p, aVector := some (-1), closed := [(readPacket be msg).2.fd] }
        else
          pollIVSHMEM_store be (readPacket be msg).2 malloc.tail
            { aConnection with
              peers := (hash_table_add aConnection.peers
                { hash := p, entry := { ivshmem_peer_node.zero with peer_id := p } }).2 }
            p
            (p % aConnection.peers.hashTableLenght,
              (aConnection.peers.bucket (p % aConnection.peers.hashTableLenght)).length)
            { hash := p, entry := { ivshmem_peer_node.zero with peer_id := p } } := by
  have hok := checkErrorCode_OK_of_FD be _ hres
  have hv : ¬ p > 0xffff := by omega
  have hp16 : p % 2 ^ 16 = p := Nat.mod_eq_of_lt (by omega)
  have hp32 : p % 2 ^ 32 = p := Nat.mod_eq_of_lt (by omega)
  have hcell := hash_table_get_cell_none _ _ hget
  simp only [pollIVSHMEM, hval, if_neg hv, hres, hok, if_true, Bool.true_eq_false,
    and_false, false_and, if_false, hget, hcell, Bool.false_eq_true, hp16, hp32,
    ivshmem_peer_node.zero]
theorem find?_map_update (N : List (hash_table_node ivshmem_peer_node)) (p q : Nat)
    (n2 : hash_table_node ivshmem_peer_node) (hn2 : n2.entry.peer_id = p) :
    (N.map fun x => if x.entry.peer_id = p then n2 else x).find?
        (fun x => x.entry.peer_id == q)
      = if q = p then (N.find? fun x => x.entry.peer_id == p).map fun _ => n2
        else N.find? fun x => x.entry.peer_id == q := by
  induction N with
  | nil => simp
  | cons a N ih =>
    rw [List.map_cons]
    by_cases ha : a.entry.peer_id = p
    · rw [if_pos ha]
      by_cases hq : q = p
      · rw [if_pos hq, List.find?_cons_of_pos _ (by simp [hn2, hq]),
          List.find?_cons_of_pos _ (by simp [ha])]
        rfl
      · rw [if_neg hq, List.find?_cons_of_neg _ (by simp [hn2]; omega),
          List.find?_cons_of_neg _ (by simp [ha]; omega), ih, if_neg hq]
    · rw [if_neg ha]
      by_cases hq : q = p
      · rw [if_pos hq, List.find?_cons_of_neg _ (by simp [hq, ha]),
          List.find?_cons_of_neg _ (by simp [ha]), ih, if_pos hq]
      · rw [if_neg hq]
        by_cases haq : a.entry.peer_id = q
        · rw [List.find?_cons_of_pos _ (by simp [haq]), List.find?_cons_of_pos _ (by simp [haq])]
        · rw [List.find?_cons_of_neg _ (by simp [haq]), List.find?_cons_of_neg _ (by simp [haq]),
            ih, if_neg hq]

theorem find?_append_new (N : List (hash_table_node ivshmem_peer_node)) (p q : Nat)
    (n2 : hash_table_node ivshmem_peer_node) (hn2 : n2.entry.peer_id = p)
    (hnone : N.find? (fun x => x.entry.peer_id == p) = none) :
    (N ++ [n2]).find? (fun x => x.entry.peer_id == q)
      = if q = p then some n2 else N.find? fun x => x.entry.peer_id == q := by
  rw [List.find?_append]
  by_cases hq : q = p
  · subst hq
    rw [hnone, if_pos rfl]
    simp [hn2]
  · rw [if_neg hq]
    have hne : ¬ p = q := fun h => hq h.symm
    cases N.find? (fun x => x.entry.peer_id == q) with
    | none => simp [hn2, hne]
    | some x => simp

theorem toSigned_32_small (n : Nat) (h : n < 2 ^ 31) : toSigned 32 n = (n : Int) := by
  unfold toSigned
  have h1 : n % 2 ^ 32 = n := Nat.mod_eq_of_lt (by omega)
  rw [h1, if_pos (by simpa using h)]

theorem pollIVSHMEM_store_ok (be : Bool) (packet : ivshmem_packet) (malloc : List Bool)
    (aConnection : ivshem_connection) (p : Nat) (cell : Nat × Nat)
    (n : hash_table_node ivshmem_peer_node) (hdeny : n.entry.deny_new_vectors = false)
    (hfds : n.entry.vector_fds = none → n.entry.vector_count = 0)
    (hm : mallocOk malloc = true) :
    pollIVSHMEM_store be packet malloc aConnection p cell n
      = { status := combineErrorCode be RES_OK 0,
          aConnection :=
            { aConnection with
              peers := setCellNode aConnection.peers cell
                { n with
                  entry := { n.entry with
                    vector_fds :=
                      some ((n.entry.vector_fds.getD []).take n.entry.vector_count
                        ++ [packet.fd]),
                    vector_count := (n.entry.vector_count + 1) % 2 ^ 16 } } },
          aPeer := some (p % 2 ^ 16),
          aVector := some (toSigned 32 ((n.entry.vector_count + 1) % 2 ^ 16)),
          closed := [] } := by
  have h2 : ¬ (n.entry.vector_fds = none ∧ n.entry.vector_count ≠ 0) := fun h => h.2 (hfds h.1)
  simp only [pollIVSHMEM_store, hdeny, Bool.false_eq_true, if_false, if_neg h2, hm,
    Bool.true_eq_false]

theorem pollIVSHMEM_store_denied (be : Bool) (packet : ivshmem_packet) (malloc : List Bool)
    (aConnection : ivshem_connection) (p : Nat) (cell : Nat × Nat)
    (n : hash_table_node ivshmem_peer_node) (hdeny : n.entry.deny_new_vectors = true) :
    pollIVSHMEM_store be packet malloc aConnection p cell n
      = { status := combineErrorCode be RES_ERROR 0, aConnection := aConnection,
          aPeer := some (p % 2 ^ 16), aVector := some (-1), closed := [packet.fd] } := by
  simp only [pollIVSHMEM_store, hdeny, if_true]
theorem pollIVSHMEM_vector_found (be : Bool) (msg : recvmsg_result) (malloc : List Bool)
    (aConnection : ivshem_connection) (N : List (hash_table_node ivshmem_peer_node)) (p : Nat)
    (n : hash_table_node ivshmem_peer_node) (hreg : HoldsPeers aConnection.peers N)
    (hres : checkErrorCode be (readPacket be msg).1 RES_FD = true)
    (hval : convertEndian be ((readPacket be msg).2.number be) = p) (hp : p ≤ 0xffff)
    (hget : hash_table_get aConnection.peers (ivshmem_peer_node_search p p) = some n)
    (hdeny : n.entry.deny_new_vectors = false)
    (hfds : n.entry.vector_fds = none → n.entry.vector_count = 0)
    (hm : mallocOk malloc = true) :
    ∃ peers, pollIVSHMEM be msg malloc aConnection
        = { status := combineErrorCode be RES_OK 0,
            aConnection := { aConnection with peers := peers },
            aPeer := some p,
            aVector := some (toSigned 32 ((n.entry.vector_count + 1) % 2 ^ 16)),
            closed := [] } ∧
      HoldsPeers peers
        (N.map fun x => if x.entry.peer_id = p then
          { n with
            entry := { n.entry with
              vector_fds :=
                some ((n.entry.vector_fds.getD []).take n.entry.vector_count
                  ++ [(readPacket be msg).2.fd]),
              vector_count := (n.entry.vector_count + 1) % 2 ^ 16 } } else x) ∧
      peers.hashTableLenght = aConnection.peers.hashTableLenght ∧
      peers.size = aConnection.peers.size := by
  have hp16 : p < 2 ^ 16 := by omega
  have hfind : N.find? (fun x => x.entry.peer_id == p) = some n := by
    rw [← hash_table_get_of_holds _ N hreg p hp16, hget]
  obtain ⟨cell, hcell, hstore⟩ := setCellNode_found aConnection.peers N hreg p hp16 n hfind
  obtain ⟨h1, h2, h3⟩ := hstore
    { n with
      entry := { n.entry with
        vector_fds :=
          some ((n.entry.vector_fds.getD []).take n.entry.vector_count
            ++ [(readPacket be msg).2.fd]),
        vector_count := (n.entry.vector_count + 1) % 2 ^ 16 } } rfl rfl
  refine ⟨_, ?_, h1, h2, h3⟩
  rw [pollIVSHMEM_fd_found be msg malloc aConnection p cell n hres hval hp hget hcell,
    pollIVSHMEM_store_ok be _ malloc aConnection p cell n hdeny hfds hm,
    Nat.mod_eq_of_lt hp16]

theorem pollIVSHMEM_vector_new (be : Bool) (msg : recvmsg_result) (malloc : List Bool)
    (aConnection : ivshem_connection) (N : List (hash_table_node ivshmem_peer_node)) (p : Nat)
    (hreg : HoldsPeers aConnection.peers N)
    (hres : checkErrorCode be (readPacket be msg).1 RES_FD = true)
    (hval : convertEndian be ((readPacket be msg).2.number be) = p) (hp : p ≤ 0xffff)
    (hget : hash_table_get aConnection.peers (ivshmem_peer_node_search p p) = none)
    (hm : mallocOk malloc = true) (hm2 : mallocOk malloc.tail = true) :
    ∃ peers, pollIVSHMEM be msg malloc aConnection
        = { status := combineErrorCode be RES_OK 0,
            aConnection := { aConnection with peers := peers },
            aPeer := some p, aVector := some 1, closed := [] } ∧
      HoldsPeers peers (N ++ [withNewVector (newPeer p) (readPacket be msg).2.fd]) ∧
      peers.hashTableLenght = aConnection.peers.hashTableLenght ∧
      peers.size = (aConnection.peers.size + 1) % 2 ^ 32 := by
  have hp16 : p < 2 ^ 16 := by omega
  have hfind : N.find? (fun x => x.entry.peer_id == p) = none := by
    rw [← hash_table_get_of_holds _ N hreg p hp16, hget]
  have hnew : ∀ x ∈ N, x.entry.peer_id ≠ (newPeer p).entry.peer_id := by
    intro x hx
    have := List.find?_eq_none.mp hfind x hx
    simpa [newPeer] using this
  obtain ⟨h1, h2, h3, h4⟩ := setCellNode_new aConnection.peers N hreg (newPeer p)
    (withNewVector (newPeer p) (readPacket be msg).2.fd) ⟨rfl, hp16⟩ hnew rfl rfl
  refine ⟨_, ?_, h2, h3, h4⟩
  have hm1 : ¬ mallocOk malloc = false := by rw [hm]; decide
  have hadd : ¬ (hash_table_add aConnection.peers
      { hash := p, entry := { ivshmem_peer_node.zero with peer_id := p } }).1 = false := by
    have : (hash_table_add aConnection.peers (newPeer p)).1 = true := h1
    unfold newPeer at this
    rw [this]
    decide
  rw [pollIVSHMEM_fd_new be msg malloc aConnection p hres hval hp hget, if_neg hm1,
    if_neg hadd,
    pollIVSHMEM_store_ok be _ malloc.tail _ p _ _ rfl (fun _ => rfl) hm2,
    Nat.mod_eq_of_lt hp16]
  rfl
/-- C21, as the sentence stands, fails at the old vector count 65535: the registry of
`fullPeerConnection` holds peer 3 with 65535 vectors and `deny_new_vectors` false; a packet
with the descriptor 20 for peer 3 makes `pollIVSHMEM` return OK with `*aVector = 0` (not
65536), and afterwards the vector count of peer 3 is 0, because `vector_count` is a
`uint16_t`. -/
theorem C21_counterexample :
    hash_table_get fullPeerConnection.peers (ivshmem_peer_node_search 3 3) = some fullPeer ∧
    fullPeer.entry.vector_count = 65535 ∧ fullPeer.entry.deny_new_vectors = false ∧
    (pollIVSHMEM false (payloadWithFd 3 20) [] fullPeerConnection).status
      = combineErrorCode false RES_OK 0 ∧
    (pollIVSHMEM false (payloadWithFd 3 20) [] fullPeerConnection).aVector = some 0 ∧
    (hash_table_get (pollIVSHMEM false (payloadWithFd 3 20) [] fullPeerConnection).aConnection.peers
        (ivshmem_peer_node_search 3 3)).map (fun n => n.entry.vector_count) = some 0 := by
  have hreg : HoldsPeers fullPeerConnection.peers [fullPeer] :=
    ⟨by decide, by rfl, by rfl, by decide, by decide⟩
  have hget : hash_table_get fullPeerConnection.peers (ivshmem_peer_node_search 3 3)
      = some fullPeer := by rfl
  obtain ⟨peers, h1, h2, _, _⟩ := pollIVSHMEM_vector_found false (payloadWithFd 3 20) []
    fullPeerConnection [fullPeer] 3 fullPeer hreg
    (by rw [readPacket_payloadWithFd_status]; decide)
    (by rw [decode_payloadWithFd]; decide) (by decide) hget rfl (by intro h; cases h) rfl
  refine ⟨hget, rfl, rfl, ?_, ?_, ?_⟩
  · rw [h1]
  · rw [h1]
    rfl
  · rw [h1]
    simp only
    rw [hash_table_get_of_holds peers _ h2 3 (by decide)]
    rfl
/-- C21, amended: `pollIVSHMEM` on a packet with the descriptor `fd` that carries
`p ≤ 0xFFFF`, on a connection whose registry holds the peer nodes `N`, with every `malloc`
succeeding. If peer `p` is in the registry with `deny_new_vectors` false and an old vector
count `c < 65535` (its array holding at least `c` entries), the call returns OK with
`*aPeer = p` and `*aVector = c + 1`, closes nothing, and afterwards the node of peer `p` has
the old `c` entries followed by `fd` as its array and the count `c + 1`. If peer `p` is
absent, the call returns OK with `*aVector = 1` and afterwards peer `p` is in the registry
with the array `[fd]` and the count 1. In both cases every other peer is looked up as
before and the rest of the connection is unchanged. -/
theorem C21_new_vector (be : Bool) (msg : recvmsg_result) (malloc : List Bool)
    (aConnection : ivshem_connection) (N : List (hash_table_node ivshmem_peer_node)) (p : Nat)
    (hreg : HoldsPeers aConnection.peers N)
    (hres : checkErrorCode be (readPacket be msg).1 RES_FD = true)
    (hval : convertEndian be ((readPacket be msg).2.number be) = p) (hp : p ≤ 0xffff)
    (hm : ∀ b ∈ malloc, b = true) :
    (∀ n, hash_table_get aConnection.peers (ivshmem_peer_node_search p p) = some n →
      n.entry.deny_new_vectors = false → n.entry.vector_count < 65535 →
      n.entry.vector_count ≤ (n.entry.vector_fds.getD []).length →
      ∃ peers, pollIVSHMEM be msg malloc aConnection
          = { status := combineErrorCode be RES_OK 0,
              aConnection := { aConnection with peers := peers },
              aPeer := some p, aVector := some ((n.entry.vector_count : Int) + 1),
              closed := [] } ∧
        hash_table_get peers (ivshmem_peer_node_search p p)
          = some (withNewVector n (readPacket be msg).2.fd) ∧
        HoldsPeers peers
          (N.map fun x =>
            if x.entry.peer_id = p then withNewVector n (readPacket be msg).2.fd else x) ∧
        (∀ q, q ≤ 0xffff → q ≠ p →
          hash_table_get peers (ivshmem_peer_node_search q q)
            = hash_table_get aConnection.peers (ivshmem_peer_node_search q q))) ∧
    (hash_table_get aConnection.peers (ivshmem_peer_node_search p p) = none →
      ∃ peers, pollIVSHMEM be msg malloc aConnection
          = { status := combineErrorCode be RES_OK 0,
              aConnection := { aConnection with peers := peers },
              aPeer := some p, aVector := some 1, closed := [] } ∧
        hash_table_get peers (ivshmem_peer_node_search p p)
          = some { hash := p,
                   entry := { peer_id := p, vector_count := 1, deny_new_vectors := false,
                              vector_list := none,
                              vector_fds := some [(readPacket be msg).2.fd] } } ∧
        HoldsPeers peers (N ++ [withNewVector (newPeer p) (readPacket be msg).2.fd]) ∧
        (∀ q, q ≤ 0xffff → q ≠ p →
          hash_table_get peers (ivshmem_peer_node_search q q)
            = hash_table_get aConnection.peers (ivshmem_peer_node_search q q))) := by
  have hp16 : p < 2 ^ 16 := by omega
  have hm1 : mallocOk malloc = true := mallocOk_of_all malloc hm
  have hm2 : mallocOk malloc.tail = true := mallocOk_of_all _ (all_tail malloc hm)
  have hgetN := hash_table_get_of_holds aConnection.peers N hreg p hp16
  constructor
  · intro n hget hdeny hc hlen
    have hfds : n.entry.vector_fds = none → n.entry.vector_count = 0 := by
      intro h
      rw [h] at hlen
      simpa using hlen
    obtain ⟨peers, h1, h2, _, _⟩ := pollIVSHMEM_vector_found be msg malloc aConnection N p n
      hreg hres hval hp hget hdeny hfds hm1
    have hmod : (n.entry.vector_count + 1) % 2 ^ 16 = n.entry.vector_count + 1 :=
      Nat.mod_eq_of_lt (by omega)
    rw [hmod] at h1 h2
    have hnid : n.entry.peer_id = p := by
      have hf : N.find? (fun x => x.entry.peer_id == p) = some n := by rw [← hgetN, hget]
      have := List.find?_some hf
      simpa using this
    have h2b : HoldsPeers peers
        (N.map fun x =>
          if x.entry.peer_id = p then withNewVector n (readPacket be msg).2.fd else x) := h2
    have hnid2 : (withNewVector n (readPacket be msg).2.fd).entry.peer_id = p := hnid
    refine ⟨peers, ?_, ?_, h2b, ?_⟩
    · rw [h1, toSigned_32_small _ (by omega)]
      push_cast
      rfl
    · rw [hash_table_get_of_holds peers _ h2b p hp16,
        find?_map_update N p p (withNewVector n (readPacket be msg).2.fd) hnid2, if_pos rfl,
        ← hgetN, hget]
      rfl
    · intro q hq hqp
      rw [hash_table_get_of_holds peers _ h2b q (by omega),
        find?_map_update N p q (withNewVector n (readPacket be msg).2.fd) hnid2, if_neg hqp,
        hash_table_get_of_holds aConnection.peers N hreg q (by omega)]
  · intro hget
    obtain ⟨peers, h1, h2, _, _⟩ := pollIVSHMEM_vector_new be msg malloc aConnection N p
      hreg hres hval hp hget hm1 hm2
    have hf : N.find? (fun x => x.entry.peer_id == p) = none := by rw [← hgetN, hget]
    refine ⟨peers, h1, ?_, h2, ?_⟩
    · rw [hash_table_get_of_holds peers _ h2 p hp16, find?_append_new N p p _ rfl hf,
        if_pos rfl]
      rfl
    · intro q hq hqp
      rw [hash_table_get_of_holds peers _ h2 q (by omega), find?_append_new N p q _ rfl hf,
        if_neg hqp, hash_table_get_of_holds aConnection.peers N hreg q (by omega)]

/-- C21 on the connection of the handshake with two peers (peer 3 with the descriptors 10
and 11, peer 7 with the descriptor 12): the packet with descriptor 20 for peer 3 returns OK
with the vector 3 and leaves peer 3 with the array 10, 11, 20; the packet with descriptor 21
for the unknown peer 4 returns OK with the vector 1 and leaves peer 4 with the array 21. -/
theorem C21_new_vector_witness :
    (∃ peers, pollIVSHMEM false (payloadWithFd 3 20) []
          (connectIVSHMEM false twoPeerServer tmpShmemsock).2.1
        = { status := combineErrorCode false RES_OK 0,
            aConnection :=
              { (connectIVSHMEM false twoPeerServer tmpShmemsock).2.1 with peers := peers },
            aPeer := some 3, aVector := some 3, closed := [] } ∧
      hash_table_get peers (ivshmem_peer_node_search 3 3)
        = some { hash := 3,
                 entry := { peer_id := 3, vector_count := 3, deny_new_vectors := false,
                            vector_list := none, vector_fds := some [10, 11, 20] } }) ∧
    (∃ peers, pollIVSHMEM false (payloadWithFd 4 21) []
          (connectIVSHMEM false twoPeerServer tmpShmemsock).2.1
        = { status := combineErrorCode false RES_OK 0,
            aConnection :=
              { (connectIVSHMEM false twoPeerServer tmpShmemsock).2.1 with peers := peers },
            aPeer := some 4, aVector := some 1, closed := [] } ∧
      hash_table_get peers (ivshmem_peer_node_search 4 4)
        = some { hash := 4,
                 entry := { peer_id := 4, vector_count := 1, deny_new_vectors := false,
                            vector_list := none, vector_fds := some [21] } }) := by
  have hreg : HoldsPeers (connectIVSHMEM false twoPeerServer tmpShmemsock).2.1.peers
      [arrayPeer (3, [10, 11]), arrayPeer (7, [12])] :=
    ⟨by decide, by rfl, by rfl, by decide, by decide⟩
  obtain ⟨peers, h1, h2, _⟩ := (C21_new_vector false (payloadWithFd 3 20) []
    (connectIVSHMEM false twoPeerServer tmpShmemsock).2.1 _ 3 hreg (by decide) (by decide)
    (by decide) (by simp)).1 (arrayPeer (3, [10, 11])) (by rfl) (by rfl) (by decide)
    (by decide)
  obtain ⟨peers4, h3, h4, _⟩ := (C21_new_vector false (payloadWithFd 4 21) []
    (connectIVSHMEM false twoPeerServer tmpShmemsock).2.1 _ 4 hreg (by decide) (by decide)
    (by decide) (by simp)).2 (by rfl)
  exact ⟨⟨peers, h1, h2⟩, ⟨peers4, h3, h4⟩⟩

/-! ### Every call of pollIVSHMEM keeps the registry well-formed -/

theorem pollIVSHMEM_store_cases (be : Bool) (packet : ivshmem_packet) (malloc : List Bool)
    (aConnection : ivshem_connection) (p : Nat) (cell : Nat × Nat)
    (n : hash_table_node ivshmem_peer_node) :
    (pollIVSHMEM_store be packet malloc aConnection p cell n).aConnection = aConnection ∨
    (n.entry.deny_new_vectors = false ∧
      ∃ n2 : hash_table_node ivshmem_peer_node, n2.hash = n.hash ∧
        n2.entry.peer_id = n.entry.peer_id ∧
        (pollIVSHMEM_store be packet malloc aConnection p cell n).aConnection
          = { aConnection with peers := setCellNode aConnection.peers cell n2 }) := by
  unfold pollIVSHMEM_store
  by_cases hd : n.entry.deny_new_vectors = true
  · left
    simp only [if_pos hd]
  · right
    have hd2 : n.entry.deny_new_vectors = false := by simpa using hd
    refine ⟨hd2, ?_⟩
    simp only [if_neg hd]
    by_cases h2 : n.entry.vector_fds = none ∧ n.entry.vector_count ≠ 0
    · simp only [if_pos h2]
      exact ⟨{ n with entry := { n.entry with deny_new_vectors := true } }, rfl, rfl, rfl⟩
    · simp only [if_neg h2]
      by_cases h3 : mallocOk malloc = false
      · simp only [if_pos h3]
        exact ⟨{ n with entry := { n.entry with deny_new_vectors := true } }, rfl, rfl, rfl⟩
      · simp only [if_neg h3]
        exact ⟨{ n with
            entry := { n.entry with
              vector_fds :=
                some ((n.entry.vector_fds.getD []).take n.entry.vector_count ++ [packet.fd]),
              vector_count := (n.entry.vector_count + 1) % 2 ^ 16 } }, rfl, rfl, rfl⟩

theorem pollIVSHMEM_step (be : Bool) (msg : recvmsg_result) (malloc : List Bool)
    (aConnection : ivshem_connection) (N : List (hash_table_node ivshmem_peer_node))
    (hreg : HoldsPeers aConnection.peers N) :
    (pollIVSHMEM be msg malloc aConnection).aConnection
      = { aConnection with peers := (pollIVSHMEM be msg malloc aConnection).aConnection.peers } ∧
    (pollIVSHMEM be msg malloc aConnection).aConnection.peers.hashTableLenght
      = aConnection.peers.hashTableLenght ∧
    (HoldsPeers (pollIVSHMEM be msg malloc aConnection).aConnection.peers N ∨
      (∃ q, q < 2 ^ 16 ∧
        HoldsPeers (pollIVSHMEM be msg malloc aConnection).aConnection.peers
          (N.filter fun x => x.entry.peer_id != q)) ∨
      (∃ q m m2, q < 2 ^ 16 ∧ N.find? (fun x => x.entry.peer_id == q) = some m ∧
        m.entry.deny_new_vectors = false ∧ m2.entry.peer_id = q ∧
        HoldsPeers (pollIVSHMEM be msg malloc aConnection).aConnection.peers
          (N.map fun x => if x.entry.peer_id = q then m2 else x)) ∨
      (∃ q t, q < 2 ^ 16 ∧ N.find? (fun x => x.entry.peer_id == q) = none ∧
        t.entry.peer_id = q ∧
        HoldsPeers (pollIVSHMEM be msg malloc aConnection).aConnection.peers (N ++ [t]))) := by
  have hsame : ∀ r : poll_result, r.aConnection = aConnection →
      r.aConnection = { aConnection with peers := r.aConnection.peers } ∧
      r.aConnection.peers.hashTableLenght = aConnection.peers.hashTableLenght ∧
      (HoldsPeers r.aConnection.peers N ∨
        (∃ q, q < 2 ^ 16 ∧ HoldsPeers r.aConnection.peers
          (N.filter fun x => x.entry.peer_id != q)) ∨
        (∃ q m m2, q < 2 ^ 16 ∧ N.find? (fun x => x.entry.peer_id == q) = some m ∧
          m.entry.deny_new_vectors = false ∧ m2.entry.peer_id = q ∧
          HoldsPeers r.aConnection.peers
            (N.map fun x => if x.entry.peer_id = q then m2 else x)) ∨
        (∃ q t, q < 2 ^ 16 ∧ N.find? (fun x => x.entry.peer_id == q) = none ∧
          t.entry.peer_id = q ∧ HoldsPeers r.aConnection.peers (N ++ [t]))) := by
    intro r hr
    rw [hr]
    exact ⟨rfl, rfl, Or.inl hreg⟩
  by_cases hfirst : checkErrorCode be (readPacket be msg).1 RES_OK = false ∧
      checkErrorCode be (readPacket be msg).1 RES_FD = false
  · apply hsame
    unfold pollIVSHMEM
    simp only [if_pos hfirst]
    split <;> rfl
  · by_cases hv : convertEndian be ((readPacket be msg).2.number be) > 0xffff
    · apply hsame
      unfold pollIVSHMEM
      simp only [if_neg hfirst, if_pos hv]
    · generalize hq : convertEndian be ((readPacket be msg).2.number be) = q at hv
      have hq16 : q < 2 ^ 16 := by omega
      have hqle : q ≤ 0xffff := by omega
      by_cases hok : checkErrorCode be (readPacket be msg).1 RES_OK = true
      · obtain ⟨hr1, hr2, _⟩ := hash_table_remove_of_holds aConnection.peers N hreg q hq16
        cases hfind : N.find? (fun n => n.entry.peer_id == q) with
        | none =>
          apply hsame
          have hrem : (hash_table_remove aConnection.peers (ivshmem_peer_node_search q q)).1
              = none := by rw [hr1, hfind]
          simp only [pollIVSHMEM, hq, if_neg hv, hok, if_true, hrem, Bool.true_eq_false,
            false_and, if_false]
        | some m =>
          have hrem : (hash_table_remove aConnection.peers (ivshmem_peer_node_search q q)).1
              = some m := by rw [hr1, hfind]
          have hholds := hr2 (by rw [hfind]; rfl)
          have e : (pollIVSHMEM be msg malloc aConnection).aConnection
              = { aConnection with
                  peers := (hash_table_remove aConnection.peers
                    (ivshmem_peer_node_search q q)).2 } := by
            simp only [pollIVSHMEM, hq, if_neg hv, hok, if_true, hrem, Bool.true_eq_false,
              false_and, if_false]
          rw [e]
          refine ⟨rfl, ?_, Or.inr (Or.inl ⟨q, hq16, hholds⟩)⟩
          exact hholds.1 |> fun _ => by
            simp only [hash_table_remove, removeFirstMatch_eq]
            split <;> rfl
      · have hfd : checkErrorCode be (readPacket be msg).1 RES_FD = true := by
          by_contra hc
          apply hfirst
          constructor
          · simpa using hok
          · simpa using hc
        cases hget : hash_table_get aConnection.peers (ivshmem_peer_node_search q q) with
        | some m =>
          have hfind : N.find? (fun x => x.entry.peer_id == q) = some m := by
            rw [← hash_table_get_of_holds _ N hreg q hq16, hget]
          obtain ⟨cell, hcell, hstore⟩ :=
            setCellNode_found aConnection.peers N hreg q hq16 m hfind
          rw [pollIVSHMEM_fd_found be msg malloc aConnection q cell m hfd hq hqle hget hcell]
          rcases pollIVSHMEM_store_cases be (readPacket be msg).2 malloc aConnection q cell m
            with hc | ⟨hdeny, m2, hh, hid, hc⟩
          · exact hsame _ hc
          · obtain ⟨s1, s2, _⟩ := hstore m2 hh hid
            have hmid : m.entry.peer_id = q := by
              have := List.find?_some hfind
              simpa using this
            rw [hc]
            exact ⟨rfl, s2, Or.inr (Or.inr (Or.inl
              ⟨q, m, m2, hq16, hfind, hdeny, by rw [hid, hmid], s1⟩))⟩
        | none =>
          have hfind : N.find? (fun x => x.entry.peer_id == q) = none := by
            rw [← hash_table_get_of_holds _ N hreg q hq16, hget]
          have hnew : ∀ x ∈ N, x.entry.peer_id ≠ (newPeer q).entry.peer_id := by
            intro x hx
            have := List.find?_eq_none.mp hfind x hx
            simpa [newPeer] using this
          rw [pollIVSHMEM_fd_new be msg malloc aConnection q hfd hq hqle hget]
          by_cases hm : mallocOk malloc = false
          · rw [if_pos hm]
            exact hsame _ rfl
          · rw [if_neg hm]
            obtain ⟨a1, a2, a3⟩ := hash_table_add_of_holds aConnection.peers N hreg (newPeer q)
              ⟨rfl, hq16⟩ hnew
            have hadd : ¬ (hash_table_add aConnection.peers
                { hash := q, entry := { ivshmem_peer_node.zero with peer_id := q } }).1
                = false := by
              have : (hash_table_add aConnection.peers (newPeer q)).1 = true := a1
              unfold newPeer at this
              rw [this]
              decide
            rw [if_neg hadd]
            rcases pollIVSHMEM_store_cases be (readPacket be msg).2 malloc.tail
              { aConnection with
                peers := (hash_table_add aConnection.peers
                  { hash := q, entry := { ivshmem_peer_node.zero with peer_id := q } }).2 }
              q
              (q % aConnection.peers.hashTableLenght,
                (aConnection.peers.bucket (q % aConnection.peers.hashTableLenght)).length)
              { hash := q, entry := { ivshmem_peer_node.zero with peer_id := q } }
              with hc | ⟨_, m2, hh, hid, hc⟩
            · rw [hc]
              exact ⟨rfl, a3, Or.inr (Or.inr (Or.inr ⟨q, newPeer q, hq16, hfind, rfl, a2⟩))⟩
            · obtain ⟨_, s2, s3, _⟩ := setCellNode_new aConnection.peers N hreg (newPeer q) m2
                ⟨rfl, hq16⟩ hnew hh hid
              rw [hc]
              exact ⟨rfl, s3, Or.inr (Or.inr (Or.inr ⟨q, m2, hq16, hfind, hid, s2⟩))⟩
theorem pollIVSHMEM_step_denied (be : Bool) (msg : recvmsg_result) (malloc : List Bool)
    (aConnection : ivshem_connection) (N : List (hash_table_node ivshmem_peer_node))
    (hreg : HoldsPeers aConnection.peers N) (p : Nat) (hp : p < 2 ^ 16)
    (n : hash_table_node ivshmem_peer_node)
    (hget : hash_table_get aConnection.peers (ivshmem_peer_node_search p p) = some n)
    (hdeny : n.entry.deny_new_vectors = true) :
    (∃ N2, HoldsPeers (pollIVSHMEM be msg malloc aConnection).aConnection.peers N2) ∧
    (hash_table_get (pollIVSHMEM be msg malloc aConnection).aConnection.peers
        (ivshmem_peer_node_search p p) = some n ∨
      hash_table_get (pollIVSHMEM be msg malloc aConnection).aConnection.peers
        (ivshmem_peer_node_search p p) = none) := by
  have hfind : N.find? (fun x => x.entry.peer_id == p) = some n := by
    rw [← hash_table_get_of_holds _ N hreg p hp, hget]
  obtain ⟨_, _, h | ⟨q, hq, h⟩ | ⟨q, m, m2, hq, hm, hmd, hm2, h⟩ | ⟨q, t, hq, hnone, ht, h⟩⟩ :=
    pollIVSHMEM_step be msg malloc aConnection N hreg
  · refine ⟨⟨_, h⟩, Or.inl ?_⟩
    rw [hash_table_get_of_holds _ _ h p hp, hfind]
  · refine ⟨⟨_, h⟩, ?_⟩
    rw [hash_table_get_of_holds _ _ h p hp]
    by_cases hqp : q = p
    · right
      apply List.find?_eq_none.mpr
      intro x hx
      have := (List.mem_filter.mp hx).2
      simpa [hqp] using this
    · left
      rw [← hfind]
      apply find?_filter_of_imp
      intro x _ hx
      have hid : x.entry.peer_id = p := by simpa using hx
      simp only [hid, bne_iff_ne, ne_eq]
      exact fun h => hqp h.symm
  · refine ⟨⟨_, h⟩, Or.inl ?_⟩
    have hqp : ¬ p = q := by
      intro hpq
      rw [← hpq, hfind] at hm
      have : n = m := Option.some.inj hm
      rw [this, hmd] at hdeny
      cases hdeny
    rw [hash_table_get_of_holds _ _ h p hp, find?_map_update N q p m2 hm2, if_neg hqp, hfind]
  · refine ⟨⟨_, h⟩, Or.inl ?_⟩
    have hqp : ¬ p = q := by
      intro hpq
      rw [← hpq, hfind] at hnone
      cases hnone
    rw [hash_table_get_of_holds _ _ h p hp, find?_append_new N q p t ht hnone, if_neg hqp, hfind]

theorem pollIVSHMEM_events_take_succ (be : Bool) (event : recvmsg_result × List Bool)
    (rest : List (recvmsg_result × List Bool)) (k : Nat) (aConnection : ivshem_connection) :
    pollIVSHMEM_events be ((event :: rest).take (k + 1)) aConnection
      = pollIVSHMEM_events be (rest.take k)
          (pollIVSHMEM be event.1 event.2 aConnection).aConnection := by
  rw [List.take_succ_cons]
  rfl

theorem deny_sticky (be : Bool) (p : Nat) (hp : p < 2 ^ 16)
    (n : hash_table_node ivshmem_peer_node) (hdeny : n.entry.deny_new_vectors = true) :
    ∀ (events : List (recvmsg_result × List Bool)) (aConnection : ivshem_connection)
      (N : List (hash_table_node ivshmem_peer_node)),
      HoldsPeers aConnection.peers N →
      hash_table_get aConnection.peers (ivshmem_peer_node_search p p) = some n →
      (∀ k, k ≤ events.length →
        (hash_table_get (pollIVSHMEM_events be (events.take k) aConnection).peers
          (ivshmem_peer_node_search p p)).isSome = true) →
      (∃ N2, HoldsPeers (pollIVSHMEM_events be events aConnection).peers N2) ∧
      hash_table_get (pollIVSHMEM_events be events aConnection).peers
        (ivshmem_peer_node_search p p) = some n
  | [], aConnection, N, hreg, hget, _ => ⟨⟨N, hreg⟩, hget⟩
  | event :: rest, aConnection, N, hreg, hget, hex => by
    obtain ⟨⟨N2, h2⟩, hstep⟩ :=
      pollIVSHMEM_step_denied be event.1 event.2 aConnection N hreg p hp n hget hdeny
    have h1 := hex 1 (by simp)
    rw [pollIVSHMEM_events_take_succ] at h1
    have hget2 : hash_table_get (pollIVSHMEM be event.1 event.2 aConnection).aConnection.peers
        (ivshmem_peer_node_search p p) = some n := by
      rcases hstep with h | h
      · exact h
      · simp only [List.take_zero, pollIVSHMEM_events] at h1
        rw [h] at h1
        cases h1
    exact deny_sticky be p hp n hdeny rest _ N2 h2 hget2 (by
      intro k hk
      have := hex (k + 1) (by simp; omega)
      rw [pollIVSHMEM_events_take_succ] at this
      exact this)
/-- C22: `deny_new_vectors` is sticky. On a connection whose registry holds its peer nodes
well-formed and has the node `n` for peer `p` with the flag set, take any sequence of
`pollIVSHMEM` events during which peer `p` has an entry at every point. Then after the
events the entry of peer `p` is still the node `n` (flag set, vector array and count as they
were), and a further packet with a descriptor for peer `p` returns ERROR, closes that
descriptor and leaves the connection unchanged. -/
theorem C22_deny_sticky (be : Bool) (events : List (recvmsg_result × List Bool))
    (aConnection : ivshem_connection) (N : List (hash_table_node ivshmem_peer_node)) (p : Nat)
    (n : hash_table_node ivshmem_peer_node) (hreg : HoldsPeers aConnection.peers N)
    (hp : p ≤ 0xffff)
    (hget : hash_table_get aConnection.peers (ivshmem_peer_node_search p p) = some n)
    (hdeny : n.entry.deny_new_vectors = true)
    (hexists : ∀ k, k ≤ events.length →
      (hash_table_get (pollIVSHMEM_events be (events.take k) aConnection).peers
        (ivshmem_peer_node_search p p)).isSome = true) :
    hash_table_get (pollIVSHMEM_events be events aConnection).peers
      (ivshmem_peer_node_search p p) = some n ∧
    ∀ (msg : recvmsg_result) (malloc : List Bool),
      checkErrorCode be (readPacket be msg).1 RES_FD = true →
      convertEndian be ((readPacket be msg).2.number be) = p →
      pollIVSHMEM be msg malloc (pollIVSHMEM_events be events aConnection)
        = { status := combineErrorCode be RES_ERROR 0,
            aConnection := pollIVSHMEM_events be events aConnection,
            aPeer := some p, aVector := some (-1), closed := [(readPacket be msg).2.fd] } := by
  have hp16 : p < 2 ^ 16 := by omega
  obtain ⟨⟨N2, h2⟩, hget2⟩ := deny_sticky be p hp16 n hdeny events aConnection N hreg hget hexists
  refine ⟨hget2, ?_⟩
  intro msg malloc hres hval
  have hfind : N2.find? (fun x => x.entry.peer_id == p) = some n := by
    rw [← hash_table_get_of_holds _ N2 h2 p hp16, hget2]
  obtain ⟨cell, hcell, _⟩ := setCellNode_found _ N2 h2 p hp16 n hfind
  rw [pollIVSHMEM_fd_found be msg malloc _ p cell n hres hval hp hget2 hcell,
    pollIVSHMEM_store_denied be _ malloc _ p cell n hdeny, Nat.mod_eq_of_lt hp16]

/-- C22 on `deniedConnection`, where peer 3 has the flag set and the vectors 10 and 11:
after a new vector for peer 7, a new peer 4, the disconnect of peer 7 and a packet with the
descriptor 32 for peer 3, the entry of peer 3 is what it was, and a packet with the
descriptor 33 for peer 3 returns ERROR and closes 33. -/
theorem C22_deny_sticky_witness :
    hash_table_get deniedConnection.peers (ivshmem_peer_node_search 3 3) = some deniedPeer ∧
    hash_table_get (pollIVSHMEM_events false laterEvents deniedConnection).peers
      (ivshmem_peer_node_search 3 3) = some deniedPeer ∧
    pollIVSHMEM false (payloadWithFd 3 33) [] (pollIVSHMEM_events false laterEvents deniedConnection)
      = { status := combineErrorCode false RES_ERROR 0,
          aConnection := pollIVSHMEM_events false laterEvents deniedConnection,
          aPeer := some 3, aVector := some (-1), closed := [33] } := by
  have hreg : HoldsPeers deniedConnection.peers [deniedPeer, arrayPeer (7, [12])] :=
    ⟨by decide, by rfl, by rfl, by decide, by decide⟩
  have h := C22_deny_sticky false laterEvents deniedConnection _ 3 deniedPeer hreg (by decide)
    (by rfl) (by rfl) (by
      intro k hk
      have hk4 : k ≤ 4 := hk
      interval_cases k <;> rfl)
  exact ⟨by rfl, h.1, h.2 (payloadWithFd 3 33) [] (by decide) (by decide)⟩

theorem pollIVSHMEM_events_holds (be : Bool) :
    ∀ (events : List (recvmsg_result × List Bool)) (aConnection : ivshem_connection)
      (N : List (hash_table_node ivshmem_peer_node)), HoldsPeers aConnection.peers N →
      (∃ N2, HoldsPeers (pollIVSHMEM_events be events aConnection).peers N2) ∧
      (pollIVSHMEM_events be events aConnection).peers.hashTableLenght
        = aConnection.peers.hashTableLenght ∧
      (pollIVSHMEM_events be events aConnection).peer_id = aConnection.peer_id
  | [], _, N, hreg => ⟨⟨N, hreg⟩, rfl, rfl⟩
  | event :: rest, aConnection, N, hreg => by
    obtain ⟨hframe, hlen, h⟩ := pollIVSHMEM_step be event.1 event.2 aConnection N hreg
    have hid : (pollIVSHMEM be event.1 event.2 aConnection).aConnection.peer_id
        = aConnection.peer_id := by rw [hframe]
    have hN : ∃ N1, HoldsPeers (pollIVSHMEM be event.1 event.2 aConnection).aConnection.peers
        N1 := by
      rcases h with h | ⟨_, _, h⟩ | ⟨_, _, _, _, _, _, _, h⟩ | ⟨_, _, _, _, _, h⟩
      · exact ⟨_, h⟩
      · exact ⟨_, h⟩
      · exact ⟨_, h⟩
      · exact ⟨_, h⟩
    obtain ⟨N1, h1⟩ := hN
    obtain ⟨a, b, c⟩ := pollIVSHMEM_events_holds be rest _ N1 h1
    exact ⟨a, b.trans hlen, c.trans hid⟩

/-- C26: the registry after `pollIVSHMEM` events. On a connection whose registry holds its
peer nodes well-formed (as the handshake leaves it), the registry after any sequence of
events still holds its nodes well-formed, so no peer id has two entries. The second half of
the invariant is not kept: `pollIVSHMEM` never compares the peer id of a packet with the own
id, so a packet with a descriptor that carries the own id puts an entry for the own id into
the registry. -/
theorem C26_self_entry (be : Bool) (aConnection : ivshem_connection)
    (N : List (hash_table_node ivshmem_peer_node)) (hreg : HoldsPeers aConnection.peers N) :
    (∀ events : List (recvmsg_result × List Bool),
      ∃ N2, HoldsPeers (pollIVSHMEM_events be events aConnection).peers N2) ∧
    (∀ (msg : recvmsg_result) (malloc : List Bool),
      aConnection.peer_id ≤ 0xffff →
      (∀ n ∈ N, n.entry.peer_id ≠ aConnection.peer_id) →
      checkErrorCode be (readPacket be msg).1 RES_FD = true →
      convertEndian be ((readPacket be msg).2.number be) = aConnection.peer_id →
      (∀ b ∈ malloc, b = true) →
      (pollIVSHMEM be msg malloc aConnection).status = combineErrorCode be RES_OK 0 ∧
      (pollIVSHMEM be msg malloc aConnection).aConnection.peer_id = aConnection.peer_id ∧
      hash_table_get (pollIVSHMEM be msg malloc aConnection).aConnection.peers
          (ivshmem_peer_node_search aConnection.peer_id aConnection.peer_id)
        = some { hash := aConnection.peer_id,
                 entry := { peer_id := aConnection.peer_id, vector_count := 1,
                            deny_new_vectors := false, vector_list := none,
                            vector_fds := some [(readPacket be msg).2.fd] } }) := by
  refine ⟨fun events => (pollIVSHMEM_events_holds be events aConnection N hreg).1, ?_⟩
  intro msg malloc hid hself hres hval hm
  have hp16 : aConnection.peer_id < 2 ^ 16 := by omega
  have hget : hash_table_get aConnection.peers
      (ivshmem_peer_node_search aConnection.peer_id aConnection.peer_id) = none := by
    rw [hash_table_get_of_holds _ N hreg _ hp16]
    apply List.find?_eq_none.mpr
    intro x hx
    simpa using hself x hx
  obtain ⟨peers, h1, h2, _⟩ := pollIVSHMEM_vector_new be msg malloc aConnection N
    aConnection.peer_id hreg hres hval hid hget (mallocOk_of_all malloc hm)
    (mallocOk_of_all _ (all_tail malloc hm))
  have hf : N.find? (fun x => x.entry.peer_id == aConnection.peer_id) = none := by
    rw [← hash_table_get_of_holds _ N hreg _ hp16, hget]
  rw [h1]
  refine ⟨rfl, rfl, ?_⟩
  simp only
  rw [hash_table_get_of_holds peers _ h2 _ hp16,
    find?_append_new N aConnection.peer_id aConnection.peer_id _ rfl hf, if_pos rfl]
  rfl

/-- C26 on the connection of the handshake with two peers, whose own id is 5 and whose
registry holds the peers 3 and 7: the packet with the descriptor 40 that carries the id 5
returns OK, and afterwards the registry has an entry for peer 5, the own id. -/
theorem C26_self_entry_witness :
    (connectIVSHMEM false twoPeerServer tmpShmemsock).1 = combineErrorCode false RES_OK 0 ∧
    (connectIVSHMEM false twoPeerServer tmpShmemsock).2.1.peer_id = 5 ∧
    hash_table_get (connectIVSHMEM false twoPeerServer tmpShmemsock).2.1.peers
      (ivshmem_peer_node_search 5 5) = none ∧
    (pollIVSHMEM false (payloadWithFd 5 40) []
      (connectIVSHMEM false twoPeerServer tmpShmemsock).2.1).status
      = combineErrorCode false RES_OK 0 ∧
    (pollIVSHMEM false (payloadWithFd 5 40) []
      (connectIVSHMEM false twoPeerServer tmpShmemsock).2.1).aConnection.peer_id = 5 ∧
    hash_table_get (pollIVSHMEM false (payloadWithFd 5 40) []
        (connectIVSHMEM false twoPeerServer tmpShmemsock).2.1).aConnection.peers
        (ivshmem_peer_node_search 5 5)
      = some { hash := 5,
               entry := { peer_id := 5, vector_count := 1, deny_new_vectors := false,
                          vector_list := none, vector_fds := some [40] } } := by
  have hreg : HoldsPeers (connectIVSHMEM false twoPeerServer tmpShmemsock).2.1.peers
      [arrayPeer (3, [10, 11]), arrayPeer (7, [12])] :=
    ⟨by decide, by rfl, by rfl, by decide, by decide⟩
  have h := (C26_self_entry false (connectIVSHMEM false twoPeerServer tmpShmemsock).2.1 _
    hreg).2 (payloadWithFd 5 40) [] (by decide) (by decide) (by decide) (by decide) (by simp)
  exact ⟨by decide, by decide, by rfl, h.1, h.2.1, h.2.2⟩
set_option maxRecDepth 100000 in
/-- C27: the load factor is not kept by `pollIVSHMEM`. No sequence of `pollIVSHMEM` events
changes the number of buckets of a well-formed registry. The handshake with `aloneServer`
returns OK and leaves a registry of 32 buckets without entries. Each of the 25 events of
`manyPeers` adds one peer: afterwards the registry has 25 entries (and `size` 25) in 32
buckets, more than 0.75 times 32, although `hash_table_get_optimal_length` gives 34 for it,
the value for which the end of the handshake would have resized the table. -/
theorem C27_load_factor_exceeded :
    (∀ (be : Bool) (events : List (recvmsg_result × List Bool))
        (aConnection : ivshem_connection) (N : List (hash_table_node ivshmem_peer_node)),
      HoldsPeers aConnection.peers N →
      (pollIVSHMEM_events be events aConnection).peers.hashTableLenght
        = aConnection.peers.hashTableLenght) ∧
    (connectIVSHMEM false aloneServer tmpShmemsock).1 = combineErrorCode false RES_OK 0 ∧
    (connectIVSHMEM false aloneServer tmpShmemsock).2.1.peers.hashTableLenght = 32 ∧
    entryCount (connectIVSHMEM false aloneServer tmpShmemsock).2.1.peers = 0 ∧
    (pollIVSHMEM_events false manyPeers
      (connectIVSHMEM false aloneServer tmpShmemsock).2.1).peers.hashTableLenght = 32 ∧
    entryCount (pollIVSHMEM_events false manyPeers
      (connectIVSHMEM false aloneServer tmpShmemsock).2.1).peers = 25 ∧
    (pollIVSHMEM_events false manyPeers
      (connectIVSHMEM false aloneServer tmpShmemsock).2.1).peers.size = 25 ∧
    ¬ (4 * entryCount (pollIVSHMEM_events false manyPeers
        (connectIVSHMEM false aloneServer tmpShmemsock).2.1).peers
      ≤ 3 * (pollIVSHMEM_events false manyPeers
        (connectIVSHMEM false aloneServer tmpShmemsock).2.1).peers.hashTableLenght) ∧
    hash_table_get_optimal_length (some (pollIVSHMEM_events false manyPeers
      (connectIVSHMEM false aloneServer tmpShmemsock).2.1).peers) = 34 := by
  have h1 : (pollIVSHMEM_events false manyPeers
      (connectIVSHMEM false aloneServer tmpShmemsock).2.1).peers.hashTableLenght = 32 := by rfl
  have h2 : entryCount (pollIVSHMEM_events false manyPeers
      (connectIVSHMEM false aloneServer tmpShmemsock).2.1).peers = 25 := by rfl
  have h3 : (pollIVSHMEM_events false manyPeers
      (connectIVSHMEM false aloneServer tmpShmemsock).2.1).peers.size = 25 := by rfl
  refine ⟨fun be events aConnection N h =>
      (pollIVSHMEM_events_holds be events aConnection N h).2.1,
    by rfl, by rfl, by rfl, h1, h2, h3, ?_, ?_⟩
  · rw [h1, h2]
    decide
  · rw [hash_table_get_optimal_length_eq _ (by rw [h1]) (by rw [h3]; decide), h3]

/-! ### The registry table as a finite map -/

theorem length_le_of_holds (N : List (hash_table_node ivshmem_peer_node))
    (hN : ∀ n ∈ N, n.hash = n.entry.peer_id ∧ n.entry.peer_id < 2 ^ 16)
    (hpw : N.Pairwise fun a b => a.entry.peer_id ≠ b.entry.peer_id) : N.length ≤ 2 ^ 16 := by
  have hnd : (N.map fun n => n.entry.peer_id).Nodup := by
    rw [List.Nodup, List.pairwise_map]
    exact hpw
  have hcard := List.toFinset_card_of_nodup hnd
  have hsub : (N.map fun n => n.entry.peer_id).toFinset ⊆ Finset.range (2 ^ 16) := by
    intro x hx
    rw [List.mem_toFinset] at hx
    obtain ⟨n, hn, rfl⟩ := List.mem_map.mp hx
    exact Finset.mem_range.mpr (hN n hn).2
  have hle := Finset.card_le_card hsub
  rw [hcard, Finset.card_range, List.length_map] at hle
  exact hle

theorem hash_table_add_present (table : hash_table ivshmem_peer_node)
    (N : List (hash_table_node ivshmem_peer_node)) (h : HoldsPeers table N)
    (node : hash_table_node ivshmem_peer_node)
    (hnode : node.hash = node.entry.peer_id ∧ node.entry.peer_id < 2 ^ 16)
    (x : hash_table_node ivshmem_peer_node)
    (hx : N.find? (fun n => n.entry.peer_id == node.entry.peer_id) = some x) :
    hash_table_add table node = (false, table) := by
  have h0 := h
  obtain ⟨hL, hB, hc, hN, hpw⟩ := h
  have hL0 : ¬ table.hashTableLenght = 0 := by omega
  have hxmem : x ∈ N := List.mem_of_find?_eq_some hx
  have hxid : x.entry.peer_id = node.entry.peer_id := by
    have := List.find?_some hx
    simpa using this
  have hany : (table.bucket (node.hash % table.hashTableLenght)).any
      (fun y => table.comparator y node) = true := by
    rw [bucket_of_holds table N h0 _ (Nat.mod_lt _ hL), List.any_eq_true]
    refine ⟨x, ?_, ?_⟩
    · rw [List.mem_filter]
      refine ⟨hxmem, ?_⟩
      simp only [decide_eq_true_eq]
      rw [(hN x hxmem).1, hxid, hnode.1]
    · rw [hc]
      simp only [comparePeerStructNode, hxid, beq_self_eq_true]
  simp only [hash_table_add, if_neg hL0, insert, hany, if_true, Bool.false_eq_true, if_false]

theorem length_filter_remove (N : List (hash_table_node ivshmem_peer_node))
    (hpw : N.Pairwise fun a b => a.entry.peer_id ≠ b.entry.peer_id) (k : Nat)
    (x : hash_table_node ivshmem_peer_node)
    (hx : N.find? (fun n => n.entry.peer_id == k) = some x) :
    (N.filter fun n => n.entry.peer_id != k).length + 1 = N.length := by
  have hpw2 : N.Pairwise fun a b =>
      ¬ ((a.entry.peer_id == k) = true ∧ (b.entry.peer_id == k) = true) := by
    refine hpw.imp ?_
    intro a b hab hboth
    apply hab
    have ha : a.entry.peer_id = k := by simpa using hboth.1
    have hb : b.entry.peer_id = k := by simpa using hboth.2
    rw [ha, hb]
  have he := eraseP_eq_filter_of_pairwise (fun n => n.entry.peer_id == k) N hpw2
  have hmem : x ∈ N := List.mem_of_find?_eq_some hx
  have hp : (fun n : hash_table_node ivshmem_peer_node => n.entry.peer_id == k) x = true := by
    have := List.find?_some hx
    simpa using this
  have hlen : (N.eraseP fun n => n.entry.peer_id == k).length = N.length - 1 :=
    List.length_eraseP_of_mem hmem hp
  have hfe : (N.filter fun n => n.entry.peer_id != k)
      = N.filter fun x => !(fun n : hash_table_node ivshmem_peer_node =>
          n.entry.peer_id == k) x := by
    apply List.filter_congr
    intro y _
    rfl
  rw [hfe, ← he, hlen]
  have : 0 < N.length := List.length_pos_of_mem hmem
  omega
theorem successfulAdds_cons (r : op_result) (rs : List op_result) :
    successfulAdds (r :: rs) = successfulAdds [r] + successfulAdds rs := by
  cases r with
  | added ok => cases ok <;> simp [successfulAdds]; omega
  | removed node => simp [successfulAdds]

theorem successfulRemoves_cons (r : op_result) (rs : List op_result) :
    successfulRemoves (r :: rs) = successfulRemoves [r] + successfulRemoves rs := by
  cases r with
  | added ok => simp [successfulRemoves]
  | removed node => cases node <;> simp [successfulRemoves]; omega

theorem hash_table_step_refines (table : hash_table ivshmem_peer_node)
    (N : List (hash_table_node ivshmem_peer_node)) (m : finite_map) (op : table_op)
    (h : MapOf table N m) (hwf : op.wellFormed) :
    (hash_table_step table op).2 = (finite_map_step m op).2 ∧
    ∃ N2, MapOf (hash_table_step table op).1 N2 (finite_map_step m op).1 ∧
      N2.length + successfulRemoves [(hash_table_step table op).2]
        = N.length + successfulAdds [(hash_table_step table op).2] := by
  obtain ⟨hreg, hsize, hm⟩ := h
  have hle := length_le_of_holds N hreg.2.2.2.1 hreg.2.2.2.2
  cases op with
  | add node =>
    have hnode : node.hash = node.entry.peer_id ∧ node.entry.peer_id < 2 ^ 16 := hwf
    cases hfind : N.find? (fun n => n.entry.peer_id == node.entry.peer_id) with
    | some x =>
      have hadd := hash_table_add_present table N hreg node hnode x hfind
      have hsome : (m node.entry.peer_id).isSome = true := by rw [hm, hfind]; rfl
      simp only [hash_table_step, finite_map_step, hadd, hsome, if_true, true_and]
      exact ⟨N, ⟨hreg, hsize, hm⟩, by simp [successfulAdds, successfulRemoves]⟩
    | none =>
      have hnew : ∀ n ∈ N, n.entry.peer_id ≠ node.entry.peer_id := by
        intro n hn
        have := List.find?_eq_none.mp hfind n hn
        simpa using this
      obtain ⟨a1, a2, _⟩ := hash_table_add_of_holds table N hreg node hnode hnew
      have hnone : ¬ (m node.entry.peer_id).isSome = true := by rw [hm, hfind]; simp
      simp only [hash_table_step, finite_map_step, a1, if_neg hnone, true_and]
      refine ⟨N ++ [node], ⟨a2, ?_, ?_⟩, by simp [successfulAdds, successfulRemoves]⟩
      · rw [hash_table_add_form table node a1]
        simp only [List.length_append, List.length_singleton]
        rw [hsize]
        exact Nat.mod_eq_of_lt (by omega)
      · intro k
        rw [find?_append_new N node.entry.peer_id k node rfl hfind]
        by_cases hk : k = node.entry.peer_id
        · simp only [if_pos hk]
        · simp only [if_neg hk]
          exact hm k
  | remove k =>
    have hk : k < 2 ^ 16 := hwf
    obtain ⟨r1, r2, r3⟩ := hash_table_remove_of_holds table N hreg k hk
    have hres : (hash_table_remove table (ivshmem_peer_node_search k k)).1 = m k := by
      rw [r1, hm]
    simp only [hash_table_step, finite_map_step, hres, true_and]
    cases hfind : N.find? (fun n => n.entry.peer_id == k) with
    | none =>
      have hmk : m k = none := by rw [hm, hfind]
      rw [r3 hfind, hmk]
      refine ⟨N, ⟨hreg, hsize, ?_⟩, by simp [successfulAdds, successfulRemoves]⟩
      intro j
      show (if j = k then none else m j) = _
      by_cases hj : j = k
      · rw [if_pos hj, hj, ← hm, hmk]
      · rw [if_neg hj]
        exact hm j
    | some x =>
      have hmk : m k = some x := by rw [hm, hfind]
      have hholds := r2 (by rw [hfind]; rfl)
      have hlen := length_filter_remove N hreg.2.2.2.2 k x hfind
      rw [hmk]
      refine ⟨N.filter fun n => n.entry.peer_id != k, ⟨hholds, ?_, ?_⟩, ?_⟩
      · have hrem1 : (hash_table_remove table (ivshmem_peer_node_search k k)).1 = some x := by
          rw [r1, hfind]
        have hsz : (hash_table_remove table (ivshmem_peer_node_search k k)).2.size
            = (table.size + 2 ^ 32 - 1) % 2 ^ 32 := by
          unfold hash_table_remove at hrem1 ⊢
          simp only [] at hrem1 ⊢
          split
          · rfl
          · rename_i hnone
            rw [hnone] at hrem1
            cases hrem1
        rw [hsz, hsize]
        omega
      · intro j
        show (if j = k then none else m j) = _
        by_cases hj : j = k
        · rw [if_pos hj, hj]
          symm
          apply List.find?_eq_none.mpr
          intro y hy
          have := (List.mem_filter.mp hy).2
          simpa using this
        · rw [if_neg hj, hm j]
          symm
          apply find?_filter_of_imp
          intro y _ hy
          have hid : y.entry.peer_id = j := by simpa using hy
          simp only [hid, bne_iff_ne, ne_eq]
          exact hj
      · simp only [successfulAdds, successfulRemoves]
        omega
theorem hash_table_ops_refines :
    ∀ (ops : List table_op) (table : hash_table ivshmem_peer_node)
      (N : List (hash_table_node ivshmem_peer_node)) (m : finite_map),
      MapOf table N m → (∀ op ∈ ops, op.wellFormed) →
      (hash_table_ops ops table).2 = (finite_map_ops ops m).2 ∧
      ∃ N2, MapOf (hash_table_ops ops table).1 N2 (finite_map_ops ops m).1 ∧
        N2.length + successfulRemoves (hash_table_ops ops table).2
          = N.length + successfulAdds (hash_table_ops ops table).2
  | [], _, N, _, h, _ => ⟨rfl, N, h, rfl⟩
  | op :: rest, table, N, m, h, hwf => by
    obtain ⟨h1, N1, h2, h3⟩ := hash_table_step_refines table N m op h
      (hwf op (List.mem_cons_self _ _))
    obtain ⟨h4, N2, h5, h6⟩ := hash_table_ops_refines rest _ N1 _ h2
      (fun o ho => hwf o (List.mem_cons_of_mem _ ho))
    refine ⟨?_, N2, h5, ?_⟩
    · simp only [hash_table_ops, finite_map_ops]
      rw [h1, h4]
    · simp only [hash_table_ops]
      rw [successfulRemoves_cons, successfulAdds_cons]
      omega

theorem mapOf_hash_table_init (L : Nat) (hL : 0 < L) :
    MapOf (hash_table_init L comparePeerStructNode) [] (fun _ => none) :=
  ⟨⟨hL, by rw [bucketsOf_nil]; rfl, rfl, fun _ hn => absurd hn (List.not_mem_nil _),
    List.Pairwise.nil⟩, rfl, fun _ => rfl⟩

/-- The registry table refines a finite map keyed by peer id where every `hash_table_add`
is called with a node object that is not linked in the table. Take a table initialised
with at least one bucket and the comparator of the program, and any sequence of
`hash_table_add` and `hash_table_remove` calls with nodes whose hash is their peer id. Then
the calls return what the finite map returns (add of a present key false, of an absent key
true; remove the bound node or NULL), `hash_table_get` of every key gives the node the map
binds (the node added for the key and not removed since, NULL if none), `size` is the number
of successful adds minus the number of successful removes, and on the table so reached an
add of a present key returns false and leaves the table as it is, an add of an absent key
returns true, a remove returns the bound node, and a remove of an absent key returns NULL
and leaves the table as it is. -/
theorem hash_table_ops_finite_map (L : Nat) (hL : 0 < L) (ops : List table_op)
    (hwf : ∀ op ∈ ops, op.wellFormed) :
    (hash_table_ops ops (hash_table_init L comparePeerStructNode)).2
      = (finite_map_ops ops (fun _ => none)).2 ∧
    (∀ k, k < 2 ^ 16 →
      hash_table_get (hash_table_ops ops (hash_table_init L comparePeerStructNode)).1
          (ivshmem_peer_node_search k k)
        = (finite_map_ops ops (fun _ => none)).1 k) ∧
    (hash_table_ops ops (hash_table_init L comparePeerStructNode)).1.size
        + successfulRemoves (hash_table_ops ops (hash_table_init L comparePeerStructNode)).2
      = successfulAdds (hash_table_ops ops (hash_table_init L comparePeerStructNode)).2 ∧
    (∀ node : hash_table_node ivshmem_peer_node,
      node.hash = node.entry.peer_id → node.entry.peer_id < 2 ^ 16 →
      (((finite_map_ops ops (fun _ => none)).1 node.entry.peer_id).isSome = true →
        hash_table_add (hash_table_ops ops (hash_table_init L comparePeerStructNode)).1 node
          = (false, (hash_table_ops ops (hash_table_init L comparePeerStructNode)).1)) ∧
      ((finite_map_ops ops (fun _ => none)).1 node.entry.peer_id = none →
        (hash_table_add (hash_table_ops ops (hash_table_init L comparePeerStructNode)).1
          node).1 = true)) ∧
    (∀ k, k < 2 ^ 16 →
      (hash_table_remove (hash_table_ops ops (hash_table_init L comparePeerStructNode)).1
          (ivshmem_peer_node_search k k)).1
        = (finite_map_ops ops (fun _ => none)).1 k ∧
      ((finite_map_ops ops (fun _ => none)).1 k = none →
        hash_table_remove (hash_table_ops ops (hash_table_init L comparePeerStructNode)).1
            (ivshmem_peer_node_search k k)
          = (none, (hash_table_ops ops (hash_table_init L comparePeerStructNode)).1))) := by
  obtain ⟨h1, N, ⟨hreg, hsize, hm⟩, hcount⟩ := hash_table_ops_refines ops _ [] _
    (mapOf_hash_table_init L hL) hwf
  refine ⟨h1, ?_, ?_, ?_, ?_⟩
  · intro k hk
    rw [hash_table_get_of_holds _ N hreg k hk, hm]
  · rw [hsize]
    simpa using hcount
  · intro node hh hid
    constructor
    · intro hsome
      rw [hm] at hsome
      obtain ⟨x, hx⟩ := Option.isSome_iff_exists.mp hsome
      exact hash_table_add_present _ N hreg node ⟨hh, hid⟩ x hx
    · intro hnone
      rw [hm] at hnone
      have hnew : ∀ n ∈ N, n.entry.peer_id ≠ node.entry.peer_id := by
        intro n hn
        have := List.find?_eq_none.mp hnone n hn
        simpa using this
      exact (hash_table_add_of_holds _ N hreg node ⟨hh, hid⟩ hnew).1
  · intro k hk
    obtain ⟨r1, _, r3⟩ := hash_table_remove_of_holds _ N hreg k hk
    constructor
    · rw [r1, hm]
    · intro hnone
      rw [hm] at hnone
      have e1 := r1
      rw [hnone] at e1
      have e2 := r3 hnone
      exact Prod.ext e1 e2

/-- The finite map on a table of 32 buckets: adding the peers 3 and 35 (same bucket),
adding peer 3 again with a node object of its own, removing peer 3 twice and adding peer 7 returns true, true, false, the node of
peer 3, NULL and true; afterwards the size is 2, peer 35 and peer 7 are found and peer 3 is
not. -/
theorem hash_table_ops_finite_map_example :
    (hash_table_ops
        [table_op.add (newPeer 3), table_op.add (newPeer 35), table_op.add (newPeer 3),
          table_op.remove 3, table_op.remove 3, table_op.add (newPeer 7)]
        (hash_table_init 32 comparePeerStructNode)).2
      = [op_result.added true, op_result.added true, op_result.added false,
          op_result.removed (some (newPeer 3)), op_result.removed none, op_result.added true] ∧
    (hash_table_ops
        [table_op.add (newPeer 3), table_op.add (newPeer 35), table_op.add (newPeer 3),
          table_op.remove 3, table_op.remove 3, table_op.add (newPeer 7)]
        (hash_table_init 32 comparePeerStructNode)).1.size = 2 ∧
    hash_table_get (hash_table_ops
        [table_op.add (newPeer 3), table_op.add (newPeer 35), table_op.add (newPeer 3),
          table_op.remove 3, table_op.remove 3, table_op.add (newPeer 7)]
        (hash_table_init 32 comparePeerStructNode)).1 (ivshmem_peer_node_search 35 35)
      = some (newPeer 35) ∧
    hash_table_get (hash_table_ops
        [table_op.add (newPeer 3), table_op.add (newPeer 35), table_op.add (newPeer 3),
          table_op.remove 3, table_op.remove 3, table_op.add (newPeer 7)]
        (hash_table_init 32 comparePeerStructNode)).1 (ivshmem_peer_node_search 3 3)
      = none := by
  have h := hash_table_ops_finite_map 32 (by decide)
    [table_op.add (newPeer 3), table_op.add (newPeer 35), table_op.add (newPeer 3),
      table_op.remove 3, table_op.remove 3, table_op.add (newPeer 7)]
    (by
      intro op hop
      simp only [List.mem_cons, List.mem_singleton, List.not_mem_nil, or_false] at hop
      rcases hop with rfl | rfl | rfl | rfl | rfl | rfl <;>
        simp [table_op.wellFormed, newPeer])
  refine ⟨by rw [h.1]; rfl, by rfl, ?_, ?_⟩
  · rw [h.2.1 35 (by decide)]
    rfl
  · rw [h.2.1 3 (by decide)]
    rfl

/-! ### The table iterator -/

theorem drain_step_next_current (be : Bool) (s q : Nat) (fd : Int) (st st1 : drain_state)
    (hq : q ≤ 0xffff)
    (h : connectIVSHMEM_drain_step be s (payloadWithFd q fd) st = drain_step.next st1) :
    st1.tempCurrentPeerID = q := by
  have hq64 : q % 2 ^ 64 = q := Nat.mod_eq_of_lt (by omega)
  have hq32 : q % 2 ^ 32 = q := Nat.mod_eq_of_lt (by omega)
  have hq16 : q % 2 ^ 16 = q := Nat.mod_eq_of_lt (by omega)
  have hqv : ¬ (q > 0xffff) := by omega
  simp only [connectIVSHMEM_drain_step, readPacket_payloadWithFd_status, checkErrorCode_FD_OK,
    checkErrorCode_FD_TIMEOUT, checkErrorCode_FD_FD, decode_payloadWithFd, hq64, hq32, hq16,
    if_neg hqv, readPacket_payloadWithFd_fd, if_false, Bool.false_eq_true, failClosed] at h
  split_ifs at h with h1 h2 h3 h4 h5 h6 h7 h8 h9
  all_goals first
    | (cases h; done)
    | (cases h; rfl)
    | (cases h; exact (not_not.mp ‹_›))

theorem drain_passes_last_current (be : Bool) (s q : Nat) (fd : Int)
    (pre : List recvmsg_result) (st st1 : drain_state) (hq : q ≤ 0xffff)
    (h : connectIVSHMEM_drain_passes be s (pre ++ [payloadWithFd q fd]) st = some st1) :
    st1.tempCurrentPeerID = q := by
  rw [connectIVSHMEM_drain_passes_append] at h
  cases h0 : connectIVSHMEM_drain_passes be s pre st with
  | none => rw [h0] at h; exact absurd h (by simp)
  | some st0 =>
    rw [h0] at h
    simp only [Option.some_bind, connectIVSHMEM_drain_passes] at h
    cases h2 : connectIVSHMEM_drain_step be s (payloadWithFd q fd) st0 with
    | next s1 =>
      rw [h2] at h
      simp only [Option.some.injEq] at h
      subst h
      exact drain_step_next_current be s q fd st0 s1 hq h2
    | done s1 => rw [h2] at h; exact absurd h (by simp)
    | fail x y z => rw [h2] at h; exact absurd h (by simp)

theorem groupPackets_getLast (G : List (Nat × List Int)) (hG : ∀ g ∈ G, g.2 ≠ []) :
    ∀ g, G.getLast? = some g → ∃ pre fd, groupPackets G = pre ++ [payloadWithFd g.1 fd] := by
  induction G with
  | nil => intro g h; exact absurd h (by simp)
  | cons a G ih =>
    intro g h
    cases G with
    | nil =>
      simp only [List.getLast?_singleton, Option.some.injEq] at h
      subst h
      have ha := hG a (List.mem_cons_self _ _)
      refine ⟨a.2.dropLast.map (payloadWithFd a.1), a.2.getLast ha, ?_⟩
      simp only [groupPackets, List.append_nil]
      nth_rewrite 1 [← List.dropLast_append_getLast ha]
      rw [List.map_append, List.map_singleton]
    | cons b G2 =>
      rw [List.getLast?_cons_cons] at h
      obtain ⟨pre, fd, e⟩ := ih (fun g hg => hG g (List.mem_cons_of_mem _ hg)) g h
      refine ⟨a.2.map (payloadWithFd a.1) ++ pre, fd, ?_⟩
      show a.2.map (payloadWithFd a.1) ++ groupPackets (b :: G2) = _
      rw [e, List.append_assoc]

theorem drain_step_duplicate (be : Bool) (s q : Nat) (sock shm fd : Int) (st : drain_state)
    (P : List (Nat × List Int)) (own : List Int) (hq : q ≤ 0xffff)
    (hinv : DrainInv s sock shm st P own)
    (hcur : st.tempCurrentPeerID ≠ q) (hqs : q ≠ s) (hmem : q ∈ P.map Prod.fst) :
    connectIVSHMEM_drain_step be s (payloadWithFd q fd) st
      = failClosed (combineErrorCode be RES_DUPLICATE_PEER 0) st.aConnection st.closed := by
  obtain ⟨h1, h2, h3, h4, h5, h6, h7, h8⟩ := hinv
  have hm1 := mallocOk_of_all st.malloc h5
  have hq64 : q % 2 ^ 64 = q := Nat.mod_eq_of_lt (by omega)
  have hq32 : q % 2 ^ 32 = q := Nat.mod_eq_of_lt (by omega)
  have hq16 : q % 2 ^ 16 = q := Nat.mod_eq_of_lt (by omega)
  have hqv : ¬ (q > 0xffff) := by omega
  obtain ⟨g, hg, hgq⟩ := List.mem_map.mp hmem
  have hsome : ((P.map listedPeer).find? fun n => n.entry.peer_id == q).isSome = true := by
    rw [List.find?_isSome]
    exact ⟨listedPeer g, List.mem_map_of_mem _ hg, by simpa [listedPeer] using hgq⟩
  obtain ⟨x, hx⟩ := Option.isSome_iff_exists.mp hsome
  have hadd := hash_table_add_present st.aConnection.peers _ h1
    { hash := q, entry := { ivshmem_peer_node.zero with vector_count := 0, peer_id := q } }
    ⟨rfl, by simp only; omega⟩ x hx
  have hadd1 : (hash_table_add st.aConnection.peers
      { hash := q, entry := { ivshmem_peer_node.zero with vector_count := 0, peer_id := q } }).1
      = false := by rw [hadd]
  simp only [connectIVSHMEM_drain_step, readPacket_payloadWithFd_status, checkErrorCode_FD_OK,
    checkErrorCode_FD_TIMEOUT, checkErrorCode_FD_FD, decode_payloadWithFd, hq64, hq32, hq16,
    if_neg hqv, readPacket_payloadWithFd_fd, hcur, hqs, hm1, hadd1, ne_eq,
    not_true_eq_false, if_false, not_false_eq_true, if_true, Bool.false_eq_true,
    Bool.true_eq_false]

theorem connectIVSHMEM_drain_fails_at (be : Bool) (os : os_answers) (aDevice : List Nat)
    (s : Nat) (shm : Int) (pre rest : List recvmsg_result) (msg : recvmsg_result) (status : Nat)
    (st : drain_state)
    (h : ReachesDrain os aDevice s shm (pre ++ msg :: rest))
    (hpre : connectIVSHMEM_drain_passes be s pre (drainStart os s shm) = some st)
    (hstep : connectIVSHMEM_drain_step be s msg st = failClosed status st.aConnection st.closed) :
    connectIVSHMEM be os aDevice
      = (status, (closeIVSHMEM st.aConnection).1, st.closed ++ (closeIVSHMEM st.aConnection).2) := by
  rw [connectIVSHMEM_reaches_drain be os aDevice s shm _ h,
    connectIVSHMEM_drain_append be s pre (msg :: rest) _ st hpre]
  simp only [connectIVSHMEM_drain, hstep, failClosed]

/-- C36: the drain loop groups descriptor packets only when they are consecutive. After the
descriptor groups `groups` (pairwise distinct non-self ids, self groups anywhere), a
descriptor packet for a peer id `q` other than the self id that has a group in `groups` but
not the last one makes `connectIVSHMEM` fail with DUPLICATE_PEER: the loop pass fails at
`hash_table_add` with the registry as the groups left it, nothing is appended to the list
of `q`. The self id may reappear: on the script of the groups alone the handshake succeeds
and the own vector array is the concatenation of all self groups in script order. -/
theorem C36_grouped_only_when_consecutive (be : Bool) (s : Nat)
    (groups : List (Nat × List Int))
    (hids : ((groups.filter fun g => g.1 ≠ s).map Prod.fst).Nodup)
    (hgroups : ∀ g ∈ groups, g.1 ≤ 0xffff ∧ g.2 ≠ [])
    (hcount : (groupPackets groups).length < 2 ^ 32 - 1) :
    (∀ (os : os_answers) (aDevice : List Nat) (shm : Int) (q : Nat) (fd : Int)
        (rest : List recvmsg_result),
      ReachesDrain os aDevice s shm (groupPackets groups ++ payloadWithFd q fd :: rest) →
      (∀ b ∈ os.malloc, b = true) →
      q ≠ s → q ∈ groups.map Prod.fst → (∀ g, groups.getLast? = some g → g.1 ≠ q) →
      (connectIVSHMEM be os aDevice).1 = combineErrorCode be RES_DUPLICATE_PEER 0 ∧
      ∃ st, connectIVSHMEM_drain_passes be s (groupPackets groups) (drainStart os s shm)
          = some st ∧
        HoldsPeers st.aConnection.peers ((groups.filter fun g => g.1 ≠ s).map listedPeer) ∧
        connectIVSHMEM_drain_step be s (payloadWithFd q fd) st
          = drain_step.fail (combineErrorCode be RES_DUPLICATE_PEER 0)
              (closeIVSHMEM st.aConnection).1 (st.closed ++ (closeIVSHMEM st.aConnection).2)) ∧
    (∀ (os : os_answers) (aDevice : List Nat) (shm : Int) (mem : Nat → Nat),
      ReachesDrain os aDevice s shm (groupPackets groups) →
      (∀ b ∈ os.malloc, b = true) → os.fstat = 0 → os.mmap = some mem →
      (connectIVSHMEM be os aDevice).1 = combineErrorCode be RES_OK 0 ∧
      (connectIVSHMEM be os aDevice).2.1.vector_fds
        = (if ((groups.filter fun g => g.1 = s).map Prod.snd).flatten = [] then none
            else some ((groups.filter fun g => g.1 = s).map Prod.snd).flatten)) := by
  constructor
  · intro os aDevice shm q fd rest h hall hqs hmem hlast
    have hs : s ≤ 0xffff := h.2.2.2.2.2.2.2.1
    obtain ⟨st, e, hinv⟩ := drain_groups_from_start be os s shm groups hs hall hgroups hids hcount
    obtain ⟨g, hg, hgq⟩ := List.mem_map.mp hmem
    have hq : q ≤ 0xffff := hgq ▸ (hgroups g hg).1
    have hne : groups ≠ [] := List.ne_nil_of_mem hg
    have hl : groups.getLast? = some (groups.getLast hne) := List.getLast?_eq_getLast _ hne
    obtain ⟨pre, fd0, epre⟩ := groupPackets_getLast groups (fun g hg => (hgroups g hg).2) _ hl
    have hr : (groups.getLast hne).1 ≤ 0xffff := (hgroups _ (List.getLast_mem hne)).1
    have hcur : st.tempCurrentPeerID ≠ q := by
      rw [epre] at e
      rw [drain_passes_last_current be s _ fd0 pre _ st hr e]
      exact hlast _ hl
    have hmemP : q ∈ (groups.filter fun g => g.1 ≠ s).map Prod.fst := by
      refine List.mem_map.mpr ⟨g, List.mem_filter.mpr ⟨hg, ?_⟩, hgq⟩
      simpa [hgq] using hqs
    have hstep := drain_step_duplicate be s q os.socket shm fd st _ _ hq hinv hcur hqs hmemP
    refine ⟨?_, st, e, hinv.1, hstep⟩
    rw [connectIVSHMEM_drain_fails_at be os aDevice s shm _ rest _ _ st h e hstep]
  · intro os aDevice shm mem h hall hfstat hmmap
    have hg := connectIVSHMEM_groups be os aDevice s shm groups mem h hall hfstat hmmap hgroups
      hids hcount
    exact ⟨hg.1, hg.2.2.2.2.2.2.2.1⟩

/-- C36 on scripts with self id 5 whose descriptor packets are for 5, 3, 5, 7, 5 (descriptors
10 to 14): a further packet for 3 fails with DUPLICATE_PEER, and without it the handshake
succeeds with the own vectors 10, 12 and 14. -/
theorem C36_grouped_only_when_consecutive_witness :
    (connectIVSHMEM false
      (scriptedServer [payload 0, payload 5, payloadWithFd MAGIC_NUMBER 9, payloadWithFd 5 10,
        payloadWithFd 3 11, payloadWithFd 5 12, payloadWithFd 7 13, payloadWithFd 5 14,
        payloadWithFd 3 15]) tmpShmemsock).1
      = combineErrorCode false RES_DUPLICATE_PEER 0 ∧
    (connectIVSHMEM false
      (scriptedServer [payload 0, payload 5, payloadWithFd MAGIC_NUMBER 9, payloadWithFd 5 10,
        payloadWithFd 3 11, payloadWithFd 5 12, payloadWithFd 7 13, payloadWithFd 5 14])
      tmpShmemsock).2.1.vector_fds = some [10, 12, 14] := by
  have h := C36_grouped_only_when_consecutive false 5
    [(5, [10]), (3, [11]), (5, [12]), (7, [13]), (5, [14])] (by decide) (by decide) (by decide)
  have h1 := (h.1
    (scriptedServer [payload 0, payload 5, payloadWithFd MAGIC_NUMBER 9, payloadWithFd 5 10,
      payloadWithFd 3 11, payloadWithFd 5 12, payloadWithFd 7 13, payloadWithFd 5 14,
      payloadWithFd 3 15]) tmpShmemsock 9 3 15 []
    ⟨by decide, by decide, by decide, by decide, by decide, by decide, by decide, by decide, rfl⟩
    (by decide) (by decide) (by decide) (by decide)).1
  have h2 := (h.2
    (scriptedServer [payload 0, payload 5, payloadWithFd MAGIC_NUMBER 9, payloadWithFd 5 10,
      payloadWithFd 3 11, payloadWithFd 5 12, payloadWithFd 7 13, payloadWithFd 5 14])
    tmpShmemsock 9 (fun _ => 0)
    ⟨by decide, by decide, by decide, by decide, by decide, by decide, by decide, by decide, rfl⟩
    (by decide) (by decide) rfl).2
  exact ⟨h1, h2⟩

/-- C35: a failed handshake does not close the descriptor of the packet it fails on. On the
script version 0, self id 5, the all-ones packet with descriptor 9, then descriptor packets
for the peers 3, 7 and 3 again (descriptors 10, 11, 12), `connectIVSHMEM` returns
DUPLICATE_PEER and has closed the descriptors 10, 11, 9 and the socket 3, but not the
descriptor 12 that came with the failing packet. On the script whose third packet carries
the value 77 with the descriptor 9, only the socket 3 is closed on return. -/
theorem C35_failing_packet_descriptor_leaked :
    (connectIVSHMEM false
      (scriptedServer [payload 0, payload 5, payloadWithFd MAGIC_NUMBER 9, payloadWithFd 3 10,
        payloadWithFd 7 11, payloadWithFd 3 12]) tmpShmemsock).1
      = combineErrorCode false RES_DUPLICATE_PEER 0 ∧
    (connectIVSHMEM false
      (scriptedServer [payload 0, payload 5, payloadWithFd MAGIC_NUMBER 9, payloadWithFd 3 10,
        payloadWithFd 7 11, payloadWithFd 3 12]) tmpShmemsock).2.2 = [10, 11, 9, 3] ∧
    (12 : Int) ∉ (connectIVSHMEM false
      (scriptedServer [payload 0, payload 5, payloadWithFd MAGIC_NUMBER 9, payloadWithFd 3 10,
        payloadWithFd 7 11, payloadWithFd 3 12]) tmpShmemsock).2.2 ∧
    (readPacket false (payloadWithFd 3 12)).2.fd = 12 ∧
    (connectIVSHMEM true
      (scriptedServer [payload 0, payload 5, payloadWithFd MAGIC_NUMBER 9, payloadWithFd 3 10,
        payloadWithFd 7 11, payloadWithFd 3 12]) tmpShmemsock).2.2 = [10, 11, 9, 3] ∧
    (connectIVSHMEM false
      (scriptedServer [payload 0, payload 5, payloadWithFd 77 9]) tmpShmemsock).2.2 = [3] := by
  refine ⟨by decide, by decide, by decide, by decide, by decide, by decide⟩


/-- The vectors reported for a caller maximum `m` of at most the own vector count `c ≥ 1`
(the array `vector_fds` holds `c` descriptors): when `pollInterrupt` returns OK, the reported list is
exactly the indices `i < m` whose descriptor was reported ready and whose `read` yielded
8 bytes, in increasing order, and `*aVectorCount` is its length; the descriptors read are
at indices below `m`, whatever lies behind the array, and no ready vector with an index
below `m` that yields 8 bytes is omitted. -/
theorem pollInterrupt_vectors_of_le (be : Bool) (sel : select_result) (readRet : Nat → Int)
    (behind : Nat → Int) (aConnection : ivshem_connection) (fds : List Int) (m : Nat)
    (r : poll_interrupt_result)
    (hc : 1 ≤ aConnection.vector_count) (hfds : aConnection.vector_fds = some fds)
    (hlen : fds.length = aConnection.vector_count) (hc16 : aConnection.vector_count < 2 ^ 16)
    (hm : m ≤ aConnection.vector_count)
    (hret : ∀ i, -(2 : Int) ^ 31 ≤ readRet i ∧ readRet i < (2 : Int) ^ 31)
    (hr : pollInterrupt be sel readRet behind aConnection m = some r)
    (hok : r.status = combineErrorCode be RES_OK 0) :
    r.someVectors
      = ((List.range m).filter fun i => sel.ready (fds.getD i 0) && decide (readRet i = 8)) ∧
    r.someVectors.Pairwise (fun a b => a < b) ∧
    r.aVectorCount = some r.someVectors.length ∧
    r.read = ((List.range m).filter fun i => sel.ready (fds.getD i 0)) ∧
    (∀ i ∈ r.read, i < m) ∧
    (∀ i, i < m → sel.ready (fds.getD i 0) = true → readRet i = 8 → i ∈ r.someVectors) := by
  have hc0 : aConnection.vector_count ≠ 0 := by omega
  have hm16 : m % 2 ^ 16 = m := Nat.mod_eq_of_lt (by omega)
  have hat : ∀ i, i < m → vectorAt fds behind i = fds.getD i 0 := by
    intro i hi
    have hi2 : i < fds.length := by omega
    simp only [vectorAt, List.getD_eq_getElem _ _ hi2]
  have hread : ((List.range m).filter fun i =>
        decide (vectorAt fds behind i ∈
            (List.range aConnection.vector_count).map (vectorAt fds behind))
          && sel.ready (vectorAt fds behind i))
      = ((List.range m).filter fun i => sel.ready (fds.getD i 0)) := by
    apply List.filter_congr
    intro i hi
    have hi2 : i < m := List.mem_range.mp hi
    have hw : vectorAt fds behind i ∈
        (List.range aConnection.vector_count).map (vectorAt fds behind) :=
      List.mem_map.mpr ⟨i, List.mem_range.mpr (by omega), rfl⟩
    rw [hat i hi2] at hw ⊢
    simp only [hw, decide_True, Bool.true_and]
  have hsome : (((List.range m).filter fun i => sel.ready (fds.getD i 0)).filter fun i =>
        decide (toUnsigned 64 (readRet i) = IVSHMEM_PACKET_SIZE))
      = ((List.range m).filter fun i => sel.ready (fds.getD i 0) && decide (readRet i = 8)) := by
    rw [List.filter_filter]
    apply List.filter_congr
    intro i _
    have h8 : (toUnsigned 64 (readRet i) = IVSHMEM_PACKET_SIZE) ↔ readRet i = 8 := by
      have := toUnsigned_eq_iff (readRet i) 8 (by norm_num)
        ⟨by have := (hret i).1; omega, by have := (hret i).2; omega⟩
      simpa [IVSHMEM_PACKET_SIZE] using this
    simp only [h8, Bool.and_comm]
  have hsorted : ∀ (p : Nat → Bool), ((List.range m).filter p).Pairwise (fun a b => a < b) :=
    fun p => List.Pairwise.sublist (List.filter_sublist _) (List.pairwise_lt_range m)
  unfold pollInterrupt at hr
  rw [if_neg hc0, hfds] at hr
  cases hh : aConnection.vector_fd_highest with
  | none => rw [hh] at hr; exact absurd hr (by simp)
  | some highest =>
    rw [hh] at hr
    simp only [hm16, hread, hsome] at hr
    have hkind : ∀ (k d : Int), -2147483648 ≤ k → k < 2147483648 → k ≠ RES_OK →
        combineErrorCode be k d ≠ combineErrorCode be RES_OK 0 := by
      intro k d h1 h2 hk e
      have e2 := congrArg (getErrorCode be) e
      rw [getErrorCode_combineErrorCode be k d h1 h2,
        getErrorCode_combineErrorCode be RES_OK 0 (by decide) (by decide)] at e2
      exact hk e2
    split_ifs at hr with h1 h2 h3 h4
    · simp only [Option.some.injEq] at hr
      subst hr
      exact absurd hok (hkind _ _ (by decide) (by decide) (by decide))
    · simp only [Option.some.injEq] at hr
      subst hr
      exact absurd hok (hkind _ _ (by decide) (by decide) (by decide))
    · simp only [Option.some.injEq] at hr
      subst hr
      exact absurd hok (hkind _ _ (by decide) (by decide) (by decide))
    · simp only [Option.some.injEq] at hr
      subst hr
      exact absurd hok (hkind _ _ (by decide) (by decide) (by decide))
    · simp only [Option.some.injEq] at hr
      subst hr
      refine ⟨rfl, hsorted _, rfl, rfl, ?_, ?_⟩
      · intro i hi
        exact List.mem_range.mp (List.mem_filter.mp hi).1
      · intro i hi hrdy h8
        refine List.mem_filter.mpr ⟨List.mem_range.mpr hi, ?_⟩
        simp only [hrdy, h8, decide_True, Bool.and_self]

/-- The vectors reported on the connection with the own vectors 10, 11 and 12 and the
caller maximum 2, where only descriptor 11 is reported ready and yields 8 bytes: the list
is `[1]`. -/
theorem pollInterrupt_vectors_of_le_example :
    pollInterrupt false { ret := 1, errno := 0, ready := fun fd => fd == 11 } (fun _ => 8)
        (fun _ => 0) (connectIVSHMEM false threeVectorServer tmpShmemsock).2.1 2
      = some { status := combineErrorCode false RES_OK 0, nfds := some 12,
               watched := [10, 11, 12], read := [1], someVectors := [1],
               aVectorCount := some 1 } ∧
    ({ status := combineErrorCode false RES_OK 0, nfds := some 12, watched := [10, 11, 12],
       read := [1], someVectors := [1],
       aVectorCount := some 1 } : poll_interrupt_result).someVectors
      = ((List.range 2).filter fun i =>
          (fun fd => fd == (11 : Int)) (([10, 11, 12] : List Int).getD i 0)
            && decide ((fun _ => (8 : Int)) i = 8)) :=
  ⟨rfl,
    (pollInterrupt_vectors_of_le false { ret := 1, errno := 0, ready := fun fd => fd == 11 }
      (fun _ => 8) (fun _ => 0) (connectIVSHMEM false threeVectorServer tmpShmemsock).2.1
      [10, 11, 12] 2
      { status := combineErrorCode false RES_OK 0, nfds := some 12, watched := [10, 11, 12],
        read := [1], someVectors := [1], aVectorCount := some 1 }
      (by decide) rfl (by decide) (by decide) (by decide)
      (fun _ => ⟨by norm_num, by norm_num⟩) rfl rfl).1⟩

/-! ### hash_table_rehash on any table -/

theorem perm_filter_lt_succ {α : Type} (f : α → Nat) (K : Nat) (N : List α) :
    (N.filter (fun x => decide (f x < K)) ++ N.filter (fun x => decide (f x = K))).Perm
      (N.filter fun x => decide (f x < K + 1)) := by
  induction N with
  | nil => simp
  | cons a N ih =>
    by_cases h1 : f a < K
    · have d1 : decide (f a < K) = true := decide_eq_true h1
      have d2 : decide (f a = K) = false := decide_eq_false (by omega)
      have d3 : decide (f a < K + 1) = true := decide_eq_true (by omega)
      simp only [List.filter_cons, d1, d2, d3, if_true, if_false, Bool.false_eq_true,
        List.cons_append]
      exact List.Perm.cons a ih
    · by_cases h2 : f a = K
      · have d1 : decide (f a < K) = false := decide_eq_false h1
        have d2 : decide (f a = K) = true := decide_eq_true h2
        have d3 : decide (f a < K + 1) = true := decide_eq_true (by omega)
        simp only [List.filter_cons, d1, d2, d3, if_true, if_false, Bool.false_eq_true]
        exact List.perm_middle.trans (List.Perm.cons a ih)
      · have d1 : decide (f a < K) = false := decide_eq_false h1
        have d2 : decide (f a = K) = false := decide_eq_false h2
        have d3 : decide (f a < K + 1) = false := decide_eq_false (by omega)
        simp only [List.filter_cons, d1, d2, d3, if_false, Bool.false_eq_true]
        exact ih

theorem perm_flatten_range_filter {α : Type} (f : α → Nat) (N : List α) (K : Nat) :
    ((List.range K).map fun i => N.filter fun x => decide (f x = i)).flatten.Perm
      (N.filter fun x => decide (f x < K)) := by
  induction K with
  | zero => simp
  | succ K ih =>
    rw [List.range_succ, List.map_append, List.flatten_append]
    simp only [List.map_singleton, List.flatten_cons, List.flatten_nil, List.append_nil]
    exact (List.Perm.append_right _ ih).trans (perm_filter_lt_succ f K N)

theorem perm_flatten_bucketsOf {β : Type} (L : Nat) (N : List (hash_table_node β))
    (hL : 0 < L) : (bucketsOf L N).flatten.Perm N := by
  have h := perm_flatten_range_filter (fun n : hash_table_node β => n.hash % L) N L
  have e : (N.filter fun x => decide (x.hash % L < L)) = N := by
    rw [List.filter_eq_self]
    intro a _
    simp only [decide_eq_true_eq]
    exact Nat.mod_lt _ hL
  rw [e] at h
  exact h

theorem find?_flatten_single {α : Type} (q : α → Bool) :
    ∀ (Bs : List (List α)) (i : Nat),
      (∀ j, j ≠ i → ∀ x ∈ Bs.getD j [], q x = false) →
      Bs.flatten.find? q = (Bs.getD i []).find? q
  | [], i, _ => by simp
  | b :: Bs, 0, h => by
    have hrest : Bs.flatten.find? q = none := by
      rw [List.find?_eq_none]
      intro x hx
      obtain ⟨l, hl, hxl⟩ := List.mem_flatten.mp hx
      obtain ⟨j, hj, e⟩ := List.getElem_of_mem hl
      have := h (j + 1) (by omega) x (by
        simp only [List.getD_eq_getElem?_getD, List.getElem?_cons_succ,
          List.getElem?_eq_getElem hj, Option.getD_some, e]
        exact hxl)
      simp [this]
    simp only [List.flatten_cons, List.find?_append, hrest, Option.or_none,
      List.getD_eq_getElem?_getD, List.getElem?_cons_zero, Option.getD_some]
  | b :: Bs, i + 1, h => by
    have hb : b.find? q = none := by
      rw [List.find?_eq_none]
      intro x hx
      have := h 0 (by omega) x (by simpa using hx)
      simp [this]
    have ih := find?_flatten_single q Bs i (fun j hj x hx =>
      h (j + 1) (by omega) x (by simpa [List.getD_eq_getElem?_getD] using hx))
    simp only [List.flatten_cons, List.find?_append, hb, Option.none_or, ih,
      List.getD_eq_getElem?_getD, List.getElem?_cons_succ]

theorem insert_no_match {β : Type} (table : hash_table β) (base : List (hash_table_node β))
    (y : hash_table_node β) (h : ∀ x ∈ base, table.comparator x y = false) :
    insert table base y = (true, base ++ [y]) := by
  have hany : base.any (fun x => table.comparator x y) = false := by
    rw [List.any_eq_false]
    intro x hx
    simp [h x hx]
  simp only [insert, hany, Bool.false_eq_true, if_false]

theorem rehash_foldl_nodes {β : Type} (table : hash_table β) (L : Nat) (hL : 0 < L)
    (Y Z : List (hash_table_node β))
    (hpw : (Z ++ Y).Pairwise fun a b => table.comparator a b = false) :
    Y.foldl
        (fun (acc : List (List (hash_table_node β))) tempCurrent =>
          acc.set (tempCurrent.hash % L)
            (insert table (acc.getD (tempCurrent.hash % L) []) tempCurrent).2)
        (bucketsOf L Z)
      = bucketsOf L (Z ++ Y) := by
  induction Y generalizing Z with
  | nil => simp
  | cons y Y ih =>
    have hpw2 : ((Z ++ [y]) ++ Y).Pairwise fun a b => table.comparator a b = false := by
      simpa using hpw
    have hZy : ∀ x ∈ Z, table.comparator x y = false := by
      intro x hx
      exact (List.pairwise_append.mp hpw).2.2 x hx y (List.mem_cons_self y Y)
    simp only [List.foldl_cons]
    rw [getD_bucketsOf L _ Z (Nat.mod_lt _ hL),
      insert_no_match table _ y (fun x hx => hZy x (List.mem_filter.mp hx).1)]
    simp only
    rw [set_bucketsOf_add, ih (Z ++ [y]) hpw2]
    simp

theorem pairwise_flatten_bucketsOf_nodes {β : Type} (c : hash_table_node β → hash_table_node β → Bool)
    (L : Nat) (N : List (hash_table_node β))
    (hpw : N.Pairwise fun x y => c x y = false ∧ c y x = false) :
    (bucketsOf L N).flatten.Pairwise fun x y => c x y = false ∧ c y x = false := by
  rw [List.pairwise_flatten]
  constructor
  · intro l hl
    simp only [bucketsOf, List.mem_map, List.mem_range] at hl
    obtain ⟨i, _, rfl⟩ := hl
    exact hpw.filter _
  · unfold bucketsOf
    rw [List.pairwise_map]
    refine (List.pairwise_lt_range L).imp ?_
    intro i k hik x hx y hy
    have h1 := List.mem_filter.mp hx
    have h2 := List.mem_filter.mp hy
    have e1 : x.hash % L = i := by simpa using h1.2
    have e2 : y.hash % L = k := by simpa using h2.2
    have hne : x ≠ y := by
      intro e
      rw [e] at e1
      omega
    exact List.Pairwise.forall (fun _ _ h => ⟨h.2, h.1⟩) hpw h1.1 h2.1 hne

theorem hash_table_nodes_of_nodes {β : Type} (table : hash_table β)
    (N : List (hash_table_node β)) (hB : table.hashTable = some (bucketsOf table.hashTableLenght N)) :
    hash_table_nodes table = (bucketsOf table.hashTableLenght N).flatten := by
  unfold hash_table_nodes
  congr 1
  unfold hash_table.bucket
  rw [hB]
  simp only [Option.getD_some]
  have := range_map_getD (bucketsOf table.hashTableLenght N)
  rw [length_bucketsOf] at this
  exact this

theorem hash_table_get_of_nodes {β : Type} (table : hash_table β)
    (N : List (hash_table_node β)) (hL : 0 < table.hashTableLenght)
    (hB : table.hashTable = some (bucketsOf table.hashTableLenght N))
    (key : hash_table_node β)
    (hkey : ∀ n ∈ N, table.comparator n key = true → n.hash = key.hash) :
    hash_table_get table key = N.find? fun n => table.comparator n key := by
  unfold hash_table_get hash_table.bucket
  rw [hB]
  simp only [Option.getD_some]
  rw [getD_bucketsOf _ _ N (Nat.mod_lt _ hL)]
  apply find?_filter_of_imp
  intro x hx hq
  simp only [decide_eq_true_eq]
  rw [hkey x hx hq]

theorem find?_flatten_bucketsOf {β : Type} (L : Nat) (hL : 0 < L)
    (N : List (hash_table_node β)) (q : hash_table_node β → Bool) (k : Nat)
    (hq : ∀ n ∈ N, q n = true → n.hash = k) :
    (bucketsOf L N).flatten.find? q = N.find? q := by
  rw [find?_flatten_single q (bucketsOf L N) (k % L), getD_bucketsOf _ _ N (Nat.mod_lt _ hL)]
  · apply find?_filter_of_imp
    intro x hx hqx
    simp only [decide_eq_true_eq]
    rw [hq x hx hqx]
  · intro j hj x hx
    by_cases hjL : j < L
    · rw [getD_bucketsOf _ _ N hjL] at hx
      have h1 := List.mem_filter.mp hx
      have e1 : x.hash % L = j := by simpa using h1.2
      by_contra hne
      have hqx : q x = true := by simpa using hne
      rw [hq x h1.1 hqx] at e1
      exact hj e1.symm
    · rw [List.getD_eq_getElem?_getD, List.getElem?_eq_none (by rw [length_bucketsOf]; omega)]
        at hx
      simp at hx

theorem hash_table_rehash_nodes {β : Type} (table : hash_table β)
    (N : List (hash_table_node β)) (h : HoldsNodes table N) (m : Nat) (hm : 0 < m) :
    hash_table_rehash table m
      = (table.hashTable,
          { table with
            hashTable := some (bucketsOf m (bucketsOf table.hashTableLenght N).flatten),
            hashTableLenght := m }) := by
  obtain ⟨hL, hB, hpw⟩ := h
  have hm0 : ¬ m = 0 := by omega
  have hpwf := pairwise_flatten_bucketsOf_nodes table.comparator table.hashTableLenght N hpw
  have hfold := rehash_foldl_nodes table m hm (bucketsOf table.hashTableLenght N).flatten []
    (by simpa using hpwf.imp (fun h => h.1))
  rw [bucketsOf_nil] at hfold
  simp only [List.nil_append] at hfold
  have hn := hash_table_nodes_of_nodes table N hB
  unfold hash_table_nodes at hn
  simp only [hash_table_rehash, if_neg hm0, hn, hfold]

/-- C31: `hash_table_rehash` of a table without duplicate keys into a new bucket array of
`m > 0` chains returns the old bucket array; afterwards the table has `m` buckets, the same
size and comparator, holds a permutation of the nodes it held (again every node in the
chain of its hash, no two with the same key), and `hash_table_get` returns what it returned
before for every key, a key being a search node whose hash is the hash of the nodes it
matches. -/
theorem C31_rehash_keeps_nodes {β : Type} (table : hash_table β)
    (nodes : List (hash_table_node β)) (m : Nat) (h : HoldsNodes table nodes) (hm : 0 < m) :
    (hash_table_rehash table m).1 = table.hashTable ∧
    (hash_table_rehash table m).2.hashTableLenght = m ∧
    ((hash_table_rehash table m).2.hashTable.map List.length) = some m ∧
    (hash_table_rehash table m).2.size = table.size ∧
    (hash_table_rehash table m).2.comparator = table.comparator ∧
    (hash_table_nodes (hash_table_rehash table m).2).Perm (hash_table_nodes table) ∧
    HoldsNodes (hash_table_rehash table m).2 (hash_table_nodes table) ∧
    (∀ key : hash_table_node β,
      (∀ n ∈ nodes, table.comparator n key = true → n.hash = key.hash) →
      hash_table_get (hash_table_rehash table m).2 key = hash_table_get table key) := by
  have hr := hash_table_rehash_nodes table nodes h m hm
  obtain ⟨hL, hB, hpw⟩ := h
  have hn := hash_table_nodes_of_nodes table nodes hB
  have hp := perm_flatten_bucketsOf table.hashTableLenght nodes hL
  have hpwf := pairwise_flatten_bucketsOf_nodes table.comparator table.hashTableLenght nodes hpw
  rw [hr, hn]
  refine ⟨rfl, rfl, ?_, rfl, rfl, ?_, ⟨hm, rfl, hpwf⟩, ?_⟩
  · simp only [Option.map_some', length_bucketsOf]
  · rw [hash_table_nodes_of_nodes _ (bucketsOf table.hashTableLenght nodes).flatten rfl]
    exact perm_flatten_bucketsOf m _ hm
  · intro key hkey
    have e2 := hash_table_get_of_nodes
      { table with
        hashTable := some (bucketsOf m (bucketsOf table.hashTableLenght nodes).flatten),
        hashTableLenght := m }
      (bucketsOf table.hashTableLenght nodes).flatten hm rfl key
      (fun n hn hc => hkey n (hp.subset hn) hc)
    rw [hash_table_get_of_nodes table nodes hL hB key hkey]
    exact e2.trans (find?_flatten_bucketsOf table.hashTableLenght hL nodes _ key.hash hkey)

/-- C31 on a table of three nodes in two buckets, rehashed into three buckets: the node with
the entry 4 moves from bucket 0 to bucket 1 and is found as before. -/
theorem C31_rehash_keeps_nodes_witness :
    HoldsNodes threeNodeTable
      [{ hash := 2, entry := 2 }, { hash := 3, entry := 3 }, { hash := 4, entry := 4 }] ∧
    (hash_table_rehash threeNodeTable 3).2.hashTable
      = some [[{ hash := 3, entry := 3 }], [{ hash := 4, entry := 4 }],
              [{ hash := 2, entry := 2 }]] ∧
    hash_table_get (hash_table_rehash threeNodeTable 3).2 { hash := 4, entry := 4 }
      = hash_table_get threeNodeTable { hash := 4, entry := 4 } ∧
    hash_table_get threeNodeTable { hash := 4, entry := 4 } = some { hash := 4, entry := 4 } :=
  have hh : HoldsNodes threeNodeTable
      [{ hash := 2, entry := 2 }, { hash := 3, entry := 3 }, { hash := 4, entry := 4 }] :=
    ⟨by decide, rfl, by decide⟩
  ⟨hh, rfl,
    (C31_rehash_keeps_nodes threeNodeTable _ 3 hh (by decide)).2.2.2.2.2.2.2
      { hash := 4, entry := 4 } (by decide),
    rfl⟩

/-! ### linked_list_add_last, linked_list_get and the list iterators -/

theorem linked_list_add_last_fresh {β : Type} (list : linked_list β) (node : linked_list_node β)
    (hstate : node.state ≠ linked_list_node_state.ADDED)
    (hsize : list.size = list.nodes.length) (hlen : list.nodes.length + 1 ≤ 2 ^ 32 - 2) :
    linked_list_add_last list node
      = (true, { nodes := list.nodes ++ [{ node with state := linked_list_node_state.ADDED }],
                 size := list.nodes.length + 1 }) := by
  unfold linked_list_add_last
  rw [if_neg hstate]
  cases hn : list.nodes with
  | nil => rfl
  | cons x xs =>
    rw [hn] at hlen hsize
    have hmod : (list.size + 1) % 2 ^ 32 = (x :: xs).length + 1 := by
      rw [hsize]
      exact Nat.mod_eq_of_lt (by omega)
    have hne : ¬ ((x :: xs).length + 1 = MAX_SIZE) := by
      unfold MAX_SIZE
      omega
    simp only [hmod, if_neg hne]

theorem linked_list_add_last_full {β : Type} (list : linked_list β) (node : linked_list_node β)
    (hsize : list.size = 2 ^ 32 - 2) (hne : list.nodes ≠ []) :
    linked_list_add_last list node = (false, list) := by
  unfold linked_list_add_last
  by_cases hstate : node.state = linked_list_node_state.ADDED
  · rw [if_pos hstate]
  · rw [if_neg hstate]
    cases hn : list.nodes with
    | nil => exact absurd hn hne
    | cons x xs =>
      have hmod : (list.size + 1) % 2 ^ 32 = MAX_SIZE := by
        rw [hsize]
        rfl
      simp only [hmod, if_true]

theorem linked_list_add_last_all_fresh {β : Type} (nodes : List (linked_list_node β)) :
    ∀ (list : linked_list β), (∀ n ∈ nodes, n.state ≠ linked_list_node_state.ADDED) →
      list.size = list.nodes.length → list.nodes.length + nodes.length ≤ 2 ^ 32 - 2 →
      linked_list_add_last_all list nodes
        = (List.replicate nodes.length true,
            { nodes := list.nodes
                ++ nodes.map (fun n => { n with state := linked_list_node_state.ADDED }),
              size := list.nodes.length + nodes.length }) := by
  induction nodes with
  | nil =>
    intro list _ hsize _
    simp only [linked_list_add_last_all, List.length_nil, List.replicate_zero, List.map_nil,
      List.append_nil, Nat.add_zero, ← hsize]
  | cons n rest ih =>
    intro list hst hsize hlen
    simp only [List.length_cons] at hlen
    have h1 := linked_list_add_last_fresh list n (hst n (List.mem_cons_self _ _)) hsize
      (by omega)
    have h2 := ih (linked_list_add_last list n).2
      (fun x hx => hst x (List.mem_cons_of_mem _ hx))
      (by rw [h1]; simp)
      (by rw [h1]; simp only [List.length_append, List.length_singleton]; omega)
    simp only [linked_list_add_last_all]
    rw [h2, h1]
    simp only [List.length_append, List.length_singleton, List.length_cons,
      List.replicate_succ, List.map_cons, List.append_assoc, List.singleton_append,
      Nat.add_assoc, Nat.add_comm 1 rest.length, List.length_nil, Nat.zero_add]

theorem linked_list_add_last_all_append {β : Type} (a b : List (linked_list_node β)) :
    ∀ (list : linked_list β),
      linked_list_add_last_all list (a ++ b)
        = ((linked_list_add_last_all list a).1
              ++ (linked_list_add_last_all (linked_list_add_last_all list a).2 b).1,
            (linked_list_add_last_all (linked_list_add_last_all list a).2 b).2) := by
  induction a with
  | nil => intro list; rfl
  | cons n rest ih =>
    intro list
    simp only [List.cons_append, linked_list_add_last_all, List.append_eq, ih]

theorem linked_list_iterator_next_calls_from {β : Type} (list : linked_list β) (calls : Nat) :
    ∀ (p : Nat) (a b : Option Nat),
      linked_list_iterator_next_calls list calls
          { next := if p < list.nodes.length then some p else none, previous := a,
            lastReturned := b }
        = (List.range' p calls).map fun i => if i < list.nodes.length then some i else none := by
  induction calls with
  | zero => intro p a b; rfl
  | succ calls ih =>
    intro p a b
    by_cases hp : p < list.nodes.length
    · have hnext : list.nextOf p = if p + 1 < list.nodes.length then some (p + 1) else none :=
        rfl
      simp only [linked_list_iterator_next_calls, linked_list_iterator_next, if_pos hp, hnext,
        ih, List.range'_succ, List.map_cons]
    · have hp1 : ¬ (p + 1 < list.nodes.length) := by omega
      have hn := ih (p + 1) none none
      rw [if_neg hp1] at hn
      simp only [linked_list_iterator_next_calls, linked_list_iterator_next, if_neg hp, hn,
        List.range'_succ, List.map_cons]

theorem linked_list_iterator_previous_calls_from {β : Type} (list : linked_list β)
    (calls : Nat) :
    ∀ (c : Nat) (a b : Option Nat),
      linked_list_iterator_previous_calls list calls
          { next := a, previous := if c = 0 then none else some (c - 1), lastReturned := b }
        = (List.range calls).map fun j => if j < c then some (c - 1 - j) else none := by
  induction calls with
  | zero => intro c a b; rfl
  | succ calls ih =>
    intro c a b
    rw [List.range_succ_eq_map, List.map_cons, List.map_map]
    by_cases hc : c = 0
    · have hn := ih 0 none none
      rw [if_pos rfl] at hn
      subst hc
      simp only [linked_list_iterator_previous_calls, linked_list_iterator_previous, if_true, hn,
        Nat.not_lt_zero, if_false, Function.comp]
      rfl
    · have hprev : list.previousOf (c - 1)
          = if c - 1 = 0 then none else some (c - 1 - 1) := rfl
      have hpos : 0 < c := by omega
      simp only [linked_list_iterator_previous_calls, linked_list_iterator_previous, if_neg hc,
        hprev, ih, if_pos hpos, Nat.sub_zero, Function.comp]
      congr 1
      apply List.map_congr_left
      intro j _
      show (if j < c - 1 then some (c - 1 - 1 - j) else none)
        = (if j + 1 < c then some (c - 1 - (j + 1)) else none)
      by_cases hj : j + 1 < c
      · have hj2 : j < c - 1 := by omega
        rw [if_pos hj, if_pos hj2]
        congr 1
        omega
      · have hj2 : ¬ j < c - 1 := by omega
        rw [if_neg hj, if_neg hj2]

theorem linked_list_add_last_all_limit {β : Type} (nodes : List (linked_list_node β))
    (node : linked_list_node β)
    (hst : ∀ n ∈ nodes, n.state ≠ linked_list_node_state.ADDED)
    (hlen : nodes.length = 2 ^ 32 - 2) :
    (linked_list_add_last_all linked_list_init (nodes ++ [node])).1
      = List.replicate nodes.length true ++ [false] ∧
    (linked_list_add_last_all linked_list_init (nodes ++ [node])).2.size = 2 ^ 32 - 2 := by
  have h := linked_list_add_last_all_fresh nodes linked_list_init hst rfl
    (by
      show 0 + nodes.length ≤ 2 ^ 32 - 2
      omega)
  have hne : nodes ≠ [] := by
    intro e
    rw [e] at hlen
    simp at hlen
  have hfull := linked_list_add_last_full (linked_list_add_last_all linked_list_init nodes).2
    node
    (by
      rw [h]
      show 0 + nodes.length = 2 ^ 32 - 2
      omega)
    (by
      rw [h]
      show [] ++ nodes.map _ ≠ []
      rw [List.nil_append]
      intro e
      exact hne (List.map_eq_nil_iff.mp e))
  have e1 : ∀ (L : linked_list β) (n : linked_list_node β),
      linked_list_add_last_all L [n] = ([(linked_list_add_last L n).1], (linked_list_add_last L n).2) :=
    fun _ _ => rfl
  rw [linked_list_add_last_all_append, e1, hfull, h]
  refine ⟨rfl, ?_⟩
  show 0 + nodes.length = 2 ^ 32 - 2
  omega

/-- C39 fails at the size limit of the list: of 2^32 - 1 freshly initialised nodes added to
an empty list with `linked_list_add_last`, the first 2^32 - 2 are added and the call for
the last one returns false (the size would become 0xffffffff); the size stays 2^32 - 2. -/
theorem C39_counterexample :
    (linked_list_add_last_all (linked_list_init : linked_list Nat)
        ((List.replicate (2 ^ 32 - 2)
            ({ state := linked_list_node_state.NEW, entry := 0 } : linked_list_node Nat)
          ++ [({ state := linked_list_node_state.NEW, entry := 0 } : linked_list_node Nat)]).map
          linked_list_node_init)).1
      = List.replicate (2 ^ 32 - 2) true ++ [false] ∧
    (linked_list_add_last_all (linked_list_init : linked_list Nat)
        ((List.replicate (2 ^ 32 - 2)
            ({ state := linked_list_node_state.NEW, entry := 0 } : linked_list_node Nat)
          ++ [({ state := linked_list_node_state.NEW, entry := 0 } : linked_list_node Nat)]).map
          linked_list_node_init)).2.size = 2 ^ 32 - 2 := by
  have h := linked_list_add_last_all_limit
    ((List.replicate (2 ^ 32 - 2)
      ({ state := linked_list_node_state.NEW, entry := 0 } : linked_list_node Nat)).map
      linked_list_node_init)
    (linked_list_node_init { state := linked_list_node_state.NEW, entry := 0 })
    (by
      intro n hn
      obtain ⟨x, _, rfl⟩ := List.mem_map.mp hn
      simp [linked_list_node_init])
    (by rw [List.length_map, List.length_replicate])
  rw [List.length_map, List.length_replicate] at h
  rw [List.map_append, List.map_singleton]
  exact h

/-- C39 for at most 2^32 - 2 nodes: after `linked_list_add_last` of `k ≥ 1` freshly
initialised nodes to an empty list every call has returned true, the size is `k` and the
list holds the nodes in the order of the calls; `k + 1` calls of
`linked_list_iterator_next` on the ascending iterator return the nodes 0, 1, ..., k - 1 (in
head-to-tail order) and then NULL, `k + 1` calls of `linked_list_iterator_previous` on the
descending iterator return the nodes k - 1, ..., 0 and then NULL. Adding a node whose state
is ADDED returns false and leaves the list as it is. -/
theorem C39_add_last_keeps_order {β : Type} (nodes : List (linked_list_node β))
    (hk : 1 ≤ nodes.length) (hmax : nodes.length ≤ 2 ^ 32 - 2) :
    (linked_list_add_last_all linked_list_init (nodes.map linked_list_node_init)).1
      = List.replicate nodes.length true ∧
    (linked_list_add_last_all linked_list_init (nodes.map linked_list_node_init)).2.size
      = nodes.length ∧
    (linked_list_add_last_all linked_list_init (nodes.map linked_list_node_init)).2.nodes
      = nodes.map (fun n => { n with state := linked_list_node_state.ADDED }) ∧
    linked_list_iterator_next_calls
        (linked_list_add_last_all linked_list_init (nodes.map linked_list_node_init)).2
        (nodes.length + 1)
        (linked_list_iterator_ascending
          (linked_list_add_last_all linked_list_init (nodes.map linked_list_node_init)).2)
      = (List.range (nodes.length + 1)).map
          (fun j => if j < nodes.length then some j else none) ∧
    linked_list_iterator_previous_calls
        (linked_list_add_last_all linked_list_init (nodes.map linked_list_node_init)).2
        (nodes.length + 1)
        (linked_list_iterator_descending
          (linked_list_add_last_all linked_list_init (nodes.map linked_list_node_init)).2)
      = (List.range (nodes.length + 1)).map
          (fun j => if j < nodes.length then some (nodes.length - 1 - j) else none) ∧
    (∀ (list : linked_list β) (node : linked_list_node β),
      node.state = linked_list_node_state.ADDED →
      linked_list_add_last list node = (false, list)) := by
  have h := linked_list_add_last_all_fresh (nodes.map linked_list_node_init) linked_list_init
    (by
      intro n hn
      obtain ⟨x, _, rfl⟩ := List.mem_map.mp hn
      simp [linked_list_node_init])
    rfl
    (by
      rw [List.length_map]
      show 0 + nodes.length ≤ 2 ^ 32 - 2
      omega)
  rw [List.length_map] at h
  have hnodes : (([] : List (linked_list_node β))
      ++ (nodes.map linked_list_node_init).map
          (fun n => { n with state := linked_list_node_state.ADDED }))
      = nodes.map (fun n => { n with state := linked_list_node_state.ADDED }) := by
    rw [List.nil_append, List.map_map]
    rfl
  have hlen : (nodes.map
      (fun n => ({ n with state := linked_list_node_state.ADDED } : linked_list_node β))).length
      = nodes.length := List.length_map _ _
  have h2 : linked_list_add_last_all linked_list_init (nodes.map linked_list_node_init)
      = (List.replicate nodes.length true,
          { nodes := nodes.map (fun n => { n with state := linked_list_node_state.ADDED }),
            size := nodes.length }) := by
    rw [h]
    congr 2
    exact Nat.zero_add _
  rw [h2]
  refine ⟨rfl, rfl, rfl, ?_, ?_, ?_⟩
  · have e := linked_list_iterator_next_calls_from
      ({ nodes := nodes.map (fun n => { n with state := linked_list_node_state.ADDED }),
         size := nodes.length } : linked_list β) (nodes.length + 1) 0 none none
    simp only [hlen] at e
    rw [List.range_eq_range', ← e]
    congr 1
    simp only [linked_list_iterator_ascending, linked_list.head, hlen]
    have h0 : ¬ nodes.length = 0 := by omega
    have h1 : 0 < nodes.length := by omega
    rw [if_neg h0, if_pos h1]
  · have e := linked_list_iterator_previous_calls_from
      ({ nodes := nodes.map (fun n => { n with state := linked_list_node_state.ADDED }),
         size := nodes.length } : linked_list β) (nodes.length + 1) nodes.length none none
    rw [← e]
    congr 1
    simp only [linked_list_iterator_descending, linked_list.tail, hlen]
  · intro list node hstate
    simp only [linked_list_add_last, if_pos hstate]

/-- C39 on three nodes with the entries 10, 20 and 30: the four calls of each iterator
return the nodes 0, 1, 2 and NULL, respectively 2, 1, 0 and NULL. -/
theorem C39_add_last_keeps_order_witness :
    linked_list_iterator_next_calls (listOfEntries [10, 20, 30]) 4
        (linked_list_iterator_ascending (listOfEntries [10, 20, 30]))
      = [some 0, some 1, some 2, none] ∧
    linked_list_iterator_previous_calls (listOfEntries [10, 20, 30]) 4
        (linked_list_iterator_descending (listOfEntries [10, 20, 30]))
      = [some 2, some 1, some 0, none] ∧
    (listOfEntries [10, 20, 30]).nodes.map (fun n => n.entry) = [10, 20, 30] :=
  have h := C39_add_last_keeps_order
    ([10, 20, 30].map fun e =>
      ({ state := linked_list_node_state.REMOVED, entry := e } : linked_list_node Nat))
    (by decide) (by decide)
  ⟨h.2.2.2.1, h.2.2.2.2.1, by decide⟩

theorem linked_list_get_loop_forward (index : Nat) (hindex : index < 2 ^ 32) :
    ∀ (n p currentIndex : Nat), currentIndex ≤ index → index < currentIndex + n →
      linked_list_get_loop index (fun i => (i + 1) % 2 ^ 32) (List.range' p n) currentIndex
        = some (p + (index - currentIndex)) := by
  intro n
  induction n with
  | zero => intro p currentIndex h1 h2; omega
  | succ n ih =>
    intro p currentIndex h1 h2
    rw [List.range'_succ]
    by_cases h : currentIndex = index
    · subst h
      simp only [linked_list_get_loop, if_true, Nat.sub_self, Nat.add_zero]
    · have hmod : (currentIndex + 1) % 2 ^ 32 = currentIndex + 1 :=
        Nat.mod_eq_of_lt (by omega)
      simp only [linked_list_get_loop, if_neg h, hmod]
      rw [ih (p + 1) (currentIndex + 1) (by omega) (by omega)]
      congr 1
      omega

theorem linked_list_get_cases {β : Type} (list : linked_list β) (index : Nat)
    (hsize : list.size = list.nodes.length) (hmax : list.size < 2 ^ 32) :
    (index < list.size / 2 → linked_list_get list index = some index) ∧
    (list.size / 2 ≤ index → index + 1 < list.size → linked_list_get list index = none) ∧
    (index + 1 = list.size → linked_list_get list index = some 0) ∧
    (list.size ≤ index → linked_list_get list index = none) := by
  refine ⟨?_, ?_, ?_, ?_⟩
  · intro h
    have h1 : ¬ (index ≥ list.size) := by omega
    have h2 : list.size / 2 > index := h
    have h0 : ¬ (list.nodes.length = 0) := by omega
    simp only [linked_list_get, if_neg h1, if_pos h2, linked_list.head, if_neg h0,
      linked_list.nextChain, Nat.sub_zero]
    rw [linked_list_get_loop_forward index (by omega) _ 0 0 (by omega) (by omega)]
    simp
  · intro h hlt
    have h1 : ¬ (index ≥ list.size) := by omega
    have h2 : ¬ (list.size / 2 > index) := by omega
    have h0 : ¬ (list.nodes.length = 0) := by omega
    have hmod : (list.size + 2 ^ 32 - 1) % 2 ^ 32 = list.size - 1 := by omega
    have hne : ¬ (list.size - 1 = index) := by omega
    simp only [linked_list_get, if_neg h1, if_neg h2, linked_list.head, if_neg h0,
      linked_list.previousChain, hmod]
    simp only [List.range_succ, List.range_zero, List.nil_append, List.reverse_singleton,
      linked_list_get_loop, if_neg hne]
  · intro h
    have h1 : ¬ (index ≥ list.size) := by omega
    have h2 : ¬ (list.size / 2 > index) := by omega
    have h0 : ¬ (list.nodes.length = 0) := by omega
    have hmod : (list.size + 2 ^ 32 - 1) % 2 ^ 32 = list.size - 1 := by omega
    have he : list.size - 1 = index := by omega
    simp only [linked_list_get, if_neg h1, if_neg h2, linked_list.head, if_neg h0,
      linked_list.previousChain, hmod]
    simp only [List.range_succ, List.range_zero, List.nil_append, List.reverse_singleton,
      linked_list_get_loop, if_pos he]
  · intro h
    have h1 : index ≥ list.size := h
    simp only [linked_list_get, if_pos h1]

/-- C40: in its backward branch `linked_list_get` starts at `list->head`. On the list of
the two nodes with the entries 10 and 20, `linked_list_get(list, 1)` returns the head (the
node at position 0), and `linked_list_remove(list, 1)` unlinks the head: the list keeps the
node with the entry 20 that it was asked to remove. On the list of three nodes,
`linked_list_get(list, 1)` returns NULL although the index is in bounds, and
`linked_list_remove(list, 1)` removes nothing. For every list whose size is its number of
nodes: an index below half the size gives the node at that position, the index `size - 1`
gives the head, an index from half the size on but below `size - 1` gives NULL, and an
index from the size on gives NULL. -/
theorem C40_get_returns_head :
    (listOfEntries [10, 20]).size = 2 ∧
    (listOfEntries [10, 20]).nodes.map (fun n => n.entry) = [10, 20] ∧
    linked_list_get (listOfEntries [10, 20]) 1 = some 0 ∧
    (linked_list_remove (listOfEntries [10, 20]) 1).1 = some 0 ∧
    (linked_list_remove (listOfEntries [10, 20]) 1).2.nodes.map (fun n => n.entry) = [20] ∧
    linked_list_get (listOfEntries [10, 20, 30]) 1 = none ∧
    (linked_list_remove (listOfEntries [10, 20, 30]) 1).2.nodes.map (fun n => n.entry)
      = [10, 20, 30] ∧
    (∀ (list : linked_list Nat) (index : Nat),
      list.size = list.nodes.length → list.size < 2 ^ 32 →
      (index < list.size / 2 → linked_list_get list index = some index) ∧
      (list.size / 2 ≤ index → index + 1 < list.size → linked_list_get list index = none) ∧
      (index + 1 = list.size → linked_list_get list index = some 0) ∧
      (list.size ≤ index → linked_list_get list index = none)) := by
  refine ⟨by decide, by decide, by decide, by decide, by decide, by decide, by decide, ?_⟩
  intro list index hsize hmax
  exact linked_list_get_cases list index hsize hmax

/-- C32: removal through the iterator fails for the second of two nodes of one chain. The
registry of 32 buckets holds the peers 3 and 35, both in chain 3. On a fresh iterator,
`hash_table_iterator_next` returns the node of peer 3 and `hash_table_iterator_remove`
unlinks it (peer 3 is no longer found, peer 35 is, the size is 1); the iterator's `next`
still points into the unlinked node. The following `hash_table_iterator_next` returns the
node of peer 35 and `hash_table_iterator_remove` returns it as removed and lowers the size
to 0, but stores into the unlinked node: the node of peer 35 is still the head of chain 3
and `hash_table_get` still finds it, while the iteration is over. -/
theorem C32_second_removal_leaves_node :
    twoInOneChain.toTable 2 comparePeerStructNode
      = (hash_table_add (hash_table_add (hash_table_init 32 comparePeerStructNode)
          (newPeer 3)).2 (newPeer 35)).2 ∧
    twoInOneChain.node 100 = newPeer 3 ∧ twoInOneChain.node 101 = newPeer 35 ∧
    (hash_table_iterator_next_mem twoInOneChain
      (hash_table_iterator_init_mem twoInOneChain)).1 = some 100 ∧
    (hash_table_iterator_remove twoInOneChain
      (hash_table_iterator_next_mem twoInOneChain
        (hash_table_iterator_init_mem twoInOneChain)).2).1 = some 100 ∧
    hash_table_nodes
      ((hash_table_iterator_remove twoInOneChain
        (hash_table_iterator_next_mem twoInOneChain
          (hash_table_iterator_init_mem twoInOneChain)).2).2.2.toTable 2 comparePeerStructNode)
      = [newPeer 35] ∧
    (hash_table_iterator_remove twoInOneChain
      (hash_table_iterator_next_mem twoInOneChain
        (hash_table_iterator_init_mem twoInOneChain)).2).2.1.next
      = some (hash_table_node_cell.nextOf 100) ∧
    twoInOneChainDrained.1 = [some 100, some 100, some 101, some 101] ∧
    twoInOneChainDrained.2.2.size = 0 ∧
    twoInOneChainDrained.2.2.hashTable.getD 3 none = some 101 ∧
    hash_table_nodes (twoInOneChainDrained.2.2.toTable 2 comparePeerStructNode)
      = [newPeer 35] ∧
    hash_table_get (twoInOneChainDrained.2.2.toTable 2 comparePeerStructNode)
      (ivshmem_peer_node_search 35 35) = some (newPeer 35) ∧
    twoInOneChainDrained.2.1 = { next := none, previous := none, tableIndex := 3 } := by
  refine ⟨rfl, rfl, rfl, by decide, by decide, rfl, by decide, by decide, by decide, by decide,
    rfl, rfl, by decide⟩

/-! ### createOrOpenFile -/

theorem toUnsigned_64_natCast (n : Nat) (h : n < 2 ^ 64) : toUnsigned 64 (n : Int) = n := by
  have h2 := toUnsigned_of_nonneg 64 (n : Int) (by omega) (by
    have : ((n : Int)) < ((2 ^ 64 : Nat) : Int) := by exact_mod_cast h
    simpa using this)
  exact_mod_cast h2

theorem toSigned_64_small (n : Nat) (h : n < 2 ^ 63) : toSigned 64 n = (n : Int) := by
  unfold toSigned
  have h1 : n % 2 ^ 64 = n := Nat.mod_eq_of_lt (by omega)
  rw [h1, if_pos (by simpa using h)]

/-- C33: `createOrOpenFile`. A preferred size `P ≤ 0` is rejected with INVALID_ARGUMENTS
and the file is left as it is. With `P > 0`, a path that is not empty, a result array of
two elements and every call of the operating system and the JVM succeeding: if the file
is empty, the function seeks to `P - 1` (only when `P > 1`) and writes one zero byte there,
so that the file has exactly `P` bytes, all zero, and the mapping has the length `P`; if
the file has `S > 0` bytes, the file is neither sought nor written and the mapping has the
length `S`. In both cases the status is OK, no descriptor is closed and the length is
stored into `aResult[1]`. -/
theorem C33_create_or_open_file (be : Bool) (os : plain_os_answers) (aPath aResult : Option Int)
    (aPreferedSize : Int) :
    (aPreferedSize ≤ 0 →
      Java_de_aschuetz_ivshmem4j_linux_plain_LinuxSharedMemory_createOrOpenFile be os aPath
          aPreferedSize aResult
        = some { status := combineErrorCode be RES_INVALID_ARGUMENTS 0, file := os.file,
                 closed := [], lseeks := [], writes := [], mapped := none,
                 aResult1 := none }) ∧
    (∀ (P : Nat) (length : Int) (memory : Nat → Nat),
      aPreferedSize = (P : Int) → 0 < P → P < 2 ^ 63 →
      aPath = some length → 0 < length → aResult = some 2 →
      os.malloc = true → os.GetStringUTFChars = true → os.fd ≠ -1 → os.fstat ≠ -1 →
      os.lseek ≠ -1 → os.write = 1 → os.mmap = some memory → os.GetLongArrayElements = true →
      os.file.offset = 0 → os.file.size < 2 ^ 63 →
      (os.file.size = 0 →
        ∃ r, Java_de_aschuetz_ivshmem4j_linux_plain_LinuxSharedMemory_createOrOpenFile be os
            aPath aPreferedSize aResult = some r ∧
          r.status = combineErrorCode be RES_OK 0 ∧
          r.file.size = P ∧ (∀ k, k < P → r.file.data k = 0) ∧
          r.writes = [P - 1] ∧ r.lseeks = (if P > 1 then [((P - 1 : Nat) : Int)] else []) ∧
          r.mapped = some { map := { memory := memory, size := P, closed := false },
                            fd := os.fd } ∧
          r.aResult1 = some (P : Int) ∧ r.closed = []) ∧
      (0 < os.file.size →
        ∃ r, Java_de_aschuetz_ivshmem4j_linux_plain_LinuxSharedMemory_createOrOpenFile be os
            aPath aPreferedSize aResult = some r ∧
          r.status = combineErrorCode be RES_OK 0 ∧
          r.file = os.file ∧ r.writes = [] ∧ r.lseeks = [] ∧
          r.mapped = some { map := { memory := memory, size := os.file.size, closed := false },
                            fd := os.fd } ∧
          r.aResult1 = some (os.file.size : Int) ∧ r.closed = [])) := by
  constructor
  · intro hP
    have hc : aResult = none ∨ aPreferedSize ≤ 0 ∨ aPath = none ∨ aPath.getD 0 ≤ 0
        ∨ aResult.getD 0 ≠ 2 := Or.inr (Or.inl hP)
    simp only [Java_de_aschuetz_ivshmem4j_linux_plain_LinuxSharedMemory_createOrOpenFile,
      if_pos hc]
  · intro P length memory hPe hP0 hP63 hpath hlen hres hmalloc hchars hfd hfstat hlseek hwrite
      hmmap hget hoff hsize
    subst hPe
    have hc : ¬ (aResult = none ∨ (P : Int) ≤ 0 ∨ aPath = none ∨ aPath.getD 0 ≤ 0
        ∨ aResult.getD 0 ≠ 2) := by
      rw [hpath, hres]
      simp only [Option.getD_some, ne_eq, not_true_eq_false, or_false, reduceCtorEq, false_or,
        not_or, not_le]
      exact ⟨by exact_mod_cast hP0, hlen⟩
    have hpref : toUnsigned 64 (P : Int) = P := toUnsigned_64_natCast P (by omega)
    have hst : toSigned 64 os.file.size = (os.file.size : Int) := toSigned_64_small _ hsize
    have hst2 : toUnsigned 64 (os.file.size : Int) = os.file.size :=
      toUnsigned_64_natCast _ (by omega)
    constructor
    · intro h0
      have hz : ¬ ((os.file.size : Int) ≠ 0) := by
        rw [h0]
        simp
      have hl : ¬ (P > 1 ∧ os.lseek = -1) := fun h => hlseek h.2
      have hw : ¬ (os.write ≠ 1) := fun h => h hwrite
      simp only [Java_de_aschuetz_ivshmem4j_linux_plain_LinuxSharedMemory_createOrOpenFile,
        if_neg hc, hmalloc, hchars, if_neg hfd, if_neg hfstat, hpref, hst, if_neg hz, if_neg hl,
        if_neg hw, hmmap, hget, Bool.true_eq_false, if_false]
      refine ⟨_, rfl, rfl, ?_, ?_, ?_, ?_, ?_, ?_, rfl⟩
      · by_cases h1 : P > 1
        · simp only [if_pos h1, plain_file.write, plain_file.seek, h0, List.length_singleton]
          omega
        · simp only [if_neg h1, plain_file.write, hoff, h0, List.length_singleton]
          omega
      · intro k hk
        by_cases h1 : P > 1
        · simp only [if_pos h1, plain_file.write, plain_file.seek, h0, List.length_singleton]
          by_cases hk1 : P - 1 ≤ k ∧ k < P - 1 + 1
          · have : k - (P - 1) = 0 := by omega
            rw [if_pos hk1, this]
            rfl
          · rw [if_neg hk1, if_neg (by omega)]
        · have hP1 : P = 1 := by omega
          have hk0 : k = 0 := by omega
          subst hP1
          subst hk0
          simp only [if_neg h1, plain_file.write, hoff, h0, List.length_singleton]
          rfl
      · by_cases h1 : P > 1
        · simp only [if_pos h1, plain_file.seek]
        · have hP1 : P = 1 := by omega
          subst hP1
          simp only [if_neg h1, hoff]
      · by_cases h1 : P > 1
        · simp only [if_pos h1]
          rw [toSigned_64_small _ (by omega)]
        · simp only [if_neg h1]
      · rfl
      · rw [toSigned_64_small _ hP63]
    · intro hpos
      have hz : (os.file.size : Int) ≠ 0 := by
        have : (0 : Int) < (os.file.size : Int) := by exact_mod_cast hpos
        omega
      simp only [Java_de_aschuetz_ivshmem4j_linux_plain_LinuxSharedMemory_createOrOpenFile,
        if_neg hc, hmalloc, hchars, if_neg hfd, if_neg hfstat, hpref, hst, if_pos hz, hst2,
        hmmap, hget, Bool.true_eq_false, if_false]
      exact ⟨_, rfl, rfl, rfl, rfl, rfl, rfl, rfl, rfl⟩

/-- C33 on a new (empty) file with the preferred size 4096, and on a file of 100 bytes. -/
theorem C33_create_or_open_file_witness :
    (∃ r, Java_de_aschuetz_ivshmem4j_linux_plain_LinuxSharedMemory_createOrOpenFile false
        { malloc := true, GetStringUTFChars := true, fd := 4, errno_open := 0,
          file := { size := 0, data := fun _ => 0, offset := 0 }, fstat := 0, errno_fstat := 0,
          lseek := 4095, errno_lseek := 0, write := 1, errno_write := 0,
          mmap := some (fun _ => 0), errno_mmap := 0, GetLongArrayElements := true }
        (some 9) 4096 (some 2) = some r ∧
      r.status = combineErrorCode false RES_OK 0 ∧ r.file.size = 4096 ∧ r.writes = [4095]) ∧
    (∃ r, Java_de_aschuetz_ivshmem4j_linux_plain_LinuxSharedMemory_createOrOpenFile false
        { malloc := true, GetStringUTFChars := true, fd := 4, errno_open := 0,
          file := { size := 100, data := fun _ => 7, offset := 0 }, fstat := 0,
          errno_fstat := 0, lseek := 4095, errno_lseek := 0, write := 1, errno_write := 0,
          mmap := some (fun _ => 0), errno_mmap := 0, GetLongArrayElements := true }
        (some 9) 4096 (some 2) = some r ∧
      r.status = combineErrorCode false RES_OK 0 ∧ r.file.size = 100 ∧ r.writes = [] ∧
      r.aResult1 = some 100) := by
  constructor
  · obtain ⟨r, h1, h2, h3, _, h5, _⟩ := ((C33_create_or_open_file false
      { malloc := true, GetStringUTFChars := true, fd := 4, errno_open := 0,
        file := { size := 0, data := fun _ => 0, offset := 0 }, fstat := 0, errno_fstat := 0,
        lseek := 4095, errno_lseek := 0, write := 1, errno_write := 0,
        mmap := some (fun _ => 0), errno_mmap := 0, GetLongArrayElements := true }
      (some 9) (some 2) 4096).2 4096 9 (fun _ => 0) rfl (by decide) (by decide) rfl (by decide)
      rfl rfl rfl (by decide) (by decide) (by decide) rfl rfl rfl rfl (by decide)).1 rfl
    exact ⟨r, h1, h2, h3, h5⟩
  · obtain ⟨r, h1, h2, h3, h4, _, _, h7, _⟩ := ((C33_create_or_open_file false
      { malloc := true, GetStringUTFChars := true, fd := 4, errno_open := 0,
        file := { size := 100, data := fun _ => 7, offset := 0 }, fstat := 0, errno_fstat := 0,
        lseek := 4095, errno_lseek := 0, write := 1, errno_write := 0,
        mmap := some (fun _ => 0), errno_mmap := 0, GetLongArrayElements := true }
      (some 9) (some 2) 4096).2 4096 9 (fun _ => 0) rfl (by decide) (by decide) rfl (by decide)
      rfl rfl rfl (by decide) (by decide) (by decide) rfl rfl rfl rfl (by decide)).2
      (by decide)
    refine ⟨r, h1, h2, ?_, h4, h7⟩
    rw [h3]

/-! ### openDevice -/

theorem getErrorCode_low_word (t : Nat) (h : t < 2 ^ 32) : getErrorCode false t = RES_OK := by
  have h1 : t % 2 ^ 64 = t := Nat.mod_eq_of_lt (by omega)
  have h2 : t / 2 ^ 32 = 0 := Nat.div_eq_of_lt h
  simp only [getErrorCode, splitSecond, h1, h2, Bool.false_eq_true, if_false]
  rfl

/-- C38: on a little-endian host `openDevice` keeps the low 32 bits of the status of
`mapDevice`, that is its detail. When the driver maps 4096 bytes for a device of 8192
bytes, `mapDevice` closes the device handle and returns ERROR_MMAP_SIZE_CHANGED with the
detail 0, and `openDevice` returns OK and hands out the cleared device (peer 0, no vectors,
handle `INVALID_HANDLE_VALUE`). When `CreateFile` fails with the error 5, `mapDevice`
returns OPEN_FAILURE with the detail 5 and `openDevice` returns the number 5, a status of
kind OK. Whatever `mapDevice` returns, the status of `openDevice` has the kind OK, and a
device is handed out exactly when the detail of the status of `mapDevice` is 0. -/
theorem C38_open_device_drops_kind :
    (mapDevice false
        { CreateFile := some 7, lastError_CreateFile := 0, requestMmap := true,
          lastError_requestMmap := 0,
          map := { peer := 1, size := 4096, memory := some (fun _ => 0), vector_count := 2 },
          CreateEvent := fun i => some (8 + i), lastError_CreateEvent := fun _ => 0,
          registerInterrupt := fun _ => true, lastError_registerInterrupt := fun _ => 0 }
        { sharedMemorySize := 8192, name := [65] }).1
      = combineErrorCode false RES_ERROR_MMAP_SIZE_CHANGED 0 ∧
    (Java_de_aschuetz_ivshmem4j_windows_WindowsSharedMemory_openDevice false
        (combineErrorCode false RES_OK 0, [{ sharedMemorySize := 8192, name := [65] }])
        true true
        { CreateFile := some 7, lastError_CreateFile := 0, requestMmap := true,
          lastError_requestMmap := 0,
          map := { peer := 1, size := 4096, memory := some (fun _ => 0), vector_count := 2 },
          CreateEvent := fun i => some (8 + i), lastError_CreateEvent := fun _ => 0,
          registerInterrupt := fun _ => true, lastError_registerInterrupt := fun _ => 0 }
        (some [65]) (some 3)).status = combineErrorCode false RES_OK 0 ∧
    ((Java_de_aschuetz_ivshmem4j_windows_WindowsSharedMemory_openDevice false
        (combineErrorCode false RES_OK 0, [{ sharedMemorySize := 8192, name := [65] }])
        true true
        { CreateFile := some 7, lastError_CreateFile := 0, requestMmap := true,
          lastError_requestMmap := 0,
          map := { peer := 1, size := 4096, memory := some (fun _ => 0), vector_count := 2 },
          CreateEvent := fun i => some (8 + i), lastError_CreateEvent := fun _ => 0,
          registerInterrupt := fun _ => true, lastError_registerInterrupt := fun _ => 0 }
        (some [65]) (some 3)).aHandle.map fun h => (h.1.handle, h.2)) = some (none, 0, 0) ∧
    (mapDevice false
        { CreateFile := none, lastError_CreateFile := 5, requestMmap := true,
          lastError_requestMmap := 0,
          map := { peer := 1, size := 8192, memory := some (fun _ => 0), vector_count := 2 },
          CreateEvent := fun i => some (8 + i), lastError_CreateEvent := fun _ => 0,
          registerInterrupt := fun _ => true, lastError_registerInterrupt := fun _ => 0 }
        { sharedMemorySize := 8192, name := [65] }).1
      = combineErrorCode false RES_OPEN_FAILURE 5 ∧
    (Java_de_aschuetz_ivshmem4j_windows_WindowsSharedMemory_openDevice false
        (combineErrorCode false RES_OK 0, [{ sharedMemorySize := 8192, name := [65] }])
        true true
        { CreateFile := none, lastError_CreateFile := 5, requestMmap := true,
          lastError_requestMmap := 0,
          map := { peer := 1, size := 8192, memory := some (fun _ => 0), vector_count := 2 },
          CreateEvent := fun i => some (8 + i), lastError_CreateEvent := fun _ => 0,
          registerInterrupt := fun _ => true, lastError_registerInterrupt := fun _ => 0 }
        (some [65]) (some 3)).status = 5 ∧
    getErrorCode false 5 = RES_OK ∧
    (∀ (devices : List ivshmem_device) (w : windows_answers) (name : List Nat)
        (tempFound : ivshmem_device),
      devices.find? (fun device => decide (device.name = name)) = some tempFound →
      getErrorCode false
        (Java_de_aschuetz_ivshmem4j_windows_WindowsSharedMemory_openDevice false
          (combineErrorCode false RES_OK 0, devices) true true w (some name) (some 3)).status
        = RES_OK ∧
      ((Java_de_aschuetz_ivshmem4j_windows_WindowsSharedMemory_openDevice false
          (combineErrorCode false RES_OK 0, devices) true true w (some name)
          (some 3)).aHandle.isSome = true
        ↔ (mapDevice false w tempFound).1 % 2 ^ 32 = 0)) := by
  refine ⟨by decide, by decide, by decide, by decide, by decide, by decide, ?_⟩
  intro devices w name tempFound hfind
  have hok : checkErrorCode false (combineErrorCode false RES_OK 0) RES_OK = true := by decide
  have h3 : ¬ ((3 : Int) ≠ 3) := by decide
  have hz : toUnsigned 32 RES_OK = 0 := by decide
  simp only [Java_de_aschuetz_ivshmem4j_windows_WindowsSharedMemory_openDevice, if_neg h3, hok,
    Bool.true_eq_false, if_false, hfind, hz]
  by_cases h0 : (mapDevice false w tempFound).1 % 2 ^ 32 = 0
  · simp only [if_pos h0]
    exact ⟨by decide, fun _ => h0, fun _ => rfl⟩
  · simp only [if_neg h0]
    exact ⟨getErrorCode_low_word _ (Nat.mod_lt _ (by norm_num)),
      fun h => absurd h (by simp), fun h => absurd h h0⟩

/-! ### The frame of the view operations -/

theorem viewFrame_refl (be : Bool) (p : Option mapped_shared_memory) (status o n : Nat) :
    ViewFrame be p status p o n := by
  cases p with
  | none => trivial
  | some c => exact ⟨fun _ => rfl, fun _ _ _ => rfl, fun _ _ _ => rfl, rfl, rfl⟩

theorem viewFrame_same (be : Bool) (c : mapped_shared_memory) (status o n : Nat)
    (memory : Nat → Nat) (h : memory = c.memory) :
    ViewFrame be (some c) status (some { c with memory := memory }) o n :=
  ⟨fun _ => h, fun _ i _ => by rw [h], fun i _ _ => by rw [h], rfl, rfl⟩

theorem viewFrame_store (be : Bool) (c : mapped_shared_memory) (o n : Nat)
    (memory : Nat → Nat)
    (h : ∀ i, ¬ (o ≤ i ∧ i < o + n) → ¬ (o ≤ i + 2 ^ 64 ∧ i + 2 ^ 64 < o + n) →
      memory i = c.memory i) :
    ViewFrame be (some c) (combineErrorCode be RES_OK 0) (some { c with memory := memory })
      o n := by
  refine ⟨fun hne => ?_, fun hle i hi => h i hi (by omega), h, rfl, rfl⟩
  exact absurd (getErrorCode_combineErrorCode be RES_OK 0 (by decide) (by decide)) hne

theorem cmpxchg8b_frame (be : Bool) (mem : Nat → Nat) (a e u i : Nat)
    (h : ¬ (a ≤ i ∧ i < a + 8)) (hw : ¬ (a ≤ i + 2 ^ 64 ∧ i + 2 ^ 64 < a + 8)) :
    (cmpxchg8b be mem a e u).2 i = mem i := by
  unfold cmpxchg8b
  split_ifs
  · exact storeNative_frame be 8 mem a u i h hw
  · rfl

theorem cmpxchg4b_frame (be : Bool) (mem : Nat → Nat) (a e u i : Nat)
    (h : ¬ (a ≤ i ∧ i < a + 4)) (hw : ¬ (a ≤ i + 2 ^ 64 ∧ i + 2 ^ 64 < a + 4)) :
    (cmpxchg4b be mem a e u).2 i = mem i := by
  unfold cmpxchg4b
  split_ifs
  · exact storeNative_frame be 4 mem a u i h hw
  · rfl

theorem cmpxchg2b_frame (be : Bool) (mem : Nat → Nat) (a e u i : Nat)
    (h : ¬ (a ≤ i ∧ i < a + 2)) (hw : ¬ (a ≤ i + 2 ^ 64 ∧ i + 2 ^ 64 < a + 2)) :
    (cmpxchg2b be mem a e u).2 i = mem i := by
  unfold cmpxchg2b
  split_ifs
  · exact storeNative_frame be 2 mem a u i h hw
  · rfl

theorem cmpxchg1b_frame (be : Bool) (mem : Nat → Nat) (a e u i : Nat)
    (h : ¬ (a ≤ i ∧ i < a + 1)) (hw : ¬ (a ≤ i + 2 ^ 64 ∧ i + 2 ^ 64 < a + 1)) :
    (cmpxchg1b be mem a e u).2 i = mem i := by
  unfold cmpxchg1b
  split_ifs
  · exact storeNative_frame be 1 mem a u i h hw
  · rfl

theorem cmpxchg8b_failed (be : Bool) (mem : Nat → Nat) (a e u : Nat)
    (h : ¬ (cmpxchg8b be mem a e u).1 = true) : (cmpxchg8b be mem a e u).2 = mem := by
  unfold cmpxchg8b at h ⊢
  split_ifs at h ⊢
  · exact absurd rfl h
  · rfl

theorem cmpxchg4b_failed (be : Bool) (mem : Nat → Nat) (a e u : Nat)
    (h : ¬ (cmpxchg4b be mem a e u).1 = true) : (cmpxchg4b be mem a e u).2 = mem := by
  unfold cmpxchg4b at h ⊢
  split_ifs at h ⊢
  · exact absurd rfl h
  · rfl

theorem cmpxchg2b_failed (be : Bool) (mem : Nat → Nat) (a e u : Nat)
    (h : ¬ (cmpxchg2b be mem a e u).1 = true) : (cmpxchg2b be mem a e u).2 = mem := by
  unfold cmpxchg2b at h ⊢
  split_ifs at h ⊢
  · exact absurd rfl h
  · rfl

theorem cmpxchg1b_failed (be : Bool) (mem : Nat → Nat) (a e u : Nat)
    (h : ¬ (cmpxchg1b be mem a e u).1 = true) : (cmpxchg1b be mem a e u).2 = mem := by
  unfold cmpxchg1b at h ⊢
  split_ifs at h ⊢
  · exact absurd rfl h
  · rfl

theorem cmpxchg16b_frame (be : Bool) (mem : Nat → Nat) (a : Nat) (value : Nat → Nat)
    (r : Bool × (Nat → Nat)) (hr : cmpxchg16b be mem a value = some r) :
    (∀ i, ¬ (a ≤ i ∧ i < a + 16) → ¬ (a ≤ i + 2 ^ 64 ∧ i + 2 ^ 64 < a + 16) → r.2 i = mem i) ∧
      (¬ r.1 = true → r.2 = mem) := by
  unfold cmpxchg16b at hr
  split_ifs at hr with h1 h2
  · simp only [Option.some.injEq] at hr
    subst hr
    refine ⟨fun i hi hw => ?_, fun h => absurd rfl h⟩
    show storeNative be 8 (storeNative be 8 mem a (loadNative be 8 value 16)) (a + 8)
      (loadNative be 8 value 24) i = mem i
    rw [storeNative_frame be 8 _ (a + 8) _ i (by omega) (by omega),
      storeNative_frame be 8 mem a _ i (by omega) (by omega)]
  · simp only [Option.some.injEq] at hr
    subst hr
    exact ⟨fun _ _ _ => rfl, fun _ => rfl⟩

theorem wrap_memcpy_frame (dst : Nat → Nat) (d : Nat) (src : Nat → Nat) (s len i : Nat)
    (h : ¬ (d ≤ i ∧ i < d + len)) (hw : ¬ (d ≤ i + 2 ^ 64 ∧ i + 2 ^ 64 < d + len)) :
    wrap_memcpy dst d src s len i = dst i := by
  simp only [wrap_memcpy, h, hw, if_false]

theorem memset_frame (dst : Nat → Nat) (d c len i : Nat) (h : ¬ (d ≤ i ∧ i < d + len)) :
    memset dst d c len i = dst i := by
  simp only [memset, h, if_false]

theorem frame_write__JJB (be : Bool)
    (aConnectionPtr : Option mapped_shared_memory) (aOffset : Int) (aByte : Int) :
    ViewFrame be aConnectionPtr
      (Java_de_aschuetz_ivshmem4j_common_CommonSharedMemory_write__JJB
        be aConnectionPtr aOffset aByte).1
      (Java_de_aschuetz_ivshmem4j_common_CommonSharedMemory_write__JJB
        be aConnectionPtr aOffset aByte).2
      (toUnsigned 64 aOffset) 1 := by
  unfold Java_de_aschuetz_ivshmem4j_common_CommonSharedMemory_write__JJB
  cases aConnectionPtr with
  | none => exact viewFrame_refl be none _ _ _
  | some c =>
    simp only []
    split_ifs
    · exact viewFrame_refl be (some c) _ _ _
    · exact viewFrame_store be c _ _ _ (fun i hi hw => storeNative_frame be _ _ _ _ i hi hw)

theorem frame_write__JJS (be : Bool)
    (aConnectionPtr : Option mapped_shared_memory) (aOffset : Int) (aShort : Int) :
    ViewFrame be aConnectionPtr
      (Java_de_aschuetz_ivshmem4j_common_CommonSharedMemory_write__JJS
        be aConnectionPtr aOffset aShort).1
      (Java_de_aschuetz_ivshmem4j_common_CommonSharedMemory_write__JJS
        be aConnectionPtr aOffset aShort).2
      (toUnsigned 64 aOffset) 2 := by
  unfold Java_de_aschuetz_ivshmem4j_common_CommonSharedMemory_write__JJS
  cases aConnectionPtr with
  | none => exact viewFrame_refl be none _ _ _
  | some c =>
    simp only []
    split_ifs
    · exact viewFrame_refl be (some c) _ _ _
    · exact viewFrame_store be c _ _ _ (fun i hi hw => storeNative_frame be _ _ _ _ i hi hw)

theorem frame_write__JJI (be : Bool)
    (aConnectionPtr : Option mapped_shared_memory) (aOffset : Int) (aInt : Int) :
    ViewFrame be aConnectionPtr
      (Java_de_aschuetz_ivshmem4j_common_CommonSharedMemory_write__JJI
        be aConnectionPtr aOffset aInt).1
      (Java_de_aschuetz_ivshmem4j_common_CommonSharedMemory_write__JJI
        be aConnectionPtr aOffset aInt).2
      (toUnsigned 64 aOffset) 4 := by
  unfold Java_de_aschuetz_ivshmem4j_common_CommonSharedMemory_write__JJI
  cases aConnectionPtr with
  | none => exact viewFrame_refl be none _ _ _
  | some c =>
    simp only []
    split_ifs
    · exact viewFrame_refl be (some c) _ _ _
    · exact viewFrame_store be c _ _ _ (fun i hi hw => storeNative_frame be _ _ _ _ i hi hw)

theorem frame_write__JJJ (be : Bool)
    (aConnectionPtr : Option mapped_shared_memory) (aOffset : Int) (aLong : Int) :
    ViewFrame be aConnectionPtr
      (Java_de_aschuetz_ivshmem4j_common_CommonSharedMemory_write__JJJ
        be aConnectionPtr aOffset aLong).1
      (Java_de_aschuetz_ivshmem4j_common_CommonSharedMemory_write__JJJ
        be aConnectionPtr aOffset aLong).2
      (toUnsigned 64 aOffset) 8 := by
  unfold Java_de_aschuetz_ivshmem4j_common_CommonSharedMemory_write__JJJ
  cases aConnectionPtr with
  | none => exact viewFrame_refl be none _ _ _
  | some c =>
    simp only []
    split_ifs
    · exact viewFrame_refl be (some c) _ _ _
    · exact viewFrame_store be c _ _ _ (fun i hi hw => storeNative_frame be _ _ _ _ i hi hw)

theorem frame_write__JJF (be : Bool)
    (aConnectionPtr : Option mapped_shared_memory) (aOffset : Int) (aFloat : Nat) :
    ViewFrame be aConnectionPtr
      (Java_de_aschuetz_ivshmem4j_common_CommonSharedMemory_write__JJF
        be aConnectionPtr aOffset aFloat).1
      (Java_de_aschuetz_ivshmem4j_common_CommonSharedMemory_write__JJF
        be aConnectionPtr aOffset aFloat).2
      (toUnsigned 64 aOffset) 4 := by
  unfold Java_de_aschuetz_ivshmem4j_common_CommonSharedMemory_write__JJF
  cases aConnectionPtr with
  | none => exact viewFrame_refl be none _ _ _
  | some c =>
    simp only []
    split_ifs
    · exact viewFrame_refl be (some c) _ _ _
    · exact viewFrame_store be c _ _ _ (fun i hi hw => storeNative_frame be _ _ _ _ i hi hw)

theorem frame_write__JJD (be : Bool)
    (aConnectionPtr : Option mapped_shared_memory) (aOffset : Int) (aDouble : Nat) :
    ViewFrame be aConnectionPtr
      (Java_de_aschuetz_ivshmem4j_common_CommonSharedMemory_write__JJD
        be aConnectionPtr aOffset aDouble).1
      (Java_de_aschuetz_ivshmem4j_common_CommonSharedMemory_write__JJD
        be aConnectionPtr aOffset aDouble).2
      (toUnsigned 64 aOffset) 8 := by
  unfold Java_de_aschuetz_ivshmem4j_common_CommonSharedMemory_write__JJD
  cases aConnectionPtr with
  | none => exact viewFrame_refl be none _ _ _
  | some c =>
    simp only []
    split_ifs
    · exact viewFrame_refl be (some c) _ _ _
    · exact viewFrame_store be c _ _ _ (fun i hi hw => storeNative_frame be _ _ _ _ i hi hw)

theorem frame_write__JJ_3BII (be : Bool) (env : JNIEnv)
    (aConnectionPtr : Option mapped_shared_memory) (aOffset : Int)
    (aBuffer : Option jarray) (aBufferOffset aLen : Int) :
    ViewFrame be aConnectionPtr
      (Java_de_aschuetz_ivshmem4j_common_CommonSharedMemory_write__JJ_3BII
        be env aConnectionPtr aOffset aBuffer aBufferOffset aLen).1
      (Java_de_aschuetz_ivshmem4j_common_CommonSharedMemory_write__JJ_3BII
        be env aConnectionPtr aOffset aBuffer aBufferOffset aLen).2
      (toUnsigned 64 aOffset) (toUnsigned 64 aLen) := by
  unfold Java_de_aschuetz_ivshmem4j_common_CommonSharedMemory_write__JJ_3BII
  cases aConnectionPtr with
  | none => exact viewFrame_refl be none _ _ _
  | some c =>
    cases aBuffer with
    | none => exact viewFrame_refl be (some c) _ _ _
    | some buffer =>
      simp only []
      split_ifs
      · exact viewFrame_refl be (some c) _ _ _
      · exact viewFrame_refl be (some c) _ _ _
      · exact viewFrame_refl be (some c) _ _ _
      · exact viewFrame_store be c _ _ _ (fun i hi hw => wrap_memcpy_frame _ _ _ _ _ i hi hw)

theorem frame_getAndSet__JJ_3B (be : Bool) (env : JNIEnv)
    (aConnectionPtr : Option mapped_shared_memory) (aOffset : Int) (aArray : Option jarray) :
    ViewFrame be aConnectionPtr
      (Java_de_aschuetz_ivshmem4j_common_CommonSharedMemory_getAndSet__JJ_3B
        be env aConnectionPtr aOffset aArray).1
      (Java_de_aschuetz_ivshmem4j_common_CommonSharedMemory_getAndSet__JJ_3B
        be env aConnectionPtr aOffset aArray).2.1
      (toUnsigned 64 aOffset) 1 := by
  unfold Java_de_aschuetz_ivshmem4j_common_CommonSharedMemory_getAndSet__JJ_3B
  cases aArray with
  | none => exact viewFrame_refl be _ _ _ _
  | some array =>
    cases aConnectionPtr with
    | none =>
      simp only []
      split_ifs <;> exact viewFrame_refl be none _ _ _
    | some c =>
      simp only []
      split_ifs
      · exact viewFrame_refl be (some c) _ _ _
      · exact viewFrame_refl be (some c) _ _ _
      · exact viewFrame_refl be (some c) _ _ _
      · exact viewFrame_store be c _ _ _ (fun i hi hw => storeNative_frame be _ _ _ _ i hi hw)

theorem frame_getAndSet__JJ_3S (be : Bool) (env : JNIEnv)
    (aConnectionPtr : Option mapped_shared_memory) (aOffset : Int) (aArray : Option jarray) :
    ViewFrame be aConnectionPtr
      (Java_de_aschuetz_ivshmem4j_common_CommonSharedMemory_getAndSet__JJ_3S
        be env aConnectionPtr aOffset aArray).1
      (Java_de_aschuetz_ivshmem4j_common_CommonSharedMemory_getAndSet__JJ_3S
        be env aConnectionPtr aOffset aArray).2.1
      (toUnsigned 64 aOffset) 2 := by
  unfold Java_de_aschuetz_ivshmem4j_common_CommonSharedMemory_getAndSet__JJ_3S
  cases aArray with
  | none => exact viewFrame_refl be _ _ _ _
  | some array =>
    cases aConnectionPtr with
    | none =>
      simp only []
      split_ifs <;> exact viewFrame_refl be none _ _ _
    | some c =>
      simp only []
      split_ifs
      · exact viewFrame_refl be (some c) _ _ _
      · exact viewFrame_refl be (some c) _ _ _
      · exact viewFrame_refl be (some c) _ _ _
      · exact viewFrame_store be c _ _ _ (fun i hi hw => storeNative_frame be _ _ _ _ i hi hw)

theorem frame_getAndSet__JJ_3I (be : Bool) (env : JNIEnv)
    (aConnectionPtr : Option mapped_shared_memory) (aOffset : Int) (aArray : Option jarray) :
    ViewFrame be aConnectionPtr
      (Java_de_aschuetz_ivshmem4j_common_CommonSharedMemory_getAndSet__JJ_3I
        be env aConnectionPtr aOffset aArray).1
      (Java_de_aschuetz_ivshmem4j_common_CommonSharedMemory_getAndSet__JJ_3I
        be env aConnectionPtr aOffset aArray).2.1
      (toUnsigned 64 aOffset) 4 := by
  unfold Java_de_aschuetz_ivshmem4j_common_CommonSharedMemory_getAndSet__JJ_3I
  cases aArray with
  | none => exact viewFrame_refl be _ _ _ _
  | some array =>
    cases aConnectionPtr with
    | none =>
      simp only []
      split_ifs <;> exact viewFrame_refl be none _ _ _
    | some c =>
      simp only []
      split_ifs
      · exact viewFrame_refl be (some c) _ _ _
      · exact viewFrame_refl be (some c) _ _ _
      · exact viewFrame_refl be (some c) _ _ _
      · exact viewFrame_store be c _ _ _ (fun i hi hw => storeNative_frame be _ _ _ _ i hi hw)

theorem frame_getAndSet__JJ_3J (be : Bool) (env : JNIEnv)
    (aConnectionPtr : Option mapped_shared_memory) (aOffset : Int) (aArray : Option jarray) :
    ViewFrame be aConnectionPtr
      (Java_de_aschuetz_ivshmem4j_common_CommonSharedMemory_getAndSet__JJ_3J
        be env aConnectionPtr aOffset aArray).1
      (Java_de_aschuetz_ivshmem4j_common_CommonSharedMemory_getAndSet__JJ_3J
        be env aConnectionPtr aOffset aArray).2.1
      (toUnsigned 64 aOffset) 8 := by
  unfold Java_de_aschuetz_ivshmem4j_common_CommonSharedMemory_getAndSet__JJ_3J
  cases aArray with
  | none => exact viewFrame_refl be _ _ _ _
  | some array =>
    cases aConnectionPtr with
    | none =>
      simp only []
      split_ifs <;> exact viewFrame_refl be none _ _ _
    | some c =>
      simp only []
      split_ifs
      · exact viewFrame_refl be (some c) _ _ _
      · exact viewFrame_refl be (some c) _ _ _
      · exact viewFrame_refl be (some c) _ _ _
      · exact viewFrame_store be c _ _ _ (fun i hi hw => storeNative_frame be _ _ _ _ i hi hw)

theorem frame_getAndAdd__JJ_3B (be : Bool) (env : JNIEnv)
    (aConnectionPtr : Option mapped_shared_memory) (aOffset : Int) (aArray : Option jarray) :
    ViewFrame be aConnectionPtr
      (Java_de_aschuetz_ivshmem4j_common_CommonSharedMemory_getAndAdd__JJ_3B
        be env aConnectionPtr aOffset aArray).1
      (Java_de_aschuetz_ivshmem4j_common_CommonSharedMemory_getAndAdd__JJ_3B
        be env aConnectionPtr aOffset aArray).2.1
      (toUnsigned 64 aOffset) 1 := by
  unfold Java_de_aschuetz_ivshmem4j_common_CommonSharedMemory_getAndAdd__JJ_3B
  cases aArray with
  | none => exact viewFrame_refl be _ _ _ _
  | some array =>
    cases aConnectionPtr with
    | none =>
      simp only []
      split_ifs <;> exact viewFrame_refl be none _ _ _
    | some c =>
      simp only []
      split_ifs
      · exact viewFrame_refl be (some c) _ _ _
      · exact viewFrame_refl be (some c) _ _ _
      · exact viewFrame_refl be (some c) _ _ _
      · exact viewFrame_store be c _ _ _ (fun i hi hw => storeNative_frame be _ _ _ _ i hi hw)

theorem frame_getAndAdd__JJ_3S (be : Bool) (env : JNIEnv)
    (aConnectionPtr : Option mapped_shared_memory) (aOffset : Int) (aArray : Option jarray) :
    ViewFrame be aConnectionPtr
      (Java_de_aschuetz_ivshmem4j_common_CommonSharedMemory_getAndAdd__JJ_3S
        be env aConnectionPtr aOffset aArray).1
      (Java_de_aschuetz_ivshmem4j_common_CommonSharedMemory_getAndAdd__JJ_3S
        be env aConnectionPtr aOffset aArray).2.1
      (toUnsigned 64 aOffset) 2 := by
  unfold Java_de_aschuetz_ivshmem4j_common_CommonSharedMemory_getAndAdd__JJ_3S
  cases aArray with
  | none => exact viewFrame_refl be _ _ _ _
  | some array =>
    cases aConnectionPtr with
    | none =>
      simp only []
      split_ifs <;> exact viewFrame_refl be none _ _ _
    | some c =>
      simp only []
      split_ifs
      · exact viewFrame_refl be (some c) _ _ _
      · exact viewFrame_refl be (some c) _ _ _
      · exact viewFrame_refl be (some c) _ _ _
      · exact viewFrame_store be c _ _ _ (fun i hi hw => storeNative_frame be _ _ _ _ i hi hw)

theorem frame_getAndAdd__JJ_3I (be : Bool) (env : JNIEnv)
    (aConnectionPtr : Option mapped_shared_memory) (aOffset : Int) (aArray : Option jarray) :
    ViewFrame be aConnectionPtr
      (Java_de_aschuetz_ivshmem4j_common_CommonSharedMemory_getAndAdd__JJ_3I
        be env aConnectionPtr aOffset aArray).1
      (Java_de_aschuetz_ivshmem4j_common_CommonSharedMemory_getAndAdd__JJ_3I
        be env aConnectionPtr aOffset aArray).2.1
      (toUnsigned 64 aOffset) 4 := by
  unfold Java_de_aschuetz_ivshmem4j_common_CommonSharedMemory_getAndAdd__JJ_3I
  cases aArray with
  | none => exact viewFrame_refl be _ _ _ _
  | some array =>
    cases aConnectionPtr with
    | none =>
      simp only []
      split_ifs <;> exact viewFrame_refl be none _ _ _
    | some c =>
      simp only []
      split_ifs
      · exact viewFrame_refl be (some c) _ _ _
      · exact viewFrame_refl be (some c) _ _ _
      · exact viewFrame_refl be (some c) _ _ _
      · exact viewFrame_store be c _ _ _ (fun i hi hw => storeNative_frame be _ _ _ _ i hi hw)

theorem frame_getAndAdd__JJ_3J (be : Bool) (env : JNIEnv)
    (aConnectionPtr : Option mapped_shared_memory) (aOffset : Int) (aArray : Option jarray) :
    ViewFrame be aConnectionPtr
      (Java_de_aschuetz_ivshmem4j_common_CommonSharedMemory_getAndAdd__JJ_3J
        be env aConnectionPtr aOffset aArray).1
      (Java_de_aschuetz_ivshmem4j_common_CommonSharedMemory_getAndAdd__JJ_3J
        be env aConnectionPtr aOffset aArray).2.1
      (toUnsigned 64 aOffset) 8 := by
  unfold Java_de_aschuetz_ivshmem4j_common_CommonSharedMemory_getAndAdd__JJ_3J
  cases aArray with
  | none => exact viewFrame_refl be _ _ _ _
  | some array =>
    cases aConnectionPtr with
    | none =>
      simp only []
      split_ifs <;> exact viewFrame_refl be none _ _ _
    | some c =>
      simp only []
      split_ifs
      · exact viewFrame_refl be (some c) _ _ _
      · exact viewFrame_refl be (some c) _ _ _
      · exact viewFrame_refl be (some c) _ _ _
      · exact viewFrame_store be c _ _ _ (fun i hi hw => storeNative_frame be _ _ _ _ i hi hw)

theorem frame_compareAndSet__JJBB (be : Bool)
    (aConnectionPtr : Option mapped_shared_memory) (aOffset : Int) (aExpect aUpdate : Int) :
    ViewFrame be aConnectionPtr
      (Java_de_aschuetz_ivshmem4j_common_CommonSharedMemory_compareAndSet__JJBB
        be aConnectionPtr aOffset aExpect aUpdate).1
      (Java_de_aschuetz_ivshmem4j_common_CommonSharedMemory_compareAndSet__JJBB
        be aConnectionPtr aOffset aExpect aUpdate).2
      (toUnsigned 64 aOffset) 1 := by
  unfold Java_de_aschuetz_ivshmem4j_common_CommonSharedMemory_compareAndSet__JJBB
  cases aConnectionPtr with
  | none => exact viewFrame_refl be none _ _ _
  | some c =>
    simp only []
    split_ifs with h1 h2
    · exact viewFrame_refl be (some c) _ _ _
    · exact viewFrame_store be c _ _ _ (fun i hi hw => cmpxchg1b_frame be _ _ _ _ i hi hw)
    · exact viewFrame_same be c _ _ _ _ (cmpxchg1b_failed be _ _ _ _ h2)

theorem frame_compareAndSet__JJSS (be : Bool)
    (aConnectionPtr : Option mapped_shared_memory) (aOffset : Int) (aExpect aUpdate : Int) :
    ViewFrame be aConnectionPtr
      (Java_de_aschuetz_ivshmem4j_common_CommonSharedMemory_compareAndSet__JJSS
        be aConnectionPtr aOffset aExpect aUpdate).1
      (Java_de_aschuetz_ivshmem4j_common_CommonSharedMemory_compareAndSet__JJSS
        be aConnectionPtr aOffset aExpect aUpdate).2
      (toUnsigned 64 aOffset) 2 := by
  unfold Java_de_aschuetz_ivshmem4j_common_CommonSharedMemory_compareAndSet__JJSS
  cases aConnectionPtr with
  | none => exact viewFrame_refl be none _ _ _
  | some c =>
    simp only []
    split_ifs with h1 h2
    · exact viewFrame_refl be (some c) _ _ _
    · exact viewFrame_store be c _ _ _ (fun i hi hw => cmpxchg2b_frame be _ _ _ _ i hi hw)
    · exact viewFrame_same be c _ _ _ _ (cmpxchg2b_failed be _ _ _ _ h2)

theorem frame_compareAndSet__JJII (be : Bool)
    (aConnectionPtr : Option mapped_shared_memory) (aOffset : Int) (aExpect aUpdate : Int) :
    ViewFrame be aConnectionPtr
      (Java_de_aschuetz_ivshmem4j_common_CommonSharedMemory_compareAndSet__JJII
        be aConnectionPtr aOffset aExpect aUpdate).1
      (Java_de_aschuetz_ivshmem4j_common_CommonSharedMemory_compareAndSet__JJII
        be aConnectionPtr aOffset aExpect aUpdate).2
      (toUnsigned 64 aOffset) 4 := by
  unfold Java_de_aschuetz_ivshmem4j_common_CommonSharedMemory_compareAndSet__JJII
  cases aConnectionPtr with
  | none => exact viewFrame_refl be none _ _ _
  | some c =>
    simp only []
    split_ifs with h1 h2
    · exact viewFrame_refl be (some c) _ _ _
    · exact viewFrame_store be c _ _ _ (fun i hi hw => cmpxchg4b_frame be _ _ _ _ i hi hw)
    · exact viewFrame_same be c _ _ _ _ (cmpxchg4b_failed be _ _ _ _ h2)

theorem frame_compareAndSet__JJJJ (be : Bool)
    (aConnectionPtr : Option mapped_shared_memory) (aOffset : Int) (aExpect aUpdate : Int) :
    ViewFrame be aConnectionPtr
      (Java_de_aschuetz_ivshmem4j_common_CommonSharedMemory_compareAndSet__JJJJ
        be aConnectionPtr aOffset aExpect aUpdate).1
      (Java_de_aschuetz_ivshmem4j_common_CommonSharedMemory_compareAndSet__JJJJ
        be aConnectionPtr aOffset aExpect aUpdate).2
      (toUnsigned 64 aOffset) 8 := by
  unfold Java_de_aschuetz_ivshmem4j_common_CommonSharedMemory_compareAndSet__JJJJ
  cases aConnectionPtr with
  | none => exact viewFrame_refl be none _ _ _
  | some c =>
    simp only []
    split_ifs with h1 h2
    · exact viewFrame_refl be (some c) _ _ _
    · exact viewFrame_store be c _ _ _ (fun i hi hw => cmpxchg8b_frame be _ _ _ _ i hi hw)
    · exact viewFrame_same be c _ _ _ _ (cmpxchg8b_failed be _ _ _ _ h2)

theorem frame_memset (be : Bool)
    (aConnectionPtr : Option mapped_shared_memory) (aOffset : Int) (aValue aLen : Int) :
    ViewFrame be aConnectionPtr
      (Java_de_aschuetz_ivshmem4j_common_CommonSharedMemory_memset
        be aConnectionPtr aOffset aValue aLen).1
      (Java_de_aschuetz_ivshmem4j_common_CommonSharedMemory_memset
        be aConnectionPtr aOffset aValue aLen).2
      (toUnsigned 64 aOffset) (toUnsigned 64 aLen) := by
  unfold Java_de_aschuetz_ivshmem4j_common_CommonSharedMemory_memset
  cases aConnectionPtr with
  | none => exact viewFrame_refl be none _ _ _
  | some c =>
    simp only []
    split_ifs
    · exact viewFrame_refl be (some c) _ _ _
    · exact viewFrame_refl be (some c) _ _ _
    · exact viewFrame_store be c _ _ _ (fun i hi _ => memset_frame _ _ _ _ i hi)

theorem frame_compareAndSet__JJ_3B (be : Bool) (env : JNIEnv)
    (aConnectionPtr : Option mapped_shared_memory) (aOffset : Int) (aData : Option jarray)
    (r : Nat × Option mapped_shared_memory)
    (hr : Java_de_aschuetz_ivshmem4j_common_CommonSharedMemory_compareAndSet__JJ_3B be env
      aConnectionPtr aOffset aData = some r) :
    ViewFrame be aConnectionPtr r.1 r.2 (toUnsigned 64 aOffset) 16 := by
  unfold Java_de_aschuetz_ivshmem4j_common_CommonSharedMemory_compareAndSet__JJ_3B at hr
  cases aData with
  | none =>
    simp only [Option.some.injEq] at hr
    subst hr
    exact viewFrame_refl be _ _ _ _
  | some data =>
    cases aConnectionPtr with
    | none =>
      simp only [] at hr
      split_ifs at hr <;>
        (simp only [Option.some.injEq] at hr; subst hr; exact viewFrame_refl be none _ _ _)
    | some c =>
      simp only [] at hr
      split_ifs at hr with h1 h2 h3
      · simp only [Option.some.injEq] at hr
        subst hr
        exact viewFrame_refl be (some c) _ _ _
      · simp only [Option.some.injEq] at hr
        subst hr
        exact viewFrame_refl be (some c) _ _ _
      · simp only [Option.some.injEq] at hr
        subst hr
        exact viewFrame_refl be (some c) _ _ _
      · cases hx : cmpxchg16b be c.memory (toUnsigned 64 aOffset) data.elems with
        | none =>
          rw [hx] at hr
          exact absurd hr (by simp)
        | some x =>
          rw [hx] at hr
          have hf := cmpxchg16b_frame be c.memory (toUnsigned 64 aOffset) data.elems x hx
          simp only [] at hr
          split_ifs at hr with h4
          · simp only [Option.some.injEq] at hr
            subst hr
            exact viewFrame_store be c _ _ _ hf.1
          · simp only [Option.some.injEq] at hr
            subst hr
            exact viewFrame_same be c _ _ _ _ (hf.2 h4)

/-- C37 (amended): the frame of the operations on the shared-memory view. For each of the
byte-array write, the six scalar writes, the four get-and-set, the four get-and-add and the
five compare-and-set operations and for memset, with the offset `o` and the width `n` of
the operation: when the status has a kind other than OK, every byte of the mapping is as
before; when `o + n ≤ 2^64`, no byte outside `[o, o + n)` changes; whatever `o + n` is, a
byte outside `[o, o + n)` changes only at an offset `i` with `i + 2^64` in `[o, o + n)`;
the closed flag and the length of the mapping are kept (the read operations store into the
Java array only). `markClosed` sets the closed flag and keeps the bytes and the length. -/
theorem C37_view_frame (be : Bool) (env : JNIEnv)
    (aConnectionPtr : Option mapped_shared_memory) (aOffset : Int) :
    (∀ (aByte : Int),
      ViewFrame be aConnectionPtr
        (Java_de_aschuetz_ivshmem4j_common_CommonSharedMemory_write__JJB
          be aConnectionPtr aOffset aByte).1
        (Java_de_aschuetz_ivshmem4j_common_CommonSharedMemory_write__JJB
          be aConnectionPtr aOffset aByte).2
        (toUnsigned 64 aOffset) 1) ∧
    (∀ (aShort : Int),
      ViewFrame be aConnectionPtr
        (Java_de_aschuetz_ivshmem4j_common_CommonSharedMemory_write__JJS
          be aConnectionPtr aOffset aShort).1
        (Java_de_aschuetz_ivshmem4j_common_CommonSharedMemory_write__JJS
          be aConnectionPtr aOffset aShort).2
        (toUnsigned 64 aOffset) 2) ∧
    (∀ (aInt : Int),
      ViewFrame be aConnectionPtr
        (Java_de_aschuetz_ivshmem4j_common_CommonSharedMemory_write__JJI
          be aConnectionPtr aOffset aInt).1
        (Java_de_aschuetz_ivshmem4j_common_CommonSharedMemory_write__JJI
          be aConnectionPtr aOffset aInt).2
        (toUnsigned 64 aOffset) 4) ∧
    (∀ (aLong : Int),
      ViewFrame be aConnectionPtr
        (Java_de_aschuetz_ivshmem4j_common_CommonSharedMemory_write__JJJ
          be aConnectionPtr aOffset aLong).1
        (Java_de_aschuetz_ivshmem4j_common_CommonSharedMemory_write__JJJ
          be aConnectionPtr aOffset aLong).2
        (toUnsigned 64 aOffset) 8) ∧
    (∀ (aFloat : Nat),
      ViewFrame be aConnectionPtr
        (Java_de_aschuetz_ivshmem4j_common_CommonSharedMemory_write__JJF
          be aConnectionPtr aOffset aFloat).1
        (Java_de_aschuetz_ivshmem4j_common_CommonSharedMemory_write__JJF
          be aConnectionPtr aOffset aFloat).2
        (toUnsigned 64 aOffset) 4) ∧
    (∀ (aDouble : Nat),
      ViewFrame be aConnectionPtr
        (Java_de_aschuetz_ivshmem4j_common_CommonSharedMemory_write__JJD
          be aConnectionPtr aOffset aDouble).1
        (Java_de_aschuetz_ivshmem4j_common_CommonSharedMemory_write__JJD
          be aConnectionPtr aOffset aDouble).2
        (toUnsigned 64 aOffset) 8) ∧
    (∀ (aBuffer : Option jarray) (aBufferOffset aLen : Int),
      ViewFrame be aConnectionPtr
        (Java_de_aschuetz_ivshmem4j_common_CommonSharedMemory_write__JJ_3BII
          be env aConnectionPtr aOffset aBuffer aBufferOffset aLen).1
        (Java_de_aschuetz_ivshmem4j_common_CommonSharedMemory_write__JJ_3BII
          be env aConnectionPtr aOffset aBuffer aBufferOffset aLen).2
        (toUnsigned 64 aOffset) (toUnsigned 64 aLen)) ∧
    (∀ (aArray : Option jarray),
      ViewFrame be aConnectionPtr
        (Java_de_aschuetz_ivshmem4j_common_CommonSharedMemory_getAndSet__JJ_3B
          be env aConnectionPtr aOffset aArray).1
        (Java_de_aschuetz_ivshmem4j_common_CommonSharedMemory_getAndSet__JJ_3B
          be env aConnectionPtr aOffset aArray).2.1
        (toUnsigned 64 aOffset) 1) ∧
    (∀ (aArray : Option jarray),
      ViewFrame be aConnectionPtr
        (Java_de_aschuetz_ivshmem4j_common_CommonSharedMemory_getAndSet__JJ_3S
          be env aConnectionPtr aOffset aArray).1
        (Java_de_aschuetz_ivshmem4j_common_CommonSharedMemory_getAndSet__JJ_3S
          be env aConnectionPtr aOffset aArray).2.1
        (toUnsigned 64 aOffset) 2) ∧
    (∀ (aArray : Option jarray),
      ViewFrame be aConnectionPtr
        (Java_de_aschuetz_ivshmem4j_common_CommonSharedMemory_getAndSet__JJ_3I
          be env aConnectionPtr aOffset aArray).1
        (Java_de_aschuetz_ivshmem4j_common_CommonSharedMemory_getAndSet__JJ_3I
          be env aConnectionPtr aOffset aArray).2.1
        (toUnsigned 64 aOffset) 4) ∧
    (∀ (aArray : Option jarray),
      ViewFrame be aConnectionPtr
        (Java_de_aschuetz_ivshmem4j_common_CommonSharedMemory_getAndSet__JJ_3J
          be env aConnectionPtr aOffset aArray).1
        (Java_de_aschuetz_ivshmem4j_common_CommonSharedMemory_getAndSet__JJ_3J
          be env aConnectionPtr aOffset aArray).2.1
        (toUnsigned 64 aOffset) 8) ∧
    (∀ (aArray : Option jarray),
      ViewFrame be aConnectionPtr
        (Java_de_aschuetz_ivshmem4j_common_CommonSharedMemory_getAndAdd__JJ_3B
          be env aConnectionPtr aOffset aArray).1
        (Java_de_aschuetz_ivshmem4j_common_CommonSharedMemory_getAndAdd__JJ_3B
          be env aConnectionPtr aOffset aArray).2.1
        (toUnsigned 64 aOffset) 1) ∧
    (∀ (aArray : Option jarray),
      ViewFrame be aConnectionPtr
        (Java_de_aschuetz_ivshmem4j_common_CommonSharedMemory_getAndAdd__JJ_3S
          be env aConnectionPtr aOffset aArray).1
        (Java_de_aschuetz_ivshmem4j_common_CommonSharedMemory_getAndAdd__JJ_3S
          be env aConnectionPtr aOffset aArray).2.1
        (toUnsigned 64 aOffset) 2) ∧
    (∀ (aArray : Option jarray),
      ViewFrame be aConnectionPtr
        (Java_de_aschuetz_ivshmem4j_common_CommonSharedMemory_getAndAdd__JJ_3I
          be env aConnectionPtr aOffset aArray).1
        (Java_de_aschuetz_ivshmem4j_common_CommonSharedMemory_getAndAdd__JJ_3I
          be env aConnectionPtr aOffset aArray).2.1
        (toUnsigned 64 aOffset) 4) ∧
    (∀ (aArray : Option jarray),
      ViewFrame be aConnectionPtr
        (Java_de_aschuetz_ivshmem4j_common_CommonSharedMemory_getAndAdd__JJ_3J
          be env aConnectionPtr aOffset aArray).1
        (Java_de_aschuetz_ivshmem4j_common_CommonSharedMemory_getAndAdd__JJ_3J
          be env aConnectionPtr aOffset aArray).2.1
        (toUnsigned 64 aOffset) 8) ∧
    (∀ (aExpect aUpdate : Int),
      ViewFrame be aConnectionPtr
        (Java_de_aschuetz_ivshmem4j_common_CommonSharedMemory_compareAndSet__JJBB
          be aConnectionPtr aOffset aExpect aUpdate).1
        (Java_de_aschuetz_ivshmem4j_common_CommonSharedMemory_compareAndSet__JJBB
          be aConnectionPtr aOffset aExpect aUpdate).2
        (toUnsigned 64 aOffset) 1) ∧
    (∀ (aExpect aUpdate : Int),
      ViewFrame be aConnectionPtr
        (Java_de_aschuetz_ivshmem4j_common_CommonSharedMemory_compareAndSet__JJSS
          be aConnectionPtr aOffset aExpect aUpdate).1
        (Java_de_aschuetz_ivshmem4j_common_CommonSharedMemory_compareAndSet__JJSS
          be aConnectionPtr aOffset aExpect aUpdate).2
        (toUnsigned 64 aOffset) 2) ∧
    (∀ (aExpect aUpdate : Int),
      ViewFrame be aConnectionPtr
        (Java_de_aschuetz_ivshmem4j_common_CommonSharedMemory_compareAndSet__JJII
          be aConnectionPtr aOffset aExpect aUpdate).1
        (Java_de_aschuetz_ivshmem4j_common_CommonSharedMemory_compareAndSet__JJII
          be aConnectionPtr aOffset aExpect aUpdate).2
        (toUnsigned 64 aOffset) 4) ∧
    (∀ (aExpect aUpdate : Int),
      ViewFrame be aConnectionPtr
        (Java_de_aschuetz_ivshmem4j_common_CommonSharedMemory_compareAndSet__JJJJ
          be aConnectionPtr aOffset aExpect aUpdate).1
        (Java_de_aschuetz_ivshmem4j_common_CommonSharedMemory_compareAndSet__JJJJ
          be aConnectionPtr aOffset aExpect aUpdate).2
        (toUnsigned 64 aOffset) 8) ∧
    (∀ (aValue aLen : Int),
      ViewFrame be aConnectionPtr
        (Java_de_aschuetz_ivshmem4j_common_CommonSharedMemory_memset
          be aConnectionPtr aOffset aValue aLen).1
        (Java_de_aschuetz_ivshmem4j_common_CommonSharedMemory_memset
          be aConnectionPtr aOffset aValue aLen).2
        (toUnsigned 64 aOffset) (toUnsigned 64 aLen)) ∧
    (∀ (aData : Option jarray) (r : Nat × Option mapped_shared_memory),
      Java_de_aschuetz_ivshmem4j_common_CommonSharedMemory_compareAndSet__JJ_3B be env
        aConnectionPtr aOffset aData = some r →
      ViewFrame be aConnectionPtr r.1 r.2 (toUnsigned 64 aOffset) 16) ∧
    (∀ c : mapped_shared_memory,
      Java_de_aschuetz_ivshmem4j_common_CommonSharedMemory_markClosed be (some c)
        = (combineErrorCode be RES_OK 0, some { c with closed := true })) :=
  ⟨fun aByte => frame_write__JJB be aConnectionPtr aOffset aByte,
    fun aShort => frame_write__JJS be aConnectionPtr aOffset aShort,
    fun aInt => frame_write__JJI be aConnectionPtr aOffset aInt,
    fun aLong => frame_write__JJJ be aConnectionPtr aOffset aLong,
    fun aFloat => frame_write__JJF be aConnectionPtr aOffset aFloat,
    fun aDouble => frame_write__JJD be aConnectionPtr aOffset aDouble,
    fun aBuffer aBufferOffset aLen =>
      frame_write__JJ_3BII be env aConnectionPtr aOffset aBuffer aBufferOffset aLen,
    fun aArray => frame_getAndSet__JJ_3B be env aConnectionPtr aOffset aArray,
    fun aArray => frame_getAndSet__JJ_3S be env aConnectionPtr aOffset aArray,
    fun aArray => frame_getAndSet__JJ_3I be env aConnectionPtr aOffset aArray,
    fun aArray => frame_getAndSet__JJ_3J be env aConnectionPtr aOffset aArray,
    fun aArray => frame_getAndAdd__JJ_3B be env aConnectionPtr aOffset aArray,
    fun aArray => frame_getAndAdd__JJ_3S be env aConnectionPtr aOffset aArray,
    fun aArray => frame_getAndAdd__JJ_3I be env aConnectionPtr aOffset aArray,
    fun aArray => frame_getAndAdd__JJ_3J be env aConnectionPtr aOffset aArray,
    fun aExpect aUpdate => frame_compareAndSet__JJBB be aConnectionPtr aOffset aExpect aUpdate,
    fun aExpect aUpdate => frame_compareAndSet__JJSS be aConnectionPtr aOffset aExpect aUpdate,
    fun aExpect aUpdate => frame_compareAndSet__JJII be aConnectionPtr aOffset aExpect aUpdate,
    fun aExpect aUpdate => frame_compareAndSet__JJJJ be aConnectionPtr aOffset aExpect aUpdate,
    fun aValue aLen => frame_memset be aConnectionPtr aOffset aValue aLen,
    fun aData r hr => frame_compareAndSet__JJ_3B be env aConnectionPtr aOffset aData r hr,
    fun _ => rfl⟩

/-- C10 fails on the code at every in-bounds offset that is not a multiple of 16. With a
32-byte buffer and `o + 16 ≤ length`, compare_and_set_128 returns no status at all,
neither OK nor CMPXCHG_FAILED, whatever the 16 bytes at `o` and the buffer hold: none of
its argument tests looks at the alignment of `o`, and CMPXCHG16B faults on an operand that
is not aligned on 16 bytes. -/
theorem C10_unaligned_offset_faults (be : Bool) (env : JNIEnv) (m : mapped_shared_memory)
    (aOffset : Int) (data : jarray) (hc : env.critical = true) (hl : data.length = 32)
    (h : toUnsigned 64 aOffset + 16 ≤ m.size) (hal : toUnsigned 64 aOffset % 16 ≠ 0) :
    Java_de_aschuetz_ivshmem4j_common_CommonSharedMemory_compareAndSet__JJ_3B be env (some m)
      aOffset (some data) = none :=
  compareAndSet__JJ_3B_fault be env m aOffset data hc hl
    (in_bounds_check m.size (toUnsigned 64 aOffset) 16 h (by norm_num)) hal

/-- C10 at the offsets 8 and 1 of a zeroed mapping of length 32, with a 32-byte buffer whose
expected pair is all zero: `8 + 16 ≤ 32`, the 16 bytes at offset 8 equal the expected pair,
and the call returns no status. The 8-byte compare-and-set returns OK at the same offsets,
and the 16-byte one returns OK at offset 16. -/
theorem C10_unaligned_offset_faults_witness :
    ((⟨true⟩ : JNIEnv).critical = true ∧ zeroExpectArray.length = 32 ∧
      toUnsigned 64 8 + 16 ≤ (zeroMapping 32).size ∧ toUnsigned 64 8 % 16 ≠ 0) ∧
    (loadNative false 8 (zeroMapping 32).memory 8 = loadNative false 8 zeroExpectArray.elems 0 ∧
      loadNative false 8 (zeroMapping 32).memory 16
        = loadNative false 8 zeroExpectArray.elems 8) ∧
    Java_de_aschuetz_ivshmem4j_common_CommonSharedMemory_compareAndSet__JJ_3B false ⟨true⟩
      (some (zeroMapping 32)) 8 (some zeroExpectArray) = none ∧
    (Java_de_aschuetz_ivshmem4j_common_CommonSharedMemory_compareAndSet__JJ_3B false ⟨true⟩
      (some (zeroMapping 32)) 1 (some zeroExpectArray)).isNone = true ∧
    (Java_de_aschuetz_ivshmem4j_common_CommonSharedMemory_compareAndSet__JJJJ false
      (some (zeroMapping 32)) 8 0 7).1 = combineErrorCode false RES_OK 0 ∧
    (Java_de_aschuetz_ivshmem4j_common_CommonSharedMemory_compareAndSet__JJJJ false
      (some (zeroMapping 32)) 1 0 7).1 = combineErrorCode false RES_OK 0 ∧
    ((Java_de_aschuetz_ivshmem4j_common_CommonSharedMemory_compareAndSet__JJ_3B false ⟨true⟩
      (some (zeroMapping 32)) 16 (some zeroExpectArray)).map fun r => r.1)
      = some (combineErrorCode false RES_OK 0) :=
  ⟨⟨rfl, rfl, by decide, by decide⟩, ⟨by decide, by decide⟩,
    C10_unaligned_offset_faults false ⟨true⟩ (zeroMapping 32) 8 zeroExpectArray rfl rfl
      (by decide) (by decide),
    by decide, by decide, by decide, by decide⟩

/-- C29 fails when `hash_table_add` is called with a node object that is linked in the
table: the key is present, the call returns false, but it has changed the table.
`hash_table_add` stores NULL into `node->next` before `insert` looks for the key. In a
registry of 32 buckets the node of peer 3 (address 100) and then the node of peer 35
(address 101) are added; both calls return true, both nodes are in chain 3 and the size is
2. The third call adds the node at address 100 again: it returns false and the size stays
2, but the `next` of that node is now NULL, so the node of peer 35, added and never
removed, is no longer in any chain and `hash_table_get` returns NULL for it. Adding the
key 35 with a node object that is not linked (address 102) returns false and changes
nothing. -/
theorem C29_readd_cuts_chain :
    ((hash_table_add_mem_all comparePeerStructNode 3 emptyRegistry [100, 101]).map
      fun r => (r.1, r.2.hashTable, r.2.size, r.2.next 100, r.2.next 101))
      = some ([true, true], twoInOneChain.hashTable, twoInOneChain.size,
          twoInOneChain.next 100, twoInOneChain.next 101) ∧
    twoInOneChain.node 100 = newPeer 3 ∧ twoInOneChain.node 101 = newPeer 35 ∧
    twoInOneChain.size = 2 ∧ twoInOneChain.next 100 = some 101 ∧
    hash_table_nodes (twoInOneChain.toTable 3 comparePeerStructNode)
      = [newPeer 3, newPeer 35] ∧
    hash_table_get_mem comparePeerStructNode 3 twoInOneChain (ivshmem_peer_node_search 35 35)
      = some (some 101) ∧
    ((hash_table_add_mem comparePeerStructNode 3 twoInOneChain 100).map
      fun r => (r.1, r.2.hashTable, r.2.size, r.2.next 100, r.2.next 101))
      = some (false, twoInOneChain.hashTable, 2, none, none) ∧
    ((hash_table_add_mem comparePeerStructNode 3 twoInOneChain 100).map
      fun r => hash_table_nodes (r.2.toTable 3 comparePeerStructNode)) = some [newPeer 3] ∧
    ((hash_table_add_mem comparePeerStructNode 3 twoInOneChain 100).map
      fun r => hash_table_get_mem comparePeerStructNode 3 r.2 (ivshmem_peer_node_search 35 35))
      = some (some none) ∧
    ((hash_table_add_mem_all comparePeerStructNode 3 emptyRegistry [100, 101, 100]).map
      fun r => (r.1, r.2.size, r.2.next 100,
        hash_table_get_mem comparePeerStructNode 3 r.2 (ivshmem_peer_node_search 35 35)))
      = some ([true, true, false], 2, none, some none) ∧
    twoInOneChain.node 102 = newPeer 35 ∧
    ((hash_table_add_mem comparePeerStructNode 3 twoInOneChain 102).map
      fun r => (r.1, r.2.hashTable, r.2.size, r.2.next 100, r.2.next 101,
        hash_table_get_mem comparePeerStructNode 3 r.2 (ivshmem_peer_node_search 35 35)))
      = some (false, twoInOneChain.hashTable, 2, some 101, none, some (some 101)) := by
  refine ⟨by decide, rfl, rfl, rfl, rfl, rfl, by decide, by decide, rfl, by decide, by decide,
    rfl, rfl⟩

/-- C34 fails whenever the caller maximum differs from the vector count, because the loop
that reads the descriptors runs to `aMaxVectorCount`, not to `vector_count`. The connection
has the own vectors 10, 11 and 12 (`c = 3`), so `select` is called with the first argument
12 and can report the descriptors 10 and 11; it reports both, and each yields 8 bytes.
With the maximum 1 `pollInterrupt` returns OK with the list `[0]`: index 1 is never looked
at and the ready vector 1 is omitted, where the claim gives `[0, 1]`. With the maximum 3
the list is `[0, 1]`. With the maximum 4, where the `int` behind the array is 11 and the
`read` of pass 3 yields nothing, it returns OK after a `read` at index 3. -/
theorem C34_maximum_bounds_read_loop :
    (connectIVSHMEM false threeVectorServer tmpShmemsock).1 = combineErrorCode false RES_OK 0 ∧
    (connectIVSHMEM false threeVectorServer tmpShmemsock).2.1.vector_count = 3 ∧
    (connectIVSHMEM false threeVectorServer tmpShmemsock).2.1.vector_fds = some [10, 11, 12] ∧
    ((List.range 3).filter fun i =>
        (fun fd => fd == (10 : Int) || fd == 11) (([10, 11, 12] : List Int).getD i 0)
          && decide ((fun _ => (8 : Int)) i = 8)) = [0, 1] ∧
    pollInterrupt false { ret := 2, errno := 0, ready := fun fd => fd == 10 || fd == 11 }
        (fun _ => 8) (fun _ => 0) (connectIVSHMEM false threeVectorServer tmpShmemsock).2.1 1
      = some { status := combineErrorCode false RES_OK 0, nfds := some 12,
               watched := [10, 11, 12], read := [0], someVectors := [0],
               aVectorCount := some 1 } ∧
    pollInterrupt false { ret := 2, errno := 0, ready := fun fd => fd == 10 || fd == 11 }
        (fun _ => 8) (fun _ => 0) (connectIVSHMEM false threeVectorServer tmpShmemsock).2.1 3
      = some { status := combineErrorCode false RES_OK 0, nfds := some 12,
               watched := [10, 11, 12], read := [0, 1], someVectors := [0, 1],
               aVectorCount := some 2 } ∧
    pollInterrupt false { ret := 2, errno := 0, ready := fun fd => fd == 10 || fd == 11 }
        (fun i => if i < 3 then 8 else -1) (fun _ => 11)
        (connectIVSHMEM false threeVectorServer tmpShmemsock).2.1 4
      = some { status := combineErrorCode false RES_OK 0, nfds := some 12,
               watched := [10, 11, 12], read := [0, 1, 3], someVectors := [0, 1],
               aVectorCount := some 2 } :=
  ⟨by decide, by decide, by decide, by decide, rfl, rfl, rfl⟩

/-- C37 fails for a write that runs past the address `2^64`. On the zeroed mapping of
length `2^64 - 1` the 8-byte write of `-1` at the offset `o = 2^64 - 4` passes both bounds
tests and returns OK; its last four bytes land at the offsets 0 to 3. The bytes at 0 and
3, which lie outside `[o, o + 8)`, change from 0 to 255; the byte at 4 is kept. -/
theorem C37_counterexample :
    toUnsigned 64 (-4) = 2 ^ 64 - 4 ∧
    (Java_de_aschuetz_ivshmem4j_common_CommonSharedMemory_write__JJJ false
      (some (zeroMapping (2 ^ 64 - 1))) (-4) (-1)).1 = combineErrorCode false RES_OK 0 ∧
    ¬ (toUnsigned 64 (-4) ≤ 0 ∧ 0 < toUnsigned 64 (-4) + 8) ∧
    ¬ (toUnsigned 64 (-4) ≤ 3 ∧ 3 < toUnsigned 64 (-4) + 8) ∧
    (zeroMapping (2 ^ 64 - 1)).memory 0 = 0 ∧ (zeroMapping (2 ^ 64 - 1)).memory 3 = 0 ∧
    ((Java_de_aschuetz_ivshmem4j_common_CommonSharedMemory_write__JJJ false
      (some (zeroMapping (2 ^ 64 - 1))) (-4) (-1)).2.map
        fun m => (m.memory 0, m.memory 3, m.memory 4, m.memory (2 ^ 64 - 4)))
      = some (255, 255, 0, 255) := by
  refine ⟨by decide, by decide, by decide, by decide, by decide, by decide, by decide⟩

end Ivshmem
